import Mathlib

/-!
# OpenWeave ESP32 device layer: BLE transport and connectivity manager

A shallow embedding of `BLEManager.cpp` and `ConnectivityManager.cpp`
(directory `src/adaptations/weave-device`).  Manager objects become
structures, member functions become pure functions that take the object and
the answers of the radio driver and return the new object together with the
list of effects (driver calls, posted events, scheduled work, freed buffers)
in program order.
-/

namespace OpenWeave

/-! ## Error codes -/

/-- The type `WEAVE_ERROR` (also used for `esp_err_t`): 0 is success. -/
abbrev WEAVE_ERROR := Nat

/-- The constant `WEAVE_NO_ERROR`. -/
def WEAVE_NO_ERROR : WEAVE_ERROR := 0

/-- Modelled from the spec: the error code `WEAVE_ERROR_INCORRECT_STATE`
("incorrect state"), declared in the Weave core headers, which are not under
src.  Only its being non-zero and distinct from the other codes matters. -/
def WEAVE_ERROR_INCORRECT_STATE : WEAVE_ERROR := 4003

/-- Modelled from the spec: the error code `WEAVE_ERROR_INVALID_ARGUMENT`
("invalid argument"), declared in the Weave core headers, which are not under
src.  Only its being non-zero and distinct from the other codes matters. -/
def WEAVE_ERROR_INVALID_ARGUMENT : WEAVE_ERROR := 4047

/-- Modelled from the spec: the error code `WEAVE_ERROR_NO_MEMORY` (resource
exhaustion), declared in the Weave core headers, which are not under src. -/
def WEAVE_ERROR_NO_MEMORY : WEAVE_ERROR := 4011

/-- Modelled from the spec: the error code `WEAVE_ERROR_BUFFER_TOO_SMALL`,
declared in the Weave core headers, which are not under src. -/
def WEAVE_ERROR_BUFFER_TOO_SMALL : WEAVE_ERROR := 4025

/-- Modelled from the spec: the error code
`WEAVE_ERROR_UNSUPPORTED_WEAVE_FEATURE` ("unsupported feature"), declared in
the Weave core headers, which are not under src.  Only its being non-zero and
distinct from the other codes matters. -/
def WEAVE_ERROR_UNSUPPORTED_WEAVE_FEATURE : WEAVE_ERROR := 4062

/-- Modelled from the spec: the error code `WEAVE_ERROR_TIMEOUT`, declared in
the Weave core headers, which are not under src. -/
def WEAVE_ERROR_TIMEOUT : WEAVE_ERROR := 4050

/-- Modelled from the spec: the error code
`WEAVE_ERROR_STATUS_REPORT_RECEIVED`, declared in the Weave core headers,
which are not under src. -/
def WEAVE_ERROR_STATUS_REPORT_RECEIVED : WEAVE_ERROR := 4044

/-- The constant `ESP_ERR_INVALID_RESPONSE` of the ESP-IDF driver headers, a
non-success code. -/
def ESP_ERR_INVALID_RESPONSE : WEAVE_ERROR := 264

/-! ## Connection pool (`BLEManager::mCons`) -/

/-- A `PacketBuffer *`: `none` is `NULL`, `some b` points to buffer `b`. -/
abbrev PacketBufferPtr := Option Nat

/-- Modelled from the spec: the record `WoBLEConState`, declared in
`BLEManager.h`, which is not under src: connection id, allocated flag,
negotiated MTU, subscribed flag and at most one owned pending-indication
buffer.  The fields are the ones `BLEManager.cpp` reads and writes. -/
structure WoBLEConState where
  PendingIndBuf : PacketBufferPtr
  ConId : Nat
  MTU : Nat
  Allocated : Bool
  Subscribed : Bool
deriving DecidableEq, Repr

/-- The result of `memset(&mCons[i], 0, sizeof(WoBLEConState))`. -/
def WoBLEConState.zero : WoBLEConState :=
  { PendingIndBuf := none, ConId := 0, MTU := 0, Allocated := false, Subscribed := false }

/-- The outcome of the scan loop of `GetConnectionState`: the loop either
returns from inside (`found i`) or runs to its end with a value of `freeIndex`. -/
inductive ScanResult where
  | found (i : Nat)
  | done (freeIndex : Nat)
deriving DecidableEq, Repr

/-- The `for` loop of `GetConnectionState`, from index `i` on; `cons` are the
slots `mCons[i], mCons[i+1], ...` still to visit. -/
def scanCons (conId : Nat) : List WoBLEConState → Nat → Nat → ScanResult
  | [], _, freeIndex => ScanResult.done freeIndex
  | c :: cs, i, freeIndex =>
    if c.Allocated then
      if c.ConId = conId then ScanResult.found i
      else scanCons conId cs (i + 1) freeIndex
    else if i < freeIndex then scanCons conId cs (i + 1) i
    else scanCons conId cs (i + 1) freeIndex

/-- The function `BLEManager::GetConnectionState(conId, allocate)` on the
array `mCons` (whose length is `kMaxConnections`): the index of the returned
slot (`none` is `NULL`) and the array afterwards. -/
def GetConnectionState (mCons : List WoBLEConState) (conId : Nat) (allocate : Bool) :
    Option Nat × List WoBLEConState :=
  match scanCons conId mCons 0 mCons.length with
  | ScanResult.found i => (some i, mCons)
  | ScanResult.done freeIndex =>
    if allocate then
      if freeIndex < mCons.length then
        (some freeIndex,
          mCons.set freeIndex { WoBLEConState.zero with Allocated := true, ConId := conId })
      else (none, mCons)
    else (none, mCons)

/-- The loop of `BLEManager::ReleaseConnectionState`: the result, the array
afterwards, and the buffer pointers handed to `PacketBuffer::Free`. -/
def ReleaseConnectionState (conId : Nat) :
    List WoBLEConState → Bool × List WoBLEConState × List PacketBufferPtr
  | [] => (false, [], [])
  | c :: cs =>
    if c.Allocated && c.ConId == conId then
      (true, { c with Allocated := false } :: cs, [c.PendingIndBuf])
    else
      let r := ReleaseConnectionState conId cs
      (r.1, c :: r.2.1, r.2.2)

/-- The function `BLEManager::NumConnections`. -/
def NumConnections : List WoBLEConState → Nat
  | [] => 0
  | c :: cs => if c.Allocated then NumConnections cs + 1 else NumConnections cs

/-! ## Events and effects -/

/-- The enum `ConnectivityChange` of `WeaveDeviceEvent.h`. -/
inductive ConnectivityChange where
  | kConnectivity_Established
  | kConnectivity_Lost
  | kConnectivity_NoChange
deriving DecidableEq, Repr

/-- The error codes of the BLE layer that the manager passes as the reason of
a connection error. -/
inductive BleError where
  | BLE_ERROR_REMOTE_DEVICE_DISCONNECTED
  | BLE_ERROR_APP_CLOSED_CONNECTION
  | BLE_ERROR_WOBLE_PROTOCOL_ABORT
deriving DecidableEq, Repr

/-- The events the two managers post with `PlatformMgr.PostEvent`. -/
inductive WeaveDeviceEvent where
  | WiFiConnectivityChange (Result : ConnectivityChange)
  | InternetConnectivityChange (IPv4 IPv6 : ConnectivityChange)
  | ServiceConnectivityChange (Result : ConnectivityChange)
  | WoBLESubscribe (ConId : Nat)
  | WoBLEUnsubscribe (ConId : Nat)
  | WoBLEWriteReceived (ConId : Nat) (Data : Nat) (bytes : List Nat)
  | WoBLEIndicateConfirm (ConId : Nat)
  | WoBLEConnectionError (ConId : Nat) (Reason : BleError)
deriving DecidableEq, Repr

/-- The record `esp_ble_adv_data_t` as `ConfigureAdvertisingData` fills it. -/
structure esp_ble_adv_data_t where
  set_scan_rsp : Bool
  include_name : Bool
  include_txpower : Bool
  min_interval : Nat
  max_interval : Nat
  appearance : Nat
  manufacturer_data : List Nat
  service_data : List Nat
  service_uuid : List Nat
  flag : Nat
deriving DecidableEq, Repr

/-- The advertising type chosen by `StartAdvertising`. -/
inductive esp_ble_adv_type_t where
  | ADV_TYPE_IND
  | ADV_TYPE_NONCONN_IND
deriving DecidableEq, Repr

/-- The fields of `esp_ble_adv_params_t` that `StartAdvertising` computes. -/
structure esp_ble_adv_params_t where
  adv_int_min : Nat
  adv_int_max : Nat
  adv_type : esp_ble_adv_type_t
deriving DecidableEq, Repr

/-- What a member function does to the outside, in program order: calls of the
ESP driver, of the platform manager and of the packet buffer pool. -/
inductive Effect where
  | esp_bt_controller_mem_release
  | esp_bt_controller_init
  | esp_bt_controller_enable
  | esp_bluedroid_init
  | esp_bluedroid_enable
  | esp_ble_gatts_register_callback
  | esp_ble_gap_register_callback
  | esp_ble_gatt_set_local_mtu
  | esp_ble_gatts_app_register (appId : Nat)
  | esp_ble_gatts_create_attr_tab (gattsIf : Nat) (count : Nat)
  | esp_ble_gatts_start_service (handle : Nat)
  | esp_ble_gatts_stop_service (handle : Nat)
  | esp_ble_gap_set_device_name (name : List Char)
  | esp_ble_gap_config_adv_data (d : esp_ble_adv_data_t)
  | esp_ble_gap_start_advertising (p : esp_ble_adv_params_t)
  | esp_ble_gap_stop_advertising
  | esp_ble_gatts_send_indicate (gattsIf conId handle data : Nat)
  | esp_ble_gatts_send_response (gattsIf conId transId status : Nat) (rsp : Option (Nat × List Nat))
  | esp_ble_gatts_close (gattsIf conId : Nat)
  | ScheduleWork_DriveBLEState
  | PostEvent (e : WeaveDeviceEvent)
  | PacketBuffer_Free (b : PacketBufferPtr)
  | LockWeaveStack
  | UnlockWeaveStack
  | ESPUtils_StartWiFiLayer
  | ESPUtils_EnableStationMode
  | ESPUtils_SetAPMode (enabled : Bool)
  | esp_wifi_connect
  | esp_wifi_disconnect
  | esp_wifi_set_config_AP
  | tcpip_adapter_create_ip6_linklocal_STA
  | tcpip_adapter_create_ip6_linklocal_AP
  | Warm_WiFiInterfaceStateChange (up : Bool)
  | StartTimer_DriveStationState (ms : Nat)
  | StartTimer_DriveAPState (ms : Nat)
  | ScheduleWork_DriveStationState
  | ScheduleWork_DriveAPState
  | StartServiceTunnel
  | StopServiceTunnel
  | StartPendingScan
  | RefreshEndpoints
  | esp_wifi_set_auto_connect (en : Bool)
  | esp_wifi_set_config_STA
  | Warm_Init
  | InitServiceTunnelAgent
  | BleLayer_Init
deriving DecidableEq, Repr

/-- The asynchronous control commands of the BLE driver: the ones whose
outcome arrives later in a completion event handled by
`HandleGATTControlEvent` or `HandleGAPEvent`. -/
def Effect.isAsyncControlCmd : Effect → Bool
  | Effect.esp_ble_gatts_app_register _ => true
  | Effect.esp_ble_gatts_create_attr_tab _ _ => true
  | Effect.esp_ble_gatts_start_service _ => true
  | Effect.esp_ble_gatts_stop_service _ => true
  | Effect.esp_ble_gap_config_adv_data _ => true
  | Effect.esp_ble_gap_start_advertising _ => true
  | Effect.esp_ble_gap_stop_advertising => true
  | _ => false

/-! ## BLE manager state -/

/-- Modelled from the spec: the enum `WoBLEServiceMode`, declared in
`ConnectivityManager.h`, which is not under src: service mode NotSupported,
Enabled or Disabled.  The enumerators are the ones `BLEManager.cpp` names. -/
inductive WoBLEServiceMode where
  | kWoBLEServiceMode_NotSupported
  | kWoBLEServiceMode_Enabled
  | kWoBLEServiceMode_Disabled
deriving DecidableEq, Repr

/-- Modelled from the spec: the bit set `BLEManager::mFlags`, whose `kFlag_...`
enum is declared in `BLEManager.h`, which is not under src: one boolean per
flag that `BLEManager.cpp` names.  `GetFlag` reads a field, `SetFlag` and
`ClearFlag` write it. -/
structure BLEFlags where
  ESPBLELayerInitialized : Bool
  AppRegistered : Bool
  AttrsRegistered : Bool
  GATTServiceStarted : Bool
  AdvertisingConfigured : Bool
  Advertising : Bool
  ControlOpInProgress : Bool
  AdvertisingEnabled : Bool
  FastAdvertisingEnabled : Bool
  UseCustomDeviceName : Bool
deriving DecidableEq, Repr

/-- Modelled from the spec: the data members of `BLEManager`, declared in
`BLEManager.h`, which is not under src; they are the members `BLEManager.cpp`
uses.  The length of `mCons` is `kMaxConnections`. -/
structure BLEManager where
  mCons : List WoBLEConState
  mServiceMode : WoBLEServiceMode
  mAppIf : Nat
  mServiceAttrHandle : Nat
  mRXCharAttrHandle : Nat
  mTXCharAttrHandle : Nat
  mTXCharCCCDAttrHandle : Nat
  mFlags : BLEFlags
  mDeviceName : List Char
deriving DecidableEq, Repr

/-- The number `kMaxConnections`, the size of the array `mCons`. -/
def BLEManager.kMaxConnections (self : BLEManager) : Nat := self.mCons.length

/-- The constant `WoBLEAppId`. -/
def WoBLEAppId : Nat := 0x235A

/-- The constant `WoBLEGATTAttrCount`, the number of rows of `WoBLEGATTAttrs`. -/
def WoBLEGATTAttrCount : Nat := 6

/-- The constant `kAttrIndex_ServiceDeclaration`. -/
def kAttrIndex_ServiceDeclaration : Nat := 0
/-- The constant `kAttrIndex_RXCharValue`. -/
def kAttrIndex_RXCharValue : Nat := 2
/-- The constant `kAttrIndex_TXCharValue`. -/
def kAttrIndex_TXCharValue : Nat := 4
/-- The constant `kAttrIndex_TXCharCCCDValue`. -/
def kAttrIndex_TXCharCCCDValue : Nat := 5

/-- The array `UUID_WoBLEService`. -/
def UUID_WoBLEService : List Nat :=
  [0xFB, 0x34, 0x9B, 0x5F, 0x80, 0x00, 0x00, 0x80, 0x00, 0x10, 0x00, 0x00, 0xAF, 0xFE, 0x00, 0x00]

/-- The array `ShortUUID_WoBLEService`. -/
def ShortUUID_WoBLEService : List Nat := [0xAF, 0xFE]

/-- The array `UUID_PrimaryService`. -/
def UUID_PrimaryService : List Nat := [0x00, 0x28]

/-- The array `UUID_CharDecl`. -/
def UUID_CharDecl : List Nat := [0x03, 0x28]

/-- The array `UUID_ClientCharConfigDesc`. -/
def UUID_ClientCharConfigDesc : List Nat := [0x02, 0x29]

/-- The array `UUID_WoBLEChar_RX`. -/
def UUID_WoBLEChar_RX : List Nat :=
  [0x11, 0x9D, 0x9F, 0x42, 0x9C, 0x4F, 0x9F, 0x95, 0x59, 0x45, 0x3D, 0x26, 0xF5, 0x2E, 0xEE, 0x18]

/-- The array `UUID_WoBLEChar_TX`. -/
def UUID_WoBLEChar_TX : List Nat :=
  [0x12, 0x9D, 0x9F, 0x42, 0x9C, 0x4F, 0x9F, 0x95, 0x59, 0x45, 0x3D, 0x26, 0xF5, 0x2E, 0xEE, 0x18]

/-- The constant `ESP_GATT_RSP_BY_APP` of the ESP-IDF driver headers. -/
def ESP_GATT_RSP_BY_APP : Nat := 0
/-- The constant `ESP_GATT_AUTO_RSP` of the ESP-IDF driver headers. -/
def ESP_GATT_AUTO_RSP : Nat := 1
/-- The constant `ESP_UUID_LEN_16` of the ESP-IDF driver headers. -/
def ESP_UUID_LEN_16 : Nat := 2
/-- The constant `ESP_UUID_LEN_128` of the ESP-IDF driver headers. -/
def ESP_UUID_LEN_128 : Nat := 16
/-- The permission bit `ESP_GATT_PERM_READ` of the ESP-IDF driver headers. -/
def ESP_GATT_PERM_READ : Nat := 1
/-- The permission bit `ESP_GATT_PERM_WRITE` of the ESP-IDF driver headers. -/
def ESP_GATT_PERM_WRITE : Nat := 16
/-- The property bit `ESP_GATT_CHAR_PROP_BIT_READ` of the ESP-IDF driver headers. -/
def ESP_GATT_CHAR_PROP_BIT_READ : Nat := 2
/-- The property bit `ESP_GATT_CHAR_PROP_BIT_WRITE` of the ESP-IDF driver headers. -/
def ESP_GATT_CHAR_PROP_BIT_WRITE : Nat := 8
/-- The property bit `ESP_GATT_CHAR_PROP_BIT_NOTIFY` of the ESP-IDF driver headers. -/
def ESP_GATT_CHAR_PROP_BIT_NOTIFY : Nat := 16

/-- The constant `CharProps_ReadNotify`. -/
def CharProps_ReadNotify : Nat := ESP_GATT_CHAR_PROP_BIT_READ ||| ESP_GATT_CHAR_PROP_BIT_NOTIFY

/-- The constant `CharProps_Write`. -/
def CharProps_Write : Nat := ESP_GATT_CHAR_PROP_BIT_WRITE

/-- One row of the attribute table (`esp_gatts_attr_db_t`): the response
control and the attribute description; `value` is `none` for `NULL`. -/
structure esp_gatts_attr_db_t where
  auto_rsp : Nat
  uuid_length : Nat
  uuid_p : List Nat
  perm : Nat
  max_length : Nat
  length : Nat
  value : Option (List Nat)
deriving DecidableEq, Repr

/-- The table `WoBLEGATTAttrs`, row by row. -/
def WoBLEGATTAttrs : List esp_gatts_attr_db_t :=
  [{ auto_rsp := ESP_GATT_AUTO_RSP, uuid_length := ESP_UUID_LEN_16,
     uuid_p := UUID_PrimaryService, perm := ESP_GATT_PERM_READ,
     max_length := ESP_UUID_LEN_128, length := ESP_UUID_LEN_128,
     value := some UUID_WoBLEService },
   { auto_rsp := ESP_GATT_AUTO_RSP, uuid_length := ESP_UUID_LEN_16,
     uuid_p := UUID_CharDecl, perm := ESP_GATT_PERM_READ,
     max_length := 1, length := 1, value := some [CharProps_Write] },
   { auto_rsp := ESP_GATT_RSP_BY_APP, uuid_length := ESP_UUID_LEN_128,
     uuid_p := UUID_WoBLEChar_RX, perm := ESP_GATT_PERM_WRITE,
     max_length := 512, length := 0, value := none },
   { auto_rsp := ESP_GATT_AUTO_RSP, uuid_length := ESP_UUID_LEN_16,
     uuid_p := UUID_CharDecl, perm := ESP_GATT_PERM_READ,
     max_length := 1, length := 1, value := some [CharProps_ReadNotify] },
   { auto_rsp := ESP_GATT_RSP_BY_APP, uuid_length := ESP_UUID_LEN_128,
     uuid_p := UUID_WoBLEChar_TX, perm := ESP_GATT_PERM_READ,
     max_length := 512, length := 0, value := none },
   { auto_rsp := ESP_GATT_RSP_BY_APP, uuid_length := ESP_UUID_LEN_16,
     uuid_p := UUID_ClientCharConfigDesc, perm := ESP_GATT_PERM_READ ||| ESP_GATT_PERM_WRITE,
     max_length := 2, length := 0, value := none }]

/-- The status of the Bluetooth controller (`esp_bt_controller_get_status`). -/
inductive esp_bt_controller_status_t where
  | ESP_BT_CONTROLLER_STATUS_IDLE
  | ESP_BT_CONTROLLER_STATUS_INITED
  | ESP_BT_CONTROLLER_STATUS_ENABLED
deriving DecidableEq, Repr

/-- The status of the Bluedroid stack (`esp_bluedroid_get_status`). -/
inductive esp_bluedroid_status_t where
  | ESP_BLUEDROID_STATUS_UNINITIALIZED
  | ESP_BLUEDROID_STATUS_INITIALIZED
  | ESP_BLUEDROID_STATUS_ENABLED
deriving DecidableEq, Repr

/-- The answers of the ESP BLE driver to the calls one `DriveBLEState`
makes, one field per call site. -/
structure BLEDriver where
  controller_status_first : esp_bt_controller_status_t
  controller_mem_release : WEAVE_ERROR
  controller_init : WEAVE_ERROR
  controller_status_second : esp_bt_controller_status_t
  controller_enable : WEAVE_ERROR
  bluedroid_status_first : esp_bluedroid_status_t
  bluedroid_init : WEAVE_ERROR
  bluedroid_status_second : esp_bluedroid_status_t
  bluedroid_enable : WEAVE_ERROR
  gatts_register_callback : WEAVE_ERROR
  gap_register_callback : WEAVE_ERROR
  gatt_set_local_mtu : WEAVE_ERROR
  gatts_app_register : WEAVE_ERROR
  gatts_create_attr_tab : WEAVE_ERROR
  gatts_start_service : WEAVE_ERROR
  gatts_stop_service : WEAVE_ERROR
  gap_set_device_name : WEAVE_ERROR
  gap_config_adv_data : WEAVE_ERROR
  gap_config_scan_rsp : WEAVE_ERROR
  gap_start_advertising : WEAVE_ERROR
  gap_stop_advertising : WEAVE_ERROR
deriving DecidableEq, Repr

/-- What the BLE manager reads from the rest of the device: the fabric state,
the configuration manager and the compile-time configuration. -/
structure BLEEnv where
  LocalNodeId : Nat
  IsPairedToAccount : Bool
  DEVICE_VENDOR_ID : Nat
  DEVICE_PRODUCT_ID : Nat
  BLE_DEVICE_NAME_PREFIX : List Char
  BLE_FAST_ADVERTISING_INTERVAL : Nat
  BLE_SLOW_ADVERTISING_INTERVAL : Nat
  kMaxDeviceNameLength : Nat
deriving DecidableEq, Repr

/-! ## BLE manager: initialisation -/

/-- The constant `ESP_GATT_IF_NONE` of the driver: no GATT interface. -/
def ESP_GATT_IF_NONE : Nat := 0xff

/-- The function `BLEManager::Init`; `bleLayerInit` is the answer of
`BleLayer::Init`.  On a failure of that call the function leaves at once; on
success it clears every slot of `mCons` with `memset`, sets the members and
schedules `DriveBLEState`. -/
def BLEManager.Init (bleLayerInit : WEAVE_ERROR) (self : BLEManager) :
    WEAVE_ERROR × BLEManager × List Effect :=
  if bleLayerInit ≠ WEAVE_NO_ERROR then (bleLayerInit, self, [Effect.BleLayer_Init])
  else
    (bleLayerInit,
      { mCons := self.mCons.map (fun _ => WoBLEConState.zero),
        mServiceMode := WoBLEServiceMode.kWoBLEServiceMode_Enabled,
        mAppIf := ESP_GATT_IF_NONE,
        mServiceAttrHandle := 0,
        mRXCharAttrHandle := 0,
        mTXCharAttrHandle := 0,
        mTXCharCCCDAttrHandle := 0,
        mFlags :=
          { ESPBLELayerInitialized := false, AppRegistered := false, AttrsRegistered := false,
            GATTServiceStarted := false, AdvertisingConfigured := false, Advertising := false,
            ControlOpInProgress := false, AdvertisingEnabled := true,
            FastAdvertisingEnabled := false, UseCustomDeviceName := false },
        mDeviceName := [] },
      [Effect.BleLayer_Init, Effect.ScheduleWork_DriveBLEState])

/-! ## BLE manager: driving the transport -/

/-- The function `Encoding::LittleEndian::Put16` / `Put64`: the `n` low bytes
of `v`, least significant first. -/
def LittleEndianPut : Nat → Nat → List Nat
  | 0, _ => []
  | n + 1, v => (v % 256) :: LittleEndianPut n (v / 256)

/-- The output of `printf` for the directive `%04X` applied to a 32-bit value:
upper-case hexadecimal digits, padded with zeros to four characters. -/
def formatHex04 (v : Nat) : List Char :=
  let ds := (Nat.toDigits 16 v).map Char.toUpper
  List.replicate (4 - ds.length) '0' ++ ds

/-- A run of driver calls each followed by `if (err != WEAVE_NO_ERROR) ExitNow()`:
the calls are made in order up to the first that fails; the result is the
value of `err` and the calls made. -/
def runCalls : List (Effect × WEAVE_ERROR) → WEAVE_ERROR × List Effect
  | [] => (WEAVE_NO_ERROR, [])
  | (call, err) :: rest =>
    if err ≠ WEAVE_NO_ERROR then (err, [call])
    else ((runCalls rest).1, call :: (runCalls rest).2)

/-- The driver calls of `InitESPBleLayer` in program order, each with the
answer of the driver; a call guarded by a status test is present when the
test holds. -/
def InitESPBleLayer_calls (drv : BLEDriver) : List (Effect × WEAVE_ERROR) :=
  (if drv.controller_status_first = esp_bt_controller_status_t.ESP_BT_CONTROLLER_STATUS_IDLE then
    [(Effect.esp_bt_controller_mem_release, drv.controller_mem_release),
     (Effect.esp_bt_controller_init, drv.controller_init)]
   else [])
  ++ (if drv.controller_status_second
        ≠ esp_bt_controller_status_t.ESP_BT_CONTROLLER_STATUS_ENABLED then
      [(Effect.esp_bt_controller_enable, drv.controller_enable)]
     else [])
  ++ (if drv.bluedroid_status_first
        = esp_bluedroid_status_t.ESP_BLUEDROID_STATUS_UNINITIALIZED then
      [(Effect.esp_bluedroid_init, drv.bluedroid_init)]
     else [])
  ++ (if drv.bluedroid_status_second ≠ esp_bluedroid_status_t.ESP_BLUEDROID_STATUS_ENABLED then
      [(Effect.esp_bluedroid_enable, drv.bluedroid_enable)]
     else [])
  ++ [(Effect.esp_ble_gatts_register_callback, drv.gatts_register_callback),
      (Effect.esp_ble_gap_register_callback, drv.gap_register_callback),
      (Effect.esp_ble_gatt_set_local_mtu, drv.gatt_set_local_mtu)]

/-- The function `BLEManager::InitESPBleLayer`. -/
def InitESPBleLayer (drv : BLEDriver) (self : BLEManager) :
    WEAVE_ERROR × BLEManager × List Effect :=
  if self.mFlags.ESPBLELayerInitialized then (WEAVE_NO_ERROR, self, [])
  else
    let r := runCalls (InitESPBleLayer_calls drv)
    if r.1 ≠ WEAVE_NO_ERROR then (r.1, self, r.2)
    else
      (WEAVE_NO_ERROR,
        { self with mFlags := { self.mFlags with ESPBLELayerInitialized := true } }, r.2)

/-- The advertising packet `ConfigureAdvertisingData` configures first. -/
def advertisingPacket : esp_ble_adv_data_t :=
  { set_scan_rsp := false, include_name := true, include_txpower := false,
    min_interval := 0, max_interval := 0, appearance := 0, manufacturer_data := [],
    service_data := [], service_uuid := UUID_WoBLEService, flag := 0x02 ||| 0x04 }

/-- The bytes of the record `WeaveServiceData` that `ConfigureAdvertisingData`
builds, field after field. -/
def weaveServiceData (env : BLEEnv) : List Nat :=
  ShortUUID_WoBLEService ++ [16, 1, 0, 1]
    ++ LittleEndianPut 2 (env.DEVICE_VENDOR_ID % 65536)
    ++ LittleEndianPut 2 (env.DEVICE_PRODUCT_ID % 65536)
    ++ LittleEndianPut 8 env.LocalNodeId
    ++ [if env.IsPairedToAccount then 1 else 0]

/-- The scan response packet `ConfigureAdvertisingData` configures second. -/
def scanResponsePacket (env : BLEEnv) : esp_ble_adv_data_t :=
  { set_scan_rsp := true, include_name := false, include_txpower := true,
    min_interval := 0, max_interval := 0, appearance := 0, manufacturer_data := [],
    service_data := weaveServiceData env, service_uuid := [], flag := 0 }

/-- The function `BLEManager::ConfigureAdvertisingData`. -/
def ConfigureAdvertisingData (drv : BLEDriver) (env : BLEEnv) (self : BLEManager) :
    WEAVE_ERROR × BLEManager × List Effect :=
  let s1 : BLEManager :=
    if self.mFlags.UseCustomDeviceName then self
    else
      { self with
        mDeviceName := List.take env.kMaxDeviceNameLength
          (env.BLE_DEVICE_NAME_PREFIX ++ formatHex04 (env.LocalNodeId % 2 ^ 32)) }
  let r := runCalls
    [(Effect.esp_ble_gap_set_device_name s1.mDeviceName, drv.gap_set_device_name),
     (Effect.esp_ble_gap_config_adv_data advertisingPacket, drv.gap_config_adv_data),
     (Effect.esp_ble_gap_config_adv_data (scanResponsePacket env), drv.gap_config_scan_rsp)]
  if r.1 ≠ WEAVE_NO_ERROR then (r.1, s1, r.2)
  else
    (WEAVE_NO_ERROR, { s1 with mFlags := { s1.mFlags with ControlOpInProgress := true } }, r.2)

/-- The parameters `StartAdvertising` computes. -/
def advertisingParams (env : BLEEnv) (self : BLEManager) : esp_ble_adv_params_t :=
  let numCons := NumConnections self.mCons
  let connectable : Bool := decide (numCons < self.kMaxConnections)
  let interval :=
    if numCons = 0 ∧ env.IsPairedToAccount = false then env.BLE_FAST_ADVERTISING_INTERVAL
    else env.BLE_SLOW_ADVERTISING_INTERVAL
  { adv_int_min := interval, adv_int_max := interval,
    adv_type := if connectable then esp_ble_adv_type_t.ADV_TYPE_IND
                else esp_ble_adv_type_t.ADV_TYPE_NONCONN_IND }

/-- The function `BLEManager::StartAdvertising`. -/
def StartAdvertising (drv : BLEDriver) (env : BLEEnv) (self : BLEManager) :
    WEAVE_ERROR × BLEManager × List Effect :=
  let e1 := [Effect.esp_ble_gap_start_advertising (advertisingParams env self)]
  if drv.gap_start_advertising ≠ WEAVE_NO_ERROR then (drv.gap_start_advertising, self, e1)
  else
    (WEAVE_NO_ERROR, { self with mFlags := { self.mFlags with ControlOpInProgress := true } }, e1)

/-- The `exit:` block of `DriveBLEState`. -/
def DriveBLEState_exit (err : WEAVE_ERROR) (self : BLEManager) (eff : List Effect) :
    BLEManager × List Effect :=
  if err ≠ WEAVE_NO_ERROR then
    ({ self with mServiceMode := WoBLEServiceMode.kWoBLEServiceMode_Disabled }, eff)
  else (self, eff)

/-- A stage of `DriveBLEState` that issues one driver command: on an error it
leaves at once, otherwise it sets `kFlag_ControlOpInProgress` and leaves. -/
def DriveBLEState_issue (err : WEAVE_ERROR) (self : BLEManager) (eff : List Effect) :
    BLEManager × List Effect :=
  if err ≠ WEAVE_NO_ERROR then DriveBLEState_exit err self eff
  else
    DriveBLEState_exit err
      { self with mFlags := { self.mFlags with ControlOpInProgress := true } } eff

/-- The last stage of `DriveBLEState`: stop the GATT service if needed. -/
def DriveBLEState_stopService (drv : BLEDriver) (self : BLEManager) (eff : List Effect) :
    BLEManager × List Effect :=
  if self.mServiceMode ≠ WoBLEServiceMode.kWoBLEServiceMode_Enabled
      ∧ self.mFlags.GATTServiceStarted = true then
    DriveBLEState_issue drv.gatts_stop_service self
      (eff ++ [Effect.esp_ble_gatts_stop_service self.mServiceAttrHandle])
  else DriveBLEState_exit WEAVE_NO_ERROR self eff

/-- The stages of `DriveBLEState` that follow the initialisation of the ESP BLE
layer; `eff` are the effects so far. -/
def DriveBLEState_stages (drv : BLEDriver) (env : BLEEnv) (self : BLEManager)
    (eff : List Effect) : BLEManager × List Effect :=
  if self.mServiceMode = WoBLEServiceMode.kWoBLEServiceMode_Enabled
      ∧ self.mFlags.AppRegistered = false then
    DriveBLEState_issue drv.gatts_app_register self
      (eff ++ [Effect.esp_ble_gatts_app_register WoBLEAppId])
  else if self.mServiceMode = WoBLEServiceMode.kWoBLEServiceMode_Enabled
      ∧ self.mFlags.AttrsRegistered = false then
    DriveBLEState_issue drv.gatts_create_attr_tab self
      (eff ++ [Effect.esp_ble_gatts_create_attr_tab self.mAppIf WoBLEGATTAttrCount])
  else if self.mServiceMode = WoBLEServiceMode.kWoBLEServiceMode_Enabled
      ∧ self.mFlags.GATTServiceStarted = false then
    DriveBLEState_issue drv.gatts_start_service self
      (eff ++ [Effect.esp_ble_gatts_start_service self.mServiceAttrHandle])
  else if self.mServiceMode = WoBLEServiceMode.kWoBLEServiceMode_Enabled
      ∧ self.mFlags.AdvertisingEnabled = true then
    if self.mFlags.AdvertisingConfigured = false then
      let r := ConfigureAdvertisingData drv env self
      DriveBLEState_exit r.1 r.2.1 (eff ++ r.2.2)
    else if self.mFlags.Advertising = false then
      let r := StartAdvertising drv env self
      DriveBLEState_exit r.1 r.2.1 (eff ++ r.2.2)
    else DriveBLEState_stopService drv self eff
  else
    if self.mFlags.Advertising = true then
      DriveBLEState_issue drv.gap_stop_advertising self
        (eff ++ [Effect.esp_ble_gap_stop_advertising])
    else DriveBLEState_stopService drv self eff

/-- The function `BLEManager::DriveBLEState(void)`. -/
def DriveBLEState (drv : BLEDriver) (env : BLEEnv) (self : BLEManager) :
    BLEManager × List Effect :=
  if self.mFlags.ControlOpInProgress then DriveBLEState_exit WEAVE_NO_ERROR self []
  else
    let r1 : WEAVE_ERROR × BLEManager × List Effect :=
      if self.mServiceMode = WoBLEServiceMode.kWoBLEServiceMode_Enabled
          ∧ self.mFlags.ESPBLELayerInitialized = false then
        InitESPBleLayer drv self
      else (WEAVE_NO_ERROR, self, [])
    if r1.1 ≠ WEAVE_NO_ERROR then DriveBLEState_exit r1.1 r1.2.1 r1.2.2
    else DriveBLEState_stages drv env r1.2.1 r1.2.2

/-! ## BLE manager: driver callbacks -/

/-- The GATT server events the manager distinguishes (`esp_gatts_cb_event_t`);
`other` stands for every event type it ignores. -/
inductive esp_gatts_cb_event_t where
  | ESP_GATTS_REG_EVT
  | ESP_GATTS_CREAT_ATTR_TAB_EVT
  | ESP_GATTS_START_EVT
  | ESP_GATTS_STOP_EVT
  | ESP_GATTS_RESPONSE_EVT
  | ESP_GATTS_CONNECT_EVT
  | ESP_GATTS_DISCONNECT_EVT
  | ESP_GATTS_READ_EVT
  | ESP_GATTS_WRITE_EVT
  | ESP_GATTS_CONF_EVT
  | ESP_GATTS_MTU_EVT
  | other (code : Nat)
deriving DecidableEq, Repr

/-- The union `esp_ble_gatts_cb_param_t`: one field per member the manager
reads, named view_member, holding the value that read yields. -/
structure esp_ble_gatts_cb_param_t where
  reg_status : Nat
  reg_app_id : Nat
  add_attr_tab_status : Nat
  add_attr_tab_handles : List Nat
  start_status : Nat
  stop_status : Nat
  connect_conn_id : Nat
  mtu_conn_id : Nat
  mtu_mtu : Nat
  disconnect_conn_id : Nat
  disconnect_reason : Nat
  read_conn_id : Nat
  read_trans_id : Nat
  read_handle : Nat
  write_conn_id : Nat
  write_trans_id : Nat
  write_handle : Nat
  write_is_prep : Bool
  write_need_rsp : Bool
  write_len : Nat
  write_value : List Nat
  conf_conn_id : Nat
  conf_status : Nat
deriving DecidableEq, Repr

/-- The constant `ESP_GATT_OK`. -/
def ESP_GATT_OK : Nat := 0
/-- The constant `ESP_GATT_INTERNAL_ERROR`. -/
def ESP_GATT_INTERNAL_ERROR : Nat := 129
/-- The constant `ESP_BT_STATUS_SUCCESS`. -/
def ESP_BT_STATUS_SUCCESS : Nat := 0
/-- The constant `ESP_GATT_CONN_TERMINATE_PEER_USER`. -/
def ESP_GATT_CONN_TERMINATE_PEER_USER : Nat := 19
/-- The constant `ESP_GATT_CONN_TERMINATE_LOCAL_HOST`. -/
def ESP_GATT_CONN_TERMINATE_LOCAL_HOST : Nat := 22

/-- The `exit:` block of `HandleGATTControlEvent`. -/
def HandleGATTControlEvent_exit (err : WEAVE_ERROR) (controlOpComplete : Bool)
    (self : BLEManager) : BLEManager × List Effect :=
  let s1 : BLEManager :=
    if err ≠ WEAVE_NO_ERROR then
      { self with mServiceMode := WoBLEServiceMode.kWoBLEServiceMode_Disabled }
    else self
  if controlOpComplete then
    ({ s1 with mFlags := { s1.mFlags with ControlOpInProgress := false } },
      [Effect.ScheduleWork_DriveBLEState])
  else (s1, [])

/-- The function `BLEManager::HandleGATTControlEvent`. -/
def HandleGATTControlEvent (event : esp_gatts_cb_event_t) (gatts_if : Nat)
    (param : esp_ble_gatts_cb_param_t) (self : BLEManager) : BLEManager × List Effect :=
  if event ≠ esp_gatts_cb_event_t.ESP_GATTS_REG_EVT
      ∧ (self.mFlags.AppRegistered = false ∨ gatts_if ≠ self.mAppIf) then
    HandleGATTControlEvent_exit WEAVE_NO_ERROR false self
  else
    match event with
    | esp_gatts_cb_event_t.ESP_GATTS_REG_EVT =>
      if param.reg_app_id = WoBLEAppId then
        if param.reg_status ≠ ESP_GATT_OK then
          HandleGATTControlEvent_exit ESP_ERR_INVALID_RESPONSE false self
        else
          HandleGATTControlEvent_exit WEAVE_NO_ERROR true
            { self with mAppIf := gatts_if,
                        mFlags := { self.mFlags with AppRegistered := true } }
      else HandleGATTControlEvent_exit WEAVE_NO_ERROR false self
    | esp_gatts_cb_event_t.ESP_GATTS_CREAT_ATTR_TAB_EVT =>
      if param.add_attr_tab_status ≠ ESP_GATT_OK then
        HandleGATTControlEvent_exit ESP_ERR_INVALID_RESPONSE false self
      else
        HandleGATTControlEvent_exit WEAVE_NO_ERROR true
          { self with
            mServiceAttrHandle := param.add_attr_tab_handles.getD kAttrIndex_ServiceDeclaration 0,
            mRXCharAttrHandle := param.add_attr_tab_handles.getD kAttrIndex_RXCharValue 0,
            mTXCharAttrHandle := param.add_attr_tab_handles.getD kAttrIndex_TXCharValue 0,
            mTXCharCCCDAttrHandle := param.add_attr_tab_handles.getD kAttrIndex_TXCharCCCDValue 0,
            mFlags := { self.mFlags with AttrsRegistered := true } }
    | esp_gatts_cb_event_t.ESP_GATTS_START_EVT =>
      if param.start_status ≠ ESP_GATT_OK then
        HandleGATTControlEvent_exit ESP_ERR_INVALID_RESPONSE false self
      else
        HandleGATTControlEvent_exit WEAVE_NO_ERROR true
          { self with mFlags := { self.mFlags with GATTServiceStarted := true } }
    | esp_gatts_cb_event_t.ESP_GATTS_STOP_EVT =>
      if param.stop_status ≠ ESP_GATT_OK then
        HandleGATTControlEvent_exit ESP_ERR_INVALID_RESPONSE false self
      else
        HandleGATTControlEvent_exit WEAVE_NO_ERROR true
          { self with mFlags := { self.mFlags with GATTServiceStarted := false } }
    | _ => HandleGATTControlEvent_exit WEAVE_NO_ERROR false self

/-- The function `BLEManager::HandleRXCharWrite`; `newBuf` is the answer of
`PacketBuffer::New(0)`: `none` for `NULL`, else the buffer and its
`AvailableDataLength()`. -/
def HandleRXCharWrite (newBuf : Option (Nat × Nat)) (param : esp_ble_gatts_cb_param_t)
    (self : BLEManager) : List Effect :=
  let fail (buf : PacketBufferPtr) : List Effect :=
    (if param.write_need_rsp then
      [Effect.esp_ble_gatts_send_response self.mAppIf param.write_conn_id param.write_trans_id
        ESP_GATT_INTERNAL_ERROR none]
     else []) ++ [Effect.PacketBuffer_Free buf]
  if param.write_is_prep ≠ false then fail none
  else
    match newBuf with
    | none => fail none
    | some (buf, avail) =>
      if ¬ (avail ≥ param.write_len) then fail (some buf)
      else
        (if param.write_need_rsp then
          [Effect.esp_ble_gatts_send_response self.mAppIf param.write_conn_id
            param.write_trans_id ESP_GATT_OK none]
         else [])
        ++ [Effect.PostEvent (WeaveDeviceEvent.WoBLEWriteReceived param.write_conn_id buf
              (param.write_value.take param.write_len)),
            Effect.PacketBuffer_Free none]

/-- The function `BLEManager::HandleTXCharRead`. -/
def HandleTXCharRead (param : esp_ble_gatts_cb_param_t) (self : BLEManager) : List Effect :=
  [Effect.esp_ble_gatts_send_response self.mAppIf param.read_conn_id param.read_trans_id
    ESP_GATT_OK (some (param.read_handle, []))]

/-- The function `BLEManager::HandleTXCharCCCDRead`. -/
def HandleTXCharCCCDRead (param : esp_ble_gatts_cb_param_t) (self : BLEManager) :
    List Effect :=
  match (GetConnectionState self.mCons param.read_conn_id false).1 with
  | some i =>
    [Effect.esp_ble_gatts_send_response self.mAppIf param.read_conn_id param.read_trans_id
      ESP_GATT_OK
      (some (param.read_handle,
        [if (self.mCons.getD i WoBLEConState.zero).Subscribed then 1 else 0, 0]))]
  | none =>
    [Effect.esp_ble_gatts_send_response self.mAppIf param.read_conn_id param.read_trans_id
      ESP_GATT_INTERNAL_ERROR (some (param.read_handle, []))]

/-- The function `BLEManager::HandleTXCharCCCDWrite`. -/
def HandleTXCharCCCDWrite (param : esp_ble_gatts_cb_param_t) (self : BLEManager) :
    List Effect :=
  let fail : List Effect :=
    if param.write_need_rsp then
      [Effect.esp_ble_gatts_send_response self.mAppIf param.write_conn_id param.write_trans_id
        ESP_GATT_INTERNAL_ERROR none]
    else []
  match (GetConnectionState self.mCons param.read_conn_id false).1 with
  | none => fail
  | some _ =>
    if param.write_is_prep ≠ false then fail
    else
      let indicationsEnabled : Bool :=
        decide (param.write_len > 0) && decide (param.write_value.getD 0 0 ≠ 0)
      (if param.write_need_rsp then
        [Effect.esp_ble_gatts_send_response self.mAppIf param.write_conn_id
          param.write_trans_id ESP_GATT_OK none]
       else [])
      ++ [Effect.PostEvent
            (if indicationsEnabled then WeaveDeviceEvent.WoBLESubscribe param.write_conn_id
             else WeaveDeviceEvent.WoBLEUnsubscribe param.write_conn_id)]

/-- The function `BLEManager::HandleTXCharConfirm` for the slot `i` of `mCons`. -/
def HandleTXCharConfirm (i : Nat) (param : esp_ble_gatts_cb_param_t) (self : BLEManager) :
    BLEManager × List Effect :=
  let c := self.mCons.getD i WoBLEConState.zero
  ({ self with mCons := self.mCons.set i { c with PendingIndBuf := none } },
    [Effect.PacketBuffer_Free c.PendingIndBuf,
     Effect.PostEvent
       (if param.conf_status = ESP_GATT_OK then
          WeaveDeviceEvent.WoBLEIndicateConfirm param.conf_conn_id
        else
          WeaveDeviceEvent.WoBLEConnectionError param.disconnect_conn_id
            BleError.BLE_ERROR_WOBLE_PROTOCOL_ABORT)])

/-- The function `BLEManager::HandleDisconnect`. -/
def HandleDisconnect (param : esp_ble_gatts_cb_param_t) (self : BLEManager) :
    BLEManager × List Effect :=
  let r := ReleaseConnectionState param.disconnect_conn_id self.mCons
  if r.1 then
    ({ self with mCons := r.2.1, mFlags := { self.mFlags with Advertising := false } },
      r.2.2.map Effect.PacketBuffer_Free
      ++ [Effect.PostEvent (WeaveDeviceEvent.WoBLEConnectionError param.disconnect_conn_id
            (if param.disconnect_reason = ESP_GATT_CONN_TERMINATE_PEER_USER then
               BleError.BLE_ERROR_REMOTE_DEVICE_DISCONNECTED
             else if param.disconnect_reason = ESP_GATT_CONN_TERMINATE_LOCAL_HOST then
               BleError.BLE_ERROR_APP_CLOSED_CONNECTION
             else BleError.BLE_ERROR_WOBLE_PROTOCOL_ABORT)),
          Effect.ScheduleWork_DriveBLEState])
  else ({ self with mCons := r.2.1 }, r.2.2.map Effect.PacketBuffer_Free)

/-- The function `BLEManager::HandleGATTCommEvent`. -/
def HandleGATTCommEvent (newBuf : Option (Nat × Nat)) (event : esp_gatts_cb_event_t)
    (gatts_if : Nat) (param : esp_ble_gatts_cb_param_t) (self : BLEManager) :
    BLEManager × List Effect :=
  if self.mFlags.GATTServiceStarted = false ∨ gatts_if ≠ self.mAppIf then (self, [])
  else
    match event with
    | esp_gatts_cb_event_t.ESP_GATTS_CONNECT_EVT =>
      ({ self with mCons := (GetConnectionState self.mCons param.mtu_conn_id true).2,
                   mFlags := { self.mFlags with Advertising := false } },
        [Effect.ScheduleWork_DriveBLEState])
    | esp_gatts_cb_event_t.ESP_GATTS_DISCONNECT_EVT => HandleDisconnect param self
    | esp_gatts_cb_event_t.ESP_GATTS_READ_EVT =>
      (self,
        (if param.read_handle = self.mTXCharAttrHandle then HandleTXCharRead param self else [])
        ++ (if param.read_handle = self.mTXCharCCCDAttrHandle then
              HandleTXCharCCCDRead param self else []))
    | esp_gatts_cb_event_t.ESP_GATTS_WRITE_EVT =>
      (self,
        (if param.write_handle = self.mRXCharAttrHandle then
           HandleRXCharWrite newBuf param self else [])
        ++ (if param.write_handle = self.mTXCharCCCDAttrHandle then
              HandleTXCharCCCDWrite param self else []))
    | esp_gatts_cb_event_t.ESP_GATTS_CONF_EVT =>
      match (GetConnectionState self.mCons param.conf_conn_id false).1 with
      | some i => HandleTXCharConfirm i param self
      | none => (self, [])
    | esp_gatts_cb_event_t.ESP_GATTS_MTU_EVT =>
      match (GetConnectionState self.mCons param.mtu_conn_id false).1 with
      | some i =>
        ({ self with
            mCons := self.mCons.set i
              { self.mCons.getD i WoBLEConState.zero with MTU := param.mtu_mtu } }, [])
      | none => (self, [])
    | _ => (self, [])

/-- The function `BLEManager::HandleGATTEvent`, the GATT callback registered
with the driver. -/
def HandleGATTEvent (newBuf : Option (Nat × Nat)) (event : esp_gatts_cb_event_t)
    (gatts_if : Nat) (param : esp_ble_gatts_cb_param_t) (self : BLEManager) :
    BLEManager × List Effect :=
  let r1 := HandleGATTControlEvent event gatts_if param self
  let r2 := HandleGATTCommEvent newBuf event gatts_if param r1.1
  (r2.1, [Effect.LockWeaveStack] ++ r1.2 ++ r2.2 ++ [Effect.UnlockWeaveStack])

/-- The GAP events the manager distinguishes (`esp_gap_ble_cb_event_t`) with
the status their parameter carries; `other` stands for every other event. -/
inductive esp_gap_ble_cb_event_t where
  | ESP_GAP_BLE_ADV_DATA_SET_COMPLETE_EVT (status : Nat)
  | ESP_GAP_BLE_ADV_START_COMPLETE_EVT (status : Nat)
  | ESP_GAP_BLE_ADV_STOP_COMPLETE_EVT (status : Nat)
  | other (code : Nat)
deriving DecidableEq, Repr

/-- The `exit:` block of `HandleGAPEvent`. -/
def HandleGAPEvent_exit (err : WEAVE_ERROR) (self : BLEManager) : BLEManager × List Effect :=
  (if err ≠ WEAVE_NO_ERROR then
      { self with mServiceMode := WoBLEServiceMode.kWoBLEServiceMode_Disabled }
    else self,
    [Effect.LockWeaveStack, Effect.ScheduleWork_DriveBLEState, Effect.UnlockWeaveStack])

/-- The function `BLEManager::HandleGAPEvent`, the GAP callback registered
with the driver. -/
def HandleGAPEvent (event : esp_gap_ble_cb_event_t) (self : BLEManager) :
    BLEManager × List Effect :=
  match event with
  | esp_gap_ble_cb_event_t.ESP_GAP_BLE_ADV_DATA_SET_COMPLETE_EVT status =>
    if status ≠ ESP_BT_STATUS_SUCCESS then HandleGAPEvent_exit ESP_ERR_INVALID_RESPONSE self
    else
      HandleGAPEvent_exit WEAVE_NO_ERROR
        { self with mFlags :=
            { self.mFlags with AdvertisingConfigured := true, ControlOpInProgress := false } }
  | esp_gap_ble_cb_event_t.ESP_GAP_BLE_ADV_START_COMPLETE_EVT status =>
    if status ≠ ESP_BT_STATUS_SUCCESS then HandleGAPEvent_exit ESP_ERR_INVALID_RESPONSE self
    else
      HandleGAPEvent_exit WEAVE_NO_ERROR
        { self with mFlags :=
            { self.mFlags with Advertising := true, ControlOpInProgress := false } }
  | esp_gap_ble_cb_event_t.ESP_GAP_BLE_ADV_STOP_COMPLETE_EVT status =>
    if status ≠ ESP_BT_STATUS_SUCCESS then HandleGAPEvent_exit ESP_ERR_INVALID_RESPONSE self
    else
      HandleGAPEvent_exit WEAVE_NO_ERROR
        { self with mFlags :=
            { self.mFlags with Advertising := false, ControlOpInProgress := false } }
  | esp_gap_ble_cb_event_t.other _ => HandleGAPEvent_exit WEAVE_NO_ERROR self

/-- The `switch` of `HandleGAPEvent`, the part between the lock and the `exit:`
label: the value of the local `err` and the manager at `exit:`. -/
def HandleGAPEvent_switch (event : esp_gap_ble_cb_event_t) (self : BLEManager) :
    WEAVE_ERROR × BLEManager :=
  match event with
  | esp_gap_ble_cb_event_t.ESP_GAP_BLE_ADV_DATA_SET_COMPLETE_EVT status =>
    if status ≠ ESP_BT_STATUS_SUCCESS then (ESP_ERR_INVALID_RESPONSE, self)
    else
      (WEAVE_NO_ERROR,
        { self with mFlags :=
            { self.mFlags with AdvertisingConfigured := true, ControlOpInProgress := false } })
  | esp_gap_ble_cb_event_t.ESP_GAP_BLE_ADV_START_COMPLETE_EVT status =>
    if status ≠ ESP_BT_STATUS_SUCCESS then (ESP_ERR_INVALID_RESPONSE, self)
    else
      (WEAVE_NO_ERROR,
        { self with mFlags :=
            { self.mFlags with Advertising := true, ControlOpInProgress := false } })
  | esp_gap_ble_cb_event_t.ESP_GAP_BLE_ADV_STOP_COMPLETE_EVT status =>
    if status ≠ ESP_BT_STATUS_SUCCESS then (ESP_ERR_INVALID_RESPONSE, self)
    else
      (WEAVE_NO_ERROR,
        { self with mFlags :=
            { self.mFlags with Advertising := false, ControlOpInProgress := false } })
  | esp_gap_ble_cb_event_t.other _ => (WEAVE_NO_ERROR, self)

/-! ## BLE manager: platform delegate -/

/-- The function `BLEManager::SendIndication`: the returned flag, the value of
the local `err` at `exit:`, the manager afterwards and the effects.  The
lookup `GetConnectionState(conId)` has the default `allocate = false`.
`send_indicate` is the answer of `esp_ble_gatts_send_indicate`, `data` the
packet buffer passed in. -/
def SendIndication (send_indicate : WEAVE_ERROR) (conId : Nat) (data : Nat)
    (self : BLEManager) : Bool × WEAVE_ERROR × BLEManager × List Effect :=
  match (GetConnectionState self.mCons conId false).1 with
  | none =>
    (false, WEAVE_ERROR_INVALID_ARGUMENT, self, [Effect.PacketBuffer_Free (some data)])
  | some i =>
    let c := self.mCons.getD i WoBLEConState.zero
    if c.PendingIndBuf ≠ none then
      (false, WEAVE_ERROR_INCORRECT_STATE, self, [Effect.PacketBuffer_Free (some data)])
    else
      let e1 := [Effect.esp_ble_gatts_send_indicate self.mAppIf conId self.mTXCharAttrHandle data]
      if send_indicate ≠ WEAVE_NO_ERROR then
        (false, send_indicate, self, e1 ++ [Effect.PacketBuffer_Free (some data)])
      else
        (true, WEAVE_NO_ERROR,
          { self with mCons := self.mCons.set i { c with PendingIndBuf := some data } }, e1)

/-- The function `BLEManager::CloseConnection`; `close` is the answer of
`esp_ble_gatts_close`. -/
def CloseConnection (close : WEAVE_ERROR) (conId : Nat) (self : BLEManager) :
    Bool × BLEManager × List Effect :=
  let r := ReleaseConnectionState conId self.mCons
  (decide (close = WEAVE_NO_ERROR),
    { self with mCons := r.2.1, mFlags := { self.mFlags with Advertising := false } },
    [Effect.esp_ble_gatts_close self.mAppIf conId] ++ r.2.2.map Effect.PacketBuffer_Free
      ++ [Effect.ScheduleWork_DriveBLEState])

/-! ## BLE manager: public setters -/

/-- The function `BLEManager::SetWoBLEServiceMode`.  Each `VerifyOrExit(c, a)`
is `if (!c) { a; goto exit; }`. -/
def SetWoBLEServiceMode (val : WoBLEServiceMode) (self : BLEManager) :
    WEAVE_ERROR × BLEManager × List Effect :=
  if ¬ (val ≠ WoBLEServiceMode.kWoBLEServiceMode_NotSupported) then
    (WEAVE_ERROR_INVALID_ARGUMENT, self, [])
  else if ¬ (self.mServiceMode = WoBLEServiceMode.kWoBLEServiceMode_NotSupported) then
    (WEAVE_ERROR_UNSUPPORTED_WEAVE_FEATURE, self, [])
  else if val ≠ self.mServiceMode then
    (WEAVE_NO_ERROR, { self with mServiceMode := val }, [Effect.ScheduleWork_DriveBLEState])
  else (WEAVE_NO_ERROR, self, [])

/-- The function `BLEManager::SetAdvertisingEnabled`.  Its test
`val != mServiceMode` compares the `bool` argument, promoted to 0 or 1, with
the integer value of the enumerator; `enumValue` gives the values of the
enumerators, which are declared in `ConnectivityManager.h`, not under src. -/
def SetAdvertisingEnabled (enumValue : WoBLEServiceMode → Int) (val : Bool)
    (self : BLEManager) : WEAVE_ERROR × BLEManager × List Effect :=
  if ¬ (self.mServiceMode = WoBLEServiceMode.kWoBLEServiceMode_NotSupported) then
    (WEAVE_ERROR_UNSUPPORTED_WEAVE_FEATURE, self, [])
  else if (if val then (1 : Int) else 0) ≠ enumValue self.mServiceMode then
    (WEAVE_NO_ERROR, { self with mFlags := { self.mFlags with AdvertisingEnabled := val } },
      [Effect.ScheduleWork_DriveBLEState])
  else (WEAVE_NO_ERROR, self, [])

/-- The function `BLEManager::SetFastAdvertisingEnabled`; `enumValue` as in
`SetAdvertisingEnabled`. -/
def SetFastAdvertisingEnabled (enumValue : WoBLEServiceMode → Int) (val : Bool)
    (self : BLEManager) : WEAVE_ERROR × BLEManager × List Effect :=
  if ¬ (self.mServiceMode = WoBLEServiceMode.kWoBLEServiceMode_NotSupported) then
    (WEAVE_ERROR_UNSUPPORTED_WEAVE_FEATURE, self, [])
  else if (if val then (1 : Int) else 0) ≠ enumValue self.mServiceMode then
    (WEAVE_NO_ERROR,
      { self with mFlags := { self.mFlags with FastAdvertisingEnabled := val } },
      [Effect.ScheduleWork_DriveBLEState])
  else (WEAVE_NO_ERROR, self, [])

/-- The function `BLEManager::GetDeviceName(buf, bufSize)`: the result and
the string copied into `buf`, `none` when nothing is copied.  The member
`mDeviceName` holds the characters before the terminator, so its length is
`strlen(mDeviceName)`. -/
def GetDeviceName (bufSize : Nat) (self : BLEManager) : WEAVE_ERROR × Option (List Char) :=
  if self.mDeviceName.length ≥ bufSize then (WEAVE_ERROR_BUFFER_TOO_SMALL, none)
  else (WEAVE_NO_ERROR, some self.mDeviceName)

/-- The function `BLEManager::SetDeviceName`.  The argument is `none` for a
`NULL` pointer and otherwise the characters of the string before its
terminator; the function schedules nothing. -/
def SetDeviceName (env : BLEEnv) (deviceName : Option (List Char)) (self : BLEManager) :
    WEAVE_ERROR × BLEManager × List Effect :=
  if self.mServiceMode = WoBLEServiceMode.kWoBLEServiceMode_NotSupported then
    (WEAVE_ERROR_UNSUPPORTED_WEAVE_FEATURE, self, [])
  else
    match deviceName with
    | some (c :: cs) =>
      if (c :: cs).length ≥ env.kMaxDeviceNameLength then
        (WEAVE_ERROR_INVALID_ARGUMENT, self, [])
      else
        (WEAVE_NO_ERROR,
          { self with mDeviceName := c :: cs,
                      mFlags := { self.mFlags with UseCustomDeviceName := true } }, [])
    | _ =>
      (WEAVE_NO_ERROR,
        { self with mDeviceName := [],
                    mFlags := { self.mFlags with UseCustomDeviceName := false } }, [])

/-! ## Connectivity manager state -/

/-- Modelled from the spec: the enum `WiFiStationMode`, declared in
`ConnectivityManager.h`, which is not under src. -/
inductive WiFiStationMode where
  | kWiFiStationMode_NotSupported
  | kWiFiStationMode_ApplicationControlled
  | kWiFiStationMode_Enabled
  | kWiFiStationMode_Disabled
deriving DecidableEq, Repr

/-- The enum `WiFiStationState` (`ConnectivityManagerImpl.h`). -/
inductive WiFiStationState where
  | kWiFiStationState_NotConnected
  | kWiFiStationState_Connecting
  | kWiFiStationState_Connecting_Succeeded
  | kWiFiStationState_Connecting_Failed
  | kWiFiStationState_Connected
  | kWiFiStationState_Disconnecting
deriving DecidableEq, Repr

/-- Modelled from the spec: the enum `WiFiAPMode`, declared in
`ConnectivityManager.h`, which is not under src. -/
inductive WiFiAPMode where
  | kWiFiAPMode_NotSupported
  | kWiFiAPMode_ApplicationControlled
  | kWiFiAPMode_Disabled
  | kWiFiAPMode_Enabled
  | kWiFiAPMode_OnDemand
  | kWiFiAPMode_OnDemand_NoStationProvision
deriving DecidableEq, Repr

/-- The enum `WiFiAPState` (`ConnectivityManagerImpl.h`). -/
inductive WiFiAPState where
  | kWiFiAPState_NotActive
  | kWiFiAPState_Activating
  | kWiFiAPState_Active
  | kWiFiAPState_Deactivating
deriving DecidableEq, Repr

/-- Modelled from the spec: the enum `ServiceTunnelMode`, declared in
`ConnectivityManager.h`, which is not under src. -/
inductive ServiceTunnelMode where
  | kServiceTunnelMode_Enabled
  | kServiceTunnelMode_Disabled
deriving DecidableEq, Repr

/-- The bit set `ConnectivityManager::mFlags`: one boolean per `kFlag_...` bit
that `ConnectivityManager.cpp` uses.  `GetFlag` reads a field, `SetFlag` and
`ClearFlag` write it. -/
structure ConnectivityFlags where
  HaveIPv4InternetConnectivity : Bool
  HaveIPv6InternetConnectivity : Bool
  ServiceTunnelStarted : Bool
  HaveServiceConnectivity : Bool
deriving DecidableEq, Repr

/-- The data members of `ConnectivityManager`.  The two times are `uint64_t`
milliseconds, the interval and the timeout `uint32_t` milliseconds. -/
structure ConnectivityManager where
  mLastStationConnectFailTime : Nat
  mLastAPDemandTime : Nat
  mWiFiStationMode : WiFiStationMode
  mWiFiStationState : WiFiStationState
  mWiFiAPMode : WiFiAPMode
  mWiFiAPState : WiFiAPState
  mServiceTunnelMode : ServiceTunnelMode
  mWiFiStationReconnectIntervalMS : Nat
  mWiFiAPIdleTimeoutMS : Nat
  mFlags : ConnectivityFlags
deriving DecidableEq, Repr

/-- One IPv6 address slot of the station interface: the answers of
`ip6_addr_isglobal`, of `ip6_addr_isvalid` and of `nd6_select_router` when the
loop of `UpdateInternetConnectivityState` reaches the slot. -/
structure Ip6Slot where
  isglobal : Bool
  isvalid : Bool
  select_router : Int
deriving DecidableEq, Repr

/-- The LwIP interface of the WiFi station as the manager reads it. -/
structure Netif where
  is_up : Bool
  is_link_up : Bool
  ip4_addr_isany : Bool
  ip4_gw_isany : Bool
  ip6 : List Ip6Slot
deriving DecidableEq, Repr

/-- The answers of the ESP WiFi layer, of LwIP, of the clock and of the other
managers to the calls one entry point of the connectivity manager makes, one
field per call site. -/
structure WiFiDriver where
  now : Nat
  get_auto_connect : WEAVE_ERROR × Bool
  StartWiFiLayer : WEAVE_ERROR
  EnableStationMode : WEAVE_ERROR
  IsStationConnected : WEAVE_ERROR × Bool
  IsStationProvisioned : Bool
  ScanInProgress : Bool
  wifi_connect : WEAVE_ERROR
  wifi_disconnect : WEAVE_ERROR
  StartTimer : WEAVE_ERROR
  IsAPEnabled : WEAVE_ERROR × Bool
  SetAPMode_on : WEAVE_ERROR
  GetWiFiAPSSID : WEAVE_ERROR
  wifi_set_config_AP : WEAVE_ERROR
  SetAPMode_off : WEAVE_ERROR
  HasIPv6LinkLocalAddress_AP : Bool
  create_ip6_linklocal_AP : WEAVE_ERROR
  station_netif : Option Netif
  dns_server_isany : Bool
  IsMemberOfFabric : Bool
  IsServiceProvisioned : Bool
  ENABLE_FIXED_TUNNEL_SERVER : Bool
  StartServiceTunnel : WEAVE_ERROR
deriving DecidableEq, Repr

/-- Addition of `uint64_t` values. -/
def add64 (a b : Nat) : Nat := (a + b) % 2 ^ 64

/-- Subtraction of `uint64_t` values. -/
def sub64 (a b : Nat) : Nat := (a + 2 ^ 64 - b % 2 ^ 64) % 2 ^ 64

/-- The cast `(uint32_t)`. -/
def toUInt32 (a : Nat) : Nat := a % 2 ^ 32

/-! ## Connectivity manager: Internet connectivity and service tunnel -/

/-- The function `GetConnectivityChange`. -/
def GetConnectivityChange (prevState newState : Bool) : ConnectivityChange :=
  if prevState = newState then ConnectivityChange.kConnectivity_NoChange
  else if newState then ConnectivityChange.kConnectivity_Established
  else ConnectivityChange.kConnectivity_Lost

/-- The function `ConnectivityManager::DriveServiceTunnelState`. -/
def DriveServiceTunnelState (drv : WiFiDriver) (self : ConnectivityManager) :
    ConnectivityManager × List Effect :=
  let startServiceTunnel : Bool :=
    decide (self.mServiceTunnelMode = ServiceTunnelMode.kServiceTunnelMode_Enabled)
      && self.mFlags.HaveIPv4InternetConnectivity
      && drv.IsMemberOfFabric
      && (drv.ENABLE_FIXED_TUNNEL_SERVER || drv.IsServiceProvisioned)
  if startServiceTunnel ≠ self.mFlags.ServiceTunnelStarted then
    let s1 : ConnectivityManager :=
      { self with mFlags := { self.mFlags with ServiceTunnelStarted := startServiceTunnel } }
    if startServiceTunnel then
      if drv.StartServiceTunnel ≠ WEAVE_NO_ERROR then
        ({ s1 with mFlags := { s1.mFlags with ServiceTunnelStarted := false } },
          [Effect.StartServiceTunnel])
      else (s1, [Effect.StartServiceTunnel])
    else (s1, [Effect.StopServiceTunnel])
  else (self, [])

/-- The `for` loop of `UpdateInternetConnectivityState` over the IPv6 address
slots of the interface, with the value of `ipv6ConnState` so far. -/
def ipv6Loop : List Ip6Slot → Bool → Bool
  | [], ipv6ConnState => ipv6ConnState
  | a :: rest, ipv6ConnState =>
    if a.isglobal && a.isvalid then
      if a.select_router ≥ 0 then ipv6Loop rest true else ipv6Loop rest ipv6ConnState
    else ipv6Loop rest ipv6ConnState

/-- The pair `(ipv4ConnState, ipv6ConnState)` that
`UpdateInternetConnectivityState` computes before it compares. -/
def computeConnState (drv : WiFiDriver) (self : ConnectivityManager) : Bool × Bool :=
  if self.mWiFiStationState = WiFiStationState.kWiFiStationState_Connected then
    match drv.station_netif with
    | none => (false, false)
    | some netif =>
      if netif.is_up && netif.is_link_up then
        if !drv.dns_server_isany then
          (!netif.ip4_addr_isany && !netif.ip4_gw_isany, ipv6Loop netif.ip6 false)
        else (false, false)
      else (false, false)
  else (false, false)

/-- The function `ConnectivityManager::UpdateInternetConnectivityState`. -/
def UpdateInternetConnectivityState (drv : WiFiDriver) (self : ConnectivityManager) :
    ConnectivityManager × List Effect :=
  let ipv4ConnState := (computeConnState drv self).1
  let ipv6ConnState := (computeConnState drv self).2
  let prevIPv4ConnState := self.mFlags.HaveIPv4InternetConnectivity
  let prevIPv6ConnState := self.mFlags.HaveIPv6InternetConnectivity
  if ipv4ConnState ≠ prevIPv4ConnState ∨ ipv6ConnState ≠ prevIPv6ConnState then
    let s1 : ConnectivityManager :=
      { self with mFlags := { self.mFlags with
          HaveIPv4InternetConnectivity := ipv4ConnState,
          HaveIPv6InternetConnectivity := ipv6ConnState } }
    let r := DriveServiceTunnelState drv s1
    (r.1,
      [Effect.PostEvent (WeaveDeviceEvent.InternetConnectivityChange
          (GetConnectivityChange prevIPv4ConnState ipv4ConnState)
          (GetConnectivityChange prevIPv6ConnState ipv6ConnState))] ++ r.2)
  else (self, [])

/-! ## Connectivity manager: WiFi station -/

/-- The function `ConnectivityManager::GetWiFiStationMode`: the manager with
the refreshed `mWiFiStationMode`, which is also the value returned. -/
def GetWiFiStationMode (drv : WiFiDriver) (self : ConnectivityManager) : ConnectivityManager :=
  if self.mWiFiStationMode ≠ WiFiStationMode.kWiFiStationMode_ApplicationControlled then
    { self with
      mWiFiStationMode :=
        if drv.get_auto_connect.1 = WEAVE_NO_ERROR ∧ drv.get_auto_connect.2 = true then
          WiFiStationMode.kWiFiStationMode_Enabled
        else WiFiStationMode.kWiFiStationMode_Disabled }
  else self

/-- The function `ConnectivityManager::SetWiFiStationMode`; `set_auto_connect`
is the answer of `esp_wifi_set_auto_connect`. -/
def SetWiFiStationMode (set_auto_connect : WEAVE_ERROR) (val : WiFiStationMode)
    (self : ConnectivityManager) : WEAVE_ERROR × ConnectivityManager × List Effect :=
  if ¬ (val ≠ WiFiStationMode.kWiFiStationMode_NotSupported) then
    (WEAVE_ERROR_INVALID_ARGUMENT, self, [])
  else if val ≠ WiFiStationMode.kWiFiStationMode_ApplicationControlled then
    let autoConnect : Bool := decide (val = WiFiStationMode.kWiFiStationMode_Enabled)
    if set_auto_connect ≠ WEAVE_NO_ERROR then
      (set_auto_connect, self, [Effect.esp_wifi_set_auto_connect autoConnect])
    else
      (WEAVE_NO_ERROR, { self with mWiFiStationMode := val },
        [Effect.esp_wifi_set_auto_connect autoConnect, Effect.ScheduleWork_DriveStationState])
  else (WEAVE_NO_ERROR, { self with mWiFiStationMode := val }, [])

/-- The function `ConnectivityManager::ChangeWiFiStationState`. -/
def ChangeWiFiStationState (newState : WiFiStationState) (self : ConnectivityManager) :
    ConnectivityManager :=
  if self.mWiFiStationState ≠ newState then { self with mWiFiStationState := newState }
  else self

/-- The function `ConnectivityManager::OnStationConnected`. -/
def OnStationConnected (drv : WiFiDriver) (self : ConnectivityManager) :
    ConnectivityManager × List Effect :=
  let r := UpdateInternetConnectivityState drv self
  (r.1,
    [Effect.tcpip_adapter_create_ip6_linklocal_STA, Effect.Warm_WiFiInterfaceStateChange true,
     Effect.PostEvent
       (WeaveDeviceEvent.WiFiConnectivityChange ConnectivityChange.kConnectivity_Established)]
    ++ r.2)

/-- The function `ConnectivityManager::OnStationDisconnected`. -/
def OnStationDisconnected (drv : WiFiDriver) (self : ConnectivityManager) :
    ConnectivityManager × List Effect :=
  let r := UpdateInternetConnectivityState drv self
  (r.1,
    [Effect.Warm_WiFiInterfaceStateChange false,
     Effect.PostEvent
       (WeaveDeviceEvent.WiFiConnectivityChange ConnectivityChange.kConnectivity_Lost)]
    ++ r.2)

/-- The `exit:` block of `DriveStationState`. -/
def DriveStationState_exit (self : ConnectivityManager) (eff : List Effect) :
    ConnectivityManager × List Effect :=
  (self, eff ++ [Effect.StartPendingScan])

/-- The branch of `DriveStationState` for a station that is connected to an AP. -/
def DriveStationState_connected (drv : WiFiDriver) (self : ConnectivityManager)
    (eff : List Effect) : ConnectivityManager × List Effect :=
  let r : ConnectivityManager × List Effect :=
    if self.mWiFiStationState = WiFiStationState.kWiFiStationState_NotConnected
        ∨ self.mWiFiStationState = WiFiStationState.kWiFiStationState_Connecting_Succeeded then
      OnStationConnected drv
        { ChangeWiFiStationState WiFiStationState.kWiFiStationState_Connected self with
          mLastStationConnectFailTime := 0 }
    else (self, [])
  let s := r.1
  let e := eff ++ r.2
  if s.mWiFiStationMode ≠ WiFiStationMode.kWiFiStationMode_ApplicationControlled
      ∧ (s.mWiFiStationMode ≠ WiFiStationMode.kWiFiStationMode_Enabled
          ∨ drv.IsStationProvisioned = false) then
    if drv.wifi_disconnect ≠ WEAVE_NO_ERROR then
      DriveStationState_exit s (e ++ [Effect.esp_wifi_disconnect])
    else
      DriveStationState_exit
        (ChangeWiFiStationState WiFiStationState.kWiFiStationState_Disconnecting s)
        (e ++ [Effect.esp_wifi_disconnect])
  else DriveStationState_exit s e

/-- The branch of `DriveStationState` for a station that is not connected. -/
def DriveStationState_notConnected (drv : WiFiDriver) (self : ConnectivityManager)
    (eff : List Effect) : ConnectivityManager × List Effect :=
  let now := drv.now
  let r : ConnectivityManager × List Effect :=
    if self.mWiFiStationState = WiFiStationState.kWiFiStationState_Connected
        ∨ self.mWiFiStationState = WiFiStationState.kWiFiStationState_Disconnecting
        ∨ self.mWiFiStationState = WiFiStationState.kWiFiStationState_Connecting_Failed then
      let prevState := self.mWiFiStationState
      let s := ChangeWiFiStationState WiFiStationState.kWiFiStationState_NotConnected self
      if prevState ≠ WiFiStationState.kWiFiStationState_Connecting_Failed then
        OnStationDisconnected drv { s with mLastStationConnectFailTime := 0 }
      else ({ s with mLastStationConnectFailTime := now }, [])
    else (self, [])
  let s := r.1
  let e := eff ++ r.2
  if s.mWiFiStationMode = WiFiStationMode.kWiFiStationMode_Enabled
      ∧ drv.IsStationProvisioned = true ∧ drv.ScanInProgress = false then
    if s.mLastStationConnectFailTime = 0
        ∨ now ≥ add64 s.mLastStationConnectFailTime s.mWiFiStationReconnectIntervalMS then
      if drv.wifi_connect ≠ WEAVE_NO_ERROR then
        DriveStationState_exit s (e ++ [Effect.esp_wifi_connect])
      else
        DriveStationState_exit
          (ChangeWiFiStationState WiFiStationState.kWiFiStationState_Connecting s)
          (e ++ [Effect.esp_wifi_connect])
    else
      let timeToNextConnect :=
        toUInt32 (sub64 (add64 s.mLastStationConnectFailTime s.mWiFiStationReconnectIntervalMS) now)
      DriveStationState_exit s (e ++ [Effect.StartTimer_DriveStationState timeToNextConnect])
  else DriveStationState_exit s e

/-- The first block of the connected branch of `DriveStationState`, under
"Advance the station state to Connected": the part of
`DriveStationState_connected` before the test for a disconnect. -/
def DriveStationState_connected_advance (drv : WiFiDriver) (self : ConnectivityManager) :
    ConnectivityManager × List Effect :=
  if self.mWiFiStationState = WiFiStationState.kWiFiStationState_NotConnected
      ∨ self.mWiFiStationState = WiFiStationState.kWiFiStationState_Connecting_Succeeded then
    OnStationConnected drv
      { ChangeWiFiStationState WiFiStationState.kWiFiStationState_Connected self with
        mLastStationConnectFailTime := 0 }
  else (self, [])

/-- The second block of the connected branch of `DriveStationState`: the
disconnect when the station is not wanted, applied to the result `r` of the
first block. -/
def DriveStationState_connected_finish (drv : WiFiDriver)
    (r : ConnectivityManager × List Effect) (eff : List Effect) :
    ConnectivityManager × List Effect :=
  let s := r.1
  let e := eff ++ r.2
  if s.mWiFiStationMode ≠ WiFiStationMode.kWiFiStationMode_ApplicationControlled
      ∧ (s.mWiFiStationMode ≠ WiFiStationMode.kWiFiStationMode_Enabled
          ∨ drv.IsStationProvisioned = false) then
    if drv.wifi_disconnect ≠ WEAVE_NO_ERROR then
      DriveStationState_exit s (e ++ [Effect.esp_wifi_disconnect])
    else
      DriveStationState_exit
        (ChangeWiFiStationState WiFiStationState.kWiFiStationState_Disconnecting s)
        (e ++ [Effect.esp_wifi_disconnect])
  else DriveStationState_exit s e

/-- The first block of the not-connected branch of `DriveStationState`, under
"Advance the station state to NotConnected". -/
def DriveStationState_notConnected_advance (drv : WiFiDriver) (self : ConnectivityManager) :
    ConnectivityManager × List Effect :=
  if self.mWiFiStationState = WiFiStationState.kWiFiStationState_Connected
      ∨ self.mWiFiStationState = WiFiStationState.kWiFiStationState_Disconnecting
      ∨ self.mWiFiStationState = WiFiStationState.kWiFiStationState_Connecting_Failed then
    let prevState := self.mWiFiStationState
    let s := ChangeWiFiStationState WiFiStationState.kWiFiStationState_NotConnected self
    if prevState ≠ WiFiStationState.kWiFiStationState_Connecting_Failed then
      OnStationDisconnected drv { s with mLastStationConnectFailTime := 0 }
    else ({ s with mLastStationConnectFailTime := drv.now }, [])
  else (self, [])

/-- The second block of the not-connected branch of `DriveStationState`: the
connect attempt or the reconnect timer, applied to the result `r` of the first
block. -/
def DriveStationState_notConnected_finish (drv : WiFiDriver)
    (r : ConnectivityManager × List Effect) (eff : List Effect) :
    ConnectivityManager × List Effect :=
  let now := drv.now
  let s := r.1
  let e := eff ++ r.2
  if s.mWiFiStationMode = WiFiStationMode.kWiFiStationMode_Enabled
      ∧ drv.IsStationProvisioned = true ∧ drv.ScanInProgress = false then
    if s.mLastStationConnectFailTime = 0
        ∨ now ≥ add64 s.mLastStationConnectFailTime s.mWiFiStationReconnectIntervalMS then
      if drv.wifi_connect ≠ WEAVE_NO_ERROR then
        DriveStationState_exit s (e ++ [Effect.esp_wifi_connect])
      else
        DriveStationState_exit
          (ChangeWiFiStationState WiFiStationState.kWiFiStationState_Connecting s)
          (e ++ [Effect.esp_wifi_connect])
    else
      let timeToNextConnect :=
        toUInt32 (sub64 (add64 s.mLastStationConnectFailTime s.mWiFiStationReconnectIntervalMS) now)
      DriveStationState_exit s (e ++ [Effect.StartTimer_DriveStationState timeToNextConnect])
  else DriveStationState_exit s e

/-- The function `ConnectivityManager::DriveStationState(void)`. -/
def DriveStationState (drv : WiFiDriver) (self : ConnectivityManager) :
    ConnectivityManager × List Effect :=
  let s0 := GetWiFiStationMode drv self
  let r1 : WEAVE_ERROR × List Effect :=
    if s0.mWiFiStationMode ≠ WiFiStationMode.kWiFiStationMode_ApplicationControlled then
      if drv.StartWiFiLayer ≠ WEAVE_NO_ERROR then
        (drv.StartWiFiLayer, [Effect.ESPUtils_StartWiFiLayer])
      else
        (drv.EnableStationMode, [Effect.ESPUtils_StartWiFiLayer, Effect.ESPUtils_EnableStationMode])
    else (WEAVE_NO_ERROR, [])
  if r1.1 ≠ WEAVE_NO_ERROR then DriveStationState_exit s0 r1.2
  else if drv.IsStationConnected.1 ≠ WEAVE_NO_ERROR then DriveStationState_exit s0 r1.2
  else if drv.IsStationConnected.2 then DriveStationState_connected drv s0 r1.2
  else DriveStationState_notConnected drv s0 r1.2

/-! ## Connectivity manager: WiFi access point -/

/-- The function `ConnectivityManager::ChangeWiFiAPState`. -/
def ChangeWiFiAPState (newState : WiFiAPState) (self : ConnectivityManager) :
    ConnectivityManager :=
  if self.mWiFiAPState ≠ newState then { self with mWiFiAPState := newState } else self

/-- The function `ConnectivityManager::SetWiFiAPMode`. -/
def SetWiFiAPMode (val : WiFiAPMode) (self : ConnectivityManager) :
    WEAVE_ERROR × ConnectivityManager × List Effect :=
  if val = WiFiAPMode.kWiFiAPMode_NotSupported then (WEAVE_ERROR_INVALID_ARGUMENT, self, [])
  else (WEAVE_NO_ERROR, { self with mWiFiAPMode := val }, [Effect.ScheduleWork_DriveAPState])

/-- The function `ConnectivityManager::ConfigureWiFiAP`. -/
def ConfigureWiFiAP (drv : WiFiDriver) : WEAVE_ERROR × List Effect :=
  if drv.GetWiFiAPSSID ≠ WEAVE_NO_ERROR then (drv.GetWiFiAPSSID, [])
  else (drv.wifi_set_config_AP, [Effect.esp_wifi_set_config_AP])

/-- The `exit:` block of `DriveAPState`. -/
def DriveAPState_exit (err : WEAVE_ERROR) (self : ConnectivityManager) (eff : List Effect) :
    ConnectivityManager × List Effect :=
  if err ≠ WEAVE_NO_ERROR
      ∧ self.mWiFiAPMode ≠ WiFiAPMode.kWiFiAPMode_ApplicationControlled then
    let r := SetWiFiAPMode WiFiAPMode.kWiFiAPMode_Disabled self
    (r.2.1, eff ++ r.2.2 ++ [Effect.ESPUtils_SetAPMode false])
  else (self, eff)

/-- The end of `DriveAPState`: assign an IPv6 link-local address to the AP
interface if it has none, then the `exit:` block. -/
def DriveAPState_linkLocal (drv : WiFiDriver) (espAPModeEnabled : Bool)
    (self : ConnectivityManager) (eff : List Effect) : ConnectivityManager × List Effect :=
  if espAPModeEnabled = true ∧ drv.HasIPv6LinkLocalAddress_AP = false then
    DriveAPState_exit drv.create_ip6_linklocal_AP self
      (eff ++ [Effect.tcpip_adapter_create_ip6_linklocal_AP])
  else DriveAPState_exit WEAVE_NO_ERROR self eff

/-- The part of `DriveAPState` that determines `targetState`: the error, the
target state (meaningful when the error is 0), the manager and the effects. -/
def DriveAPState_target (drv : WiFiDriver) (self : ConnectivityManager) :
    WEAVE_ERROR × WiFiAPState × ConnectivityManager × List Effect :=
  if self.mWiFiAPMode = WiFiAPMode.kWiFiAPMode_Disabled then
    (WEAVE_NO_ERROR, WiFiAPState.kWiFiAPState_NotActive, self, [])
  else if self.mWiFiAPMode = WiFiAPMode.kWiFiAPMode_Enabled then
    (WEAVE_NO_ERROR, WiFiAPState.kWiFiAPState_Active, self, [])
  else
    let noStation : Bool × ConnectivityManager :=
      if self.mWiFiAPMode = WiFiAPMode.kWiFiAPMode_OnDemand_NoStationProvision then
        if drv.IsStationProvisioned = false then (true, self)
        else
          let s := GetWiFiStationMode drv self
          (decide (s.mWiFiStationMode = WiFiStationMode.kWiFiStationMode_Disabled), s)
      else (false, self)
    let s := noStation.2
    if noStation.1 then (WEAVE_NO_ERROR, WiFiAPState.kWiFiAPState_Active, s, [])
    else if s.mWiFiAPMode = WiFiAPMode.kWiFiAPMode_OnDemand
        ∨ s.mWiFiAPMode = WiFiAPMode.kWiFiAPMode_OnDemand_NoStationProvision then
      let now := drv.now
      if s.mLastAPDemandTime ≠ 0 ∧ now < add64 s.mLastAPDemandTime s.mWiFiAPIdleTimeoutMS then
        let apTimeout := toUInt32 (sub64 (add64 s.mLastAPDemandTime s.mWiFiAPIdleTimeoutMS) now)
        (drv.StartTimer, WiFiAPState.kWiFiAPState_Active, s,
          [Effect.StartTimer_DriveAPState apTimeout])
      else (WEAVE_NO_ERROR, WiFiAPState.kWiFiAPState_NotActive, s, [])
    else (WEAVE_NO_ERROR, WiFiAPState.kWiFiAPState_NotActive, s, [])

/-- The part of `DriveAPState` that moves the AP state towards `targetState`
(the block under "If the current AP state does not match the target state"),
followed by the end of the function. -/
def DriveAPState_transition (drv : WiFiDriver) (espAPModeEnabled : Bool)
    (targetState : WiFiAPState) (self : ConnectivityManager) (eff : List Effect) :
    ConnectivityManager × List Effect :=
  if self.mWiFiAPState ≠ targetState then
    if targetState = WiFiAPState.kWiFiAPState_Active then
      if self.mWiFiAPState ≠ WiFiAPState.kWiFiAPState_Activating then
        let e3 := eff ++ [Effect.ESPUtils_SetAPMode true]
        if drv.SetAPMode_on ≠ WEAVE_NO_ERROR then DriveAPState_exit drv.SetAPMode_on self e3
        else
          let c := ConfigureWiFiAP drv
          if c.1 ≠ WEAVE_NO_ERROR then DriveAPState_exit c.1 self (e3 ++ c.2)
          else
            DriveAPState_linkLocal drv espAPModeEnabled
              (ChangeWiFiAPState WiFiAPState.kWiFiAPState_Activating self) (e3 ++ c.2)
      else DriveAPState_linkLocal drv espAPModeEnabled self eff
    else
      if self.mWiFiAPState ≠ WiFiAPState.kWiFiAPState_Deactivating then
        let e3 := eff ++ [Effect.ESPUtils_SetAPMode false]
        if drv.SetAPMode_off ≠ WEAVE_NO_ERROR then DriveAPState_exit drv.SetAPMode_off self e3
        else
          DriveAPState_linkLocal drv false
            (ChangeWiFiAPState WiFiAPState.kWiFiAPState_Deactivating self) e3
      else DriveAPState_linkLocal drv espAPModeEnabled self eff
  else DriveAPState_linkLocal drv espAPModeEnabled self eff

/-- The function `ConnectivityManager::DriveAPState(void)`. -/
def DriveAPState (drv : WiFiDriver) (self : ConnectivityManager) :
    ConnectivityManager × List Effect :=
  if drv.IsAPEnabled.1 ≠ WEAVE_NO_ERROR then DriveAPState_exit drv.IsAPEnabled.1 self []
  else
    let espAPModeEnabled := drv.IsAPEnabled.2
    let s1 : ConnectivityManager :=
      { self with
        mWiFiAPState :=
          if espAPModeEnabled then WiFiAPState.kWiFiAPState_Active
          else WiFiAPState.kWiFiAPState_NotActive }
    if s1.mWiFiAPMode ≠ WiFiAPMode.kWiFiAPMode_ApplicationControlled then
      let e1 := [Effect.ESPUtils_StartWiFiLayer]
      if drv.StartWiFiLayer ≠ WEAVE_NO_ERROR then DriveAPState_exit drv.StartWiFiLayer s1 e1
      else
        let t := DriveAPState_target drv s1
        if t.1 ≠ WEAVE_NO_ERROR then DriveAPState_exit t.1 t.2.2.1 (e1 ++ t.2.2.2)
        else DriveAPState_transition drv espAPModeEnabled t.2.1 t.2.2.1 (e1 ++ t.2.2.2)
    else DriveAPState_linkLocal drv espAPModeEnabled s1 []

/-- The function `ConnectivityManager::DemandStartWiFiAP`; `drv.now` is the
reading of `GetClock_MonotonicMS`. -/
def DemandStartWiFiAP (drv : WiFiDriver) (self : ConnectivityManager) :
    ConnectivityManager × List Effect :=
  if self.mWiFiAPMode = WiFiAPMode.kWiFiAPMode_OnDemand
      ∨ self.mWiFiAPMode = WiFiAPMode.kWiFiAPMode_OnDemand_NoStationProvision then
    ({ self with mLastAPDemandTime := drv.now }, [Effect.ScheduleWork_DriveAPState])
  else (self, [])

/-- The function `ConnectivityManager::StopOnDemandWiFiAP`. -/
def StopOnDemandWiFiAP (self : ConnectivityManager) : ConnectivityManager × List Effect :=
  if self.mWiFiAPMode = WiFiAPMode.kWiFiAPMode_OnDemand
      ∨ self.mWiFiAPMode = WiFiAPMode.kWiFiAPMode_OnDemand_NoStationProvision then
    ({ self with mLastAPDemandTime := 0 }, [Effect.ScheduleWork_DriveAPState])
  else (self, [])

/-- The function `ConnectivityManager::SetWiFiAPIdleTimeoutMS`. -/
def SetWiFiAPIdleTimeoutMS (val : Nat) (self : ConnectivityManager) :
    ConnectivityManager × List Effect :=
  ({ self with mWiFiAPIdleTimeoutMS := val % 2 ^ 32 }, [Effect.ScheduleWork_DriveAPState])

/-- The function `ConnectivityManager::MaintainOnDemandWiFiAP`. -/
def MaintainOnDemandWiFiAP (drv : WiFiDriver) (self : ConnectivityManager) :
    ConnectivityManager :=
  if self.mWiFiAPMode = WiFiAPMode.kWiFiAPMode_OnDemand
      ∨ self.mWiFiAPMode = WiFiAPMode.kWiFiAPMode_OnDemand_NoStationProvision then
    if self.mWiFiAPState = WiFiAPState.kWiFiAPState_Activating
        ∨ self.mWiFiAPState = WiFiAPState.kWiFiAPState_Active then
      { self with mLastAPDemandTime := drv.now }
    else self
  else self

/-! ## Connectivity manager: initialisation -/

/-- The compile-time configuration that `ConnectivityManager::Init` reads and
the answers to the calls it makes, one field per call site. -/
structure InitAnswers where
  WIFI_STATION_RECONNECT_INTERVAL : Nat
  WIFI_AP_IDLE_TIMEOUT : Nat
  DEFAULT_WIFI_SSID_empty : Bool
  Warm_Init : WEAVE_ERROR
  InitServiceTunnelAgent : WEAVE_ERROR
  EnableStationMode : WEAVE_ERROR
  IsStationProvisioned : Bool
  set_auto_connect : WEAVE_ERROR
  SetAPMode_off : WEAVE_ERROR
  ScheduleWork_station : WEAVE_ERROR
  ScheduleWork_AP : WEAVE_ERROR
deriving DecidableEq, Repr

/-- The assignments to the data members at the start of
`ConnectivityManager::Init`. -/
def ConnectivityManager.Init_members (a : InitAnswers) : ConnectivityManager :=
  { mLastStationConnectFailTime := 0, mLastAPDemandTime := 0,
    mWiFiStationMode := WiFiStationMode.kWiFiStationMode_Disabled,
    mWiFiStationState := WiFiStationState.kWiFiStationState_NotConnected,
    mWiFiAPMode := WiFiAPMode.kWiFiAPMode_Disabled,
    mWiFiAPState := WiFiAPState.kWiFiAPState_NotActive,
    mServiceTunnelMode := ServiceTunnelMode.kServiceTunnelMode_Enabled,
    mWiFiStationReconnectIntervalMS := a.WIFI_STATION_RECONNECT_INTERVAL,
    mWiFiAPIdleTimeoutMS := a.WIFI_AP_IDLE_TIMEOUT,
    mFlags := { HaveIPv4InternetConnectivity := false, HaveIPv6InternetConnectivity := false,
                ServiceTunnelStarted := false, HaveServiceConnectivity := false } }

/-- The end of `ConnectivityManager::Init`, from "Force AP mode off for now". -/
def ConnectivityManager.Init_finish (a : InitAnswers) (self : ConnectivityManager) (eff : List Effect) :
    WEAVE_ERROR × ConnectivityManager × List Effect :=
  let e1 := eff ++ [Effect.ESPUtils_SetAPMode false]
  if a.SetAPMode_off ≠ WEAVE_NO_ERROR then (a.SetAPMode_off, self, e1)
  else
    let e2 := e1 ++ [Effect.ScheduleWork_DriveStationState]
    if a.ScheduleWork_station ≠ WEAVE_NO_ERROR then (a.ScheduleWork_station, self, e2)
    else (a.ScheduleWork_AP, self, e2 ++ [Effect.ScheduleWork_DriveAPState])

/-- The function `ConnectivityManager::Init`. -/
def ConnectivityManager.Init (a : InitAnswers) : WEAVE_ERROR × ConnectivityManager × List Effect :=
  let s := ConnectivityManager.Init_members a
  if a.Warm_Init ≠ WEAVE_NO_ERROR then (a.Warm_Init, s, [Effect.Warm_Init])
  else if a.InitServiceTunnelAgent ≠ WEAVE_NO_ERROR then
    (a.InitServiceTunnelAgent, s, [Effect.Warm_Init, Effect.InitServiceTunnelAgent])
  else
    let e2 := [Effect.Warm_Init, Effect.InitServiceTunnelAgent, Effect.ESPUtils_EnableStationMode]
    if a.EnableStationMode ≠ WEAVE_NO_ERROR then (a.EnableStationMode, s, e2)
    else if a.IsStationProvisioned = false then
      if a.DEFAULT_WIFI_SSID_empty = false then
        let r := SetWiFiStationMode a.set_auto_connect WiFiStationMode.kWiFiStationMode_Enabled s
        if r.1 ≠ WEAVE_NO_ERROR then (r.1, r.2.1, e2 ++ [Effect.esp_wifi_set_config_STA] ++ r.2.2)
        else ConnectivityManager.Init_finish a r.2.1 (e2 ++ [Effect.esp_wifi_set_config_STA] ++ r.2.2)
      else
        let r := SetWiFiStationMode a.set_auto_connect WiFiStationMode.kWiFiStationMode_Disabled s
        if r.1 ≠ WEAVE_NO_ERROR then (r.1, r.2.1, e2 ++ r.2.2)
        else ConnectivityManager.Init_finish a r.2.1 (e2 ++ r.2.2)
    else ConnectivityManager.Init_finish a s e2

/-! ## Connectivity manager: platform events -/

/-- The ESP system events `OnPlatformEvent` distinguishes and the two Weave
device events it reacts to; `other` stands for every event it ignores. -/
inductive PlatformEvent where
  | SYSTEM_EVENT_STA_START
  | SYSTEM_EVENT_STA_CONNECTED
  | SYSTEM_EVENT_STA_DISCONNECTED
  | SYSTEM_EVENT_STA_STOP
  | SYSTEM_EVENT_STA_GOT_IP
  | SYSTEM_EVENT_STA_LOST_IP
  | SYSTEM_EVENT_GOT_IP6
  | SYSTEM_EVENT_AP_START
  | SYSTEM_EVENT_AP_STOP
  | SYSTEM_EVENT_AP_STACONNECTED
  | kEventType_FabricMembershipChange
  | kEventType_ServiceProvisioningChange
  | other
deriving DecidableEq, Repr

/-- The functions `OnStationIPv4AddressAvailable`, `OnStationIPv4AddressLost`
and `OnIPv6AddressAvailable`, which differ in what they log only. -/
def OnAddressChange (drv : WiFiDriver) (self : ConnectivityManager) :
    ConnectivityManager × List Effect :=
  let r := UpdateInternetConnectivityState drv self
  (r.1, [Effect.RefreshEndpoints] ++ r.2)

/-- The function `ConnectivityManager::OnPlatformEvent`. -/
def OnPlatformEvent (drv : WiFiDriver) (event : PlatformEvent) (self : ConnectivityManager) :
    ConnectivityManager × List Effect :=
  match event with
  | PlatformEvent.SYSTEM_EVENT_STA_START => DriveStationState drv self
  | PlatformEvent.SYSTEM_EVENT_STA_CONNECTED =>
    DriveStationState drv
      (if self.mWiFiStationState = WiFiStationState.kWiFiStationState_Connecting then
        ChangeWiFiStationState WiFiStationState.kWiFiStationState_Connecting_Succeeded self
       else self)
  | PlatformEvent.SYSTEM_EVENT_STA_DISCONNECTED =>
    DriveStationState drv
      (if self.mWiFiStationState = WiFiStationState.kWiFiStationState_Connecting then
        ChangeWiFiStationState WiFiStationState.kWiFiStationState_Connecting_Failed self
       else self)
  | PlatformEvent.SYSTEM_EVENT_STA_STOP => DriveStationState drv self
  | PlatformEvent.SYSTEM_EVENT_STA_GOT_IP => OnAddressChange drv self
  | PlatformEvent.SYSTEM_EVENT_STA_LOST_IP => OnAddressChange drv self
  | PlatformEvent.SYSTEM_EVENT_GOT_IP6 => OnAddressChange drv self
  | PlatformEvent.SYSTEM_EVENT_AP_START =>
    DriveAPState drv (ChangeWiFiAPState WiFiAPState.kWiFiAPState_Active self)
  | PlatformEvent.SYSTEM_EVENT_AP_STOP =>
    DriveAPState drv (ChangeWiFiAPState WiFiAPState.kWiFiAPState_NotActive self)
  | PlatformEvent.SYSTEM_EVENT_AP_STACONNECTED => (MaintainOnDemandWiFiAP drv self, [])
  | PlatformEvent.kEventType_FabricMembershipChange => DriveServiceTunnelState drv self
  | PlatformEvent.kEventType_ServiceProvisioningChange => DriveServiceTunnelState drv self
  | PlatformEvent.other => (self, [])

/-! ## Service provisioning server -/

/-- Modelled from the spec: the profile id `kWeaveProfile_Common`, declared in
the Weave profile headers, which are not under src. -/
def kWeaveProfile_Common : Nat := 0

/-- Modelled from the spec: the profile id
`kWeaveProfile_ServiceProvisioning`, declared in the Weave profile headers,
which are not under src. -/
def kWeaveProfile_ServiceProvisioning : Nat := 15

/-- Modelled from the spec: the status code
`Profiles::Common::kStatus_InternalServerProblem`, declared in the Weave
profile headers, which are not under src. -/
def kStatus_InternalServerProblem : Nat := 80

/-- Modelled from the spec: the status code
`Profiles::ServiceProvisioning::kStatusCode_ServiceCommuncationError`
("service communication error"), declared in the Weave profile headers, which
are not under src. -/
def kStatusCode_ServiceCommuncationError : Nat := 8

/-- The data members of `ServiceProvisioningServer` that the pairing flow
uses; `none` stands for `NULL`.  Modelled from the spec: `mCurClientOp`, the
pending client request, is a member of the server base class, whose header is
not under src. -/
structure ServiceProvisioningServer where
  mProvServiceBinding : Option Nat
  mAwaitingServiceConnectivity : Bool
  mCurClientOp : Option Nat
deriving DecidableEq, Repr

/-- What the pairing flow of the service provisioning server does to the rest
of the system, in program order. -/
inductive SPEffect where
  | StartTimer_HandleConnectivityTimeout (ms : Nat)
  | NewBinding
  | PrepareBinding (binding : Nat)
  | Binding_Close (binding : Nat)
  | StoreAccountId
  | PostEvent_AccountPairingChange (IsPairedToAccount : Bool)
  | SendSuccessResponse
  | ClearServiceProvisioningData
  | SendStatusReport (profileId statusCode : Nat) (sysError : WEAVE_ERROR)
deriving DecidableEq, Repr

/-- The answers to the calls the pairing flow makes, one field per call site,
and the configured connectivity timeout. -/
structure SPAnswers where
  SERVICE_PROVISIONING_CONNECTIVITY_TIMEOUT : Nat
  HaveServiceConnectivity : Bool
  StartTimer : WEAVE_ERROR
  NewBinding : Option Nat
  PrepareBinding : WEAVE_ERROR
  StoreAccountId : WEAVE_ERROR
  SendSuccessResponse : WEAVE_ERROR
deriving DecidableEq, Repr

/-- The function `ServiceProvisioningServer::HandlePairDeviceToAccountResult`. -/
def HandlePairDeviceToAccountResult (a : SPAnswers) (err : WEAVE_ERROR)
    (statusReportProfileId statusReportStatusCode : Nat) (self : ServiceProvisioningServer) :
    ServiceProvisioningServer × List SPEffect :=
  let e0 : List SPEffect :=
    match self.mProvServiceBinding with
    | some b => [SPEffect.Binding_Close b]
    | none => []
  let s1 : ServiceProvisioningServer := { self with mProvServiceBinding := none }
  if self.mCurClientOp = none then (s1, e0)
  else
    let r : WEAVE_ERROR × List SPEffect :=
      if err = WEAVE_NO_ERROR then
        if a.StoreAccountId ≠ WEAVE_NO_ERROR then (a.StoreAccountId, [SPEffect.StoreAccountId])
        else
          (a.SendSuccessResponse,
            [SPEffect.StoreAccountId, SPEffect.PostEvent_AccountPairingChange true,
             SPEffect.SendSuccessResponse])
      else (err, [])
    if r.1 ≠ WEAVE_NO_ERROR then
      let report : Nat × Nat :=
        if statusReportProfileId = 0 ∧ statusReportStatusCode = 0 then
          if r.1 = WEAVE_ERROR_TIMEOUT then
            (kWeaveProfile_ServiceProvisioning, kStatusCode_ServiceCommuncationError)
          else (kWeaveProfile_Common, kStatus_InternalServerProblem)
        else (statusReportProfileId, statusReportStatusCode)
      (s1, e0 ++ r.2 ++
        [SPEffect.ClearServiceProvisioningData,
         SPEffect.SendStatusReport report.1 report.2
           (if r.1 ≠ WEAVE_ERROR_STATUS_REPORT_RECEIVED then r.1 else WEAVE_NO_ERROR)])
    else (s1, e0 ++ r.2)

/-- The function `ServiceProvisioningServer::HandleConnectivityTimeout`, the
handler of the service-connectivity timer. -/
def HandleConnectivityTimeout (a : SPAnswers) (self : ServiceProvisioningServer) :
    ServiceProvisioningServer × List SPEffect :=
  HandlePairDeviceToAccountResult a WEAVE_ERROR_TIMEOUT 0 0 self

/-- The `exit:` block of `StartPairDeviceToAccount`. -/
def StartPairDeviceToAccount_exit (a : SPAnswers) (err : WEAVE_ERROR)
    (self : ServiceProvisioningServer) (eff : List SPEffect) :
    ServiceProvisioningServer × List SPEffect :=
  if err ≠ WEAVE_NO_ERROR then
    let r := HandlePairDeviceToAccountResult a err kWeaveProfile_Common
      kStatus_InternalServerProblem self
    (r.1, eff ++ r.2)
  else (self, eff)

/-- The function `ServiceProvisioningServer::StartPairDeviceToAccount`. -/
def StartPairDeviceToAccount (a : SPAnswers) (self : ServiceProvisioningServer) :
    ServiceProvisioningServer × List SPEffect :=
  if a.HaveServiceConnectivity = false then
    StartPairDeviceToAccount_exit a a.StartTimer
      { self with mAwaitingServiceConnectivity := true }
      [SPEffect.StartTimer_HandleConnectivityTimeout
        a.SERVICE_PROVISIONING_CONNECTIVITY_TIMEOUT]
  else
    let s1 : ServiceProvisioningServer := { self with mAwaitingServiceConnectivity := false }
    match a.NewBinding with
    | none =>
      StartPairDeviceToAccount_exit a WEAVE_ERROR_NO_MEMORY
        { s1 with mProvServiceBinding := none } [SPEffect.NewBinding]
    | some b =>
      StartPairDeviceToAccount_exit a a.PrepareBinding
        { s1 with mProvServiceBinding := some b }
        [SPEffect.NewBinding, SPEffect.PrepareBinding b]

/-! ## Specification vocabulary and sample values -/

/-- The number of allocated slots that hold `conId`. -/
def countId (conId : Nat) : List WoBLEConState → Nat
  | [] => 0
  | c :: cs =>
    if c.Allocated = true ∧ c.ConId = conId then countId conId cs + 1 else countId conId cs

/-- The pool invariant: no two allocated slots hold the same connection id. -/
def PoolInv (mCons : List WoBLEConState) : Prop :=
  mCons.Pairwise (fun a b => ¬ (a.Allocated = true ∧ b.Allocated = true ∧ a.ConId = b.ConId))

/-- The pool invariant can be checked by evaluation. -/
instance PoolInv.decidable (mCons : List WoBLEConState) : Decidable (PoolInv mCons) := by
  unfold PoolInv; infer_instance

/-- The asynchronous control commands among the effects, in program order. -/
def asyncControlCmds (eff : List Effect) : List Effect := eff.filter Effect.isAsyncControlCmd

/-- The answer the driver gives to an asynchronous control command issued by
`DriveBLEState`. -/
def BLEDriver.answer (drv : BLEDriver) : Effect → WEAVE_ERROR
  | Effect.esp_ble_gatts_app_register _ => drv.gatts_app_register
  | Effect.esp_ble_gatts_create_attr_tab _ _ => drv.gatts_create_attr_tab
  | Effect.esp_ble_gatts_start_service _ => drv.gatts_start_service
  | Effect.esp_ble_gatts_stop_service _ => drv.gatts_stop_service
  | Effect.esp_ble_gap_config_adv_data d =>
    if d.set_scan_rsp then drv.gap_config_scan_rsp else drv.gap_config_adv_data
  | Effect.esp_ble_gap_start_advertising _ => drv.gap_start_advertising
  | Effect.esp_ble_gap_stop_advertising => drv.gap_stop_advertising
  | _ => WEAVE_NO_ERROR

/-- What one stage of `DriveBLEState` does with the asynchronous control
commands: after the effects `eff` it issues the commands `cmds` of one stage,
and it sets the control-operation flag exactly when all were accepted. -/
def StageOutcome (drv : BLEDriver) (env : BLEEnv) (eff : List Effect)
    (r : BLEManager × List Effect) : Prop :=
  ∃ cmds, asyncControlCmds r.2 = asyncControlCmds eff ++ cmds ∧
    (cmds = [] ∨ (∃ c, cmds = [c]) ∨
      cmds = [Effect.esp_ble_gap_config_adv_data advertisingPacket,
              Effect.esp_ble_gap_config_adv_data (scanResponsePacket env)]) ∧
    (r.1.mFlags.ControlOpInProgress = true ↔
      cmds ≠ [] ∧ ∀ c ∈ cmds, drv.answer c = WEAVE_NO_ERROR)

/-- A sample device configuration. -/
def sampleEnv : BLEEnv :=
  { LocalNodeId := 0x18B4300000001234, IsPairedToAccount := false, DEVICE_VENDOR_ID := 0x235A,
    DEVICE_PRODUCT_ID := 0xFFFE, BLE_DEVICE_NAME_PREFIX := ['N', 'E', 'S', 'T', '-'],
    BLE_FAST_ADVERTISING_INTERVAL := 800, BLE_SLOW_ADVERTISING_INTERVAL := 3200,
    kMaxDeviceNameLength := 16 }

/-- A BLE driver that accepts every command; the controller and the Bluedroid
stack start uninitialised. -/
def okDriver : BLEDriver :=
  { controller_status_first := esp_bt_controller_status_t.ESP_BT_CONTROLLER_STATUS_IDLE,
    controller_mem_release := 0, controller_init := 0,
    controller_status_second := esp_bt_controller_status_t.ESP_BT_CONTROLLER_STATUS_INITED,
    controller_enable := 0,
    bluedroid_status_first := esp_bluedroid_status_t.ESP_BLUEDROID_STATUS_UNINITIALIZED,
    bluedroid_init := 0,
    bluedroid_status_second := esp_bluedroid_status_t.ESP_BLUEDROID_STATUS_INITIALIZED,
    bluedroid_enable := 0, gatts_register_callback := 0, gap_register_callback := 0,
    gatt_set_local_mtu := 0, gatts_app_register := 0, gatts_create_attr_tab := 0,
    gatts_start_service := 0, gatts_stop_service := 0, gap_set_device_name := 0,
    gap_config_adv_data := 0, gap_config_scan_rsp := 0, gap_start_advertising := 0,
    gap_stop_advertising := 0 }

/-- A BLE manager whose GATT service is started and which wants to advertise:
the stages up to the service start are complete, advertising is neither
configured nor active, no control operation is in progress. -/
def serviceStartedBLE : BLEManager :=
  { mCons := [WoBLEConState.zero, WoBLEConState.zero, WoBLEConState.zero],
    mServiceMode := WoBLEServiceMode.kWoBLEServiceMode_Enabled,
    mAppIf := 3, mServiceAttrHandle := 40, mRXCharAttrHandle := 42, mTXCharAttrHandle := 44,
    mTXCharCCCDAttrHandle := 45,
    mFlags :=
      { ESPBLELayerInitialized := true, AppRegistered := true, AttrsRegistered := true,
        GATTServiceStarted := true, AdvertisingConfigured := false, Advertising := false,
        ControlOpInProgress := false, AdvertisingEnabled := true,
        FastAdvertisingEnabled := false, UseCustomDeviceName := false },
    mDeviceName := [] }

/-- A sample pool of four slots: connection 7 in slot 0 with nothing pending,
connection 9 in slot 2 with an indication pending, slots 1 and 3 free. -/
def samplePool : List WoBLEConState :=
  [{ PendingIndBuf := none, ConId := 7, MTU := 23, Allocated := true, Subscribed := false },
   { PendingIndBuf := none, ConId := 7, MTU := 0, Allocated := false, Subscribed := false },
   { PendingIndBuf := some 4, ConId := 9, MTU := 185, Allocated := true, Subscribed := true },
   WoBLEConState.zero]

/-- The sample pool after connection 5 has been acquired: it is in slot 1. -/
def samplePoolAcquired : List WoBLEConState :=
  samplePool.set 1
    { PendingIndBuf := none, ConId := 5, MTU := 0, Allocated := true, Subscribed := false }

/-- A BLE manager with the sample pool, its service started and advertising. -/
def connectedBLE : BLEManager :=
  { serviceStartedBLE with
    mCons := samplePool,
    mFlags :=
      { serviceStartedBLE.mFlags with
        AdvertisingConfigured := true
        Advertising := true } }

/-- The completion flags of the pipeline stages, in pipeline order: layer
initialised, application registered, attributes registered, service started,
advertising configured, advertising active. -/
def BLEFlags.stageFlags (f : BLEFlags) : List Bool :=
  [f.ESPBLELayerInitialized, f.AppRegistered, f.AttrsRegistered, f.GATTServiceStarted,
   f.AdvertisingConfigured, f.Advertising]

/-- A GATT event parameter whose views all read zero. -/
def zeroParam : esp_ble_gatts_cb_param_t :=
  { reg_status := 0, reg_app_id := 0, add_attr_tab_status := 0, add_attr_tab_handles := [],
    start_status := 0, stop_status := 0, connect_conn_id := 0, mtu_conn_id := 0, mtu_mtu := 0,
    disconnect_conn_id := 0, disconnect_reason := 0, read_conn_id := 0, read_trans_id := 0,
    read_handle := 0, write_conn_id := 0, write_trans_id := 0, write_handle := 0,
    write_is_prep := false, write_need_rsp := false, write_len := 0, write_value := [],
    conf_conn_id := 0, conf_status := 0 }

/-- A BLE manager that has issued the service start and waits for its
completion: the stages up to the attribute table are complete and a control
operation is in progress. -/
def serviceStartingBLE : BLEManager :=
  { serviceStartedBLE with
    mFlags :=
      { serviceStartedBLE.mFlags with
        GATTServiceStarted := false
        ControlOpInProgress := true } }

/-- A BLE driver that accepts every command except the configuration of the
scan response. -/
def scanRspFailsDriver : BLEDriver := { okDriver with gap_config_scan_rsp := 258 }

/-- The manager with its service mode set to Enabled (again). -/
def BLEManager.withServiceEnabled (self : BLEManager) : BLEManager :=
  { self with mServiceMode := WoBLEServiceMode.kWoBLEServiceMode_Enabled }

/-- The manager after the completion of the service start has reported a
failure (status 133) to `serviceStartingBLE`. -/
def startFailedBLE : BLEManager :=
  (HandleGATTEvent none esp_gatts_cb_event_t.ESP_GATTS_START_EVT 3
    { zeroParam with start_status := 133 } serviceStartingBLE).1

/-- The manager after `serviceStartedBLE` has been driven with a driver that
accepts the advertising data and rejects the scan response, and the
completion of the accepted command has then reported a failure (status 1). -/
def advConfigFailedBLE : BLEManager :=
  (HandleGAPEvent (esp_gap_ble_cb_event_t.ESP_GAP_BLE_ADV_DATA_SET_COMPLETE_EVT 1)
    (DriveBLEState scanRspFailsDriver sampleEnv serviceStartedBLE).1).1

/-- A connectivity manager as `Init` leaves it, with the AP mode Enabled, a
reconnect interval of 5000 ms and an AP idle timeout of 30000 ms. -/
def initialCM : ConnectivityManager :=
  { mLastStationConnectFailTime := 0, mLastAPDemandTime := 0,
    mWiFiStationMode := WiFiStationMode.kWiFiStationMode_Disabled,
    mWiFiStationState := WiFiStationState.kWiFiStationState_NotConnected,
    mWiFiAPMode := WiFiAPMode.kWiFiAPMode_Enabled,
    mWiFiAPState := WiFiAPState.kWiFiAPState_NotActive,
    mServiceTunnelMode := ServiceTunnelMode.kServiceTunnelMode_Enabled,
    mWiFiStationReconnectIntervalMS := 5000, mWiFiAPIdleTimeoutMS := 30000,
    mFlags := { HaveIPv4InternetConnectivity := false, HaveIPv6InternetConnectivity := false,
                ServiceTunnelStarted := false, HaveServiceConnectivity := false } }

/-- A WiFi driver all of whose commands succeed: auto-connect is on, the
station is provisioned and not associated, AP mode is off in the WiFi layer,
no scan is in progress, the clock reads 0. -/
def okWiFi : WiFiDriver :=
  { now := 0, get_auto_connect := (0, true), StartWiFiLayer := 0, EnableStationMode := 0,
    IsStationConnected := (0, false), IsStationProvisioned := true, ScanInProgress := false,
    wifi_connect := 0, wifi_disconnect := 0, StartTimer := 0, IsAPEnabled := (0, false),
    SetAPMode_on := 0, GetWiFiAPSSID := 0, wifi_set_config_AP := 0, SetAPMode_off := 0,
    HasIPv6LinkLocalAddress_AP := true, create_ip6_linklocal_AP := 0, station_netif := none,
    dns_server_isany := true, IsMemberOfFabric := false, IsServiceProvisioned := false,
    ENABLE_FIXED_TUNNEL_SERVER := false, StartServiceTunnel := 0 }

/-- The Internet-connectivity-change notifications among the effects. -/
def Effect.isInternetConnectivityChange : Effect → Bool
  | Effect.PostEvent (WeaveDeviceEvent.InternetConnectivityChange _ _) => true
  | _ => false

/-- The pair of reachability flags stored in `mFlags`. -/
def ConnectivityManager.storedConnState (self : ConnectivityManager) : Bool × Bool :=
  (self.mFlags.HaveIPv4InternetConnectivity, self.mFlags.HaveIPv6InternetConnectivity)

/-- A station interface that is up with an IPv4 address and gateway and no
global IPv6 address. -/
def ipv4Netif : Netif :=
  { is_up := true, is_link_up := true, ip4_addr_isany := false, ip4_gw_isany := false,
    ip6 := [{ isglobal := false, isvalid := true, select_router := -1 }] }

/-- A connectivity manager whose station is connected. -/
def connectedCM : ConnectivityManager :=
  { initialCM with mWiFiStationState := WiFiStationState.kWiFiStationState_Connected }

/-- A connectivity manager whose station has a connect attempt under way. -/
def connectingCM : ConnectivityManager :=
  { initialCM with mWiFiStationState := WiFiStationState.kWiFiStationState_Connecting }

/-- A connectivity manager that has recorded a connect failure at time 1000. -/
def failedCM : ConnectivityManager :=
  { initialCM with mLastStationConnectFailTime := 1000 }

/-- A WiFi driver that reports the device as a fabric member with a service
provisioned. -/
def tunnelReadyWiFi : WiFiDriver :=
  { okWiFi with IsMemberOfFabric := true, IsServiceProvisioned := true }

/-- A connectivity manager that has IPv4 Internet connectivity. -/
def ipv4ReachableCM : ConnectivityManager :=
  { connectedCM with
    mFlags := { connectedCM.mFlags with HaveIPv4InternetConnectivity := true } }

/-- A WiFi driver for a device that has no station provisioning. -/
def unprovisionedWiFi : WiFiDriver := { okWiFi with IsStationProvisioned := false }

/-- A connectivity manager in AP mode OnDemand on which no demand has been
recorded (`mLastAPDemandTime` is 0), with an idle timeout of 30000 ms. -/
def onDemandCM : ConnectivityManager :=
  { initialCM with mWiFiAPMode := WiFiAPMode.kWiFiAPMode_OnDemand }

/-- The WiFi driver `okWiFi` when the monotonic clock reads `t`. -/
def clockWiFi (t : Nat) : WiFiDriver := { okWiFi with now := t }

/-- A connectivity manager in AP mode OnDemand with a demand recorded at 1000. -/
def demandedCM : ConnectivityManager := { onDemandCM with mLastAPDemandTime := 1000 }

/-- The WiFi driver `okWiFi` when the monotonic clock reads `t` and AP mode is
on in the WiFi layer. -/
def apUpWiFi (t : Nat) : WiFiDriver := { clockWiFi t with IsAPEnabled := (0, true) }

/-- The manager `onDemandCM` with a demand recorded at time `t` and the AP in
state `st`. -/
def demandedAt (t : Nat) (st : WiFiAPState) : ConnectivityManager :=
  { onDemandCM with mLastAPDemandTime := t, mWiFiAPState := st }

/-- A WiFi driver whose connect command fails. -/
def connectFailsWiFi : WiFiDriver := { okWiFi with wifi_connect := 12295 }

/-- The answer of the driver to a command that `DriveAPState` issues and whose
result it checks. -/
def WiFiDriver.apAnswer (drv : WiFiDriver) : Effect → WEAVE_ERROR
  | Effect.ESPUtils_StartWiFiLayer => drv.StartWiFiLayer
  | Effect.StartTimer_DriveAPState _ => drv.StartTimer
  | Effect.ESPUtils_SetAPMode true => drv.SetAPMode_on
  | Effect.ESPUtils_SetAPMode false => drv.SetAPMode_off
  | Effect.esp_wifi_set_config_AP => drv.wifi_set_config_AP
  | Effect.tcpip_adapter_create_ip6_linklocal_AP => drv.create_ip6_linklocal_AP
  | _ => WEAVE_NO_ERROR

/-- Every command among the effects was accepted by the driver, and if AP mode
was switched on the SSID for `ConfigureWiFiAP` could be read. -/
def APAccepted (drv : WiFiDriver) (eff : List Effect) : Prop :=
  (∀ e ∈ eff, drv.apAnswer e = WEAVE_NO_ERROR)
    ∧ (Effect.ESPUtils_SetAPMode true ∈ eff → drv.GetWiFiAPSSID = WEAVE_NO_ERROR)

/-- The outcomes of `DriveAPState` under its failure policy: the AP mode is
Disabled, or every command was accepted. -/
def APOutcome (drv : WiFiDriver) (r : ConnectivityManager × List Effect) : Prop :=
  r.1.mWiFiAPMode = WiFiAPMode.kWiFiAPMode_Disabled ∨ APAccepted drv r.2

/-- A connectivity manager whose AP is under application control. -/
def appControlledCM : ConnectivityManager :=
  { initialCM with mWiFiAPMode := WiFiAPMode.kWiFiAPMode_ApplicationControlled }

/-- A WiFi driver that reports AP mode on, the AP interface without a
link-local address, and that fails to assign one. -/
def linkLocalFailsWiFi : WiFiDriver :=
  { okWiFi with
    IsAPEnabled := (0, true), HasIPv6LinkLocalAddress_AP := false,
    create_ip6_linklocal_AP := 1 }

/-- The effects of one stage of `DriveBLEState` after the initialisation of
the layer, on the manager `s`: nothing, or the command of application
registration, attribute-table registration, service start, the commands of
advertising configuration, or the command of advertising start, advertising
stop or service stop. -/
def StageEffects (drv : BLEDriver) (env : BLEEnv) (s : BLEManager) (e : List Effect) : Prop :=
  e = []
  ∨ e = [Effect.esp_ble_gatts_app_register WoBLEAppId]
  ∨ e = [Effect.esp_ble_gatts_create_attr_tab s.mAppIf WoBLEGATTAttrCount]
  ∨ e = [Effect.esp_ble_gatts_start_service s.mServiceAttrHandle]
  ∨ e = (ConfigureAdvertisingData drv env s).2.2
  ∨ e = (StartAdvertising drv env s).2.2
  ∨ e = [Effect.esp_ble_gap_stop_advertising]
  ∨ e = [Effect.esp_ble_gatts_stop_service s.mServiceAttrHandle]

/-- A BLE manager as `BLEManager::Init` leaves it, with a pool of three slots:
service mode Enabled, no interface, only the flag AdvertisingEnabled set. -/
def initialBLE : BLEManager :=
  { mCons := [WoBLEConState.zero, WoBLEConState.zero, WoBLEConState.zero],
    mServiceMode := WoBLEServiceMode.kWoBLEServiceMode_Enabled,
    mAppIf := 255, mServiceAttrHandle := 0, mRXCharAttrHandle := 0, mTXCharAttrHandle := 0,
    mTXCharCCCDAttrHandle := 0,
    mFlags :=
      { ESPBLELayerInitialized := false, AppRegistered := false, AttrsRegistered := false,
        GATTServiceStarted := false, AdvertisingConfigured := false, Advertising := false,
        ControlOpInProgress := false, AdvertisingEnabled := true,
        FastAdvertisingEnabled := false, UseCustomDeviceName := false },
    mDeviceName := [] }

/-- The manager `connectedBLE` after its service has been disabled and
stopped: the service mode is set to Disabled, `DriveBLEState` stops the
advertising, the stop completes, `DriveBLEState` stops the service, and the
service stop completes.  Its connections are still in the pool. -/
def stoppedBLE : BLEManager :=
  (HandleGATTEvent none esp_gatts_cb_event_t.ESP_GATTS_STOP_EVT 3 zeroParam
    (DriveBLEState okDriver sampleEnv
      (HandleGAPEvent (esp_gap_ble_cb_event_t.ESP_GAP_BLE_ADV_STOP_COMPLETE_EVT 0)
        (DriveBLEState okDriver sampleEnv
          { connectedBLE with
            mServiceMode := WoBLEServiceMode.kWoBLEServiceMode_Disabled }).1).1).1).1

/-- The parameter of a disconnect event for connection 7, terminated by the
peer. -/
def disconnectParam : esp_ble_gatts_cb_param_t :=
  { zeroParam with disconnect_conn_id := 7, disconnect_reason := 19 }

/-- The parameter of a confirm event for connection 9 with the failure status
`ESP_GATT_ERROR` (133).  In the union of the driver the member
`disconnect.conn_id` overlays the first bytes of `conf.status`, so this view
reads 133. -/
def failedConfirmParam : esp_ble_gatts_cb_param_t :=
  { zeroParam with conf_conn_id := 9, conf_status := 133, disconnect_conn_id := 133 }

/-- The condition under which `DriveServiceTunnelState` wants the tunnel
started (its local `startServiceTunnel`). -/
def wantServiceTunnel (drv : WiFiDriver) (self : ConnectivityManager) : Bool :=
  decide (self.mServiceTunnelMode = ServiceTunnelMode.kServiceTunnelMode_Enabled)
    && self.mFlags.HaveIPv4InternetConnectivity
    && drv.IsMemberOfFabric
    && (drv.ENABLE_FIXED_TUNNEL_SERVER || drv.IsServiceProvisioned)

/-- A WiFi driver for a fabric member with a service provisioned whose tunnel
agent refuses to start. -/
def tunnelFailsWiFi : WiFiDriver := { tunnelReadyWiFi with StartServiceTunnel := 4003 }

/-- The decoder for `LittleEndianPut`: the value of a list of bytes, least
significant first. -/
def LittleEndianGet : List Nat → Nat
  | [] => 0
  | b :: bs => b + 256 * LittleEndianGet bs

/-- The lock operations among the effects, in program order. -/
def lockOps (eff : List Effect) : List Effect :=
  eff.filter (fun e => decide (e = Effect.LockWeaveStack ∨ e = Effect.UnlockWeaveStack))

/-- A BLE manager that has issued the attribute-table registration and waits
for its completion. -/
def attrsRegisteringBLE : BLEManager :=
  { initialBLE with
    mAppIf := 3,
    mFlags :=
      { initialBLE.mFlags with
        ESPBLELayerInitialized := true
        AppRegistered := true
        ControlOpInProgress := true } }

/-- The parameter of a successful attribute-table completion with the handles
40 to 45. -/
def attrTabParam : esp_ble_gatts_cb_param_t :=
  { zeroParam with add_attr_tab_handles := [40, 41, 42, 43, 44, 45] }

/-- Sample values for the enumerators of `WoBLEServiceMode`, in the order in
which `BLEManager.cpp` names them. -/
def sampleModeValue : WoBLEServiceMode → Int
  | WoBLEServiceMode.kWoBLEServiceMode_NotSupported => 0
  | WoBLEServiceMode.kWoBLEServiceMode_Enabled => 1
  | WoBLEServiceMode.kWoBLEServiceMode_Disabled => 2

/-- A device name of sixteen characters, the value of `kMaxDeviceNameLength`
in the sample configuration. -/
def longName : List Char := List.replicate 16 'x'

/-- The close of the binding at the start of `HandlePairDeviceToAccountResult`:
nothing when there is no binding. -/
def closeBinding (self : ServiceProvisioningServer) : List SPEffect :=
  match self.mProvServiceBinding with
  | some b => [SPEffect.Binding_Close b]
  | none => []

/-- Answers for a device without service connectivity whose calls succeed. -/
def offlineAnswers : SPAnswers :=
  { SERVICE_PROVISIONING_CONNECTIVITY_TIMEOUT := 10000, HaveServiceConnectivity := false,
    StartTimer := 0, NewBinding := some 1, PrepareBinding := 0, StoreAccountId := 0,
    SendSuccessResponse := 0 }

/-- A service provisioning server with a RegisterServicePairAccount request
pending that waits for service connectivity. -/
def waitingServer : ServiceProvisioningServer :=
  { mProvServiceBinding := none, mAwaitingServiceConnectivity := true, mCurClientOp := some 1 }

/-- The edges of the station diagram together with the two direct edges of the
drive steps: NotConnected→Connecting, Connecting→Connecting_Succeeded,
Connecting→Connecting_Failed, Connecting_Succeeded→Connected,
Connecting_Failed→NotConnected, Connected→Disconnecting,
Disconnecting→NotConnected, NotConnected→Connected, Connected→NotConnected. -/
def StationEdge : WiFiStationState → WiFiStationState → Bool
  | WiFiStationState.kWiFiStationState_NotConnected,
    WiFiStationState.kWiFiStationState_Connecting => true
  | WiFiStationState.kWiFiStationState_Connecting,
    WiFiStationState.kWiFiStationState_Connecting_Succeeded => true
  | WiFiStationState.kWiFiStationState_Connecting,
    WiFiStationState.kWiFiStationState_Connecting_Failed => true
  | WiFiStationState.kWiFiStationState_Connecting_Succeeded,
    WiFiStationState.kWiFiStationState_Connected => true
  | WiFiStationState.kWiFiStationState_Connecting_Failed,
    WiFiStationState.kWiFiStationState_NotConnected => true
  | WiFiStationState.kWiFiStationState_Connected,
    WiFiStationState.kWiFiStationState_Disconnecting => true
  | WiFiStationState.kWiFiStationState_Disconnecting,
    WiFiStationState.kWiFiStationState_NotConnected => true
  | WiFiStationState.kWiFiStationState_NotConnected,
    WiFiStationState.kWiFiStationState_Connected => true
  | WiFiStationState.kWiFiStationState_Connected,
    WiFiStationState.kWiFiStationState_NotConnected => true
  | _, _ => false

/-- The three further edges the code can take when the answer of the driver
contradicts the recorded state: Connecting→Disconnecting and
Connecting_Failed→Disconnecting (an unwanted station reported as associated)
and Connecting_Succeeded→Connecting (a station reported as not associated). -/
def StationEdgeExtra : WiFiStationState → WiFiStationState → Bool
  | WiFiStationState.kWiFiStationState_Connecting,
    WiFiStationState.kWiFiStationState_Disconnecting => true
  | WiFiStationState.kWiFiStationState_Connecting_Failed,
    WiFiStationState.kWiFiStationState_Disconnecting => true
  | WiFiStationState.kWiFiStationState_Connecting_Succeeded,
    WiFiStationState.kWiFiStationState_Connecting => true
  | _, _ => false

/-- A WiFi driver that reports the station as associated while auto-connect
is off. -/
def associatedUnwantedWiFi : WiFiDriver :=
  { okWiFi with get_auto_connect := (0, false), IsStationConnected := (0, true) }

/-- The connect and disconnect commands among the effects, in program order. -/
def stationCmds (eff : List Effect) : List Effect :=
  eff.filter (fun e => decide (e = Effect.esp_wifi_connect ∨ e = Effect.esp_wifi_disconnect))

/-- The test of `DriveStationState` for disconnecting an associated station:
the station is not under application control and is disabled or has no
provision. -/
def wantsDisconnect (drv : WiFiDriver) (s : ConnectivityManager) : Prop :=
  s.mWiFiStationMode ≠ WiFiStationMode.kWiFiStationMode_ApplicationControlled
    ∧ (s.mWiFiStationMode ≠ WiFiStationMode.kWiFiStationMode_Enabled
        ∨ drv.IsStationProvisioned = false)

/-- The test `wantsDisconnect` can be evaluated. -/
instance wantsDisconnect.decidable (drv : WiFiDriver) (s : ConnectivityManager) :
    Decidable (wantsDisconnect drv s) := by
  unfold wantsDisconnect; infer_instance

/-- The tests of `DriveStationState` for a connect attempt on a station that
is not associated: enabled, provisioned, no scan in progress, and no failure
recorded or the reconnect interval elapsed. -/
def wantsConnect (drv : WiFiDriver) (s : ConnectivityManager) : Prop :=
  (s.mWiFiStationMode = WiFiStationMode.kWiFiStationMode_Enabled
      ∧ drv.IsStationProvisioned = true ∧ drv.ScanInProgress = false)
    ∧ (s.mLastStationConnectFailTime = 0
        ∨ drv.now ≥ add64 s.mLastStationConnectFailTime s.mWiFiStationReconnectIntervalMS)

/-- The test `wantsConnect` can be evaluated. -/
instance wantsConnect.decidable (drv : WiFiDriver) (s : ConnectivityManager) :
    Decidable (wantsConnect drv s) := by
  unfold wantsConnect; infer_instance

/-- The value of `err` and the effects of `DriveStationState` before the
association query, on the manager with the refreshed mode. -/
def stationPrelude (drv : WiFiDriver) (s0 : ConnectivityManager) : WEAVE_ERROR × List Effect :=
  if s0.mWiFiStationMode ≠ WiFiStationMode.kWiFiStationMode_ApplicationControlled then
    if drv.StartWiFiLayer ≠ WEAVE_NO_ERROR then
      (drv.StartWiFiLayer, [Effect.ESPUtils_StartWiFiLayer])
    else
      (drv.EnableStationMode, [Effect.ESPUtils_StartWiFiLayer, Effect.ESPUtils_EnableStationMode])
  else (WEAVE_NO_ERROR, [])

/-- The position in the pipeline of the stage a driver command belongs to,
counted as the number of stages before it: application registration 1 (after
the layer initialisation), attribute-table registration 2, service start 3,
the commands of the advertising configuration 4, advertising start 5; no
position for any other effect. -/
def pipelineStage : Effect → Option Nat
  | Effect.esp_ble_gatts_app_register _ => some 1
  | Effect.esp_ble_gatts_create_attr_tab _ _ => some 2
  | Effect.esp_ble_gatts_start_service _ => some 3
  | Effect.esp_ble_gap_set_device_name _ => some 4
  | Effect.esp_ble_gap_config_adv_data _ => some 4
  | Effect.esp_ble_gap_start_advertising _ => some 5
  | _ => none

/-- The completion flags of the first `n` stages of the pipeline are all set. -/
def BLEFlags.stagesBefore (f : BLEFlags) (n : Nat) : Bool :=
  (f.stageFlags.take n).all id

/-- A connectivity manager whose station is connected and under application
control. -/
def appControlledStationCM : ConnectivityManager :=
  { connectedCM with
    mWiFiStationMode := WiFiStationMode.kWiFiStationMode_ApplicationControlled }

/-- A WiFi driver that reports the station as associated on a device that has
no station provisioning. -/
def associatedUnprovisionedWiFi : WiFiDriver :=
  { okWiFi with IsStationConnected := (0, true), IsStationProvisioned := false }

/-- A connectivity manager whose last connect attempt has been reported as
failed. -/
def connectFailedCM : ConnectivityManager :=
  { initialCM with mWiFiStationState := WiFiStationState.kWiFiStationState_Connecting_Failed }

/-- A call of one of the functions that allocate or free a slot of the pool:
`GetConnectionState(conId, allocate)`, `ReleaseConnectionState(conId)` or
`CloseConnection(conId)` with the answer of the driver to the close command. -/
inductive PoolOp where
  | get (conId : Nat) (allocate : Bool)
  | release (conId : Nat)
  | close (answer : WEAVE_ERROR) (conId : Nat)
deriving DecidableEq, Repr

/-- The manager after one call on the pool. -/
def PoolOp.run : PoolOp → BLEManager → BLEManager
  | PoolOp.get conId allocate, self =>
    { self with mCons := (GetConnectionState self.mCons conId allocate).2 }
  | PoolOp.release conId, self =>
    { self with mCons := (ReleaseConnectionState conId self.mCons).2.1 }
  | PoolOp.close answer conId, self => (CloseConnection answer conId self).2.1

/-- The manager after a sequence of calls on the pool, first call first. -/
def runPoolOps (ops : List PoolOp) (self : BLEManager) : BLEManager :=
  ops.foldl (fun s op => op.run s) self

/-- The events posted with `PlatformMgr.PostEvent` among the effects, in
program order. -/
def postedEvents : List Effect → List WeaveDeviceEvent
  | [] => []
  | Effect.PostEvent e :: rest => e :: postedEvents rest
  | _ :: rest => postedEvents rest

/-- The parameter of a write of the value 01 00 to the attribute 45 on
connection 7, with a response requested. -/
def subscribeParam : esp_ble_gatts_cb_param_t :=
  { zeroParam with
    read_conn_id := 7, write_conn_id := 7, write_trans_id := 1, write_handle := 45,
    write_need_rsp := true, write_len := 2, write_value := [1, 0] }

/-- Who holds the global stack lock: nobody, the thread of the driver that
runs the callback, or another thread. -/
inductive LockOwner where
  | free
  | callback
  | other
deriving DecidableEq, Repr

/-- One statement of a driver callback as it bears on the stack lock:
`PlatformMgr.LockWeaveStack()`, `PlatformMgr.UnlockWeaveStack()`, or a
statement that reads and writes the state `σ`, which holds the manager and the
locals of the callback. -/
inductive LockStmt (σ : Type) where
  | lock
  | unlock
  | access (f : σ → σ)

/-- A configuration of a driver callback that runs beside another thread: the
next statement of the callback, the holder of the stack lock, the state, the
position of the other thread, what the other thread has read of the manager so
far, the number of times the callback has released the lock, and the number of
statements of the callback that read or wrote the state without holding the
lock. -/
structure Interleaving (σ : Type) (V : Type) where
  pc : Nat
  owner : LockOwner
  state : σ
  otherPc : Nat
  seen : List V
  unlocks : Nat
  unguarded : Nat

/-- One step of the thread that runs the callback `prog`: its next statement.
The lock is not recursive: taking it blocks while it is held. -/
def callbackStep {σ V : Type} (prog : List (LockStmt σ)) (c : Interleaving σ V) :
    Interleaving σ V :=
  match prog[c.pc]? with
  | none => c
  | some LockStmt.lock =>
    if c.owner = LockOwner.free then { c with owner := LockOwner.callback, pc := c.pc + 1 }
    else c
  | some LockStmt.unlock =>
    { c with owner := LockOwner.free, unlocks := c.unlocks + 1, pc := c.pc + 1 }
  | some (LockStmt.access f) =>
    { c with
      state := f c.state,
      unguarded := if c.owner = LockOwner.callback then c.unguarded else c.unguarded + 1,
      pc := c.pc + 1 }

/-- One step of the other thread, which again and again takes the stack lock,
reads the manager and releases the lock. -/
def otherStep {σ V : Type} (view : σ → V) (c : Interleaving σ V) : Interleaving σ V :=
  match c.otherPc with
  | 0 => if c.owner = LockOwner.free then { c with owner := LockOwner.other, otherPc := 1 } else c
  | 1 => { c with seen := c.seen ++ [view c.state], otherPc := 2 }
  | _ => { c with owner := LockOwner.free, otherPc := 0 }

/-- The configuration after the steps of a schedule: `true` is a step of the
callback, `false` a step of the other thread. -/
def interleave {σ V : Type} (prog : List (LockStmt σ)) (view : σ → V) :
    List Bool → Interleaving σ V → Interleaving σ V
  | [], c => c
  | true :: rest, c => interleave prog view rest (callbackStep prog c)
  | false :: rest, c => interleave prog view rest (otherStep view c)

/-- The configuration in which the callback is entered with the state `s0`:
the lock is free and nothing has been read. -/
def Interleaving.start {σ V : Type} (s0 : σ) : Interleaving σ V :=
  { pc := 0, owner := LockOwner.free, state := s0, otherPc := 0, seen := [], unlocks := 0,
    unguarded := 0 }

/-- The invariant of a callback that takes the lock, makes the two accesses
`f1` and `f2` and releases the lock, entered with the state `s0`. -/
def LockInv {σ V : Type} (f1 f2 : σ → σ) (view : σ → V) (s0 : σ) (c : Interleaving σ V) :
    Prop :=
  c.unguarded = 0
  ∧ (∀ m ∈ c.seen, m = view s0 ∨ m = view (f2 (f1 s0)))
  ∧ ((c.pc = 0 ∧ c.state = s0 ∧ c.unlocks = 0
        ∧ ((c.otherPc = 0 ∧ c.owner = LockOwner.free)
          ∨ (c.otherPc = 1 ∧ c.owner = LockOwner.other)
          ∨ (c.otherPc = 2 ∧ c.owner = LockOwner.other)))
    ∨ (c.pc = 1 ∧ c.state = s0 ∧ c.unlocks = 0 ∧ c.owner = LockOwner.callback ∧ c.otherPc = 0)
    ∨ (c.pc = 2 ∧ c.state = f1 s0 ∧ c.unlocks = 0 ∧ c.owner = LockOwner.callback
        ∧ c.otherPc = 0)
    ∨ (c.pc = 3 ∧ c.state = f2 (f1 s0) ∧ c.unlocks = 0 ∧ c.owner = LockOwner.callback
        ∧ c.otherPc = 0)
    ∨ (c.pc = 4 ∧ c.state = f2 (f1 s0) ∧ c.unlocks = 1
        ∧ ((c.otherPc = 0 ∧ c.owner = LockOwner.free)
          ∨ (c.otherPc = 1 ∧ c.owner = LockOwner.other)
          ∨ (c.otherPc = 2 ∧ c.owner = LockOwner.other))))

/-- The statements of `HandleGATTEvent` in program order: the lock, the call of
`HandleGATTControlEvent`, the call of `HandleGATTCommEvent`, the unlock. -/
def HandleGATTEvent_program (newBuf : Option (Nat × Nat)) (event : esp_gatts_cb_event_t)
    (gatts_if : Nat) (param : esp_ble_gatts_cb_param_t) : List (LockStmt BLEManager) :=
  [LockStmt.lock,
   LockStmt.access (fun s => (HandleGATTControlEvent event gatts_if param s).1),
   LockStmt.access (fun s => (HandleGATTCommEvent newBuf event gatts_if param s).1),
   LockStmt.unlock]

/-- The statements of `HandleGAPEvent` in program order: the lock, the
`switch`, the `exit:` block with the scheduling of `DriveBLEState`, the unlock.
The state is the local `err` and the manager. -/
def HandleGAPEvent_program (event : esp_gap_ble_cb_event_t) :
    List (LockStmt (WEAVE_ERROR × BLEManager)) :=
  [LockStmt.lock,
   LockStmt.access (fun s => HandleGAPEvent_switch event s.2),
   LockStmt.access (fun s => (s.1, (HandleGAPEvent_exit s.1 s.2).1)),
   LockStmt.unlock]

/-- A run of `HandleGATTEvent` on the manager `self` beside the other thread. -/
def HandleGATTEvent_run (newBuf : Option (Nat × Nat)) (event : esp_gatts_cb_event_t)
    (gatts_if : Nat) (param : esp_ble_gatts_cb_param_t) (self : BLEManager)
    (schedule : List Bool) : Interleaving BLEManager BLEManager :=
  interleave (HandleGATTEvent_program newBuf event gatts_if param) id schedule
    (Interleaving.start self)

/-- A run of `HandleGAPEvent` on the manager `self` beside the other thread;
the local `err` starts as `WEAVE_NO_ERROR` and the other thread reads the
manager. -/
def HandleGAPEvent_run (event : esp_gap_ble_cb_event_t) (self : BLEManager)
    (schedule : List Bool) : Interleaving (WEAVE_ERROR × BLEManager) BLEManager :=
  interleave (HandleGAPEvent_program event) Prod.snd schedule
    (Interleaving.start (WEAVE_NO_ERROR, self))

/-! ## Lemmas on the connection pool -/

/-- Once `freeIndex` is at most the loop index, the loop no longer changes it. -/
theorem scanCons_done_of_le (conId : Nat) (cs : List WoBLEConState) :
    ∀ i f : Nat, f ≤ i → (∀ c ∈ cs, c.Allocated = true → c.ConId ≠ conId) →
      scanCons conId cs i f = ScanResult.done f := by
  induction cs with
  | nil => intro i f _ _; rfl
  | cons c cs ih =>
    intro i f hfi hno
    have hno2 : ∀ d ∈ cs, d.Allocated = true → d.ConId ≠ conId :=
      fun d hd => hno d (List.mem_cons_of_mem _ hd)
    unfold scanCons
    by_cases ha : c.Allocated = true
    · have hne : c.ConId ≠ conId := hno c (List.mem_cons_self _ _) ha
      simp only [ha, hne, if_true, if_false]
      exact ih (i + 1) f (by omega) hno2
    · have hlt : ¬ i < f := by omega
      simp only [ha, hlt, if_false]
      exact ih (i + 1) f (by omega) hno2

/-- When every slot is allocated and none holds `conId`, the loop ends with
`freeIndex` untouched. -/
theorem scanCons_full (conId : Nat) (cs : List WoBLEConState) :
    ∀ i f : Nat, (∀ c ∈ cs, c.Allocated = true ∧ c.ConId ≠ conId) →
      scanCons conId cs i f = ScanResult.done f := by
  induction cs with
  | nil => intro i f _; rfl
  | cons c cs ih =>
    intro i f h
    have hc := h c (List.mem_cons_self _ _)
    unfold scanCons
    simp only [hc.1, hc.2, if_true, if_false]
    exact ih (i + 1) f (fun d hd => h d (List.mem_cons_of_mem _ hd))

/-- When the loop returns from inside, it returns the first allocated slot
that holds `conId`. -/
theorem scanCons_found (conId : Nat) (cs : List WoBLEConState) :
    ∀ i f j : Nat, scanCons conId cs i f = ScanResult.found j →
      i ≤ j ∧ ∃ c, cs[j - i]? = some c ∧ c.Allocated = true ∧ c.ConId = conId := by
  induction cs with
  | nil => intro i f j h; simp [scanCons] at h
  | cons c cs ih =>
    intro i f j h
    unfold scanCons at h
    by_cases ha : c.Allocated = true
    · by_cases hid : c.ConId = conId
      · simp only [ha, hid, if_true] at h
        injection h with h
        subst h
        exact ⟨le_refl _, c, by simp, ha, hid⟩
      · simp only [ha, hid, if_true, if_false] at h
        obtain ⟨hle, d, hd, hda, hdi⟩ := ih (i + 1) f j h
        refine ⟨by omega, d, ?_, hda, hdi⟩
        have : j - i = (j - (i + 1)) + 1 := by omega
        rw [this, List.getElem?_cons_succ]
        exact hd
    · simp only [ha, if_false] at h
      have key : ∀ g, scanCons conId cs (i + 1) g = ScanResult.found j →
          i ≤ j ∧ ∃ c0, (c :: cs)[j - i]? = some c0 ∧ c0.Allocated = true ∧ c0.ConId = conId := by
        intro g hg
        obtain ⟨hle, d, hd, hda, hdi⟩ := ih (i + 1) g j hg
        refine ⟨by omega, d, ?_, hda, hdi⟩
        have : j - i = (j - (i + 1)) + 1 := by omega
        rw [this, List.getElem?_cons_succ]
        exact hd
      by_cases hlt : i < f
      · simp only [hlt, if_true] at h
        exact key i h
      · simp only [hlt, if_false] at h
        exact key f h

/-- When some allocated slot holds `conId`, the loop returns from inside. -/
theorem scanCons_of_mem (conId : Nat) (cs : List WoBLEConState) :
    ∀ i f : Nat, (∃ c ∈ cs, c.Allocated = true ∧ c.ConId = conId) →
      ∃ j, scanCons conId cs i f = ScanResult.found j := by
  induction cs with
  | nil => intro i f h; obtain ⟨c, hc, _⟩ := h; simp at hc
  | cons c cs ih =>
    intro i f h
    unfold scanCons
    by_cases ha : c.Allocated = true
    · by_cases hid : c.ConId = conId
      · exact ⟨i, by simp only [ha, hid, if_true]⟩
      · simp only [ha, hid, if_true, if_false]
        obtain ⟨d, hd, hda, hdi⟩ := h
        rcases List.mem_cons.mp hd with hdc | hdc
        · subst hdc; exact absurd hdi hid
        · exact ih (i + 1) f ⟨d, hdc, hda, hdi⟩
    · have hrest : ∃ d ∈ cs, d.Allocated = true ∧ d.ConId = conId := by
        obtain ⟨d, hd, hda, hdi⟩ := h
        rcases List.mem_cons.mp hd with hdc | hdc
        · subst hdc; exact absurd hda ha
        · exact ⟨d, hdc, hda, hdi⟩
      simp only [ha, if_false]
      by_cases hlt : i < f
      · simp only [hlt, if_true]; exact ih (i + 1) i hrest
      · simp only [hlt, if_false]; exact ih (i + 1) f hrest

/-- When no allocated slot holds `conId` and some slot is free, the loop ends
with `freeIndex` at the lowest free index. -/
theorem scanCons_free (conId : Nat) (cs : List WoBLEConState) :
    ∀ i f : Nat, i + cs.length ≤ f →
      (∀ c ∈ cs, c.Allocated = true → c.ConId ≠ conId) →
      (∃ c ∈ cs, c.Allocated = false) →
      ∃ k, scanCons conId cs i f = ScanResult.done (i + k) ∧ k < cs.length ∧
        (∃ c, cs[k]? = some c ∧ c.Allocated = false) ∧
        (∀ j, j < k → ∀ c, cs[j]? = some c → c.Allocated = true) := by
  induction cs with
  | nil => intro i f _ _ h; obtain ⟨c, hc, _⟩ := h; simp at hc
  | cons c cs ih =>
    intro i f hlen hno hfree
    have hno2 : ∀ d ∈ cs, d.Allocated = true → d.ConId ≠ conId :=
      fun d hd => hno d (List.mem_cons_of_mem _ hd)
    simp only [List.length_cons] at hlen
    unfold scanCons
    by_cases ha : c.Allocated = true
    · have hne : c.ConId ≠ conId := hno c (List.mem_cons_self _ _) ha
      simp only [ha, hne, if_true, if_false]
      have hrest : ∃ d ∈ cs, d.Allocated = false := by
        obtain ⟨d, hd, hda⟩ := hfree
        rcases List.mem_cons.mp hd with hdc | hdc
        · subst hdc; rw [ha] at hda; exact absurd hda (by decide)
        · exact ⟨d, hdc, hda⟩
      obtain ⟨k, hk, hklt, hkfree, hkall⟩ := ih (i + 1) f (by omega) hno2 hrest
      refine ⟨k + 1, ?_, by simp only [List.length_cons]; omega, ?_, ?_⟩
      · rw [hk]; congr 1; omega
      · simpa using hkfree
      · intro j hj d hd
        cases j with
        | zero => simp at hd; subst hd; exact ha
        | succ j => exact hkall j (by omega) d (by simpa using hd)
    · have hlt : i < f := by omega
      simp only [ha, hlt, if_true, if_false]
      refine ⟨0, ?_, by simp, ⟨c, by simp, by simpa using ha⟩, ?_⟩
      · exact scanCons_done_of_le conId cs (i + 1) i (by omega) hno2
      · intro j hj; omega

theorem NumConnections_le_length (cs : List WoBLEConState) : NumConnections cs ≤ cs.length := by
  induction cs with
  | nil => simp [NumConnections]
  | cons c cs ih =>
    unfold NumConnections
    by_cases h : c.Allocated = true <;> simp [h] <;> omega

theorem GetConnectionState_length (mCons : List WoBLEConState) (conId : Nat) (a : Bool) :
    (GetConnectionState mCons conId a).2.length = mCons.length := by
  unfold GetConnectionState
  split
  · rfl
  · split
    · split
      · simp
      · rfl
    · rfl

theorem countId_zero_iff (conId : Nat) (cs : List WoBLEConState) :
    countId conId cs = 0 ↔ ∀ c ∈ cs, c.Allocated = true → c.ConId ≠ conId := by
  induction cs with
  | nil => simp [countId]
  | cons c cs ih =>
    unfold countId
    by_cases h : c.Allocated = true ∧ c.ConId = conId
    · simp only [h, and_self, if_true]
      constructor
      · intro h0; omega
      · intro hall; exact absurd h.2 (hall c (List.mem_cons_self _ _) h.1)
    · simp only [h, if_false, ih]
      constructor
      · intro hall d hd
        rcases List.mem_cons.mp hd with hdc | hdc
        · subst hdc; intro ha hi; exact h ⟨ha, hi⟩
        · exact hall d hdc
      · intro hall d hd; exact hall d (List.mem_cons_of_mem _ hd)

theorem ReleaseConnectionState_of_countId_zero (conId : Nat) (cs : List WoBLEConState)
    (h : countId conId cs = 0) : ReleaseConnectionState conId cs = (false, cs, []) := by
  induction cs with
  | nil => rfl
  | cons c cs ih =>
    unfold countId at h
    by_cases hc : c.Allocated = true ∧ c.ConId = conId
    · simp [hc] at h
    · simp only [hc, if_false] at h
      unfold ReleaseConnectionState
      have : (c.Allocated && c.ConId == conId) = false := by
        cases hA : c.Allocated <;> simp_all
      simp [this, ih h]

theorem ReleaseConnectionState_of_countId_pos (conId : Nat) (cs : List WoBLEConState)
    (h : countId conId cs ≠ 0) :
    ∃ k c, cs[k]? = some c ∧ c.Allocated = true ∧ c.ConId = conId ∧
      ReleaseConnectionState conId cs
        = (true, cs.set k { c with Allocated := false }, [c.PendingIndBuf]) := by
  induction cs with
  | nil => simp [countId] at h
  | cons c cs ih =>
    unfold countId at h
    by_cases hc : c.Allocated = true ∧ c.ConId = conId
    · refine ⟨0, c, by simp, hc.1, hc.2, ?_⟩
      unfold ReleaseConnectionState
      simp [hc.1, hc.2]
    · simp only [hc, if_false] at h
      obtain ⟨k, d, hk, hda, hdi, hr⟩ := ih h
      refine ⟨k + 1, d, by simpa using hk, hda, hdi, ?_⟩
      unfold ReleaseConnectionState
      have : (c.Allocated && c.ConId == conId) = false := by
        cases hA : c.Allocated <;> simp_all
      simp [this, hr]

theorem countId_pos_of_getElem (conId : Nat) (cs : List WoBLEConState) :
    ∀ (k : Nat) (c : WoBLEConState), cs[k]? = some c → c.Allocated = true → c.ConId = conId →
      countId conId cs ≠ 0 := by
  intro k c hk ha hi h0
  have := (countId_zero_iff conId cs).mp h0 c (List.getElem?_mem hk) ha
  exact this hi

theorem holder_unique (conId : Nat) (cs : List WoBLEConState) :
    ∀ (a b : Nat) (c d : WoBLEConState), countId conId cs ≤ 1 →
      cs[a]? = some c → c.Allocated = true → c.ConId = conId →
      cs[b]? = some d → d.Allocated = true → d.ConId = conId → a = b := by
  induction cs with
  | nil => intro a b c d _ h; simp at h
  | cons x xs ih =>
    intro a b c d hcount ha hca hci hb hda hdi
    unfold countId at hcount
    by_cases hx : x.Allocated = true ∧ x.ConId = conId
    · simp only [hx, and_self, if_true] at hcount
      have h0 : countId conId xs = 0 := by omega
      have hnone := (countId_zero_iff conId xs).mp h0
      cases a with
      | zero =>
        cases b with
        | zero => rfl
        | succ b =>
          simp at hb
          exact absurd hdi (hnone d (List.getElem?_mem hb) hda)
      | succ a =>
        simp at ha
        exact absurd hci (hnone c (List.getElem?_mem ha) hca)
    · simp only [hx, if_false] at hcount
      cases a with
      | zero => simp at ha; subst ha; exact absurd ⟨hca, hci⟩ hx
      | succ a =>
        cases b with
        | zero => simp at hb; subst hb; exact absurd ⟨hda, hdi⟩ hx
        | succ b =>
          simp at ha hb
          rw [ih a b c d hcount ha hca hci hb hda hdi]

theorem countId_set_release (conId : Nat) (cs : List WoBLEConState) :
    ∀ (k : Nat) (c : WoBLEConState), cs[k]? = some c → c.Allocated = true → c.ConId = conId →
      countId conId (cs.set k { c with Allocated := false }) = countId conId cs - 1 := by
  induction cs with
  | nil => intro k c h; simp at h
  | cons x xs ih =>
    intro k c hk hca hci
    cases k with
    | zero =>
      simp at hk; subst hk
      simp [countId, hca, hci]
    | succ k =>
      simp at hk
      have hpos := countId_pos_of_getElem conId xs k c hk hca hci
      simp only [List.set_cons_succ]
      unfold countId
      rw [ih k c hk hca hci]
      by_cases hx : x.Allocated = true ∧ x.ConId = conId
      · simp only [hx, and_self, if_true]; omega
      · simp only [hx, if_false]

theorem countId_set_new (conId : Nat) (cs : List WoBLEConState) :
    ∀ (k : Nat) (v : WoBLEConState), k < cs.length → countId conId cs = 0 → v.Allocated = true → v.ConId = conId →
      countId conId (cs.set k v) = 1 := by
  induction cs with
  | nil => intro k v h; simp at h
  | cons x xs ih =>
    intro k v hk h0 hva hvi
    have hx : ¬ (x.Allocated = true ∧ x.ConId = conId) := by
      intro hx; unfold countId at h0; simp [hx] at h0
    have h0xs : countId conId xs = 0 := by
      unfold countId at h0; simpa [hx] using h0
    cases k with
    | zero => simp [countId, hva, hvi, h0xs]
    | succ k =>
      simp only [List.set_cons_succ]
      unfold countId
      simp only [hx, if_false]
      exact ih k v (by simpa using hk) h0xs hva hvi

theorem countId_le_one_of_PoolInv (conId : Nat) (cs : List WoBLEConState) (h : PoolInv cs) :
    countId conId cs ≤ 1 := by
  induction cs with
  | nil => simp [countId]
  | cons x xs ih =>
    unfold PoolInv at h
    rw [List.pairwise_cons] at h
    unfold countId
    by_cases hx : x.Allocated = true ∧ x.ConId = conId
    · simp only [hx, and_self, if_true]
      have : countId conId xs = 0 := by
        rw [countId_zero_iff]
        intro d hd hda hdi
        exact h.1 d hd ⟨hx.1, hda, by rw [hx.2, hdi]⟩
      omega
    · simp only [hx, if_false]
      exact ih h.2

theorem scanCons_set_same (conId : Nat) (cs : List WoBLEConState) :
    ∀ (k i f : Nat) (c v : WoBLEConState), cs[k]? = some c → v.Allocated = c.Allocated →
      v.ConId = c.ConId → scanCons conId (cs.set k v) i f = scanCons conId cs i f := by
  induction cs with
  | nil => intro k i f c v h; simp at h
  | cons x xs ih =>
    intro k i f c v hk hva hvi
    cases k with
    | zero =>
      simp at hk; subst hk
      simp only [List.set_cons_zero]
      unfold scanCons
      rw [hva, hvi]
    | succ k =>
      simp at hk
      simp only [List.set_cons_succ]
      unfold scanCons
      rw [ih k (i + 1) f c v hk hva hvi, ih k (i + 1) i c v hk hva hvi]

theorem GetConnectionState_lookup_none (mCons : List WoBLEConState) (conId : Nat)
    (h : ∀ c ∈ mCons, c.Allocated = true → c.ConId ≠ conId) :
    GetConnectionState mCons conId false = (none, mCons) := by
  unfold GetConnectionState
  cases hs : scanCons conId mCons 0 mCons.length with
  | found j =>
    obtain ⟨_, c, hc, hca, hci⟩ := scanCons_found conId mCons 0 _ j hs
    exact absurd hci (h c (List.getElem?_mem hc) hca)
  | done f => simp

theorem GetConnectionState_lookup_some (mCons : List WoBLEConState) (conId : Nat)
    (h : ∃ c ∈ mCons, c.Allocated = true ∧ c.ConId = conId) (a : Bool) :
    ∃ i c, GetConnectionState mCons conId a = (some i, mCons) ∧ mCons[i]? = some c ∧
      c.Allocated = true ∧ c.ConId = conId := by
  obtain ⟨j, hj⟩ := scanCons_of_mem conId mCons 0 mCons.length h
  obtain ⟨_, c, hc, hca, hci⟩ := scanCons_found conId mCons 0 _ j hj
  refine ⟨j, c, ?_, by simpa using hc, hca, hci⟩
  unfold GetConnectionState
  rw [hj]

theorem NumConnections_of_full (cs : List WoBLEConState)
    (h : ∀ c ∈ cs, c.Allocated = true) : NumConnections cs = cs.length := by
  induction cs with
  | nil => rfl
  | cons c cs ih =>
    unfold NumConnections
    simp [h c (List.mem_cons_self _ _), ih (fun d hd => h d (List.mem_cons_of_mem _ hd))]

/-- C2: on a pool in which every slot is allocated and none holds `conId`,
`GetConnectionState(conId, allocate = true)` returns no entry and leaves the
array unchanged; such a pool has `kMaxConnections` connections, and after any
call, on any pool, the array keeps its length and `NumConnections` is at most
`kMaxConnections`. -/
theorem GetConnectionState_full_pool (mCons : List WoBLEConState) (conId : Nat)
    (hfull : ∀ c ∈ mCons, c.Allocated = true ∧ c.ConId ≠ conId) :
    GetConnectionState mCons conId true = (none, mCons) ∧
    NumConnections mCons = mCons.length ∧
    ∀ (pool : List WoBLEConState) (id : Nat) (allocate : Bool),
      (GetConnectionState pool id allocate).2.length = pool.length ∧
      NumConnections (GetConnectionState pool id allocate).2 ≤ pool.length := by
  refine ⟨?_, ?_, ?_⟩
  · unfold GetConnectionState
    rw [scanCons_full conId mCons 0 mCons.length hfull]
    simp
  · exact NumConnections_of_full mCons (fun c hc => (hfull c hc).1)
  · intro pool id allocate
    have hl := GetConnectionState_length pool id allocate
    exact ⟨hl, hl ▸ NumConnections_le_length _⟩

/-- C2 at a sample pool of two allocated slots. -/
theorem GetConnectionState_full_pool_witness :
    (∀ c ∈ [({ PendingIndBuf := none, ConId := 1, MTU := 23, Allocated := true,
                Subscribed := false } : WoBLEConState),
            { PendingIndBuf := some 4, ConId := 2, MTU := 23, Allocated := true,
              Subscribed := true }], c.Allocated = true ∧ c.ConId ≠ 3) ∧
    GetConnectionState
      [({ PendingIndBuf := none, ConId := 1, MTU := 23, Allocated := true,
          Subscribed := false } : WoBLEConState),
       { PendingIndBuf := some 4, ConId := 2, MTU := 23, Allocated := true,
         Subscribed := true }] 3 true
      = (none,
         [({ PendingIndBuf := none, ConId := 1, MTU := 23, Allocated := true,
             Subscribed := false } : WoBLEConState),
          { PendingIndBuf := some 4, ConId := 2, MTU := 23, Allocated := true,
            Subscribed := true }]) :=
  ⟨by decide, (GetConnectionState_full_pool _ 3 (by decide)).1⟩

/-- C3: if an allocated slot holds `conId`, `GetConnectionState(conId, true)`
returns such a slot and changes nothing; otherwise, if some slot is free, it
returns the lowest free index `k`, and the array afterwards has the zeroed
record with `Allocated` set and `ConId = conId` (MTU 0, not subscribed, no
pending indication) in slot `k` and every other slot unchanged. -/
theorem GetConnectionState_allocate (mCons : List WoBLEConState) (conId : Nat) :
    ((∃ c ∈ mCons, c.Allocated = true ∧ c.ConId = conId) →
      ∃ i c, GetConnectionState mCons conId true = (some i, mCons) ∧
        mCons[i]? = some c ∧ c.Allocated = true ∧ c.ConId = conId) ∧
    ((∀ c ∈ mCons, c.Allocated = true → c.ConId ≠ conId) →
      (∃ c ∈ mCons, c.Allocated = false) →
      ∃ k, k < mCons.length ∧ (∃ c, mCons[k]? = some c ∧ c.Allocated = false) ∧
        (∀ j, j < k → ∀ c, mCons[j]? = some c → c.Allocated = true) ∧
        GetConnectionState mCons conId true
          = (some k, mCons.set k { PendingIndBuf := none, ConId := conId, MTU := 0,
                                   Allocated := true, Subscribed := false }) ∧
        (GetConnectionState mCons conId true).2[k]?
          = some { PendingIndBuf := none, ConId := conId, MTU := 0,
                   Allocated := true, Subscribed := false } ∧
        ∀ j, j ≠ k → (GetConnectionState mCons conId true).2[j]? = mCons[j]?) := by
  constructor
  · intro h
    exact GetConnectionState_lookup_some mCons conId h true
  · intro hno hfree
    obtain ⟨k, hk, hklt, hkfree, hkall⟩ :=
      scanCons_free conId mCons 0 mCons.length (by omega) hno hfree
    have heq : GetConnectionState mCons conId true
        = (some k, mCons.set k { PendingIndBuf := none, ConId := conId, MTU := 0,
                                 Allocated := true, Subscribed := false }) := by
      unfold GetConnectionState
      rw [hk]
      simp [hklt, WoBLEConState.zero]
    refine ⟨k, hklt, hkfree, hkall, heq, ?_, ?_⟩
    · rw [heq]; simp [hklt]
    · intro j hj
      rw [heq]
      simp [List.getElem?_set_ne (Ne.symm hj)]

/-- C3 at the sample pool: id 9 is found, id 5 is allocated. -/
theorem GetConnectionState_allocate_witness :
    (∃ c ∈ samplePool, c.Allocated = true ∧ c.ConId = 9) ∧
    (∀ c ∈ samplePool, c.Allocated = true → c.ConId ≠ 5) ∧
    (∃ c ∈ samplePool, c.Allocated = false) ∧
    (∃ i c, GetConnectionState samplePool 9 true = (some i, samplePool) ∧
      samplePool[i]? = some c ∧ c.Allocated = true ∧ c.ConId = 9) ∧
    (∃ k, k < samplePool.length ∧ (∃ c, samplePool[k]? = some c ∧ c.Allocated = false) ∧
      (∀ j, j < k → ∀ c, samplePool[j]? = some c → c.Allocated = true) ∧
      GetConnectionState samplePool 5 true
        = (some k, samplePool.set k { PendingIndBuf := none, ConId := 5, MTU := 0,
                                      Allocated := true, Subscribed := false }) ∧
      (GetConnectionState samplePool 5 true).2[k]?
        = some { PendingIndBuf := none, ConId := 5, MTU := 0,
                 Allocated := true, Subscribed := false } ∧
      ∀ j, j ≠ k → (GetConnectionState samplePool 5 true).2[j]? = samplePool[j]?) :=
  ⟨by decide, by decide, by decide,
    (GetConnectionState_allocate samplePool 9).1 (by decide),
    (GetConnectionState_allocate samplePool 5).2 (by decide) (by decide)⟩

/-- C4: on a pool in which no two allocated slots hold the same id, after an
acquire of `conId` that returned slot `i`, the first
`ReleaseConnectionState(conId)` returns true, frees slot `i` (clears its
`Allocated` flag, hands its pending buffer to `PacketBuffer::Free`) and changes
no other slot; a second `ReleaseConnectionState(conId)` returns false, frees
nothing and leaves the pool unchanged. -/
theorem ReleaseConnectionState_idempotent (mCons pool1 : List WoBLEConState) (conId i : Nat)
    (hinv : PoolInv mCons)
    (hacq : GetConnectionState mCons conId true = (some i, pool1)) :
    (ReleaseConnectionState conId pool1).1 = true ∧
    (∃ c, pool1[i]? = some c ∧ c.Allocated = true ∧ c.ConId = conId ∧
      (ReleaseConnectionState conId pool1).2.1 = pool1.set i { c with Allocated := false } ∧
      (ReleaseConnectionState conId pool1).2.2 = [c.PendingIndBuf]) ∧
    ReleaseConnectionState conId (ReleaseConnectionState conId pool1).2.1
      = (false, (ReleaseConnectionState conId pool1).2.1, []) := by
  have hcount := countId_le_one_of_PoolInv conId mCons hinv
  -- after the acquire exactly one allocated slot holds the id, and it is slot i
  have hpool1 : countId conId pool1 = 1 ∧
      ∃ c, pool1[i]? = some c ∧ c.Allocated = true ∧ c.ConId = conId := by
    unfold GetConnectionState at hacq
    cases hs : scanCons conId mCons 0 mCons.length with
    | found j =>
      rw [hs] at hacq
      simp only [Prod.mk.injEq, Option.some.injEq] at hacq
      obtain ⟨hji, hp⟩ := hacq
      subst hji; subst hp
      obtain ⟨_, c, hc, hca, hci⟩ := scanCons_found conId mCons 0 _ j hs
      have hc2 : mCons[j]? = some c := by simpa using hc
      have := countId_pos_of_getElem conId mCons j c hc2 hca hci
      exact ⟨by omega, c, hc2, hca, hci⟩
    | done f =>
      rw [hs] at hacq
      simp only [if_true] at hacq
      by_cases hf : f < mCons.length
      · simp only [hf, if_true, Prod.mk.injEq, Option.some.injEq] at hacq
        obtain ⟨hfi, hp⟩ := hacq
        subst hfi
        have h0 : countId conId mCons = 0 := by
          by_contra hne
          obtain ⟨k, c, hk, hca, hci, _⟩ := ReleaseConnectionState_of_countId_pos conId mCons hne
          obtain ⟨j, hj⟩ := scanCons_of_mem conId mCons 0 mCons.length
            ⟨c, List.getElem?_mem hk, hca, hci⟩
          rw [hs] at hj
          exact ScanResult.noConfusion hj
        rw [← hp]
        refine ⟨countId_set_new conId mCons f _ hf h0 rfl rfl,
          { WoBLEConState.zero with Allocated := true, ConId := conId }, ?_, rfl, rfl⟩
        simp [hf]
      · simp [hf] at hacq
  obtain ⟨hone, c, hc, hca, hci⟩ := hpool1
  obtain ⟨k, d, hk, hda, hdi, hr⟩ :=
    ReleaseConnectionState_of_countId_pos conId pool1 (by omega)
  have hki : k = i := holder_unique conId pool1 k i d c (by omega) hk hda hdi hc hca hci
  subst hki
  have hdc : d = c := by rw [hk] at hc; exact Option.some.inj hc
  subst hdc
  refine ⟨by rw [hr], ⟨d, hk, hda, hdi, by rw [hr], by rw [hr]⟩, ?_⟩
  rw [hr]
  apply ReleaseConnectionState_of_countId_zero
  rw [countId_set_release conId pool1 k d hk hda hdi, hone]

/-- C4 at the sample pool, for the newly acquired id 5. -/
theorem ReleaseConnectionState_idempotent_witness :
    PoolInv samplePool ∧
    GetConnectionState samplePool 5 true = (some 1, samplePoolAcquired) ∧
    (ReleaseConnectionState 5 samplePoolAcquired).1 = true ∧
    ReleaseConnectionState 5 (ReleaseConnectionState 5 samplePoolAcquired).2.1
      = (false, (ReleaseConnectionState 5 samplePoolAcquired).2.1, []) :=
  ⟨by decide, by decide,
    (ReleaseConnectionState_idempotent samplePool samplePoolAcquired 5 1
      (by decide) (by decide)).1,
    (ReleaseConnectionState_idempotent samplePool samplePoolAcquired 5 1
      (by decide) (by decide)).2.2⟩

theorem GetConnectionState_lookup_cases (mCons : List WoBLEConState) (conId : Nat) :
    GetConnectionState mCons conId false = (none, mCons) ∨
    ∃ i c, GetConnectionState mCons conId false = (some i, mCons) ∧ mCons[i]? = some c ∧
      c.Allocated = true ∧ c.ConId = conId := by
  by_cases h : ∃ c ∈ mCons, c.Allocated = true ∧ c.ConId = conId
  · exact Or.inr (GetConnectionState_lookup_some mCons conId h false)
  · left
    apply GetConnectionState_lookup_none
    intro c hc hca hci
    exact h ⟨c, hc, hca, hci⟩

theorem GetConnectionState_set_same (mCons : List WoBLEConState) (conId k : Nat)
    (c v : WoBLEConState) (hk : mCons[k]? = some c) (hva : v.Allocated = c.Allocated)
    (hvi : v.ConId = c.ConId) :
    (GetConnectionState (mCons.set k v) conId false).1
      = (GetConnectionState mCons conId false).1 := by
  unfold GetConnectionState
  rw [List.length_set, scanCons_set_same conId mCons k 0 mCons.length c v hk hva hvi]
  cases scanCons conId mCons 0 mCons.length <;> simp

/-- C5: `SendIndication` on a connection id held by no allocated slot fails
with invalid-argument, and on a connection whose slot has a pending indication
it fails with incorrect-state; in both cases it returns false, its only effect
is to free the buffer passed in (no `esp_ble_gatts_send_indicate`), and the
manager, the pending buffer included, is unchanged.  In particular a second
call after a successful one, with no confirm in between, fails in this way. -/
theorem SendIndication_rejected (self : BLEManager) (send_indicate conId data : Nat) :
    ((∀ c ∈ self.mCons, c.Allocated = true → c.ConId ≠ conId) →
      SendIndication send_indicate conId data self
        = (false, WEAVE_ERROR_INVALID_ARGUMENT, self, [Effect.PacketBuffer_Free (some data)])) ∧
    ((∃ c ∈ self.mCons, c.Allocated = true ∧ c.ConId = conId) →
      (∀ c ∈ self.mCons, c.Allocated = true → c.ConId = conId → c.PendingIndBuf ≠ none) →
      SendIndication send_indicate conId data self
        = (false, WEAVE_ERROR_INCORRECT_STATE, self, [Effect.PacketBuffer_Free (some data)])) ∧
    ((SendIndication send_indicate conId data self).1 = true →
      ∀ send_indicate2 data2 : Nat,
        SendIndication send_indicate2 conId data2
            (SendIndication send_indicate conId data self).2.2.1
          = (false, WEAVE_ERROR_INCORRECT_STATE,
              (SendIndication send_indicate conId data self).2.2.1,
              [Effect.PacketBuffer_Free (some data2)])) := by
  refine ⟨?_, ?_, ?_⟩
  · intro hno
    simp only [SendIndication, GetConnectionState_lookup_none self.mCons conId hno]
  · intro hex hpend
    obtain ⟨i, c, hlook, hc, hca, hci⟩ := GetConnectionState_lookup_some self.mCons conId hex false
    have hget : self.mCons.getD i WoBLEConState.zero = c := by
      simp [List.getD, hc]
    have hp := hpend c (List.getElem?_mem hc) hca hci
    simp only [SendIndication, hlook, hget]
    simp [hp]
  · intro h1 send2 data2
    rcases GetConnectionState_lookup_cases self.mCons conId with hlook | ⟨i, c, hlook, hc, hca, hci⟩
    · simp [SendIndication, hlook] at h1
    · have hget : self.mCons.getD i WoBLEConState.zero = c := by
        simp [List.getD, hc]
      have hilt : i < self.mCons.length := by
        rcases List.getElem?_eq_some.mp hc with ⟨h, _⟩; exact h
      by_cases hp : c.PendingIndBuf = none
      · by_cases hs : send_indicate = WEAVE_NO_ERROR
        · have hfirst : SendIndication send_indicate conId data self
              = (true, WEAVE_NO_ERROR,
                  { self with mCons := self.mCons.set i { c with PendingIndBuf := some data } },
                  [Effect.esp_ble_gatts_send_indicate self.mAppIf conId
                    self.mTXCharAttrHandle data]) := by
            simp only [SendIndication, hlook, hget]
            simp [hp, hs]
          rw [hfirst]
          have hlook2 := GetConnectionState_set_same self.mCons conId i c
            { c with PendingIndBuf := some data } hc rfl rfl
          rw [hlook] at hlook2
          have hget2 : (self.mCons.set i { c with PendingIndBuf := some data }).getD i
              WoBLEConState.zero = { c with PendingIndBuf := some data } := by
            simp [List.getD, hilt]
          simp only [SendIndication, hlook2, hget2]
          simp
        · simp only [SendIndication, hlook, hget] at h1
          simp [hp, hs] at h1
      · simp only [SendIndication, hlook, hget] at h1
        simp [hp] at h1

/-- C5 at the sample manager: unknown id 5, pending id 9, and id 7 twice. -/
theorem SendIndication_rejected_witness :
    (∀ c ∈ connectedBLE.mCons, c.Allocated = true → c.ConId ≠ 5) ∧
    SendIndication 0 5 11 connectedBLE
      = (false, WEAVE_ERROR_INVALID_ARGUMENT, connectedBLE,
          [Effect.PacketBuffer_Free (some 11)]) ∧
    (∃ c ∈ connectedBLE.mCons, c.Allocated = true ∧ c.ConId = 9) ∧
    (∀ c ∈ connectedBLE.mCons, c.Allocated = true → c.ConId = 9 → c.PendingIndBuf ≠ none) ∧
    SendIndication 0 9 11 connectedBLE
      = (false, WEAVE_ERROR_INCORRECT_STATE, connectedBLE,
          [Effect.PacketBuffer_Free (some 11)]) ∧
    (SendIndication 0 7 11 connectedBLE).1 = true ∧
    SendIndication 0 7 12 (SendIndication 0 7 11 connectedBLE).2.2.1
      = (false, WEAVE_ERROR_INCORRECT_STATE, (SendIndication 0 7 11 connectedBLE).2.2.1,
          [Effect.PacketBuffer_Free (some 12)]) :=
  ⟨by decide, (SendIndication_rejected connectedBLE 0 5 11).1 (by decide),
    by decide, by decide,
    (SendIndication_rejected connectedBLE 0 9 11).2.1 (by decide) (by decide),
    by decide,
    (SendIndication_rejected connectedBLE 0 7 11).2.2 (by decide) 0 12⟩

/-! ## The control-operation gate of the BLE transport -/

theorem asyncControlCmds_append (a b : List Effect) :
    asyncControlCmds (a ++ b) = asyncControlCmds a ++ asyncControlCmds b := by
  simp [asyncControlCmds]

theorem asyncControlCmds_ite (c : Prop) [Decidable c] (x : List Effect)
    (h : asyncControlCmds x = []) : asyncControlCmds (if c then x else []) = [] := by
  split_ifs
  · exact h
  · rfl

theorem runCalls_asyncControlCmds (calls : List (Effect × WEAVE_ERROR))
    (h : ∀ p ∈ calls, p.1.isAsyncControlCmd = false) :
    asyncControlCmds (runCalls calls).2 = [] := by
  induction calls with
  | nil => rfl
  | cons p rest ih =>
    obtain ⟨call, err⟩ := p
    have hc : call.isAsyncControlCmd = false := h (call, err) (List.mem_cons_self _ _)
    have hr := ih (fun q hq => h q (List.mem_cons_of_mem _ hq))
    unfold runCalls
    by_cases he : err ≠ WEAVE_NO_ERROR
    · simp [he, asyncControlCmds, hc]
    · simp only [he, if_false]
      simp only [asyncControlCmds, List.filter_cons, hc] at hr ⊢
      simpa using hr

theorem InitESPBleLayer_spec (drv : BLEDriver) (self : BLEManager) :
    asyncControlCmds (InitESPBleLayer drv self).2.2 = [] ∧
    (InitESPBleLayer drv self).2.1.mFlags.ControlOpInProgress = self.mFlags.ControlOpInProgress := by
  have hcalls : asyncControlCmds (runCalls (InitESPBleLayer_calls drv)).2 = [] := by
    apply runCalls_asyncControlCmds
    intro p hp
    unfold InitESPBleLayer_calls at hp
    simp only [List.mem_append, List.mem_cons, List.mem_singleton] at hp
    rcases hp with (((hp | hp) | hp) | hp) | hp
    · split_ifs at hp
      · simp at hp; rcases hp with hp | hp <;> subst hp <;> rfl
      · simp at hp
    · split_ifs at hp
      · simp at hp; subst hp; rfl
      · simp at hp
    · split_ifs at hp
      · simp at hp; subst hp; rfl
      · simp at hp
    · split_ifs at hp
      · simp at hp; subst hp; rfl
      · simp at hp
    · simp at hp; rcases hp with hp | hp | hp <;> subst hp <;> rfl
  unfold InitESPBleLayer
  by_cases h1 : self.mFlags.ESPBLELayerInitialized = true
  · rw [if_pos h1]; exact ⟨rfl, rfl⟩
  · rw [if_neg h1]
    simp only []
    by_cases h2 : (runCalls (InitESPBleLayer_calls drv)).1 ≠ WEAVE_NO_ERROR
    · rw [if_pos h2]; exact ⟨hcalls, rfl⟩
    · rw [if_neg h2]; exact ⟨hcalls, rfl⟩

theorem DriveBLEState_exit_snd (err : WEAVE_ERROR) (self : BLEManager) (eff : List Effect) :
    (DriveBLEState_exit err self eff).2 = eff := by
  unfold DriveBLEState_exit; split_ifs <;> rfl

theorem DriveBLEState_exit_flags (err : WEAVE_ERROR) (self : BLEManager) (eff : List Effect) :
    (DriveBLEState_exit err self eff).1.mFlags = self.mFlags := by
  unfold DriveBLEState_exit; split_ifs <;> rfl

theorem DriveBLEState_issue_snd (err : WEAVE_ERROR) (self : BLEManager) (eff : List Effect) :
    (DriveBLEState_issue err self eff).2 = eff := by
  unfold DriveBLEState_issue; split_ifs <;> exact DriveBLEState_exit_snd _ _ _

theorem DriveBLEState_issue_flag (err : WEAVE_ERROR) (self : BLEManager) (eff : List Effect)
    (hflag : self.mFlags.ControlOpInProgress = false) :
    ((DriveBLEState_issue err self eff).1.mFlags.ControlOpInProgress = true ↔
      err = WEAVE_NO_ERROR) := by
  unfold DriveBLEState_issue
  by_cases h : err ≠ WEAVE_NO_ERROR
  · rw [if_pos h, DriveBLEState_exit_flags, hflag]; simp [h]
  · rw [if_neg h, DriveBLEState_exit_flags]; simp at h; simp [h]

theorem StageOutcome_issue (drv : BLEDriver) (env : BLEEnv) (eff : List Effect)
    (self : BLEManager) (c : Effect) (hc : c.isAsyncControlCmd = true)
    (hflag : self.mFlags.ControlOpInProgress = false) :
    StageOutcome drv env eff (DriveBLEState_issue (drv.answer c) self (eff ++ [c])) := by
  refine ⟨[c], ?_, Or.inr (Or.inl ⟨c, rfl⟩), ?_⟩
  · rw [DriveBLEState_issue_snd, asyncControlCmds_append]
    simp [asyncControlCmds, hc]
  · rw [DriveBLEState_issue_flag _ _ _ hflag]; simp

theorem StageOutcome_exit (drv : BLEDriver) (env : BLEEnv) (eff : List Effect)
    (self : BLEManager) (err : WEAVE_ERROR)
    (hflag : self.mFlags.ControlOpInProgress = false) :
    StageOutcome drv env eff (DriveBLEState_exit err self eff) := by
  refine ⟨[], ?_, Or.inl rfl, ?_⟩
  · rw [DriveBLEState_exit_snd]; simp
  · rw [DriveBLEState_exit_flags, hflag]; simp

theorem StageOutcome_stopService (drv : BLEDriver) (env : BLEEnv) (eff : List Effect)
    (self : BLEManager) (hflag : self.mFlags.ControlOpInProgress = false) :
    StageOutcome drv env eff (DriveBLEState_stopService drv self eff) := by
  unfold DriveBLEState_stopService
  split_ifs
  · exact StageOutcome_issue drv env eff self
      (Effect.esp_ble_gatts_stop_service self.mServiceAttrHandle) rfl hflag
  · exact StageOutcome_exit drv env eff self _ hflag

theorem StageOutcome_StartAdvertising (drv : BLEDriver) (env : BLEEnv) (eff : List Effect)
    (self : BLEManager) (hflag : self.mFlags.ControlOpInProgress = false) :
    StageOutcome drv env eff
      (DriveBLEState_exit (StartAdvertising drv env self).1 (StartAdvertising drv env self).2.1
        (eff ++ (StartAdvertising drv env self).2.2)) := by
  refine ⟨[Effect.esp_ble_gap_start_advertising (advertisingParams env self)], ?_,
    Or.inr (Or.inl ⟨_, rfl⟩), ?_⟩
  · rw [DriveBLEState_exit_snd, asyncControlCmds_append]
    unfold StartAdvertising
    split_ifs <;> simp [asyncControlCmds, Effect.isAsyncControlCmd]
  · rw [DriveBLEState_exit_flags]
    unfold StartAdvertising
    simp only []
    by_cases h : drv.gap_start_advertising ≠ WEAVE_NO_ERROR
    · rw [if_pos h]; simp [BLEDriver.answer, h, hflag]
    · rw [if_neg h]; simp at h; simp [BLEDriver.answer, h]

theorem StageOutcome_ConfigureAdvertisingData (drv : BLEDriver) (env : BLEEnv)
    (eff : List Effect) (self : BLEManager)
    (hflag : self.mFlags.ControlOpInProgress = false) :
    StageOutcome drv env eff
      (DriveBLEState_exit (ConfigureAdvertisingData drv env self).1
        (ConfigureAdvertisingData drv env self).2.1
        (eff ++ (ConfigureAdvertisingData drv env self).2.2)) := by
  unfold StageOutcome
  rw [DriveBLEState_exit_snd, DriveBLEState_exit_flags, asyncControlCmds_append]
  have hs1 : ∀ name : List Char,
      (if self.mFlags.UseCustomDeviceName = true then self
        else { self with mDeviceName := name }).mFlags.ControlOpInProgress = false := by
    intro name; split_ifs <;> exact hflag
  unfold ConfigureAdvertisingData
  simp only [runCalls]
  by_cases h1 : drv.gap_set_device_name ≠ WEAVE_NO_ERROR
  · refine ⟨[], ?_, Or.inl rfl, ?_⟩
    · simp [h1, asyncControlCmds, Effect.isAsyncControlCmd]
    · simp [h1, hs1]
  · by_cases h2 : drv.gap_config_adv_data ≠ WEAVE_NO_ERROR
    · refine ⟨[Effect.esp_ble_gap_config_adv_data advertisingPacket], ?_,
        Or.inr (Or.inl ⟨_, rfl⟩), ?_⟩
      · simp [h1, h2, asyncControlCmds, Effect.isAsyncControlCmd]
      · simp [h1, h2, hs1, BLEDriver.answer, advertisingPacket]
    · by_cases h3 : drv.gap_config_scan_rsp ≠ WEAVE_NO_ERROR
      · refine ⟨[Effect.esp_ble_gap_config_adv_data advertisingPacket,
                 Effect.esp_ble_gap_config_adv_data (scanResponsePacket env)], ?_,
          Or.inr (Or.inr rfl), ?_⟩
        · simp [h1, h2, h3, asyncControlCmds, Effect.isAsyncControlCmd]
        · simp [h1, h2, h3, hs1, BLEDriver.answer, advertisingPacket, scanResponsePacket]
      · refine ⟨[Effect.esp_ble_gap_config_adv_data advertisingPacket,
                 Effect.esp_ble_gap_config_adv_data (scanResponsePacket env)], ?_,
          Or.inr (Or.inr rfl), ?_⟩
        · simp [h1, h2, h3, asyncControlCmds, Effect.isAsyncControlCmd]
        · simp at h1 h2 h3
          simp [h1, h2, h3, BLEDriver.answer, advertisingPacket, scanResponsePacket,
            WEAVE_NO_ERROR]

theorem DriveBLEState_stages_spec (drv : BLEDriver) (env : BLEEnv) (self : BLEManager)
    (eff : List Effect) (hflag : self.mFlags.ControlOpInProgress = false) :
    StageOutcome drv env eff (DriveBLEState_stages drv env self eff) := by
  unfold DriveBLEState_stages
  split_ifs
  · exact StageOutcome_issue drv env eff self (Effect.esp_ble_gatts_app_register WoBLEAppId)
      rfl hflag
  · exact StageOutcome_issue drv env eff self
      (Effect.esp_ble_gatts_create_attr_tab self.mAppIf WoBLEGATTAttrCount) rfl hflag
  · exact StageOutcome_issue drv env eff self
      (Effect.esp_ble_gatts_start_service self.mServiceAttrHandle) rfl hflag
  · exact StageOutcome_ConfigureAdvertisingData drv env eff self hflag
  · exact StageOutcome_StartAdvertising drv env eff self hflag
  · exact StageOutcome_stopService drv env eff self hflag
  · exact StageOutcome_issue drv env eff self Effect.esp_ble_gap_stop_advertising rfl hflag
  · exact StageOutcome_stopService drv env eff self hflag

theorem HandleGATTControlEvent_exit_spec (err : WEAVE_ERROR) (c : Bool) (self : BLEManager) :
    asyncControlCmds (HandleGATTControlEvent_exit err c self).2 = [] ∧
    ((HandleGATTControlEvent_exit err c self).1.mFlags.ControlOpInProgress = true →
      self.mFlags.ControlOpInProgress = true) := by
  unfold HandleGATTControlEvent_exit
  cases c <;> by_cases h : err ≠ WEAVE_NO_ERROR <;>
    simp [h, asyncControlCmds, Effect.isAsyncControlCmd]

theorem HandleGATTControlEvent_spec (event : esp_gatts_cb_event_t) (gatts_if : Nat)
    (param : esp_ble_gatts_cb_param_t) (self : BLEManager) :
    asyncControlCmds (HandleGATTControlEvent event gatts_if param self).2 = [] ∧
    ((HandleGATTControlEvent event gatts_if param self).1.mFlags.ControlOpInProgress = true →
      self.mFlags.ControlOpInProgress = true) := by
  unfold HandleGATTControlEvent
  cases event <;> dsimp only <;> split_ifs <;> exact HandleGATTControlEvent_exit_spec _ _ _

theorem HandleRXCharWrite_async (newBuf : Option (Nat × Nat)) (param : esp_ble_gatts_cb_param_t)
    (self : BLEManager) : asyncControlCmds (HandleRXCharWrite newBuf param self) = [] := by
  unfold HandleRXCharWrite
  simp only []
  repeat' split
  all_goals simp [asyncControlCmds, Effect.isAsyncControlCmd]

theorem HandleTXCharCCCDRead_async (param : esp_ble_gatts_cb_param_t) (self : BLEManager) :
    asyncControlCmds (HandleTXCharCCCDRead param self) = [] := by
  unfold HandleTXCharCCCDRead
  split <;> simp [asyncControlCmds, Effect.isAsyncControlCmd]

theorem HandleTXCharCCCDWrite_async (param : esp_ble_gatts_cb_param_t) (self : BLEManager) :
    asyncControlCmds (HandleTXCharCCCDWrite param self) = [] := by
  unfold HandleTXCharCCCDWrite
  simp only []
  repeat' split
  all_goals simp [asyncControlCmds, Effect.isAsyncControlCmd]

theorem asyncControlCmds_map_free (bufs : List PacketBufferPtr) :
    asyncControlCmds (bufs.map Effect.PacketBuffer_Free) = [] := by
  induction bufs with
  | nil => rfl
  | cons b bs ih =>
    simp only [asyncControlCmds, List.map_cons, List.filter_cons] at ih ⊢
    simp [Effect.isAsyncControlCmd]

theorem HandleDisconnect_spec (param : esp_ble_gatts_cb_param_t) (self : BLEManager) :
    asyncControlCmds (HandleDisconnect param self).2 = [] ∧
    (HandleDisconnect param self).1.mFlags.ControlOpInProgress
      = self.mFlags.ControlOpInProgress ∧
    (HandleDisconnect param self).1.mServiceMode = self.mServiceMode := by
  unfold HandleDisconnect
  simp only []
  by_cases hr : (ReleaseConnectionState param.disconnect_conn_id self.mCons).1 = true
  · rw [if_pos hr]
    refine ⟨?_, rfl, rfl⟩
    show asyncControlCmds (_ ++ _) = []
    rw [asyncControlCmds_append, asyncControlCmds_map_free]
    simp [asyncControlCmds, Effect.isAsyncControlCmd]
  · rw [if_neg hr]
    exact ⟨asyncControlCmds_map_free _, rfl, rfl⟩

theorem HandleGATTCommEvent_spec (newBuf : Option (Nat × Nat)) (event : esp_gatts_cb_event_t)
    (gatts_if : Nat) (param : esp_ble_gatts_cb_param_t) (self : BLEManager) :
    asyncControlCmds (HandleGATTCommEvent newBuf event gatts_if param self).2 = [] ∧
    (HandleGATTCommEvent newBuf event gatts_if param self).1.mFlags.ControlOpInProgress
      = self.mFlags.ControlOpInProgress ∧
    (HandleGATTCommEvent newBuf event gatts_if param self).1.mServiceMode
      = self.mServiceMode := by
  unfold HandleGATTCommEvent
  by_cases hg : self.mFlags.GATTServiceStarted = false ∨ gatts_if ≠ self.mAppIf
  · rw [if_pos hg]; exact ⟨rfl, rfl, rfl⟩
  · rw [if_neg hg]
    have hread : asyncControlCmds (HandleTXCharRead param self) = [] := rfl
    cases event with
    | ESP_GATTS_DISCONNECT_EVT => exact HandleDisconnect_spec param self
    | ESP_GATTS_READ_EVT =>
      dsimp only
      refine ⟨?_, rfl, rfl⟩
      rw [asyncControlCmds_append, asyncControlCmds_ite _ _ hread,
        asyncControlCmds_ite _ _ (HandleTXCharCCCDRead_async param self)]
      rfl
    | ESP_GATTS_WRITE_EVT =>
      dsimp only
      refine ⟨?_, rfl, rfl⟩
      rw [asyncControlCmds_append,
        asyncControlCmds_ite _ _ (HandleRXCharWrite_async newBuf param self),
        asyncControlCmds_ite _ _ (HandleTXCharCCCDWrite_async param self)]
      rfl
    | ESP_GATTS_CONF_EVT =>
      dsimp only
      cases (GetConnectionState self.mCons param.conf_conn_id false).1 <;>
        exact ⟨rfl, rfl, rfl⟩
    | ESP_GATTS_MTU_EVT =>
      dsimp only
      cases (GetConnectionState self.mCons param.mtu_conn_id false).1 <;>
        exact ⟨rfl, rfl, rfl⟩
    | _ => exact ⟨rfl, rfl, rfl⟩

theorem HandleGATTEvent_spec (newBuf : Option (Nat × Nat)) (event : esp_gatts_cb_event_t)
    (gatts_if : Nat) (param : esp_ble_gatts_cb_param_t) (self : BLEManager) :
    asyncControlCmds (HandleGATTEvent newBuf event gatts_if param self).2 = [] ∧
    ((HandleGATTEvent newBuf event gatts_if param self).1.mFlags.ControlOpInProgress = true →
      self.mFlags.ControlOpInProgress = true) := by
  unfold HandleGATTEvent
  simp only []
  obtain ⟨h1, h2⟩ := HandleGATTControlEvent_spec event gatts_if param self
  obtain ⟨h3, h4, _⟩ := HandleGATTCommEvent_spec newBuf event gatts_if param
    (HandleGATTControlEvent event gatts_if param self).1
  constructor
  · simp only [asyncControlCmds_append, h1, h3]
    rfl
  · rw [h4]; exact h2

theorem HandleGAPEvent_spec (event : esp_gap_ble_cb_event_t) (self : BLEManager) :
    asyncControlCmds (HandleGAPEvent event self).2 = [] ∧
    ((HandleGAPEvent event self).1.mFlags.ControlOpInProgress = true →
      self.mFlags.ControlOpInProgress = true) := by
  unfold HandleGAPEvent HandleGAPEvent_exit
  split <;> split_ifs <;> simp_all [asyncControlCmds, Effect.isAsyncControlCmd]

/-- C1 (amended): the control-operation gate of the BLE transport.  With
`kFlag_ControlOpInProgress` set `DriveBLEState` does nothing; one call issues
the asynchronous control commands of at most one stage (none, one, or the two
`esp_ble_gap_config_adv_data` commands of the advertising configuration, back
to back); on a call entered with the flag clear the flag is set on return
when asynchronous commands were issued and the driver accepted them all, and
it is still clear when none was issued; the callbacks `HandleGATTEvent` and `HandleGAPEvent` issue no asynchronous
control command and never set the flag. -/
theorem DriveBLEState_control_op_gate (drv : BLEDriver) (env : BLEEnv) (self : BLEManager) :
    (self.mFlags.ControlOpInProgress = true → DriveBLEState drv env self = (self, [])) ∧
    (asyncControlCmds (DriveBLEState drv env self).2 = [] ∨
      (∃ c, asyncControlCmds (DriveBLEState drv env self).2 = [c]) ∨
      asyncControlCmds (DriveBLEState drv env self).2
        = [Effect.esp_ble_gap_config_adv_data advertisingPacket,
           Effect.esp_ble_gap_config_adv_data (scanResponsePacket env)]) ∧
    (self.mFlags.ControlOpInProgress = false →
      (asyncControlCmds (DriveBLEState drv env self).2 ≠ [] →
        (∀ c ∈ asyncControlCmds (DriveBLEState drv env self).2,
          drv.answer c = WEAVE_NO_ERROR) →
        (DriveBLEState drv env self).1.mFlags.ControlOpInProgress = true) ∧
      (asyncControlCmds (DriveBLEState drv env self).2 = [] →
        (DriveBLEState drv env self).1.mFlags.ControlOpInProgress = false)) ∧
    (∀ (newBuf : Option (Nat × Nat)) (event : esp_gatts_cb_event_t) (gatts_if : Nat)
        (param : esp_ble_gatts_cb_param_t),
      asyncControlCmds (HandleGATTEvent newBuf event gatts_if param self).2 = [] ∧
      ((HandleGATTEvent newBuf event gatts_if param self).1.mFlags.ControlOpInProgress = true →
        self.mFlags.ControlOpInProgress = true)) ∧
    (∀ event : esp_gap_ble_cb_event_t,
      asyncControlCmds (HandleGAPEvent event self).2 = [] ∧
      ((HandleGAPEvent event self).1.mFlags.ControlOpInProgress = true →
        self.mFlags.ControlOpInProgress = true)) := by
  have hgate : self.mFlags.ControlOpInProgress = true →
      DriveBLEState drv env self = (self, []) := by
    intro h
    unfold DriveBLEState
    rw [if_pos h]
    rfl
  have hout : self.mFlags.ControlOpInProgress = false →
      StageOutcome drv env [] (DriveBLEState drv env self) := by
    intro h
    have hne : ¬ self.mFlags.ControlOpInProgress = true := by rw [h]; decide
    unfold DriveBLEState
    rw [if_neg hne]
    have hr1 : ∀ r1 : WEAVE_ERROR × BLEManager × List Effect,
        asyncControlCmds r1.2.2 = [] → r1.2.1.mFlags.ControlOpInProgress = false →
        StageOutcome drv env []
          (if r1.1 ≠ WEAVE_NO_ERROR then DriveBLEState_exit r1.1 r1.2.1 r1.2.2
            else DriveBLEState_stages drv env r1.2.1 r1.2.2) := by
      intro r1 ha hf
      by_cases he : r1.1 ≠ WEAVE_NO_ERROR
      · rw [if_pos he]
        refine ⟨[], ?_, Or.inl rfl, ?_⟩
        · rw [DriveBLEState_exit_snd, ha]; rfl
        · rw [DriveBLEState_exit_flags, hf]; simp
      · rw [if_neg he]
        obtain ⟨cmds, h1, h2, h3⟩ := DriveBLEState_stages_spec drv env r1.2.1 r1.2.2 hf
        exact ⟨cmds, by rw [h1, ha]; rfl, h2, h3⟩
    apply hr1
    · split_ifs
      · exact (InitESPBleLayer_spec drv self).1
      · rfl
    · split_ifs
      · rw [(InitESPBleLayer_spec drv self).2]; exact h
      · exact h
  refine ⟨hgate, ?_, ?_, ?_, ?_⟩
  · cases hf : self.mFlags.ControlOpInProgress with
    | true => rw [hgate hf]; exact Or.inl rfl
    | false =>
      obtain ⟨cmds, h1, h2, _⟩ := hout hf
      have h1b : asyncControlCmds (DriveBLEState drv env self).2 = cmds := by
        rw [h1]; rfl
      rw [h1b]; exact h2
  · intro hf
    obtain ⟨cmds, h1, _, h3⟩ := hout hf
    have h1b : asyncControlCmds (DriveBLEState drv env self).2 = cmds := by
      rw [h1]; rfl
    rw [h1b]
    refine ⟨fun hne hall => h3.mpr ⟨hne, hall⟩, fun hnil => ?_⟩
    cases hfl : (DriveBLEState drv env self).1.mFlags.ControlOpInProgress with
    | false => rfl
    | true => exact absurd hnil (h3.mp hfl).1
  · intro newBuf event gatts_if param
    exact HandleGATTEvent_spec newBuf event gatts_if param self
  · intro event
    exact HandleGAPEvent_spec event self

/-- The gate of C1 at a sample state: the flag is set because both
configuration commands were accepted. -/
theorem DriveBLEState_control_op_gate_witness :
    serviceStartedBLE.mFlags.ControlOpInProgress = false ∧
    asyncControlCmds (DriveBLEState okDriver sampleEnv serviceStartedBLE).2 ≠ [] ∧
    (∀ c ∈ asyncControlCmds (DriveBLEState okDriver sampleEnv serviceStartedBLE).2,
      okDriver.answer c = WEAVE_NO_ERROR) ∧
    (DriveBLEState okDriver sampleEnv serviceStartedBLE).1.mFlags.ControlOpInProgress = true :=
  ⟨rfl, by decide, by decide,
    ((DriveBLEState_control_op_gate okDriver sampleEnv serviceStartedBLE).2.2.1 rfl).1
      (by decide) (by decide)⟩

/-- C1 (as stated) fails: one `DriveBLEState` call, entered with no control
operation in progress, issues two asynchronous commands back to back; and when
the driver accepts the first and rejects the second, the flag stays clear, so
that the next `DriveBLEState` issues a further asynchronous command (service
stop) although no completion has been observed in between. -/
theorem DriveBLEState_issues_two_async_commands :
    serviceStartedBLE.mFlags.ControlOpInProgress = false ∧
    asyncControlCmds (DriveBLEState okDriver sampleEnv serviceStartedBLE).2
      = [Effect.esp_ble_gap_config_adv_data advertisingPacket,
         Effect.esp_ble_gap_config_adv_data (scanResponsePacket sampleEnv)] ∧
    asyncControlCmds (DriveBLEState scanRspFailsDriver sampleEnv serviceStartedBLE).2
      = [Effect.esp_ble_gap_config_adv_data advertisingPacket,
         Effect.esp_ble_gap_config_adv_data (scanResponsePacket sampleEnv)] ∧
    scanRspFailsDriver.answer (Effect.esp_ble_gap_config_adv_data advertisingPacket)
      = WEAVE_NO_ERROR ∧
    (DriveBLEState scanRspFailsDriver sampleEnv
        serviceStartedBLE).1.mFlags.ControlOpInProgress = false ∧
    asyncControlCmds
        (DriveBLEState okDriver sampleEnv
          (DriveBLEState scanRspFailsDriver sampleEnv serviceStartedBLE).1).2
      = [Effect.esp_ble_gatts_stop_service 40] := by
  decide

/-! ## Failed completions -/

theorem HandleGATTCommEvent_control_event (newBuf : Option (Nat × Nat))
    (event : esp_gatts_cb_event_t) (gatts_if : Nat) (param : esp_ble_gatts_cb_param_t)
    (self : BLEManager)
    (hev : event = esp_gatts_cb_event_t.ESP_GATTS_REG_EVT
      ∨ event = esp_gatts_cb_event_t.ESP_GATTS_CREAT_ATTR_TAB_EVT
      ∨ event = esp_gatts_cb_event_t.ESP_GATTS_START_EVT
      ∨ event = esp_gatts_cb_event_t.ESP_GATTS_STOP_EVT) :
    HandleGATTCommEvent newBuf event gatts_if param self = (self, []) := by
  unfold HandleGATTCommEvent
  rcases hev with h | h | h | h <;> subst h <;> split_ifs <;> rfl

theorem HandleGATTEvent_control_event (newBuf : Option (Nat × Nat))
    (event : esp_gatts_cb_event_t) (gatts_if : Nat) (param : esp_ble_gatts_cb_param_t)
    (self : BLEManager)
    (hev : event = esp_gatts_cb_event_t.ESP_GATTS_REG_EVT
      ∨ event = esp_gatts_cb_event_t.ESP_GATTS_CREAT_ATTR_TAB_EVT
      ∨ event = esp_gatts_cb_event_t.ESP_GATTS_START_EVT
      ∨ event = esp_gatts_cb_event_t.ESP_GATTS_STOP_EVT) :
    (HandleGATTEvent newBuf event gatts_if param self).1
      = (HandleGATTControlEvent event gatts_if param self).1 := by
  unfold HandleGATTEvent
  simp only []
  rw [HandleGATTCommEvent_control_event newBuf event gatts_if param _ hev]

theorem HandleGATTControlEvent_exit_failed (self : BLEManager) :
    HandleGATTControlEvent_exit ESP_ERR_INVALID_RESPONSE false self
      = ({ self with mServiceMode := WoBLEServiceMode.kWoBLEServiceMode_Disabled }, []) := by
  unfold HandleGATTControlEvent_exit
  rfl

/-- What a failed completion does to the manager: the service mode becomes
Disabled and nothing else changes. -/
theorem HandleGATTEvent_failed (newBuf : Option (Nat × Nat)) (gatts_if : Nat)
    (param : esp_ble_gatts_cb_param_t) (self : BLEManager) :
    (param.reg_app_id = WoBLEAppId → param.reg_status ≠ ESP_GATT_OK →
      (HandleGATTEvent newBuf esp_gatts_cb_event_t.ESP_GATTS_REG_EVT gatts_if param self).1
        = { self with mServiceMode := WoBLEServiceMode.kWoBLEServiceMode_Disabled }) ∧
    (self.mFlags.AppRegistered = true → gatts_if = self.mAppIf →
      (param.add_attr_tab_status ≠ ESP_GATT_OK →
        (HandleGATTEvent newBuf esp_gatts_cb_event_t.ESP_GATTS_CREAT_ATTR_TAB_EVT gatts_if
            param self).1
          = { self with mServiceMode := WoBLEServiceMode.kWoBLEServiceMode_Disabled }) ∧
      (param.start_status ≠ ESP_GATT_OK →
        (HandleGATTEvent newBuf esp_gatts_cb_event_t.ESP_GATTS_START_EVT gatts_if param self).1
          = { self with mServiceMode := WoBLEServiceMode.kWoBLEServiceMode_Disabled }) ∧
      (param.stop_status ≠ ESP_GATT_OK →
        (HandleGATTEvent newBuf esp_gatts_cb_event_t.ESP_GATTS_STOP_EVT gatts_if param self).1
          = { self with mServiceMode := WoBLEServiceMode.kWoBLEServiceMode_Disabled })) := by
  refine ⟨?_, ?_⟩
  · intro happ hst
    rw [HandleGATTEvent_control_event _ _ _ _ _ (Or.inl rfl)]
    unfold HandleGATTControlEvent
    simp only [ne_eq, not_true_eq_false, false_and, if_false, happ, if_true, hst,
      not_false_eq_true, HandleGATTControlEvent_exit_failed]
  · intro hreg hif
    have hguard : ∀ ev : esp_gatts_cb_event_t,
        ¬ (ev ≠ esp_gatts_cb_event_t.ESP_GATTS_REG_EVT
          ∧ (self.mFlags.AppRegistered = false ∨ gatts_if ≠ self.mAppIf)) := by
      intro ev h
      rcases h.2 with h2 | h2
      · rw [hreg] at h2; exact Bool.noConfusion h2
      · exact h2 hif
    refine ⟨?_, ?_, ?_⟩
    · intro hst
      rw [HandleGATTEvent_control_event _ _ _ _ _ (Or.inr (Or.inl rfl))]
      unfold HandleGATTControlEvent
      rw [if_neg (hguard _)]
      simp only [hst, ne_eq, not_false_eq_true, if_true, HandleGATTControlEvent_exit_failed]
    · intro hst
      rw [HandleGATTEvent_control_event _ _ _ _ _ (Or.inr (Or.inr (Or.inl rfl)))]
      unfold HandleGATTControlEvent
      rw [if_neg (hguard _)]
      simp only [hst, ne_eq, not_false_eq_true, if_true, HandleGATTControlEvent_exit_failed]
    · intro hst
      rw [HandleGATTEvent_control_event _ _ _ _ _ (Or.inr (Or.inr (Or.inr rfl)))]
      unfold HandleGATTControlEvent
      rw [if_neg (hguard _)]
      simp only [hst, ne_eq, not_false_eq_true, if_true, HandleGATTControlEvent_exit_failed]

theorem HandleGAPEvent_failed (status : Nat) (self : BLEManager)
    (hst : status ≠ ESP_BT_STATUS_SUCCESS) :
    (HandleGAPEvent (esp_gap_ble_cb_event_t.ESP_GAP_BLE_ADV_DATA_SET_COMPLETE_EVT status) self).1
      = { self with mServiceMode := WoBLEServiceMode.kWoBLEServiceMode_Disabled } ∧
    (HandleGAPEvent (esp_gap_ble_cb_event_t.ESP_GAP_BLE_ADV_START_COMPLETE_EVT status) self).1
      = { self with mServiceMode := WoBLEServiceMode.kWoBLEServiceMode_Disabled } ∧
    (HandleGAPEvent (esp_gap_ble_cb_event_t.ESP_GAP_BLE_ADV_STOP_COMPLETE_EVT status) self).1
      = { self with mServiceMode := WoBLEServiceMode.kWoBLEServiceMode_Disabled } := by
  unfold HandleGAPEvent
  simp only [hst, ne_eq, not_false_eq_true, if_true]
  exact ⟨rfl, rfl, rfl⟩

/-- C9: after `HandleGATTEvent` has handled an application-registration
completion for `WoBLEAppId`, or an attribute-table, service-start or
service-stop completion for the registered WoBLE interface, that carries a
status other than `ESP_GATT_OK`, and after `HandleGAPEvent` has handled an
advertising-data-set, advertising-start or advertising-stop completion that
carries a status other than `ESP_BT_STATUS_SUCCESS`, the service mode is
Disabled. -/
theorem failed_completion_disables_service (self : BLEManager) :
    (∀ (newBuf : Option (Nat × Nat)) (gatts_if : Nat) (param : esp_ble_gatts_cb_param_t),
      (param.reg_app_id = WoBLEAppId → param.reg_status ≠ ESP_GATT_OK →
        (HandleGATTEvent newBuf esp_gatts_cb_event_t.ESP_GATTS_REG_EVT gatts_if param
            self).1.mServiceMode = WoBLEServiceMode.kWoBLEServiceMode_Disabled) ∧
      (self.mFlags.AppRegistered = true → gatts_if = self.mAppIf →
        (param.add_attr_tab_status ≠ ESP_GATT_OK →
          (HandleGATTEvent newBuf esp_gatts_cb_event_t.ESP_GATTS_CREAT_ATTR_TAB_EVT gatts_if
              param self).1.mServiceMode = WoBLEServiceMode.kWoBLEServiceMode_Disabled) ∧
        (param.start_status ≠ ESP_GATT_OK →
          (HandleGATTEvent newBuf esp_gatts_cb_event_t.ESP_GATTS_START_EVT gatts_if
              param self).1.mServiceMode = WoBLEServiceMode.kWoBLEServiceMode_Disabled) ∧
        (param.stop_status ≠ ESP_GATT_OK →
          (HandleGATTEvent newBuf esp_gatts_cb_event_t.ESP_GATTS_STOP_EVT gatts_if
              param self).1.mServiceMode = WoBLEServiceMode.kWoBLEServiceMode_Disabled))) ∧
    (∀ status : Nat, status ≠ ESP_BT_STATUS_SUCCESS →
      (HandleGAPEvent (esp_gap_ble_cb_event_t.ESP_GAP_BLE_ADV_DATA_SET_COMPLETE_EVT status)
          self).1.mServiceMode = WoBLEServiceMode.kWoBLEServiceMode_Disabled ∧
      (HandleGAPEvent (esp_gap_ble_cb_event_t.ESP_GAP_BLE_ADV_START_COMPLETE_EVT status)
          self).1.mServiceMode = WoBLEServiceMode.kWoBLEServiceMode_Disabled ∧
      (HandleGAPEvent (esp_gap_ble_cb_event_t.ESP_GAP_BLE_ADV_STOP_COMPLETE_EVT status)
          self).1.mServiceMode = WoBLEServiceMode.kWoBLEServiceMode_Disabled) := by
  constructor
  · intro newBuf gatts_if param
    obtain ⟨h1, h2⟩ := HandleGATTEvent_failed newBuf gatts_if param self
    refine ⟨fun ha hs => by rw [h1 ha hs], fun hr hi => ?_⟩
    obtain ⟨h3, h4, h5⟩ := h2 hr hi
    exact ⟨fun hs => by rw [h3 hs], fun hs => by rw [h4 hs], fun hs => by rw [h5 hs]⟩
  · intro status hst
    obtain ⟨h1, h2, h3⟩ := HandleGAPEvent_failed status self hst
    exact ⟨by rw [h1], by rw [h2], by rw [h3]⟩

/-- C9 at sample states: a failed service start and a failed advertising
start. -/
theorem failed_completion_disables_service_witness :
    serviceStartingBLE.mFlags.AppRegistered = true ∧ 3 = serviceStartingBLE.mAppIf ∧
    ({ zeroParam with start_status := 133 } : esp_ble_gatts_cb_param_t).start_status
      ≠ ESP_GATT_OK ∧
    (HandleGATTEvent none esp_gatts_cb_event_t.ESP_GATTS_START_EVT 3
        { zeroParam with start_status := 133 } serviceStartingBLE).1.mServiceMode
      = WoBLEServiceMode.kWoBLEServiceMode_Disabled ∧
    (1 : Nat) ≠ ESP_BT_STATUS_SUCCESS ∧
    (HandleGAPEvent (esp_gap_ble_cb_event_t.ESP_GAP_BLE_ADV_START_COMPLETE_EVT 1)
        serviceStartedBLE).1.mServiceMode = WoBLEServiceMode.kWoBLEServiceMode_Disabled :=
  ⟨rfl, rfl, by decide,
    ((failed_completion_disables_service serviceStartingBLE).1 none 3
      { zeroParam with start_status := 133 }).2 rfl rfl |>.2.1 (by decide),
    by decide,
    ((failed_completion_disables_service serviceStartedBLE).2 1 (by decide)).2.1⟩

/-- C10 (amended): a completion that reports a failure leaves every stage
flag as it was; and a `DriveBLEState` that runs with the service mode Enabled,
the radio layer initialised and no control operation in progress issues the
command of the first stage whose flag is not set (application registration,
else attribute table, else service start, else advertising configuration,
advertising start or advertising stop): it resumes, it does not restart. -/
theorem failed_completion_resumes (drv : BLEDriver) (env : BLEEnv) (self : BLEManager) :
    (∀ (newBuf : Option (Nat × Nat)) (gatts_if : Nat) (param : esp_ble_gatts_cb_param_t),
      (param.reg_app_id = WoBLEAppId → param.reg_status ≠ ESP_GATT_OK →
        (HandleGATTEvent newBuf esp_gatts_cb_event_t.ESP_GATTS_REG_EVT gatts_if param
            self).1.mFlags.stageFlags = self.mFlags.stageFlags) ∧
      (self.mFlags.AppRegistered = true → gatts_if = self.mAppIf →
        (param.add_attr_tab_status ≠ ESP_GATT_OK →
          (HandleGATTEvent newBuf esp_gatts_cb_event_t.ESP_GATTS_CREAT_ATTR_TAB_EVT gatts_if
              param self).1.mFlags.stageFlags = self.mFlags.stageFlags) ∧
        (param.start_status ≠ ESP_GATT_OK →
          (HandleGATTEvent newBuf esp_gatts_cb_event_t.ESP_GATTS_START_EVT gatts_if
              param self).1.mFlags.stageFlags = self.mFlags.stageFlags) ∧
        (param.stop_status ≠ ESP_GATT_OK →
          (HandleGATTEvent newBuf esp_gatts_cb_event_t.ESP_GATTS_STOP_EVT gatts_if
              param self).1.mFlags.stageFlags = self.mFlags.stageFlags))) ∧
    (∀ status : Nat, status ≠ ESP_BT_STATUS_SUCCESS →
      (HandleGAPEvent (esp_gap_ble_cb_event_t.ESP_GAP_BLE_ADV_DATA_SET_COMPLETE_EVT status)
          self).1.mFlags.stageFlags = self.mFlags.stageFlags ∧
      (HandleGAPEvent (esp_gap_ble_cb_event_t.ESP_GAP_BLE_ADV_START_COMPLETE_EVT status)
          self).1.mFlags.stageFlags = self.mFlags.stageFlags ∧
      (HandleGAPEvent (esp_gap_ble_cb_event_t.ESP_GAP_BLE_ADV_STOP_COMPLETE_EVT status)
          self).1.mFlags.stageFlags = self.mFlags.stageFlags) ∧
    (self.mServiceMode = WoBLEServiceMode.kWoBLEServiceMode_Enabled →
      self.mFlags.ControlOpInProgress = false →
      self.mFlags.ESPBLELayerInitialized = true →
      (DriveBLEState drv env self).2 =
        if self.mFlags.AppRegistered = false then
          [Effect.esp_ble_gatts_app_register WoBLEAppId]
        else if self.mFlags.AttrsRegistered = false then
          [Effect.esp_ble_gatts_create_attr_tab self.mAppIf WoBLEGATTAttrCount]
        else if self.mFlags.GATTServiceStarted = false then
          [Effect.esp_ble_gatts_start_service self.mServiceAttrHandle]
        else if self.mFlags.AdvertisingEnabled = true then
          if self.mFlags.AdvertisingConfigured = false then
            (ConfigureAdvertisingData drv env self).2.2
          else if self.mFlags.Advertising = false then
            [Effect.esp_ble_gap_start_advertising (advertisingParams env self)]
          else []
        else if self.mFlags.Advertising = true then [Effect.esp_ble_gap_stop_advertising]
        else []) := by
  refine ⟨?_, ?_, ?_⟩
  · intro newBuf gatts_if param
    obtain ⟨h1, h2⟩ := HandleGATTEvent_failed newBuf gatts_if param self
    refine ⟨fun ha hs => by rw [h1 ha hs], fun hr hi => ?_⟩
    obtain ⟨h3, h4, h5⟩ := h2 hr hi
    exact ⟨fun hs => by rw [h3 hs], fun hs => by rw [h4 hs], fun hs => by rw [h5 hs]⟩
  · intro status hst
    obtain ⟨h1, h2, h3⟩ := HandleGAPEvent_failed status self hst
    exact ⟨by rw [h1], by rw [h2], by rw [h3]⟩
  · intro hmode hflag hinit
    have hne : ¬ self.mFlags.ControlOpInProgress = true := by rw [hflag]; decide
    have hni : ¬ (self.mServiceMode = WoBLEServiceMode.kWoBLEServiceMode_Enabled
        ∧ self.mFlags.ESPBLELayerInitialized = false) := by
      rw [hinit]; intro h; exact Bool.noConfusion h.2
    have hstop : ∀ eff, (DriveBLEState_stopService drv self eff).2 = eff := by
      intro eff
      unfold DriveBLEState_stopService
      rw [if_neg (fun h => h.1 hmode), DriveBLEState_exit_snd]
    unfold DriveBLEState
    rw [if_neg hne, if_neg hni]
    simp only [ne_eq, not_true_eq_false, if_false]
    unfold DriveBLEState_stages
    simp only [hmode, true_and]
    split_ifs <;>
      first
      | (rw [DriveBLEState_issue_snd]; rfl)
      | (rw [DriveBLEState_exit_snd]; unfold StartAdvertising; split_ifs <;> rfl)
      | (rw [DriveBLEState_exit_snd]; rfl)
      | exact hstop []

/-- C10 (amended) at a sample state: the drive resumes at the advertising
configuration. -/
theorem failed_completion_resumes_witness :
    serviceStartedBLE.mServiceMode = WoBLEServiceMode.kWoBLEServiceMode_Enabled ∧
    serviceStartedBLE.mFlags.ControlOpInProgress = false ∧
    serviceStartedBLE.mFlags.ESPBLELayerInitialized = true ∧
    (DriveBLEState okDriver sampleEnv serviceStartedBLE).2
      = (ConfigureAdvertisingData okDriver sampleEnv serviceStartedBLE).2.2 :=
  ⟨rfl, rfl, rfl,
    (failed_completion_resumes okDriver sampleEnv serviceStartedBLE).2.2 rfl rfl rfl⟩

/-- C10 (as stated) fails: after a failed completion and with the service
mode Enabled again, `DriveBLEState` issues nothing while the control-operation
flag of the failed operation is still set, and where that flag is clear it
resumes at the advertising configuration instead of the first stage. -/
theorem failed_completion_no_restart :
    startFailedBLE.mServiceMode = WoBLEServiceMode.kWoBLEServiceMode_Disabled ∧
    DriveBLEState okDriver sampleEnv startFailedBLE.withServiceEnabled
      = (startFailedBLE.withServiceEnabled, []) ∧
    advConfigFailedBLE.mServiceMode = WoBLEServiceMode.kWoBLEServiceMode_Disabled ∧
    (DriveBLEState okDriver sampleEnv advConfigFailedBLE.withServiceEnabled).2
      = [Effect.esp_ble_gap_set_device_name ['N', 'E', 'S', 'T', '-', '1', '2', '3', '4'],
         Effect.esp_ble_gap_config_adv_data advertisingPacket,
         Effect.esp_ble_gap_config_adv_data (scanResponsePacket sampleEnv)] := by
  decide

/-! ## The access-point state machine -/

theorem ChangeWiFiAPState_state (newState : WiFiAPState) (self : ConnectivityManager) :
    (ChangeWiFiAPState newState self).mWiFiAPState = newState := by
  unfold ChangeWiFiAPState
  split_ifs with h
  · rfl
  · exact not_not.mp h

theorem DriveAPState_exit_state (err : WEAVE_ERROR) (self : ConnectivityManager)
    (eff : List Effect) :
    (DriveAPState_exit err self eff).1.mWiFiAPState = self.mWiFiAPState := by
  unfold DriveAPState_exit SetWiFiAPMode
  split_ifs <;> rfl

theorem DriveAPState_linkLocal_state (drv : WiFiDriver) (b : Bool)
    (self : ConnectivityManager) (eff : List Effect) :
    (DriveAPState_linkLocal drv b self eff).1.mWiFiAPState = self.mWiFiAPState := by
  unfold DriveAPState_linkLocal
  split_ifs <;> exact DriveAPState_exit_state _ _ _

theorem GetWiFiStationMode_APState (drv : WiFiDriver) (self : ConnectivityManager) :
    (GetWiFiStationMode drv self).mWiFiAPState = self.mWiFiAPState := by
  unfold GetWiFiStationMode
  split_ifs <;> rfl

theorem DriveAPState_target_state (drv : WiFiDriver) (self : ConnectivityManager) :
    (DriveAPState_target drv self).2.2.1.mWiFiAPState = self.mWiFiAPState := by
  unfold DriveAPState_target
  simp only []
  split_ifs <;> first | rfl | exact GetWiFiStationMode_APState drv self

theorem DriveAPState_target_value (drv : WiFiDriver) (self : ConnectivityManager) :
    (DriveAPState_target drv self).2.1 = WiFiAPState.kWiFiAPState_Active ∨
    (DriveAPState_target drv self).2.1 = WiFiAPState.kWiFiAPState_NotActive := by
  unfold DriveAPState_target
  simp only []
  split_ifs <;> first | exact Or.inl rfl | exact Or.inr rfl

theorem DriveAPState_transition_state (drv : WiFiDriver) (b : Bool) (targetState : WiFiAPState)
    (self : ConnectivityManager) (eff : List Effect) :
    (DriveAPState_transition drv b targetState self eff).1.mWiFiAPState = self.mWiFiAPState ∨
    (self.mWiFiAPState ≠ targetState ∧ targetState = WiFiAPState.kWiFiAPState_Active ∧
      (DriveAPState_transition drv b targetState self eff).1.mWiFiAPState
        = WiFiAPState.kWiFiAPState_Activating) ∨
    (self.mWiFiAPState ≠ targetState ∧ targetState ≠ WiFiAPState.kWiFiAPState_Active ∧
      (DriveAPState_transition drv b targetState self eff).1.mWiFiAPState
        = WiFiAPState.kWiFiAPState_Deactivating) := by
  unfold DriveAPState_transition
  simp only []
  by_cases h1 : self.mWiFiAPState ≠ targetState
  · rw [if_pos h1]
    by_cases h2 : targetState = WiFiAPState.kWiFiAPState_Active
    · rw [if_pos h2]
      by_cases h3 : self.mWiFiAPState ≠ WiFiAPState.kWiFiAPState_Activating
      · rw [if_pos h3]
        by_cases h4 : drv.SetAPMode_on ≠ WEAVE_NO_ERROR
        · rw [if_pos h4]; exact Or.inl (DriveAPState_exit_state _ _ _)
        · rw [if_neg h4]
          by_cases h5 : (ConfigureWiFiAP drv).1 ≠ WEAVE_NO_ERROR
          · rw [if_pos h5]; exact Or.inl (DriveAPState_exit_state _ _ _)
          · rw [if_neg h5]
            refine Or.inr (Or.inl ⟨h1, h2, ?_⟩)
            rw [DriveAPState_linkLocal_state, ChangeWiFiAPState_state]
      · rw [if_neg h3]; exact Or.inl (DriveAPState_linkLocal_state _ _ _ _)
    · rw [if_neg h2]
      by_cases h3 : self.mWiFiAPState ≠ WiFiAPState.kWiFiAPState_Deactivating
      · rw [if_pos h3]
        by_cases h4 : drv.SetAPMode_off ≠ WEAVE_NO_ERROR
        · rw [if_pos h4]; exact Or.inl (DriveAPState_exit_state _ _ _)
        · rw [if_neg h4]
          refine Or.inr (Or.inr ⟨h1, h2, ?_⟩)
          rw [DriveAPState_linkLocal_state, ChangeWiFiAPState_state]
      · rw [if_neg h3]; exact Or.inl (DriveAPState_linkLocal_state _ _ _ _)
  · rw [if_neg h1]; exact Or.inl (DriveAPState_linkLocal_state _ _ _ _)

/-- C6 (amended): `DriveAPState` first sets the AP state to what the WiFi
layer reports, whatever the state was (Active when AP mode is enabled there,
NotActive otherwise; unchanged when the query fails); the only further change
it makes is one of the edges NotActive→Activating and Active→Deactivating.
So after the call the state is Active or Deactivating when the layer reports
the AP enabled, and NotActive or Activating when it reports it disabled. -/
theorem DriveAPState_state_change (drv : WiFiDriver) (self : ConnectivityManager) :
    (drv.IsAPEnabled.1 ≠ WEAVE_NO_ERROR →
      (DriveAPState drv self).1.mWiFiAPState = self.mWiFiAPState) ∧
    (drv.IsAPEnabled.1 = WEAVE_NO_ERROR → drv.IsAPEnabled.2 = true →
      (DriveAPState drv self).1.mWiFiAPState = WiFiAPState.kWiFiAPState_Active ∨
      (DriveAPState drv self).1.mWiFiAPState = WiFiAPState.kWiFiAPState_Deactivating) ∧
    (drv.IsAPEnabled.1 = WEAVE_NO_ERROR → drv.IsAPEnabled.2 = false →
      (DriveAPState drv self).1.mWiFiAPState = WiFiAPState.kWiFiAPState_NotActive ∨
      (DriveAPState drv self).1.mWiFiAPState = WiFiAPState.kWiFiAPState_Activating) := by
  have key : drv.IsAPEnabled.1 = WEAVE_NO_ERROR →
      ∀ base : WiFiAPState,
        base = (if drv.IsAPEnabled.2 = true then WiFiAPState.kWiFiAPState_Active
                else WiFiAPState.kWiFiAPState_NotActive) →
        (DriveAPState drv self).1.mWiFiAPState = base ∨
        (base = WiFiAPState.kWiFiAPState_NotActive ∧
          (DriveAPState drv self).1.mWiFiAPState = WiFiAPState.kWiFiAPState_Activating) ∨
        (base = WiFiAPState.kWiFiAPState_Active ∧
          (DriveAPState drv self).1.mWiFiAPState = WiFiAPState.kWiFiAPState_Deactivating) := by
    intro herr base hbase
    have hne : ¬ drv.IsAPEnabled.1 ≠ WEAVE_NO_ERROR := not_not.mpr herr
    unfold DriveAPState
    rw [if_neg hne]
    simp only []
    rw [← hbase]
    generalize hs1 : ({ self with mWiFiAPState := base } : ConnectivityManager) = s1
    have hs1st : s1.mWiFiAPState = base := by rw [← hs1]
    by_cases h1 : self.mWiFiAPMode ≠ WiFiAPMode.kWiFiAPMode_ApplicationControlled
    · rw [if_pos h1]
      by_cases h2 : drv.StartWiFiLayer ≠ WEAVE_NO_ERROR
      · rw [if_pos h2, DriveAPState_exit_state]; exact Or.inl hs1st
      · rw [if_neg h2]
        have hts : (DriveAPState_target drv s1).2.2.1.mWiFiAPState = base := by
          rw [DriveAPState_target_state]; exact hs1st
        by_cases h3 : (DriveAPState_target drv s1).1 ≠ WEAVE_NO_ERROR
        · rw [if_pos h3, DriveAPState_exit_state]; exact Or.inl hts
        · rw [if_neg h3]
          rcases DriveAPState_transition_state drv drv.IsAPEnabled.2
              (DriveAPState_target drv s1).2.1 (DriveAPState_target drv s1).2.2.1
              ([Effect.ESPUtils_StartWiFiLayer] ++ (DriveAPState_target drv s1).2.2.2)
            with h | ⟨hd, ht, h⟩ | ⟨hd, ht, h⟩
          · left; rw [h]; exact hts
          · right; left
            refine ⟨?_, h⟩
            rw [hts, ht] at hd
            rw [hbase] at hd ⊢
            by_cases hb : drv.IsAPEnabled.2 = true
            · rw [if_pos hb] at hd; exact absurd rfl hd
            · rw [if_neg hb]
          · right; right
            refine ⟨?_, h⟩
            rw [hts] at hd
            rcases DriveAPState_target_value drv s1 with hv | hv
            · exact absurd hv ht
            · rw [hv] at hd
              rw [hbase] at hd ⊢
              by_cases hb : drv.IsAPEnabled.2 = true
              · rw [if_pos hb]
              · rw [if_neg hb] at hd; exact absurd rfl hd
    · rw [if_neg h1, DriveAPState_linkLocal_state]; exact Or.inl hs1st
  refine ⟨?_, ?_, ?_⟩
  · intro herr
    unfold DriveAPState
    rw [if_pos herr]
    exact DriveAPState_exit_state _ _ _
  · intro herr hen
    rcases key herr WiFiAPState.kWiFiAPState_Active (by rw [if_pos hen]) with h | h | h
    · exact Or.inl h
    · exact absurd h.1 (by decide)
    · exact Or.inr h.2
  · intro herr hen
    have hen2 : ¬ drv.IsAPEnabled.2 = true := by rw [hen]; decide
    rcases key herr WiFiAPState.kWiFiAPState_NotActive (by rw [if_neg hen2]) with h | h | h
    · exact Or.inl h
    · exact Or.inr h.2
    · exact absurd h.1 (by decide)

/-- C6 (as stated) fails: `DriveAPState` takes the AP state from NotActive
straight to Active when the WiFi layer reports the AP as enabled. -/
theorem DriveAPState_skips_activating :
    initialCM.mWiFiAPState = WiFiAPState.kWiFiAPState_NotActive ∧
    (DriveAPState { okWiFi with IsAPEnabled := (0, true) } initialCM).1.mWiFiAPState
      = WiFiAPState.kWiFiAPState_Active := by
  decide

/-- C6 (amended) at the initial manager with the AP disabled in the layer. -/
theorem DriveAPState_state_change_witness :
    okWiFi.IsAPEnabled.1 = WEAVE_NO_ERROR ∧ okWiFi.IsAPEnabled.2 = false ∧
    ((DriveAPState okWiFi initialCM).1.mWiFiAPState = WiFiAPState.kWiFiAPState_NotActive ∨
     (DriveAPState okWiFi initialCM).1.mWiFiAPState = WiFiAPState.kWiFiAPState_Activating) :=
  ⟨rfl, rfl, (DriveAPState_state_change okWiFi initialCM).2.2 rfl rfl⟩

/-! ## Internet connectivity notifications -/

theorem DriveServiceTunnelState_frame (drv : WiFiDriver) (self : ConnectivityManager) :
    (DriveServiceTunnelState drv self).1.mWiFiStationState = self.mWiFiStationState ∧
    (DriveServiceTunnelState drv self).1.storedConnState = self.storedConnState ∧
    (DriveServiceTunnelState drv self).2.filter Effect.isInternetConnectivityChange = [] := by
  unfold DriveServiceTunnelState
  simp only []
  split_ifs <;> exact ⟨rfl, rfl, rfl⟩

theorem computeConnState_congr (drv : WiFiDriver) (s t : ConnectivityManager)
    (h : s.mWiFiStationState = t.mWiFiStationState) :
    computeConnState drv s = computeConnState drv t := by
  unfold computeConnState
  rw [h]

theorem pair_ne_iff (a b c d : Bool) : (a ≠ c ∨ b ≠ d) ↔ (a, b) ≠ (c, d) := by
  cases a <;> cases b <;> cases c <;> cases d <;> decide

/-- C8: `UpdateInternetConnectivityState` posts an Internet-connectivity
change notification if and only if the computed (IPv4, IPv6) pair differs from
the stored pair, and then exactly one, carrying `GetConnectivityChange` of the
old and new value of each component; when the pairs are equal it does nothing;
afterwards the stored pair equals the computed pair, and a second call with
the same answers changes nothing and posts nothing. -/
theorem UpdateInternetConnectivityState_edge (drv : WiFiDriver) (self : ConnectivityManager) :
    (((UpdateInternetConnectivityState drv self).2.filter
        Effect.isInternetConnectivityChange ≠ []) ↔
      computeConnState drv self ≠ self.storedConnState) ∧
    (computeConnState drv self ≠ self.storedConnState →
      (UpdateInternetConnectivityState drv self).2.filter Effect.isInternetConnectivityChange
        = [Effect.PostEvent (WeaveDeviceEvent.InternetConnectivityChange
            (GetConnectivityChange self.mFlags.HaveIPv4InternetConnectivity
              (computeConnState drv self).1)
            (GetConnectivityChange self.mFlags.HaveIPv6InternetConnectivity
              (computeConnState drv self).2))]) ∧
    (computeConnState drv self = self.storedConnState →
      UpdateInternetConnectivityState drv self = (self, [])) ∧
    (UpdateInternetConnectivityState drv self).1.storedConnState = computeConnState drv self ∧
    UpdateInternetConnectivityState drv (UpdateInternetConnectivityState drv self).1
      = ((UpdateInternetConnectivityState drv self).1, []) := by
  have hsame : ∀ s : ConnectivityManager, computeConnState drv s = s.storedConnState →
      UpdateInternetConnectivityState drv s = (s, []) := by
    intro s h
    have h1 : (computeConnState drv s).1 = s.mFlags.HaveIPv4InternetConnectivity :=
      congrArg Prod.fst h
    have h2 : (computeConnState drv s).2 = s.mFlags.HaveIPv6InternetConnectivity :=
      congrArg Prod.snd h
    unfold UpdateInternetConnectivityState
    simp only []
    rw [if_neg]
    rw [h1, h2]
    simp
  have hdiff : computeConnState drv self ≠ self.storedConnState →
      (UpdateInternetConnectivityState drv self).2.filter Effect.isInternetConnectivityChange
        = [Effect.PostEvent (WeaveDeviceEvent.InternetConnectivityChange
            (GetConnectivityChange self.mFlags.HaveIPv4InternetConnectivity
              (computeConnState drv self).1)
            (GetConnectivityChange self.mFlags.HaveIPv6InternetConnectivity
              (computeConnState drv self).2))] ∧
      (UpdateInternetConnectivityState drv self).1.storedConnState = computeConnState drv self ∧
      (UpdateInternetConnectivityState drv self).1.mWiFiStationState
        = self.mWiFiStationState := by
    intro h
    have hc : (computeConnState drv self).1 ≠ self.mFlags.HaveIPv4InternetConnectivity
        ∨ (computeConnState drv self).2 ≠ self.mFlags.HaveIPv6InternetConnectivity := by
      rw [pair_ne_iff]; exact h
    unfold UpdateInternetConnectivityState
    simp only []
    rw [if_pos hc]
    obtain ⟨f1, f2, f3⟩ := DriveServiceTunnelState_frame drv
      { self with mFlags := { self.mFlags with
          HaveIPv4InternetConnectivity := (computeConnState drv self).1,
          HaveIPv6InternetConnectivity := (computeConnState drv self).2 } }
    refine ⟨?_, ?_, ?_⟩
    · simp only [List.filter_append, f3, List.append_nil]
      rfl
    · rw [f2]; rfl
    · rw [f1]
  refine ⟨?_, fun h => (hdiff h).1, hsame self, ?_, ?_⟩
  · constructor
    · intro hne heq
      rw [hsame self heq] at hne
      exact hne rfl
    · intro h
      rw [(hdiff h).1]
      exact List.cons_ne_nil _ _
  · by_cases h : computeConnState drv self = self.storedConnState
    · rw [hsame self h]; exact h.symm
    · exact (hdiff h).2.1
  · apply hsame
    by_cases h : computeConnState drv self = self.storedConnState
    · rw [hsame self h]; exact h
    · rw [(hdiff h).2.1]
      exact computeConnState_congr drv _ _ (hdiff h).2.2

/-- C8 at a connected station that has just obtained an IPv4 address. -/
theorem UpdateInternetConnectivityState_edge_witness :
    computeConnState { okWiFi with station_netif := some ipv4Netif, dns_server_isany := false }
        connectedCM ≠ connectedCM.storedConnState ∧
    (UpdateInternetConnectivityState
        { okWiFi with station_netif := some ipv4Netif, dns_server_isany := false }
        connectedCM).2.filter Effect.isInternetConnectivityChange
      = [Effect.PostEvent (WeaveDeviceEvent.InternetConnectivityChange
          ConnectivityChange.kConnectivity_Established
          ConnectivityChange.kConnectivity_NoChange)] :=
  ⟨by decide,
    (UpdateInternetConnectivityState_edge
      { okWiFi with station_netif := some ipv4Netif, dns_server_isany := false }
      connectedCM).2.1 (by decide)⟩

/-! ## The station reconnect back-off -/

theorem DriveServiceTunnelState_no_connect (drv : WiFiDriver) (self : ConnectivityManager) :
    Effect.esp_wifi_connect ∉ (DriveServiceTunnelState drv self).2 := by
  unfold DriveServiceTunnelState
  simp only []
  split_ifs <;> simp

theorem DriveServiceTunnelState_station (drv : WiFiDriver) (self : ConnectivityManager) :
    (DriveServiceTunnelState drv self).1.mLastStationConnectFailTime
      = self.mLastStationConnectFailTime ∧
    (DriveServiceTunnelState drv self).1.mWiFiStationReconnectIntervalMS
      = self.mWiFiStationReconnectIntervalMS ∧
    (DriveServiceTunnelState drv self).1.mWiFiStationMode = self.mWiFiStationMode ∧
    (DriveServiceTunnelState drv self).1.mWiFiStationState = self.mWiFiStationState := by
  unfold DriveServiceTunnelState
  simp only []
  split_ifs <;> exact ⟨rfl, rfl, rfl, rfl⟩

theorem UpdateInternetConnectivityState_no_connect (drv : WiFiDriver)
    (self : ConnectivityManager) :
    Effect.esp_wifi_connect ∉ (UpdateInternetConnectivityState drv self).2 := by
  unfold UpdateInternetConnectivityState
  simp only []
  split_ifs
  · intro h
    rcases List.mem_append.mp h with h | h
    · simp at h
    · exact DriveServiceTunnelState_no_connect drv _ h
  · simp

theorem UpdateInternetConnectivityState_station (drv : WiFiDriver)
    (self : ConnectivityManager) :
    (UpdateInternetConnectivityState drv self).1.mLastStationConnectFailTime
      = self.mLastStationConnectFailTime ∧
    (UpdateInternetConnectivityState drv self).1.mWiFiStationReconnectIntervalMS
      = self.mWiFiStationReconnectIntervalMS ∧
    (UpdateInternetConnectivityState drv self).1.mWiFiStationMode = self.mWiFiStationMode ∧
    (UpdateInternetConnectivityState drv self).1.mWiFiStationState
      = self.mWiFiStationState := by
  unfold UpdateInternetConnectivityState
  simp only []
  split_ifs
  · exact DriveServiceTunnelState_station drv _
  · exact ⟨rfl, rfl, rfl, rfl⟩

theorem ChangeWiFiStationState_frame (newState : WiFiStationState)
    (self : ConnectivityManager) :
    (ChangeWiFiStationState newState self).mLastStationConnectFailTime
      = self.mLastStationConnectFailTime ∧
    (ChangeWiFiStationState newState self).mWiFiStationReconnectIntervalMS
      = self.mWiFiStationReconnectIntervalMS ∧
    (ChangeWiFiStationState newState self).mWiFiStationMode = self.mWiFiStationMode ∧
    (ChangeWiFiStationState newState self).mWiFiStationState = newState := by
  unfold ChangeWiFiStationState
  split_ifs with h
  · exact ⟨rfl, rfl, rfl, rfl⟩
  · exact ⟨rfl, rfl, rfl, not_not.mp h⟩

theorem GetWiFiStationMode_frame (drv : WiFiDriver) (self : ConnectivityManager) :
    (GetWiFiStationMode drv self).mLastStationConnectFailTime
      = self.mLastStationConnectFailTime ∧
    (GetWiFiStationMode drv self).mWiFiStationReconnectIntervalMS
      = self.mWiFiStationReconnectIntervalMS ∧
    (GetWiFiStationMode drv self).mWiFiStationState = self.mWiFiStationState := by
  unfold GetWiFiStationMode
  split_ifs <;> exact ⟨rfl, rfl, rfl⟩

theorem DriveStationState_connected_no_connect (drv : WiFiDriver) (self : ConnectivityManager)
    (eff : List Effect) (h : Effect.esp_wifi_connect ∉ eff) :
    Effect.esp_wifi_connect ∉ (DriveStationState_connected drv self eff).2 := by
  have hr : ∀ r : ConnectivityManager × List Effect, Effect.esp_wifi_connect ∉ r.2 →
      Effect.esp_wifi_connect ∉
        (if r.1.mWiFiStationMode ≠ WiFiStationMode.kWiFiStationMode_ApplicationControlled
            ∧ (r.1.mWiFiStationMode ≠ WiFiStationMode.kWiFiStationMode_Enabled
                ∨ drv.IsStationProvisioned = false) then
          if drv.wifi_disconnect ≠ WEAVE_NO_ERROR then
            DriveStationState_exit r.1 (eff ++ r.2 ++ [Effect.esp_wifi_disconnect])
          else
            DriveStationState_exit
              (ChangeWiFiStationState WiFiStationState.kWiFiStationState_Disconnecting r.1)
              (eff ++ r.2 ++ [Effect.esp_wifi_disconnect])
        else DriveStationState_exit r.1 (eff ++ r.2)).2 := by
    intro r hr
    unfold DriveStationState_exit
    split_ifs <;> simp [h, hr]
  unfold DriveStationState_connected
  simp only []
  apply hr
  split_ifs
  · unfold OnStationConnected
    simp only []
    intro hm
    rcases List.mem_append.mp hm with hm | hm
    · simp at hm
    · exact UpdateInternetConnectivityState_no_connect drv _ hm
  · simp

theorem DriveStationState_notConnected_connect (drv : WiFiDriver) (self : ConnectivityManager)
    (eff : List Effect) (h : Effect.esp_wifi_connect ∉ eff)
    (hc : Effect.esp_wifi_connect ∈ (DriveStationState_notConnected drv self eff).2) :
    ((DriveStationState_notConnected drv self eff).1.mLastStationConnectFailTime = 0 ∨
      drv.now ≥ add64 (DriveStationState_notConnected drv self eff).1.mLastStationConnectFailTime
        (DriveStationState_notConnected drv self eff).1.mWiFiStationReconnectIntervalMS) ∧
    (self.mWiFiStationState = WiFiStationState.kWiFiStationState_NotConnected →
      (DriveStationState_notConnected drv self eff).1.mLastStationConnectFailTime
        = self.mLastStationConnectFailTime) := by
  have hr : ∀ r : ConnectivityManager × List Effect, Effect.esp_wifi_connect ∉ r.2 →
      Effect.esp_wifi_connect ∈
        (if r.1.mWiFiStationMode = WiFiStationMode.kWiFiStationMode_Enabled
            ∧ drv.IsStationProvisioned = true ∧ drv.ScanInProgress = false then
          if r.1.mLastStationConnectFailTime = 0
              ∨ drv.now ≥ add64 r.1.mLastStationConnectFailTime
                  r.1.mWiFiStationReconnectIntervalMS then
            if drv.wifi_connect ≠ WEAVE_NO_ERROR then
              DriveStationState_exit r.1 (eff ++ r.2 ++ [Effect.esp_wifi_connect])
            else
              DriveStationState_exit
                (ChangeWiFiStationState WiFiStationState.kWiFiStationState_Connecting r.1)
                (eff ++ r.2 ++ [Effect.esp_wifi_connect])
          else
            DriveStationState_exit r.1
              (eff ++ r.2 ++ [Effect.StartTimer_DriveStationState
                (toUInt32 (sub64 (add64 r.1.mLastStationConnectFailTime
                  r.1.mWiFiStationReconnectIntervalMS) drv.now))])
        else DriveStationState_exit r.1 (eff ++ r.2)).2 →
      ∀ s', s' =
        (if r.1.mWiFiStationMode = WiFiStationMode.kWiFiStationMode_Enabled
            ∧ drv.IsStationProvisioned = true ∧ drv.ScanInProgress = false then
          if r.1.mLastStationConnectFailTime = 0
              ∨ drv.now ≥ add64 r.1.mLastStationConnectFailTime
                  r.1.mWiFiStationReconnectIntervalMS then
            if drv.wifi_connect ≠ WEAVE_NO_ERROR then
              DriveStationState_exit r.1 (eff ++ r.2 ++ [Effect.esp_wifi_connect])
            else
              DriveStationState_exit
                (ChangeWiFiStationState WiFiStationState.kWiFiStationState_Connecting r.1)
                (eff ++ r.2 ++ [Effect.esp_wifi_connect])
          else
            DriveStationState_exit r.1
              (eff ++ r.2 ++ [Effect.StartTimer_DriveStationState
                (toUInt32 (sub64 (add64 r.1.mLastStationConnectFailTime
                  r.1.mWiFiStationReconnectIntervalMS) drv.now))])
        else DriveStationState_exit r.1 (eff ++ r.2)).1 →
      (s'.mLastStationConnectFailTime = 0 ∨
        drv.now ≥ add64 s'.mLastStationConnectFailTime s'.mWiFiStationReconnectIntervalMS) ∧
      s'.mLastStationConnectFailTime = r.1.mLastStationConnectFailTime := by
    intro r hr hm s' hs'
    by_cases h1 : r.1.mWiFiStationMode = WiFiStationMode.kWiFiStationMode_Enabled
        ∧ drv.IsStationProvisioned = true ∧ drv.ScanInProgress = false
    · rw [if_pos h1] at hm hs'
      by_cases h2 : r.1.mLastStationConnectFailTime = 0
          ∨ drv.now ≥ add64 r.1.mLastStationConnectFailTime r.1.mWiFiStationReconnectIntervalMS
      · rw [if_pos h2] at hs'
        by_cases h3 : drv.wifi_connect ≠ WEAVE_NO_ERROR
        · rw [if_pos h3] at hs'
          subst hs'
          exact ⟨h2, rfl⟩
        · rw [if_neg h3] at hs'
          subst hs'
          obtain ⟨f1, f2, _, _⟩ := ChangeWiFiStationState_frame
            WiFiStationState.kWiFiStationState_Connecting r.1
          unfold DriveStationState_exit
          simp only []
          rw [f1, f2]
          exact ⟨h2, rfl⟩
      · rw [if_neg h2] at hm
        unfold DriveStationState_exit at hm
        simp [h, hr] at hm
    · rw [if_neg h1] at hm
      unfold DriveStationState_exit at hm
      simp [h, hr] at hm
  unfold DriveStationState_notConnected at hc ⊢
  simp only [] at hc ⊢
  have hstep := hr _ ?_ hc _ rfl
  · refine ⟨hstep.1, ?_⟩
    intro hst
    rw [hstep.2]
    rw [if_neg]
    rw [hst]
    decide
  · split_ifs
    · unfold OnStationDisconnected
      simp only []
      intro hm
      rcases List.mem_append.mp hm with hm | hm
      · simp at hm
      · exact UpdateInternetConnectivityState_no_connect drv _ hm
    · simp
    · simp

theorem DriveStationState_connected_interval (drv : WiFiDriver) (self : ConnectivityManager)
    (eff : List Effect) :
    (DriveStationState_connected drv self eff).1.mWiFiStationReconnectIntervalMS
      = self.mWiFiStationReconnectIntervalMS := by
  have hr : ∀ r : ConnectivityManager × List Effect,
      r.1.mWiFiStationReconnectIntervalMS = self.mWiFiStationReconnectIntervalMS →
      (if r.1.mWiFiStationMode ≠ WiFiStationMode.kWiFiStationMode_ApplicationControlled
            ∧ (r.1.mWiFiStationMode ≠ WiFiStationMode.kWiFiStationMode_Enabled
                ∨ drv.IsStationProvisioned = false) then
          if drv.wifi_disconnect ≠ WEAVE_NO_ERROR then
            DriveStationState_exit r.1 (eff ++ r.2 ++ [Effect.esp_wifi_disconnect])
          else
            DriveStationState_exit
              (ChangeWiFiStationState WiFiStationState.kWiFiStationState_Disconnecting r.1)
              (eff ++ r.2 ++ [Effect.esp_wifi_disconnect])
        else DriveStationState_exit r.1 (eff ++ r.2)).1.mWiFiStationReconnectIntervalMS
        = self.mWiFiStationReconnectIntervalMS := by
    intro r hr
    unfold DriveStationState_exit
    split_ifs
    · exact hr
    · simp only []
      rw [(ChangeWiFiStationState_frame _ r.1).2.1]; exact hr
    · exact hr
  unfold DriveStationState_connected
  simp only []
  apply hr
  split_ifs
  · unfold OnStationConnected
    simp only []
    rw [(UpdateInternetConnectivityState_station drv _).2.1]
    exact (ChangeWiFiStationState_frame _ self).2.1
  · rfl

theorem DriveStationState_notConnected_frame (drv : WiFiDriver) (self : ConnectivityManager)
    (eff : List Effect) :
    (DriveStationState_notConnected drv self eff).1.mWiFiStationReconnectIntervalMS
      = self.mWiFiStationReconnectIntervalMS ∧
    (self.mWiFiStationState = WiFiStationState.kWiFiStationState_Connecting_Failed →
      (DriveStationState_notConnected drv self eff).1.mLastStationConnectFailTime = drv.now) := by
  have hr : ∀ r : ConnectivityManager × List Effect,
      ((if r.1.mWiFiStationMode = WiFiStationMode.kWiFiStationMode_Enabled
            ∧ drv.IsStationProvisioned = true ∧ drv.ScanInProgress = false then
          if r.1.mLastStationConnectFailTime = 0
              ∨ drv.now ≥ add64 r.1.mLastStationConnectFailTime
                  r.1.mWiFiStationReconnectIntervalMS then
            if drv.wifi_connect ≠ WEAVE_NO_ERROR then
              DriveStationState_exit r.1 (eff ++ r.2 ++ [Effect.esp_wifi_connect])
            else
              DriveStationState_exit
                (ChangeWiFiStationState WiFiStationState.kWiFiStationState_Connecting r.1)
                (eff ++ r.2 ++ [Effect.esp_wifi_connect])
          else
            DriveStationState_exit r.1
              (eff ++ r.2 ++ [Effect.StartTimer_DriveStationState
                (toUInt32 (sub64 (add64 r.1.mLastStationConnectFailTime
                  r.1.mWiFiStationReconnectIntervalMS) drv.now))])
        else DriveStationState_exit r.1 (eff ++ r.2)).1.mWiFiStationReconnectIntervalMS
        = r.1.mWiFiStationReconnectIntervalMS) ∧
      ((if r.1.mWiFiStationMode = WiFiStationMode.kWiFiStationMode_Enabled
            ∧ drv.IsStationProvisioned = true ∧ drv.ScanInProgress = false then
          if r.1.mLastStationConnectFailTime = 0
              ∨ drv.now ≥ add64 r.1.mLastStationConnectFailTime
                  r.1.mWiFiStationReconnectIntervalMS then
            if drv.wifi_connect ≠ WEAVE_NO_ERROR then
              DriveStationState_exit r.1 (eff ++ r.2 ++ [Effect.esp_wifi_connect])
            else
              DriveStationState_exit
                (ChangeWiFiStationState WiFiStationState.kWiFiStationState_Connecting r.1)
                (eff ++ r.2 ++ [Effect.esp_wifi_connect])
          else
            DriveStationState_exit r.1
              (eff ++ r.2 ++ [Effect.StartTimer_DriveStationState
                (toUInt32 (sub64 (add64 r.1.mLastStationConnectFailTime
                  r.1.mWiFiStationReconnectIntervalMS) drv.now))])
        else DriveStationState_exit r.1 (eff ++ r.2)).1.mLastStationConnectFailTime
        = r.1.mLastStationConnectFailTime) := by
    intro r
    obtain ⟨f1, f2, _, _⟩ := ChangeWiFiStationState_frame
      WiFiStationState.kWiFiStationState_Connecting r.1
    unfold DriveStationState_exit
    split_ifs <;> first | exact ⟨rfl, rfl⟩ | exact ⟨f2, f1⟩
  unfold DriveStationState_notConnected
  simp only []
  constructor
  · rw [(hr _).1]
    split_ifs
    · unfold OnStationDisconnected
      simp only []
      rw [(UpdateInternetConnectivityState_station drv _).2.1]
      exact (ChangeWiFiStationState_frame _ self).2.1
    · exact (ChangeWiFiStationState_frame _ self).2.1
    · rfl
  · intro hst
    rw [(hr _).2]
    have h1 : self.mWiFiStationState = WiFiStationState.kWiFiStationState_Connected
        ∨ self.mWiFiStationState = WiFiStationState.kWiFiStationState_Disconnecting
        ∨ self.mWiFiStationState = WiFiStationState.kWiFiStationState_Connecting_Failed :=
      Or.inr (Or.inr hst)
    rw [if_pos h1, if_neg (not_not.mpr hst)]

/-- C7 (amended): `DriveStationState` keeps the reconnect interval; when it
issues a connect command and a failure time is recorded on return (timestamp
other than 0), the clock is at least that time plus the interval, provided the
64-bit sum does not wrap; for a NotConnected station this is the failure time
recorded before the call.  When the failure of a connect attempt is observed
(station-disconnected event in state Connecting, the driver commands succeed
and the station is not associated), the failure time recorded is the clock
value of that call, and if that value is not 0 and the interval is positive
no connect command is issued in that call. -/
theorem station_reconnect_backoff (drv : WiFiDriver) (self : ConnectivityManager) :
    (DriveStationState drv self).1.mWiFiStationReconnectIntervalMS
      = self.mWiFiStationReconnectIntervalMS ∧
    (Effect.esp_wifi_connect ∈ (DriveStationState drv self).2 →
      (DriveStationState drv self).1.mLastStationConnectFailTime ≠ 0 →
      (DriveStationState drv self).1.mLastStationConnectFailTime
        + self.mWiFiStationReconnectIntervalMS < 2 ^ 64 →
      (DriveStationState drv self).1.mLastStationConnectFailTime
        + self.mWiFiStationReconnectIntervalMS ≤ drv.now) ∧
    (Effect.esp_wifi_connect ∈ (DriveStationState drv self).2 →
      self.mWiFiStationState = WiFiStationState.kWiFiStationState_NotConnected →
      self.mLastStationConnectFailTime ≠ 0 →
      self.mLastStationConnectFailTime + self.mWiFiStationReconnectIntervalMS < 2 ^ 64 →
      self.mLastStationConnectFailTime + self.mWiFiStationReconnectIntervalMS ≤ drv.now) ∧
    (self.mWiFiStationState = WiFiStationState.kWiFiStationState_Connecting →
      drv.StartWiFiLayer = WEAVE_NO_ERROR → drv.EnableStationMode = WEAVE_NO_ERROR →
      drv.IsStationConnected = (WEAVE_NO_ERROR, false) →
      (OnPlatformEvent drv PlatformEvent.SYSTEM_EVENT_STA_DISCONNECTED
          self).1.mLastStationConnectFailTime = drv.now ∧
      (drv.now ≠ 0 → 0 < self.mWiFiStationReconnectIntervalMS →
        drv.now + self.mWiFiStationReconnectIntervalMS < 2 ^ 64 →
        Effect.esp_wifi_connect ∉
          (OnPlatformEvent drv PlatformEvent.SYSTEM_EVENT_STA_DISCONNECTED self).2)) := by
  -- the frame and the decision, for every state
  have hcore : ∀ s : ConnectivityManager,
      (DriveStationState drv s).1.mWiFiStationReconnectIntervalMS
        = s.mWiFiStationReconnectIntervalMS ∧
      (Effect.esp_wifi_connect ∈ (DriveStationState drv s).2 →
        ((DriveStationState drv s).1.mLastStationConnectFailTime = 0 ∨
          drv.now ≥ add64 (DriveStationState drv s).1.mLastStationConnectFailTime
            s.mWiFiStationReconnectIntervalMS) ∧
        (s.mWiFiStationState = WiFiStationState.kWiFiStationState_NotConnected →
          (DriveStationState drv s).1.mLastStationConnectFailTime
            = s.mLastStationConnectFailTime)) ∧
      (s.mWiFiStationState = WiFiStationState.kWiFiStationState_Connecting_Failed →
        drv.StartWiFiLayer = WEAVE_NO_ERROR → drv.EnableStationMode = WEAVE_NO_ERROR →
        drv.IsStationConnected = (WEAVE_NO_ERROR, false) →
        (DriveStationState drv s).1.mLastStationConnectFailTime = drv.now) := by
    intro s
    obtain ⟨g1, g2, g3⟩ := GetWiFiStationMode_frame drv s
    have hr1 : ∀ r1 : WEAVE_ERROR × List Effect, Effect.esp_wifi_connect ∉ r1.2 →
        (drv.StartWiFiLayer = WEAVE_NO_ERROR → drv.EnableStationMode = WEAVE_NO_ERROR →
          r1.1 = WEAVE_NO_ERROR) →
        ((if r1.1 ≠ WEAVE_NO_ERROR then DriveStationState_exit (GetWiFiStationMode drv s) r1.2
          else if drv.IsStationConnected.1 ≠ WEAVE_NO_ERROR then
            DriveStationState_exit (GetWiFiStationMode drv s) r1.2
          else if drv.IsStationConnected.2 = true then
            DriveStationState_connected drv (GetWiFiStationMode drv s) r1.2
          else DriveStationState_notConnected drv (GetWiFiStationMode drv s)
            r1.2).1.mWiFiStationReconnectIntervalMS = s.mWiFiStationReconnectIntervalMS) ∧
        (Effect.esp_wifi_connect ∈
          (if r1.1 ≠ WEAVE_NO_ERROR then DriveStationState_exit (GetWiFiStationMode drv s) r1.2
            else if drv.IsStationConnected.1 ≠ WEAVE_NO_ERROR then
              DriveStationState_exit (GetWiFiStationMode drv s) r1.2
            else if drv.IsStationConnected.2 = true then
              DriveStationState_connected drv (GetWiFiStationMode drv s) r1.2
            else DriveStationState_notConnected drv (GetWiFiStationMode drv s) r1.2).2 →
          ((if r1.1 ≠ WEAVE_NO_ERROR then DriveStationState_exit (GetWiFiStationMode drv s) r1.2
            else if drv.IsStationConnected.1 ≠ WEAVE_NO_ERROR then
              DriveStationState_exit (GetWiFiStationMode drv s) r1.2
            else if drv.IsStationConnected.2 = true then
              DriveStationState_connected drv (GetWiFiStationMode drv s) r1.2
            else DriveStationState_notConnected drv (GetWiFiStationMode drv s)
              r1.2).1.mLastStationConnectFailTime = 0 ∨
            drv.now ≥ add64
              (if r1.1 ≠ WEAVE_NO_ERROR then
                DriveStationState_exit (GetWiFiStationMode drv s) r1.2
              else if drv.IsStationConnected.1 ≠ WEAVE_NO_ERROR then
                DriveStationState_exit (GetWiFiStationMode drv s) r1.2
              else if drv.IsStationConnected.2 = true then
                DriveStationState_connected drv (GetWiFiStationMode drv s) r1.2
              else DriveStationState_notConnected drv (GetWiFiStationMode drv s)
                r1.2).1.mLastStationConnectFailTime
              s.mWiFiStationReconnectIntervalMS) ∧
          (s.mWiFiStationState = WiFiStationState.kWiFiStationState_NotConnected →
            (if r1.1 ≠ WEAVE_NO_ERROR then
              DriveStationState_exit (GetWiFiStationMode drv s) r1.2
            else if drv.IsStationConnected.1 ≠ WEAVE_NO_ERROR then
              DriveStationState_exit (GetWiFiStationMode drv s) r1.2
            else if drv.IsStationConnected.2 = true then
              DriveStationState_connected drv (GetWiFiStationMode drv s) r1.2
            else DriveStationState_notConnected drv (GetWiFiStationMode drv s)
              r1.2).1.mLastStationConnectFailTime = s.mLastStationConnectFailTime)) ∧
        (s.mWiFiStationState = WiFiStationState.kWiFiStationState_Connecting_Failed →
          drv.StartWiFiLayer = WEAVE_NO_ERROR → drv.EnableStationMode = WEAVE_NO_ERROR →
          drv.IsStationConnected = (WEAVE_NO_ERROR, false) →
          (if r1.1 ≠ WEAVE_NO_ERROR then DriveStationState_exit (GetWiFiStationMode drv s) r1.2
            else if drv.IsStationConnected.1 ≠ WEAVE_NO_ERROR then
              DriveStationState_exit (GetWiFiStationMode drv s) r1.2
            else if drv.IsStationConnected.2 = true then
              DriveStationState_connected drv (GetWiFiStationMode drv s) r1.2
            else DriveStationState_notConnected drv (GetWiFiStationMode drv s)
              r1.2).1.mLastStationConnectFailTime = drv.now) := by
      intro r1 hno hok
      have hexit : Effect.esp_wifi_connect ∉
          (DriveStationState_exit (GetWiFiStationMode drv s) r1.2).2 := by
        unfold DriveStationState_exit; simp [hno]
      by_cases h1 : r1.1 ≠ WEAVE_NO_ERROR
      · rw [if_pos h1]
        refine ⟨g2, fun hm => absurd hm hexit, ?_⟩
        intro _ ha hb _
        exact absurd (hok ha hb) h1
      · rw [if_neg h1]
        by_cases h2 : drv.IsStationConnected.1 ≠ WEAVE_NO_ERROR
        · rw [if_pos h2]
          refine ⟨g2, fun hm => absurd hm hexit, ?_⟩
          intro _ _ _ hc
          rw [hc] at h2
          exact absurd rfl h2
        · rw [if_neg h2]
          by_cases h3 : drv.IsStationConnected.2 = true
          · rw [if_pos h3]
            refine ⟨?_, ?_, ?_⟩
            · rw [DriveStationState_connected_interval]; exact g2
            · intro hm
              exact absurd hm (DriveStationState_connected_no_connect drv _ _ hno)
            · intro _ _ _ hc
              rw [hc] at h3
              exact absurd h3 (by decide)
          · rw [if_neg h3]
            obtain ⟨n1, n2⟩ := DriveStationState_notConnected_frame drv
              (GetWiFiStationMode drv s) r1.2
            refine ⟨by rw [n1]; exact g2, ?_, ?_⟩
            · intro hm
              obtain ⟨c1, c2⟩ := DriveStationState_notConnected_connect drv
                (GetWiFiStationMode drv s) r1.2 hno hm
              rw [n1, g2] at c1
              refine ⟨c1, ?_⟩
              intro hst
              rw [c2 (by rw [g3]; exact hst)]
              exact g1
            · intro hst _ _ _
              exact n2 (by rw [g3]; exact hst)
    unfold DriveStationState
    simp only []
    apply hr1
    · split_ifs <;> simp
    · intro ha hb
      split_ifs with c1 c2
      · exact absurd ha c2
      · exact hb
      · rfl
  obtain ⟨hint, hconn, _⟩ := hcore self
  refine ⟨hint, ?_, ?_, ?_⟩
  · intro hm hne hwrap
    rcases (hconn hm).1 with h0 | hge
    · exact absurd h0 hne
    · unfold add64 at hge
      rw [Nat.mod_eq_of_lt hwrap] at hge
      exact hge
  · intro hm hst hne hwrap
    obtain ⟨hdec, hfail⟩ := hconn hm
    rw [hfail hst] at hdec
    rcases hdec with h0 | hge
    · exact absurd h0 hne
    · unfold add64 at hge
      rw [Nat.mod_eq_of_lt hwrap] at hge
      exact hge
  · intro hst ha hb hc
    have hev : OnPlatformEvent drv PlatformEvent.SYSTEM_EVENT_STA_DISCONNECTED self
        = DriveStationState drv
            (ChangeWiFiStationState WiFiStationState.kWiFiStationState_Connecting_Failed
              self) := by
      unfold OnPlatformEvent
      simp only []
      rw [if_pos hst]
    obtain ⟨f1, f2, _, f4⟩ := ChangeWiFiStationState_frame
      WiFiStationState.kWiFiStationState_Connecting_Failed self
    obtain ⟨kint, kconn, kfail⟩ := hcore
      (ChangeWiFiStationState WiFiStationState.kWiFiStationState_Connecting_Failed self)
    rw [hev]
    have hnow := kfail f4 ha hb hc
    refine ⟨hnow, ?_⟩
    intro hn0 hpos hwrap hm
    rcases (kconn hm).1 with h0 | hge
    · rw [hnow] at h0; exact hn0 h0
    · rw [hnow, f2] at hge
      unfold add64 at hge
      rw [Nat.mod_eq_of_lt hwrap] at hge
      omega

/-- C7 (amended) at a station that failed at time 1000 and is driven at 6000. -/
theorem station_reconnect_backoff_witness :
    Effect.esp_wifi_connect ∈ (DriveStationState { okWiFi with now := 6000 } failedCM).2 ∧
    failedCM.mWiFiStationState = WiFiStationState.kWiFiStationState_NotConnected ∧
    failedCM.mLastStationConnectFailTime ≠ 0 ∧
    failedCM.mLastStationConnectFailTime + failedCM.mWiFiStationReconnectIntervalMS < 2 ^ 64 ∧
    failedCM.mLastStationConnectFailTime + failedCM.mWiFiStationReconnectIntervalMS
      ≤ ({ okWiFi with now := 6000 } : WiFiDriver).now :=
  ⟨by decide, rfl, by decide, by decide,
    (station_reconnect_backoff { okWiFi with now := 6000 } failedCM).2.2.1
      (by decide) rfl (by decide) (by decide)⟩

/-- C7 (as stated) fails: a connect failure observed at clock value 0 is
followed by a connect command at time 0, and a drive repeated while the
station is still Connecting repeats the connect command 1 ms after the
previous one. -/
theorem station_reconnect_too_early :
    connectingCM.mWiFiStationState = WiFiStationState.kWiFiStationState_Connecting ∧
    Effect.esp_wifi_connect ∈
      (OnPlatformEvent okWiFi PlatformEvent.SYSTEM_EVENT_STA_DISCONNECTED connectingCM).2 ∧
    okWiFi.now < okWiFi.now + connectingCM.mWiFiStationReconnectIntervalMS ∧
    failedCM.mLastStationConnectFailTime = 1000 ∧
    Effect.esp_wifi_connect ∈ (DriveStationState { okWiFi with now := 6000 } failedCM).2 ∧
    Effect.esp_wifi_connect ∈
      (DriveStationState { okWiFi with now := 6001 }
        (DriveStationState { okWiFi with now := 6000 } failedCM).1).2 ∧
    6001 - 6000 < failedCM.mWiFiStationReconnectIntervalMS := by
  decide

/-! ## The service tunnel -/

/-- Claim C20: when `DriveServiceTunnelState` returns without a failure of
`StartServiceTunnel`, the tunnel-started flag is set if and only if the tunnel
mode is Enabled, the IPv4 reachability flag is set, the device is a member of
a fabric and, unless a fixed tunnel server is configured, the device is
service-provisioned. -/
theorem DriveServiceTunnelState_started_flag (drv : WiFiDriver) (self : ConnectivityManager)
    (hok : Effect.StartServiceTunnel ∈ (DriveServiceTunnelState drv self).2 →
      drv.StartServiceTunnel = WEAVE_NO_ERROR) :
    (DriveServiceTunnelState drv self).1.mFlags.ServiceTunnelStarted = true ↔
      (self.mServiceTunnelMode = ServiceTunnelMode.kServiceTunnelMode_Enabled
        ∧ self.mFlags.HaveIPv4InternetConnectivity = true
        ∧ drv.IsMemberOfFabric = true
        ∧ (drv.ENABLE_FIXED_TUNNEL_SERVER = false → drv.IsServiceProvisioned = true)) := by
  unfold DriveServiceTunnelState at hok ⊢
  simp only [] at hok ⊢
  by_cases herr : drv.StartServiceTunnel = WEAVE_NO_ERROR
  · cases hm : decide (self.mServiceTunnelMode = ServiceTunnelMode.kServiceTunnelMode_Enabled) <;>
    cases h4 : self.mFlags.HaveIPv4InternetConnectivity <;>
    cases hf : drv.IsMemberOfFabric <;>
    cases hx : drv.ENABLE_FIXED_TUNNEL_SERVER <;>
    cases hp : drv.IsServiceProvisioned <;>
    cases hs : self.mFlags.ServiceTunnelStarted <;>
    simp_all
  · cases hm : decide (self.mServiceTunnelMode = ServiceTunnelMode.kServiceTunnelMode_Enabled) <;>
    cases h4 : self.mFlags.HaveIPv4InternetConnectivity <;>
    cases hf : drv.IsMemberOfFabric <;>
    cases hx : drv.ENABLE_FIXED_TUNNEL_SERVER <;>
    cases hp : drv.IsServiceProvisioned <;>
    cases hs : self.mFlags.ServiceTunnelStarted <;>
    simp_all

/-- Witness for C20: a fabric member with a service provisioned and IPv4
connectivity gets its tunnel started. -/
theorem DriveServiceTunnelState_started_flag_witness :
    (Effect.StartServiceTunnel ∈ (DriveServiceTunnelState tunnelReadyWiFi ipv4ReachableCM).2 →
      tunnelReadyWiFi.StartServiceTunnel = WEAVE_NO_ERROR)
    ∧ ((DriveServiceTunnelState tunnelReadyWiFi ipv4ReachableCM).1.mFlags.ServiceTunnelStarted
          = true ↔
        (ipv4ReachableCM.mServiceTunnelMode = ServiceTunnelMode.kServiceTunnelMode_Enabled
          ∧ ipv4ReachableCM.mFlags.HaveIPv4InternetConnectivity = true
          ∧ tunnelReadyWiFi.IsMemberOfFabric = true
          ∧ (tunnelReadyWiFi.ENABLE_FIXED_TUNNEL_SERVER = false →
              tunnelReadyWiFi.IsServiceProvisioned = true))) :=
  ⟨by decide, DriveServiceTunnelState_started_flag tunnelReadyWiFi ipv4ReachableCM (by decide)⟩

/-! ## Advertising parameters -/

/-- Claim C16: `StartAdvertising` issues one start-advertising command whose
type is connectable exactly when the number of allocated connections is below
`kMaxConnections`, and non-connectable exactly when the pool is at capacity;
its interval is the fast one when there is no allocated connection and the
device is not paired to an account, and the slow one otherwise. -/
theorem StartAdvertising_selection (drv : BLEDriver) (env : BLEEnv) (self : BLEManager) :
    ∃ p : esp_ble_adv_params_t,
      (StartAdvertising drv env self).2.2 = [Effect.esp_ble_gap_start_advertising p]
      ∧ (p.adv_type = esp_ble_adv_type_t.ADV_TYPE_IND ↔
          NumConnections self.mCons < self.kMaxConnections)
      ∧ (p.adv_type = esp_ble_adv_type_t.ADV_TYPE_NONCONN_IND ↔
          NumConnections self.mCons = self.kMaxConnections)
      ∧ (NumConnections self.mCons = 0 ∧ env.IsPairedToAccount = false →
          p.adv_int_min = env.BLE_FAST_ADVERTISING_INTERVAL
          ∧ p.adv_int_max = env.BLE_FAST_ADVERTISING_INTERVAL)
      ∧ (¬ (NumConnections self.mCons = 0 ∧ env.IsPairedToAccount = false) →
          p.adv_int_min = env.BLE_SLOW_ADVERTISING_INTERVAL
          ∧ p.adv_int_max = env.BLE_SLOW_ADVERTISING_INTERVAL) := by
  have hle : NumConnections self.mCons ≤ self.mCons.length := NumConnections_le_length self.mCons
  refine ⟨advertisingParams env self, ?_, ?_, ?_, ?_, ?_⟩
  · unfold StartAdvertising
    simp only []
    split_ifs <;> rfl
  · unfold advertisingParams BLEManager.kMaxConnections
    simp only []
    by_cases h : NumConnections self.mCons < self.mCons.length
    · simp [h]
    · simp [h]
  · unfold advertisingParams BLEManager.kMaxConnections
    simp only []
    by_cases h : NumConnections self.mCons < self.mCons.length
    · simp [h]
      omega
    · simp [h]
      omega
  · intro h
    unfold advertisingParams
    simp only []
    rw [if_pos h]
    exact ⟨rfl, rfl⟩
  · intro h
    unfold advertisingParams
    simp only []
    rw [if_neg h]
    exact ⟨rfl, rfl⟩

/-! ## The station state machine -/

theorem DriveStationState_notConnected_idle (drv : WiFiDriver) (self : ConnectivityManager)
    (eff : List Effect) (hprov : drv.IsStationProvisioned = false)
    (hstate : self.mWiFiStationState = WiFiStationState.kWiFiStationState_NotConnected) :
    DriveStationState_notConnected drv self eff = DriveStationState_exit self eff := by
  unfold DriveStationState_notConnected
  simp only []
  have h1 : ¬ (self.mWiFiStationState = WiFiStationState.kWiFiStationState_Connected
      ∨ self.mWiFiStationState = WiFiStationState.kWiFiStationState_Disconnecting
      ∨ self.mWiFiStationState = WiFiStationState.kWiFiStationState_Connecting_Failed) := by
    rw [hstate]
    decide
  rw [if_neg h1]
  simp only [List.append_nil]
  have h2 : ¬ (self.mWiFiStationMode = WiFiStationMode.kWiFiStationMode_Enabled
      ∧ drv.IsStationProvisioned = true ∧ drv.ScanInProgress = false) := by
    rw [hprov]
    simp
  rw [if_neg h2]

theorem GetWiFiStationMode_state (drv : WiFiDriver) (self : ConnectivityManager) :
    (GetWiFiStationMode drv self).mWiFiStationState = self.mWiFiStationState := by
  unfold GetWiFiStationMode
  split_ifs <;> rfl

/-- Claim C15: when no station provisioning exists, the driver reports the
station as not associated and the station state is NotConnected,
`DriveStationState` leaves the state NotConnected, issues no connect command
and arms no reconnect timer; this holds whatever the station mode is, so in
particular when it is Disabled. -/
theorem DriveStationState_idle (drv : WiFiDriver) (self : ConnectivityManager)
    (hprov : drv.IsStationProvisioned = false)
    (hassoc : drv.IsStationConnected.2 = false)
    (hstate : self.mWiFiStationState = WiFiStationState.kWiFiStationState_NotConnected) :
    (DriveStationState drv self).1.mWiFiStationState
        = WiFiStationState.kWiFiStationState_NotConnected
      ∧ Effect.esp_wifi_connect ∉ (DriveStationState drv self).2
      ∧ ∀ ms : Nat, Effect.StartTimer_DriveStationState ms ∉ (DriveStationState drv self).2 := by
  have hs0 := GetWiFiStationMode_state drv self
  rw [hstate] at hs0
  unfold DriveStationState
  simp only []
  rw [hassoc]
  simp only [Bool.false_eq_true, if_false]
  rw [DriveStationState_notConnected_idle drv _ _ hprov hs0]
  unfold DriveStationState_exit
  split_ifs <;> simp [hs0]

/-- Witness for C15: the manager as initialised, with station mode Disabled,
on a device without station provisioning. -/
theorem DriveStationState_idle_witness :
    initialCM.mWiFiStationMode = WiFiStationMode.kWiFiStationMode_Disabled
    ∧ (DriveStationState unprovisionedWiFi initialCM).1.mWiFiStationState
        = WiFiStationState.kWiFiStationState_NotConnected
    ∧ Effect.esp_wifi_connect ∉ (DriveStationState unprovisionedWiFi initialCM).2
    ∧ ∀ ms : Nat,
        Effect.StartTimer_DriveStationState ms ∉ (DriveStationState unprovisionedWiFi initialCM).2 :=
  ⟨by decide, DriveStationState_idle unprovisionedWiFi initialCM (by decide) (by decide)
    (by decide)⟩

/-! ## The target state of the access point -/

theorem GetWiFiStationMode_APfields (drv : WiFiDriver) (self : ConnectivityManager) :
    (GetWiFiStationMode drv self).mWiFiAPMode = self.mWiFiAPMode ∧
    (GetWiFiStationMode drv self).mLastAPDemandTime = self.mLastAPDemandTime ∧
    (GetWiFiStationMode drv self).mWiFiAPIdleTimeoutMS = self.mWiFiAPIdleTimeoutMS := by
  unfold GetWiFiStationMode
  split_ifs <;> exact ⟨rfl, rfl, rfl⟩

theorem DriveAPState_target_onDemand (drv : WiFiDriver) (self : ConnectivityManager)
    (hm : self.mWiFiAPMode = WiFiAPMode.kWiFiAPMode_OnDemand) :
    ((DriveAPState_target drv self).2.1, (DriveAPState_target drv self).2.2.2) =
      if self.mLastAPDemandTime ≠ 0
          ∧ drv.now < add64 self.mLastAPDemandTime self.mWiFiAPIdleTimeoutMS then
        (WiFiAPState.kWiFiAPState_Active,
          [Effect.StartTimer_DriveAPState
            (toUInt32 (sub64 (add64 self.mLastAPDemandTime self.mWiFiAPIdleTimeoutMS) drv.now))])
      else (WiFiAPState.kWiFiAPState_NotActive, []) := by
  have n1 : ¬ self.mWiFiAPMode = WiFiAPMode.kWiFiAPMode_Disabled := by rw [hm]; decide
  have n2 : ¬ self.mWiFiAPMode = WiFiAPMode.kWiFiAPMode_Enabled := by rw [hm]; decide
  have n3 : ¬ self.mWiFiAPMode = WiFiAPMode.kWiFiAPMode_OnDemand_NoStationProvision := by
    rw [hm]; decide
  unfold DriveAPState_target
  rw [if_neg n1, if_neg n2]
  simp only []
  rw [if_neg n3]
  simp only [Bool.false_eq_true, if_false]
  rw [if_pos (Or.inl hm)]
  split_ifs <;> rfl

theorem DriveAPState_target_noStation (drv : WiFiDriver) (self : ConnectivityManager)
    (hm : self.mWiFiAPMode = WiFiAPMode.kWiFiAPMode_OnDemand_NoStationProvision)
    (h : drv.IsStationProvisioned = false
      ∨ (GetWiFiStationMode drv self).mWiFiStationMode
          = WiFiStationMode.kWiFiStationMode_Disabled) :
    (DriveAPState_target drv self).2.1 = WiFiAPState.kWiFiAPState_Active
      ∧ (DriveAPState_target drv self).2.2.2 = [] := by
  have n1 : ¬ self.mWiFiAPMode = WiFiAPMode.kWiFiAPMode_Disabled := by rw [hm]; decide
  have n2 : ¬ self.mWiFiAPMode = WiFiAPMode.kWiFiAPMode_Enabled := by rw [hm]; decide
  unfold DriveAPState_target
  rw [if_neg n1, if_neg n2]
  simp only []
  rw [if_pos hm]
  by_cases hp : drv.IsStationProvisioned = false
  · rw [if_pos hp]
    exact ⟨rfl, rfl⟩
  · rw [if_neg hp]
    have hd := h.resolve_left hp
    have hdd : decide ((GetWiFiStationMode drv self).mWiFiStationMode
        = WiFiStationMode.kWiFiStationMode_Disabled) = true := decide_eq_true hd
    simp only [hdd, if_true]
    exact ⟨trivial, trivial⟩

theorem DriveAPState_target_station (drv : WiFiDriver) (self : ConnectivityManager)
    (hm : self.mWiFiAPMode = WiFiAPMode.kWiFiAPMode_OnDemand_NoStationProvision)
    (hp : drv.IsStationProvisioned = true)
    (hd : (GetWiFiStationMode drv self).mWiFiStationMode
          ≠ WiFiStationMode.kWiFiStationMode_Disabled) :
    ((DriveAPState_target drv self).2.1, (DriveAPState_target drv self).2.2.2) =
      if self.mLastAPDemandTime ≠ 0
          ∧ drv.now < add64 self.mLastAPDemandTime self.mWiFiAPIdleTimeoutMS then
        (WiFiAPState.kWiFiAPState_Active,
          [Effect.StartTimer_DriveAPState
            (toUInt32 (sub64 (add64 self.mLastAPDemandTime self.mWiFiAPIdleTimeoutMS) drv.now))])
      else (WiFiAPState.kWiFiAPState_NotActive, []) := by
  obtain ⟨f1, f2, f3⟩ := GetWiFiStationMode_APfields drv self
  have n1 : ¬ self.mWiFiAPMode = WiFiAPMode.kWiFiAPMode_Disabled := by rw [hm]; decide
  have n2 : ¬ self.mWiFiAPMode = WiFiAPMode.kWiFiAPMode_Enabled := by rw [hm]; decide
  have np : ¬ drv.IsStationProvisioned = false := by rw [hp]; decide
  have hdd : decide ((GetWiFiStationMode drv self).mWiFiStationMode
      = WiFiStationMode.kWiFiStationMode_Disabled) = false := decide_eq_false hd
  unfold DriveAPState_target
  rw [if_neg n1, if_neg n2]
  simp only []
  rw [if_pos hm, if_neg np]
  simp only [hdd, Bool.false_eq_true, if_false, f1, f2, f3]
  rw [if_pos (Or.inr hm)]
  split_ifs <;> rfl

theorem idle_budget (last timeout now : Nat) (hw : last + timeout < 2 ^ 64)
    (ht : timeout < 2 ^ 32) (hmono : last ≤ now) (hlt : now < add64 last timeout) :
    toUInt32 (sub64 (add64 last timeout) now) = last + timeout - now
      ∧ 1 ≤ last + timeout - now ∧ last + timeout - now ≤ timeout := by
  unfold add64 at hlt
  unfold toUInt32 sub64 add64
  rw [Nat.mod_eq_of_lt hw] at hlt ⊢
  have hn : now < 2 ^ 64 := by omega
  rw [Nat.mod_eq_of_lt hn]
  have e : last + timeout + 2 ^ 64 - now = (last + timeout - now) + 2 ^ 64 := by omega
  rw [e, Nat.add_mod_right, Nat.mod_eq_of_lt (by omega), Nat.mod_eq_of_lt (by omega)]
  omega

/-- Counterexample for C13: in mode OnDemand with no demand recorded
(`mLastAPDemandTime` is 0) and the clock at 100, `now` is below
`lastDemandTime + idleTimeout`, yet the target state is NotActive and no timer
is armed. -/
theorem DriveAPState_target_no_demand :
    onDemandCM.mWiFiAPMode = WiFiAPMode.kWiFiAPMode_OnDemand
    ∧ (clockWiFi 100).now < onDemandCM.mLastAPDemandTime + onDemandCM.mWiFiAPIdleTimeoutMS
    ∧ (DriveAPState_target (clockWiFi 100) onDemandCM).2.1 = WiFiAPState.kWiFiAPState_NotActive
    ∧ (DriveAPState_target (clockWiFi 100) onDemandCM).2.2.2 = [] := by
  decide

/-- Claim C13, amended: the target state that `DriveAPState` computes is
NotActive for mode Disabled, Active for mode Enabled, Active for
OnDemand_NoStationProvision when the station is unprovisioned or its refreshed
mode is Disabled; otherwise, for the two on-demand modes, it is Active if and
only if a demand is recorded (`mLastAPDemandTime` is not 0) and
`now < lastDemandTime + idleTimeout`, in which case one timer is armed, for
`lastDemandTime + idleTimeout - now` milliseconds when the sum does not wrap
and the clock has not gone back (at least 1, at most the idle timeout); in
every other case it is NotActive and no timer is armed. -/
theorem DriveAPState_target_rule (drv : WiFiDriver) (self : ConnectivityManager) :
    (self.mWiFiAPMode = WiFiAPMode.kWiFiAPMode_Disabled →
      (DriveAPState_target drv self).2.1 = WiFiAPState.kWiFiAPState_NotActive
      ∧ (DriveAPState_target drv self).2.2.2 = [])
    ∧ (self.mWiFiAPMode = WiFiAPMode.kWiFiAPMode_Enabled →
      (DriveAPState_target drv self).2.1 = WiFiAPState.kWiFiAPState_Active
      ∧ (DriveAPState_target drv self).2.2.2 = [])
    ∧ (self.mWiFiAPMode = WiFiAPMode.kWiFiAPMode_OnDemand_NoStationProvision
        ∧ (drv.IsStationProvisioned = false
          ∨ (GetWiFiStationMode drv self).mWiFiStationMode
              = WiFiStationMode.kWiFiStationMode_Disabled) →
      (DriveAPState_target drv self).2.1 = WiFiAPState.kWiFiAPState_Active
      ∧ (DriveAPState_target drv self).2.2.2 = [])
    ∧ (self.mWiFiAPMode = WiFiAPMode.kWiFiAPMode_OnDemand
        ∨ (self.mWiFiAPMode = WiFiAPMode.kWiFiAPMode_OnDemand_NoStationProvision
            ∧ drv.IsStationProvisioned = true
            ∧ (GetWiFiStationMode drv self).mWiFiStationMode
                ≠ WiFiStationMode.kWiFiStationMode_Disabled) →
      ((DriveAPState_target drv self).2.1 = WiFiAPState.kWiFiAPState_Active ↔
        self.mLastAPDemandTime ≠ 0
          ∧ drv.now < add64 self.mLastAPDemandTime self.mWiFiAPIdleTimeoutMS)
      ∧ ((DriveAPState_target drv self).2.1 = WiFiAPState.kWiFiAPState_Active →
          (DriveAPState_target drv self).2.2.2 =
            [Effect.StartTimer_DriveAPState
              (toUInt32
                (sub64 (add64 self.mLastAPDemandTime self.mWiFiAPIdleTimeoutMS) drv.now))])
      ∧ ((DriveAPState_target drv self).2.1 = WiFiAPState.kWiFiAPState_Active →
          self.mLastAPDemandTime + self.mWiFiAPIdleTimeoutMS < 2 ^ 64 →
          self.mWiFiAPIdleTimeoutMS < 2 ^ 32 → self.mLastAPDemandTime ≤ drv.now →
          (DriveAPState_target drv self).2.2.2 =
            [Effect.StartTimer_DriveAPState
              (self.mLastAPDemandTime + self.mWiFiAPIdleTimeoutMS - drv.now)]
          ∧ 1 ≤ self.mLastAPDemandTime + self.mWiFiAPIdleTimeoutMS - drv.now
          ∧ self.mLastAPDemandTime + self.mWiFiAPIdleTimeoutMS - drv.now
              ≤ self.mWiFiAPIdleTimeoutMS)
      ∧ ((DriveAPState_target drv self).2.1 ≠ WiFiAPState.kWiFiAPState_Active →
          (DriveAPState_target drv self).2.1 = WiFiAPState.kWiFiAPState_NotActive
          ∧ (DriveAPState_target drv self).2.2.2 = []))
    ∧ (self.mWiFiAPMode = WiFiAPMode.kWiFiAPMode_NotSupported →
      (DriveAPState_target drv self).2.1 = WiFiAPState.kWiFiAPState_NotActive
      ∧ (DriveAPState_target drv self).2.2.2 = []) := by
  refine ⟨?_, ?_, ?_, ?_, ?_⟩
  · intro hm
    unfold DriveAPState_target
    rw [if_pos hm]
    exact ⟨rfl, rfl⟩
  · intro hm
    have n1 : ¬ self.mWiFiAPMode = WiFiAPMode.kWiFiAPMode_Disabled := by rw [hm]; decide
    unfold DriveAPState_target
    rw [if_neg n1, if_pos hm]
    exact ⟨rfl, rfl⟩
  · intro h
    exact DriveAPState_target_noStation drv self h.1 h.2
  · intro h
    have key : ((DriveAPState_target drv self).2.1, (DriveAPState_target drv self).2.2.2) =
        if self.mLastAPDemandTime ≠ 0
            ∧ drv.now < add64 self.mLastAPDemandTime self.mWiFiAPIdleTimeoutMS then
          (WiFiAPState.kWiFiAPState_Active,
            [Effect.StartTimer_DriveAPState
              (toUInt32
                (sub64 (add64 self.mLastAPDemandTime self.mWiFiAPIdleTimeoutMS) drv.now))])
        else (WiFiAPState.kWiFiAPState_NotActive, []) := by
      rcases h with h | h
      · exact DriveAPState_target_onDemand drv self h
      · exact DriveAPState_target_station drv self h.1 h.2.1 h.2.2
    by_cases hc : self.mLastAPDemandTime ≠ 0
        ∧ drv.now < add64 self.mLastAPDemandTime self.mWiFiAPIdleTimeoutMS
    · rw [if_pos hc] at key
      have k1 := congrArg Prod.fst key
      have k2 := congrArg Prod.snd key
      simp only [] at k1 k2
      refine ⟨⟨fun _ => hc, fun _ => k1⟩, fun _ => k2, ?_, fun hne => absurd k1 hne⟩
      intro _ hw ht hmono
      obtain ⟨b1, b2, b3⟩ := idle_budget _ _ _ hw ht hmono hc.2
      rw [k2, b1]
      exact ⟨rfl, b2, b3⟩
    · rw [if_neg hc] at key
      have k1 := congrArg Prod.fst key
      have k2 := congrArg Prod.snd key
      simp only [] at k1 k2
      have hna : (DriveAPState_target drv self).2.1 ≠ WiFiAPState.kWiFiAPState_Active := by
        rw [k1]
        decide
      exact ⟨⟨fun ha => absurd ha hna, fun h2 => absurd h2 hc⟩, fun ha => absurd ha hna,
        fun ha => absurd ha hna, fun _ => ⟨k1, k2⟩⟩
  · intro hm
    have n1 : ¬ self.mWiFiAPMode = WiFiAPMode.kWiFiAPMode_Disabled := by rw [hm]; decide
    have n2 : ¬ self.mWiFiAPMode = WiFiAPMode.kWiFiAPMode_Enabled := by rw [hm]; decide
    have n3 : ¬ self.mWiFiAPMode = WiFiAPMode.kWiFiAPMode_OnDemand_NoStationProvision := by
      rw [hm]; decide
    have n4 : ¬ (self.mWiFiAPMode = WiFiAPMode.kWiFiAPMode_OnDemand
        ∨ self.mWiFiAPMode = WiFiAPMode.kWiFiAPMode_OnDemand_NoStationProvision) := by
      rw [hm]; decide
    unfold DriveAPState_target
    rw [if_neg n1, if_neg n2]
    simp only []
    rw [if_neg n3]
    simp only [Bool.false_eq_true, if_false]
    rw [if_neg n4]
    exact ⟨rfl, rfl⟩

/-- Witness for C13: a demand recorded at 1000, the clock at 5000 and an idle
timeout of 30000 ms give target Active and a timer of 26000 ms. -/
theorem DriveAPState_target_rule_witness :
    (DriveAPState_target (clockWiFi 5000) demandedCM).2.1 = WiFiAPState.kWiFiAPState_Active
    ∧ (DriveAPState_target (clockWiFi 5000) demandedCM).2.2.2
        = [Effect.StartTimer_DriveAPState 26000] := by
  have h := (DriveAPState_target_rule (clockWiFi 5000) demandedCM).2.2.2.1
    (Or.inl rfl)
  have ha := h.1.mpr (by decide)
  exact ⟨ha, (h.2.2.1 ha (by decide) (by decide) (by decide)).1⟩

/-! ## The on-demand access point -/

/-- Counterexample for C14: `DemandStartWiFiAP` executed when the clock reads 0
records the time 0, which `DriveAPState` reads as "no demand": the following
`DriveAPState` only starts the WiFi layer, issues neither AP enable nor AP
configure, arms no timer and leaves the AP state NotActive. -/
theorem demand_at_clock_zero_is_lost :
    onDemandCM.mWiFiAPMode = WiFiAPMode.kWiFiAPMode_OnDemand
    ∧ onDemandCM.mWiFiAPIdleTimeoutMS = 30000
    ∧ DemandStartWiFiAP (clockWiFi 0) onDemandCM
        = (onDemandCM, [Effect.ScheduleWork_DriveAPState])
    ∧ (DriveAPState_target (clockWiFi 0) (DemandStartWiFiAP (clockWiFi 0) onDemandCM).1).2.1
        = WiFiAPState.kWiFiAPState_NotActive
    ∧ DriveAPState (clockWiFi 0) (DemandStartWiFiAP (clockWiFi 0) onDemandCM).1
        = (onDemandCM, [Effect.ESPUtils_StartWiFiLayer]) := by
  decide

theorem onDemand_budget (t u : Nat) (hw : t + 30000 < 2 ^ 64) (h1 : t ≤ u)
    (h2 : u < t + 30000) :
    u < add64 t 30000 ∧ toUInt32 (sub64 (add64 t 30000) u) = t + 30000 - u := by
  have hlt : u < add64 t 30000 := by
    unfold add64
    rw [Nat.mod_eq_of_lt hw]
    exact h2
  exact ⟨hlt, (idle_budget t 30000 u hw (by norm_num) h1 hlt).1⟩

theorem DriveAPState_activates (t : Nat) (ht : 0 < t) (hw : t + 30000 < 2 ^ 64) :
    DriveAPState (clockWiFi t) (demandedAt t WiFiAPState.kWiFiAPState_NotActive)
      = (demandedAt t WiFiAPState.kWiFiAPState_Activating,
          [Effect.ESPUtils_StartWiFiLayer, Effect.StartTimer_DriveAPState 30000,
           Effect.ESPUtils_SetAPMode true, Effect.esp_wifi_set_config_AP]) := by
  obtain ⟨b1, b2⟩ := onDemand_budget t t hw (le_refl t) (by omega)
  have b3 : t + 30000 - t = 30000 := by omega
  have ht0 : t ≠ 0 := by omega
  simp [DriveAPState, DriveAPState_target, DriveAPState_transition, DriveAPState_linkLocal,
    DriveAPState_exit, ConfigureWiFiAP, ChangeWiFiAPState, clockWiFi, okWiFi, demandedAt,
    onDemandCM, initialCM, WEAVE_NO_ERROR] at b1 b2 ⊢
  simp [b1, b2, b3, ht0]

theorem DemandStartWiFiAP_records (t : Nat) :
    DemandStartWiFiAP (clockWiFi t) onDemandCM
      = (demandedAt t WiFiAPState.kWiFiAPState_NotActive,
          [Effect.ScheduleWork_DriveAPState]) := by
  simp [DemandStartWiFiAP, clockWiFi, okWiFi, demandedAt, onDemandCM, initialCM]

theorem DriveAPState_target_demanded (t u : Nat) (st : WiFiAPState) (ht : 0 < t)
    (hw : t + 30000 < 2 ^ 64) (h1 : t ≤ u) (h2 : u < t + 30000) (b : WEAVE_ERROR × Bool) :
    DriveAPState_target { clockWiFi u with IsAPEnabled := b } (demandedAt t st)
      = (WEAVE_NO_ERROR, WiFiAPState.kWiFiAPState_Active, demandedAt t st,
          [Effect.StartTimer_DriveAPState (t + 30000 - u)]) := by
  obtain ⟨b1, b2⟩ := onDemand_budget t u hw h1 h2
  have ht0 : t ≠ 0 := by omega
  simp [DriveAPState_target, clockWiFi, okWiFi, demandedAt, onDemandCM, initialCM,
    WEAVE_NO_ERROR] at b1 b2 ⊢
  simp [b1, b2, ht0]

theorem DriveAPState_target_expired (t : Nat) (st : WiFiAPState) (hw : t + 30000 < 2 ^ 64)
    (b : WEAVE_ERROR × Bool) :
    DriveAPState_target { clockWiFi (t + 30000) with IsAPEnabled := b } (demandedAt t st)
      = (WEAVE_NO_ERROR, WiFiAPState.kWiFiAPState_NotActive, demandedAt t st, []) := by
  have b1 : ¬ (t + 30000 < add64 t 30000) := by
    unfold add64
    rw [Nat.mod_eq_of_lt hw]
    omega
  simp [DriveAPState_target, clockWiFi, okWiFi, demandedAt, onDemandCM, initialCM,
    WEAVE_NO_ERROR] at b1 ⊢
  intro _
  omega

theorem OnPlatformEvent_AP_START_activates (t u : Nat) (ht : 0 < t) (hw : t + 30000 < 2 ^ 64)
    (h1 : t ≤ u) (h2 : u < t + 30000) :
    OnPlatformEvent (apUpWiFi u) PlatformEvent.SYSTEM_EVENT_AP_START
        (demandedAt t WiFiAPState.kWiFiAPState_Activating)
      = (demandedAt t WiFiAPState.kWiFiAPState_Active,
          [Effect.ESPUtils_StartWiFiLayer, Effect.StartTimer_DriveAPState (t + 30000 - u)]) := by
  obtain ⟨b1, b2⟩ := onDemand_budget t u hw h1 h2
  have ht0 : t ≠ 0 := by omega
  simp [OnPlatformEvent, DriveAPState, DriveAPState_target, DriveAPState_transition,
    DriveAPState_linkLocal, DriveAPState_exit, ConfigureWiFiAP, ChangeWiFiAPState, apUpWiFi,
    clockWiFi, okWiFi, demandedAt, onDemandCM, initialCM, WEAVE_NO_ERROR] at b1 b2 ⊢
  simp [b1, b2, ht0]

theorem DriveAPState_deactivates (t : Nat) (hw : t + 30000 < 2 ^ 64) :
    DriveAPState (apUpWiFi (t + 30000)) (demandedAt t WiFiAPState.kWiFiAPState_Active)
      = (demandedAt t WiFiAPState.kWiFiAPState_Deactivating,
          [Effect.ESPUtils_StartWiFiLayer, Effect.ESPUtils_SetAPMode false]) := by
  have b1 : ¬ (t + 30000 < add64 t 30000) := by
    unfold add64
    rw [Nat.mod_eq_of_lt hw]
    omega
  simp [DriveAPState, DriveAPState_target, DriveAPState_transition,
    DriveAPState_linkLocal, DriveAPState_exit, ConfigureWiFiAP, ChangeWiFiAPState, apUpWiFi,
    clockWiFi, okWiFi, demandedAt, onDemandCM, initialCM, WEAVE_NO_ERROR]
  simp [b1]

/-- Claim C14, amended: with AP mode OnDemand, an idle timeout of 30000 ms and
a driver whose commands succeed, `DemandStartWiFiAP` executed when the clock
reads a time `t` other than 0 records `t`; `DriveAPState` at `t` then has
target Active, issues AP enable and AP configure, arms a timer for 30000 ms
and enters Activating; the driver's AP-start event at a time `u` within the
idle period makes the state Active and re-arms the timer for the rest of the
period; `DriveAPState` at `t + 30000` with no further demand has target
NotActive and issues AP disable. -/
theorem onDemand_AP_scenario (t u : Nat) (ht : 0 < t) (hw : t + 30000 < 2 ^ 64)
    (h1 : t ≤ u) (h2 : u < t + 30000) :
    DemandStartWiFiAP (clockWiFi t) onDemandCM
      = (demandedAt t WiFiAPState.kWiFiAPState_NotActive, [Effect.ScheduleWork_DriveAPState])
    ∧ (DriveAPState_target (clockWiFi t) (demandedAt t WiFiAPState.kWiFiAPState_NotActive)).2.1
        = WiFiAPState.kWiFiAPState_Active
    ∧ DriveAPState (clockWiFi t) (demandedAt t WiFiAPState.kWiFiAPState_NotActive)
        = (demandedAt t WiFiAPState.kWiFiAPState_Activating,
            [Effect.ESPUtils_StartWiFiLayer, Effect.StartTimer_DriveAPState 30000,
             Effect.ESPUtils_SetAPMode true, Effect.esp_wifi_set_config_AP])
    ∧ OnPlatformEvent (apUpWiFi u) PlatformEvent.SYSTEM_EVENT_AP_START
          (demandedAt t WiFiAPState.kWiFiAPState_Activating)
        = (demandedAt t WiFiAPState.kWiFiAPState_Active,
            [Effect.ESPUtils_StartWiFiLayer, Effect.StartTimer_DriveAPState (t + 30000 - u)])
    ∧ (DriveAPState_target (apUpWiFi (t + 30000))
          (demandedAt t WiFiAPState.kWiFiAPState_Active)).2.1
        = WiFiAPState.kWiFiAPState_NotActive
    ∧ DriveAPState (apUpWiFi (t + 30000)) (demandedAt t WiFiAPState.kWiFiAPState_Active)
        = (demandedAt t WiFiAPState.kWiFiAPState_Deactivating,
            [Effect.ESPUtils_StartWiFiLayer, Effect.ESPUtils_SetAPMode false]) := by
  refine ⟨DemandStartWiFiAP_records t, ?_, DriveAPState_activates t ht hw,
    OnPlatformEvent_AP_START_activates t u ht hw h1 h2, ?_, DriveAPState_deactivates t hw⟩
  · have h := DriveAPState_target_demanded t t WiFiAPState.kWiFiAPState_NotActive ht hw
      (le_refl t) (by omega) (0, false)
    have e : ({ clockWiFi t with IsAPEnabled := (0, false) } : WiFiDriver) = clockWiFi t := rfl
    rw [e] at h
    rw [h]
  · have h := DriveAPState_target_expired t WiFiAPState.kWiFiAPState_Active hw (0, true)
    have e : ({ clockWiFi (t + 30000) with IsAPEnabled := (0, true) } : WiFiDriver)
        = apUpWiFi (t + 30000) := rfl
    rw [e] at h
    rw [h]

/-- Witness for C14: the scenario with the demand at clock reading 1 and the
AP-start event at 40. -/
theorem onDemand_AP_scenario_witness :
    (0 < 1 ∧ 1 + 30000 < 2 ^ 64 ∧ 1 ≤ 40 ∧ 40 < 1 + 30000)
    ∧ DriveAPState (clockWiFi 1) (demandedAt 1 WiFiAPState.kWiFiAPState_NotActive)
        = (demandedAt 1 WiFiAPState.kWiFiAPState_Activating,
            [Effect.ESPUtils_StartWiFiLayer, Effect.StartTimer_DriveAPState 30000,
             Effect.ESPUtils_SetAPMode true, Effect.esp_wifi_set_config_AP])
    ∧ DriveAPState (apUpWiFi (1 + 30000)) (demandedAt 1 WiFiAPState.kWiFiAPState_Active)
        = (demandedAt 1 WiFiAPState.kWiFiAPState_Deactivating,
            [Effect.ESPUtils_StartWiFiLayer, Effect.ESPUtils_SetAPMode false]) :=
  ⟨by norm_num,
    (onDemand_AP_scenario 1 40 (by norm_num) (by norm_num) (by norm_num) (by norm_num)).2.2.1,
    (onDemand_AP_scenario 1 40 (by norm_num) (by norm_num) (by norm_num)
      (by norm_num)).2.2.2.2.2⟩

/-! ## Failing driver commands in the station state machine -/

theorem DriveStationState_connected_mode_state (drv : WiFiDriver) (self : ConnectivityManager)
    (eff : List Effect) :
    (DriveStationState_connected drv self eff).1.mWiFiStationMode = self.mWiFiStationMode
    ∧ ((DriveStationState_connected drv self eff).1.mWiFiStationState = self.mWiFiStationState
      ∨ (DriveStationState_connected drv self eff).1.mWiFiStationState
          = WiFiStationState.kWiFiStationState_Connected
      ∨ (drv.wifi_disconnect = WEAVE_NO_ERROR
        ∧ (DriveStationState_connected drv self eff).1.mWiFiStationState
            = WiFiStationState.kWiFiStationState_Disconnecting)) := by
  have u := fun s => UpdateInternetConnectivityState_station drv s
  have c := fun n s => ChangeWiFiStationState_frame n s
  unfold DriveStationState_connected DriveStationState_exit OnStationConnected
  simp only []
  split_ifs with h1 h2 h3 h2 h3 <;>
    simp only [(u _).2.2.1, (u _).2.2.2, (c _ _).2.2.1, (c _ _).2.2.2, true_and, true_or,
      or_true] <;>
    first
    | trivial
    | exact Or.inr (Or.inr ⟨not_not.mp h3, trivial⟩)

theorem DriveStationState_notConnected_mode_state (drv : WiFiDriver)
    (self : ConnectivityManager) (eff : List Effect) :
    (DriveStationState_notConnected drv self eff).1.mWiFiStationMode = self.mWiFiStationMode
    ∧ ((DriveStationState_notConnected drv self eff).1.mWiFiStationState
          = self.mWiFiStationState
      ∨ (DriveStationState_notConnected drv self eff).1.mWiFiStationState
          = WiFiStationState.kWiFiStationState_NotConnected
      ∨ (drv.wifi_connect = WEAVE_NO_ERROR
        ∧ (DriveStationState_notConnected drv self eff).1.mWiFiStationState
            = WiFiStationState.kWiFiStationState_Connecting)) := by
  have u := fun s => UpdateInternetConnectivityState_station drv s
  have c := fun n s => ChangeWiFiStationState_frame n s
  unfold DriveStationState_notConnected DriveStationState_exit OnStationDisconnected
  simp only []
  split_ifs <;>
    simp only [(u _).2.2.1, (u _).2.2.2, (c _ _).2.2.1, (c _ _).2.2.2, true_and, true_or,
      or_true] <;>
    first
    | trivial
    | (rename_i h3; exact Or.inr (Or.inr ⟨not_not.mp h3, trivial⟩))

theorem DriveStationState_state (drv : WiFiDriver) (self : ConnectivityManager) :
    (DriveStationState drv self).1.mWiFiStationState = self.mWiFiStationState
    ∨ (DriveStationState drv self).1.mWiFiStationState
        = WiFiStationState.kWiFiStationState_Connected
    ∨ (DriveStationState drv self).1.mWiFiStationState
        = WiFiStationState.kWiFiStationState_NotConnected
    ∨ (drv.wifi_disconnect = WEAVE_NO_ERROR
      ∧ (DriveStationState drv self).1.mWiFiStationState
          = WiFiStationState.kWiFiStationState_Disconnecting)
    ∨ (drv.wifi_connect = WEAVE_NO_ERROR
      ∧ (DriveStationState drv self).1.mWiFiStationState
          = WiFiStationState.kWiFiStationState_Connecting) := by
  have hs0 := GetWiFiStationMode_state drv self
  have hc : ∀ e : List Effect,
      (DriveStationState_connected drv (GetWiFiStationMode drv self) e).1.mWiFiStationState
          = self.mWiFiStationState
      ∨ (DriveStationState_connected drv (GetWiFiStationMode drv self) e).1.mWiFiStationState
          = WiFiStationState.kWiFiStationState_Connected
      ∨ (DriveStationState_connected drv (GetWiFiStationMode drv self) e).1.mWiFiStationState
          = WiFiStationState.kWiFiStationState_NotConnected
      ∨ (drv.wifi_disconnect = WEAVE_NO_ERROR
        ∧ (DriveStationState_connected drv (GetWiFiStationMode drv self) e).1.mWiFiStationState
            = WiFiStationState.kWiFiStationState_Disconnecting)
      ∨ (drv.wifi_connect = WEAVE_NO_ERROR
        ∧ (DriveStationState_connected drv (GetWiFiStationMode drv self) e).1.mWiFiStationState
            = WiFiStationState.kWiFiStationState_Connecting) := by
    intro e
    rcases (DriveStationState_connected_mode_state drv (GetWiFiStationMode drv self) e).2
      with h | h | h
    · exact Or.inl (h.trans hs0)
    · exact Or.inr (Or.inl h)
    · exact Or.inr (Or.inr (Or.inr (Or.inl h)))
  have hn : ∀ e : List Effect,
      (DriveStationState_notConnected drv (GetWiFiStationMode drv self) e).1.mWiFiStationState
          = self.mWiFiStationState
      ∨ (DriveStationState_notConnected drv (GetWiFiStationMode drv self) e).1.mWiFiStationState
          = WiFiStationState.kWiFiStationState_Connected
      ∨ (DriveStationState_notConnected drv (GetWiFiStationMode drv self) e).1.mWiFiStationState
          = WiFiStationState.kWiFiStationState_NotConnected
      ∨ (drv.wifi_disconnect = WEAVE_NO_ERROR
        ∧ (DriveStationState_notConnected drv (GetWiFiStationMode drv self)
            e).1.mWiFiStationState = WiFiStationState.kWiFiStationState_Disconnecting)
      ∨ (drv.wifi_connect = WEAVE_NO_ERROR
        ∧ (DriveStationState_notConnected drv (GetWiFiStationMode drv self)
            e).1.mWiFiStationState = WiFiStationState.kWiFiStationState_Connecting) := by
    intro e
    rcases (DriveStationState_notConnected_mode_state drv (GetWiFiStationMode drv self) e).2
      with h | h | h
    · exact Or.inl (h.trans hs0)
    · exact Or.inr (Or.inr (Or.inl h))
    · exact Or.inr (Or.inr (Or.inr (Or.inr h)))
  unfold DriveStationState
  simp only []
  split_ifs <;> first | exact Or.inl hs0 | exact hc _ | exact hn _

/-- Counterexample for C11: with auto-connect on and a provisioned station,
`DriveStationState` issues a connect command; when that command fails the
station mode on return is Enabled, not Disabled. -/
theorem DriveStationState_failed_connect_keeps_mode :
    connectFailsWiFi.wifi_connect ≠ WEAVE_NO_ERROR
    ∧ Effect.esp_wifi_connect ∈ (DriveStationState connectFailsWiFi initialCM).2
    ∧ (DriveStationState connectFailsWiFi initialCM).1.mWiFiStationMode
        = WiFiStationMode.kWiFiStationMode_Enabled := by
  decide

/-- Claim C11, amended: `DriveStationState` never forces the station mode to
Disabled; on return the mode is the one `GetWiFiStationMode` refreshed at the
start of the call, whether or not a driver command failed.  A failure only
stops the sequence: when starting the WiFi layer, enabling station mode or the
association query fails, nothing but the refreshed mode has changed and only a
pending scan is started; a failed connect does not bring the state to
Connecting, a failed disconnect does not bring it to Disconnecting. -/
theorem DriveStationState_failure_policy (drv : WiFiDriver) (self : ConnectivityManager) :
    (DriveStationState drv self).1.mWiFiStationMode
        = (GetWiFiStationMode drv self).mWiFiStationMode
    ∧ (self.mWiFiStationMode ≠ WiFiStationMode.kWiFiStationMode_ApplicationControlled →
        drv.StartWiFiLayer ≠ WEAVE_NO_ERROR →
        DriveStationState drv self
          = (GetWiFiStationMode drv self,
              [Effect.ESPUtils_StartWiFiLayer, Effect.StartPendingScan]))
    ∧ (self.mWiFiStationMode ≠ WiFiStationMode.kWiFiStationMode_ApplicationControlled →
        drv.StartWiFiLayer = WEAVE_NO_ERROR → drv.EnableStationMode ≠ WEAVE_NO_ERROR →
        DriveStationState drv self
          = (GetWiFiStationMode drv self,
              [Effect.ESPUtils_StartWiFiLayer, Effect.ESPUtils_EnableStationMode,
               Effect.StartPendingScan]))
    ∧ (drv.IsStationConnected.1 ≠ WEAVE_NO_ERROR →
        (DriveStationState drv self).1 = GetWiFiStationMode drv self
        ∧ Effect.esp_wifi_connect ∉ (DriveStationState drv self).2
        ∧ Effect.esp_wifi_disconnect ∉ (DriveStationState drv self).2)
    ∧ (drv.wifi_connect ≠ WEAVE_NO_ERROR →
        (DriveStationState drv self).1.mWiFiStationState
          = WiFiStationState.kWiFiStationState_Connecting →
        self.mWiFiStationState = WiFiStationState.kWiFiStationState_Connecting)
    ∧ (drv.wifi_disconnect ≠ WEAVE_NO_ERROR →
        (DriveStationState drv self).1.mWiFiStationState
          = WiFiStationState.kWiFiStationState_Disconnecting →
        self.mWiFiStationState = WiFiStationState.kWiFiStationState_Disconnecting) := by
  have hs0 := GetWiFiStationMode_state drv self
  have hm0 : (GetWiFiStationMode drv self).mWiFiStationMode
        ≠ WiFiStationMode.kWiFiStationMode_ApplicationControlled ↔
      self.mWiFiStationMode ≠ WiFiStationMode.kWiFiStationMode_ApplicationControlled := by
    unfold GetWiFiStationMode
    split_ifs with h1 h2 <;> simp_all
  have hc := fun e => DriveStationState_connected_mode_state drv (GetWiFiStationMode drv self) e
  have hn := fun e =>
    DriveStationState_notConnected_mode_state drv (GetWiFiStationMode drv self) e
  refine ⟨?_, ?_, ?_, ?_, ?_, ?_⟩
  · unfold DriveStationState
    simp only []
    split_ifs <;> first | rfl | exact (hc _).1 | exact (hn _).1
  · intro h1 h2
    unfold DriveStationState
    simp only []
    rw [if_pos (hm0.mpr h1), if_pos h2, if_pos h2]
    rfl
  · intro h1 h2 h3
    have n2 : ¬ drv.StartWiFiLayer ≠ WEAVE_NO_ERROR := not_not.mpr h2
    unfold DriveStationState
    simp only []
    rw [if_pos (hm0.mpr h1), if_neg n2, if_pos h3]
    rfl
  · intro h1
    unfold DriveStationState
    simp only []
    split_ifs <;> simp [DriveStationState_exit]
  · intro h1 h2
    rcases DriveStationState_state drv self with h | h | h | h | h
    · rw [h] at h2; exact h2
    · rw [h] at h2; exact absurd h2 (by decide)
    · rw [h] at h2; exact absurd h2 (by decide)
    · rw [h.2] at h2; exact absurd h2 (by decide)
    · exact absurd h.1 h1
  · intro h1 h2
    rcases DriveStationState_state drv self with h | h | h | h | h
    · rw [h] at h2; exact h2
    · rw [h] at h2; exact absurd h2 (by decide)
    · rw [h] at h2; exact absurd h2 (by decide)
    · exact absurd h.1 h1
    · rw [h.2] at h2; exact absurd h2 (by decide)

/-- Witness for C11: a failing connect command on the initial manager leaves
the state NotConnected and the mode as refreshed from the driver. -/
theorem DriveStationState_failure_policy_witness :
    (DriveStationState connectFailsWiFi initialCM).1.mWiFiStationMode
        = (GetWiFiStationMode connectFailsWiFi initialCM).mWiFiStationMode
    ∧ ((DriveStationState connectFailsWiFi initialCM).1.mWiFiStationState
          = WiFiStationState.kWiFiStationState_Connecting →
        initialCM.mWiFiStationState = WiFiStationState.kWiFiStationState_Connecting) :=
  ⟨(DriveStationState_failure_policy connectFailsWiFi initialCM).1,
    (DriveStationState_failure_policy connectFailsWiFi initialCM).2.2.2.2.1 (by decide)⟩

/-! ## Failing driver commands in the access-point state machine -/

theorem APAccepted_nil (drv : WiFiDriver) : APAccepted drv [] := by
  unfold APAccepted
  simp

theorem APAccepted_snoc (drv : WiFiDriver) (eff : List Effect) (c : Effect)
    (h : APAccepted drv eff) (hc : drv.apAnswer c = WEAVE_NO_ERROR)
    (hs : c = Effect.ESPUtils_SetAPMode true → drv.GetWiFiAPSSID = WEAVE_NO_ERROR) :
    APAccepted drv (eff ++ [c]) := by
  unfold APAccepted at h ⊢
  constructor
  · intro e he
    rcases List.mem_append.mp he with h1 | h1
    · exact h.1 e h1
    · rw [List.mem_singleton.mp h1]
      exact hc
  · intro he
    rcases List.mem_append.mp he with h1 | h1
    · exact h.2 h1
    · exact hs (List.mem_singleton.mp h1).symm

theorem DriveAPState_exit_outcome (drv : WiFiDriver) (err : WEAVE_ERROR)
    (self : ConnectivityManager) (eff : List Effect)
    (hm : self.mWiFiAPMode ≠ WiFiAPMode.kWiFiAPMode_ApplicationControlled)
    (h : err = WEAVE_NO_ERROR → APAccepted drv eff) :
    APOutcome drv (DriveAPState_exit err self eff) := by
  unfold DriveAPState_exit SetWiFiAPMode APOutcome
  by_cases he : err = WEAVE_NO_ERROR
  · have hn : ¬ (err ≠ WEAVE_NO_ERROR
        ∧ self.mWiFiAPMode ≠ WiFiAPMode.kWiFiAPMode_ApplicationControlled) :=
      fun hh => hh.1 he
    rw [if_neg hn]
    exact Or.inr (h he)
  · rw [if_pos ⟨he, hm⟩]
    left
    simp

theorem DriveAPState_linkLocal_outcome (drv : WiFiDriver) (b : Bool)
    (self : ConnectivityManager) (eff : List Effect)
    (hm : self.mWiFiAPMode ≠ WiFiAPMode.kWiFiAPMode_ApplicationControlled)
    (h : APAccepted drv eff) :
    APOutcome drv (DriveAPState_linkLocal drv b self eff) := by
  unfold DriveAPState_linkLocal
  split_ifs
  · apply DriveAPState_exit_outcome drv _ _ _ hm
    intro he
    exact APAccepted_snoc drv eff Effect.tcpip_adapter_create_ip6_linklocal_AP h he
      (fun hc => by cases hc)
  · exact DriveAPState_exit_outcome drv _ _ _ hm (fun _ => h)

theorem ChangeWiFiAPState_mode (newState : WiFiAPState) (self : ConnectivityManager) :
    (ChangeWiFiAPState newState self).mWiFiAPMode = self.mWiFiAPMode := by
  unfold ChangeWiFiAPState
  split_ifs <;> rfl

theorem ConfigureWiFiAP_ok (drv : WiFiDriver) (h : (ConfigureWiFiAP drv).1 = WEAVE_NO_ERROR) :
    drv.GetWiFiAPSSID = WEAVE_NO_ERROR ∧ drv.wifi_set_config_AP = WEAVE_NO_ERROR
      ∧ (ConfigureWiFiAP drv).2 = [Effect.esp_wifi_set_config_AP] := by
  unfold ConfigureWiFiAP at h ⊢
  by_cases hs : drv.GetWiFiAPSSID ≠ WEAVE_NO_ERROR
  · rw [if_pos hs] at h
    exact absurd h hs
  · rw [if_neg hs] at h ⊢
    exact ⟨not_not.mp hs, h, rfl⟩

theorem DriveAPState_transition_outcome (drv : WiFiDriver) (b : Bool)
    (targetState : WiFiAPState) (self : ConnectivityManager) (eff : List Effect)
    (hm : self.mWiFiAPMode ≠ WiFiAPMode.kWiFiAPMode_ApplicationControlled)
    (h : APAccepted drv eff) :
    APOutcome drv (DriveAPState_transition drv b targetState self eff) := by
  have hcm := fun n => ChangeWiFiAPState_mode n self
  unfold DriveAPState_transition
  simp only []
  by_cases h1 : self.mWiFiAPState ≠ targetState
  · rw [if_pos h1]
    by_cases h2 : targetState = WiFiAPState.kWiFiAPState_Active
    · rw [if_pos h2]
      by_cases h3 : self.mWiFiAPState ≠ WiFiAPState.kWiFiAPState_Activating
      · rw [if_pos h3]
        by_cases h4 : drv.SetAPMode_on ≠ WEAVE_NO_ERROR
        · rw [if_pos h4]
          exact DriveAPState_exit_outcome drv _ _ _ hm (fun he => absurd he h4)
        · rw [if_neg h4]
          by_cases h5 : (ConfigureWiFiAP drv).1 ≠ WEAVE_NO_ERROR
          · rw [if_pos h5]
            exact DriveAPState_exit_outcome drv _ _ _ hm (fun he => absurd he h5)
          · rw [if_neg h5]
            obtain ⟨c1, c2, c3⟩ := ConfigureWiFiAP_ok drv (not_not.mp h5)
            rw [c3]
            apply DriveAPState_linkLocal_outcome drv _ _ _ (by rw [hcm]; exact hm)
            refine APAccepted_snoc drv (eff ++ [Effect.ESPUtils_SetAPMode true])
              Effect.esp_wifi_set_config_AP ?_ c2 (fun hc => by cases hc)
            exact APAccepted_snoc drv eff (Effect.ESPUtils_SetAPMode true) h (not_not.mp h4)
              (fun _ => c1)
      · rw [if_neg h3]
        exact DriveAPState_linkLocal_outcome drv _ _ _ hm h
    · rw [if_neg h2]
      by_cases h3 : self.mWiFiAPState ≠ WiFiAPState.kWiFiAPState_Deactivating
      · rw [if_pos h3]
        by_cases h4 : drv.SetAPMode_off ≠ WEAVE_NO_ERROR
        · rw [if_pos h4]
          exact DriveAPState_exit_outcome drv _ _ _ hm (fun he => absurd he h4)
        · rw [if_neg h4]
          apply DriveAPState_linkLocal_outcome drv _ _ _ (by rw [hcm]; exact hm)
          exact APAccepted_snoc drv eff (Effect.ESPUtils_SetAPMode false) h (not_not.mp h4)
            (fun hc => by cases hc)
      · rw [if_neg h3]
        exact DriveAPState_linkLocal_outcome drv _ _ _ hm h
  · rw [if_neg h1]
    exact DriveAPState_linkLocal_outcome drv _ _ _ hm h

theorem DriveAPState_target_accepted (drv : WiFiDriver) (self : ConnectivityManager) :
    (DriveAPState_target drv self).2.2.1.mWiFiAPMode = self.mWiFiAPMode
    ∧ ((DriveAPState_target drv self).1 = WEAVE_NO_ERROR →
        ∀ e ∈ (DriveAPState_target drv self).2.2.2, drv.apAnswer e = WEAVE_NO_ERROR)
    ∧ Effect.ESPUtils_SetAPMode true ∉ (DriveAPState_target drv self).2.2.2 := by
  have g := (GetWiFiStationMode_APfields drv self).1
  unfold DriveAPState_target
  simp only []
  split_ifs <;> simp [g, WiFiDriver.apAnswer]

theorem DriveAPState_body_outcome (drv : WiFiDriver) (b : Bool) (s1 : ConnectivityManager)
    (hm : s1.mWiFiAPMode ≠ WiFiAPMode.kWiFiAPMode_ApplicationControlled)
    (h1 : drv.StartWiFiLayer = WEAVE_NO_ERROR) :
    APOutcome drv
      (if (DriveAPState_target drv s1).1 ≠ WEAVE_NO_ERROR then
        DriveAPState_exit (DriveAPState_target drv s1).1 (DriveAPState_target drv s1).2.2.1
          ([Effect.ESPUtils_StartWiFiLayer] ++ (DriveAPState_target drv s1).2.2.2)
      else
        DriveAPState_transition drv b (DriveAPState_target drv s1).2.1
          (DriveAPState_target drv s1).2.2.1
          ([Effect.ESPUtils_StartWiFiLayer] ++ (DriveAPState_target drv s1).2.2.2)) := by
  obtain ⟨t1, t2, t3⟩ := DriveAPState_target_accepted drv s1
  have hm1 : (DriveAPState_target drv s1).2.2.1.mWiFiAPMode
      ≠ WiFiAPMode.kWiFiAPMode_ApplicationControlled := by
    rw [t1]
    exact hm
  by_cases h2 : (DriveAPState_target drv s1).1 ≠ WEAVE_NO_ERROR
  · rw [if_pos h2]
    exact DriveAPState_exit_outcome drv _ _ _ hm1 (fun he => absurd he h2)
  · rw [if_neg h2]
    apply DriveAPState_transition_outcome drv _ _ _ _ hm1
    unfold APAccepted
    constructor
    · intro e hmem
      rcases List.mem_append.mp hmem with h3 | h3
      · rw [List.mem_singleton.mp h3]
        exact h1
      · exact t2 (not_not.mp h2) e h3
    · intro hmem
      rcases List.mem_append.mp hmem with h3 | h3
      · cases List.mem_singleton.mp h3
      · exact absurd h3 t3

theorem DriveAPState_outcome (drv : WiFiDriver) (self : ConnectivityManager)
    (hm : self.mWiFiAPMode ≠ WiFiAPMode.kWiFiAPMode_ApplicationControlled) :
    APOutcome drv (DriveAPState drv self)
    ∧ (drv.IsAPEnabled.1 ≠ WEAVE_NO_ERROR →
        (DriveAPState drv self).1.mWiFiAPMode = WiFiAPMode.kWiFiAPMode_Disabled) := by
  unfold DriveAPState
  simp only []
  by_cases h0 : drv.IsAPEnabled.1 ≠ WEAVE_NO_ERROR
  · rw [if_pos h0]
    refine ⟨DriveAPState_exit_outcome drv _ _ _ hm (fun he => absurd he h0), fun _ => ?_⟩
    unfold DriveAPState_exit SetWiFiAPMode
    rw [if_pos ⟨h0, hm⟩]
    simp
  · rw [if_neg h0]
    refine ⟨?_, fun h => absurd h h0⟩
    rw [if_pos hm]
    by_cases h1 : drv.StartWiFiLayer ≠ WEAVE_NO_ERROR
    · rw [if_pos h1]
      exact DriveAPState_exit_outcome drv _ _ _ hm (fun he => absurd he h1)
    · rw [if_neg h1]
      exact DriveAPState_body_outcome drv _ _ hm (not_not.mp h1)

/-- Counterexample for C12: in AP mode ApplicationControlled the command that
assigns a link-local address to the AP interface is issued and fails, and the
AP mode on return is ApplicationControlled, not Disabled. -/
theorem DriveAPState_application_controlled_failure :
    Effect.tcpip_adapter_create_ip6_linklocal_AP
        ∈ (DriveAPState linkLocalFailsWiFi appControlledCM).2
    ∧ linkLocalFailsWiFi.apAnswer Effect.tcpip_adapter_create_ip6_linklocal_AP
        ≠ WEAVE_NO_ERROR
    ∧ (DriveAPState linkLocalFailsWiFi appControlledCM).1.mWiFiAPMode
        = WiFiAPMode.kWiFiAPMode_ApplicationControlled := by
  decide

/-- Claim C12, amended: for every AP state and every AP mode other than
ApplicationControlled, if the query of the WiFi layer fails, or a command that
`DriveAPState` issued was refused by the driver, or the SSID could not be read
after AP mode was switched on, the AP mode is Disabled when `DriveAPState`
returns. -/
theorem DriveAPState_failure_policy (drv : WiFiDriver) (self : ConnectivityManager)
    (hm : self.mWiFiAPMode ≠ WiFiAPMode.kWiFiAPMode_ApplicationControlled) :
    (drv.IsAPEnabled.1 ≠ WEAVE_NO_ERROR →
      (DriveAPState drv self).1.mWiFiAPMode = WiFiAPMode.kWiFiAPMode_Disabled)
    ∧ (∀ e ∈ (DriveAPState drv self).2, drv.apAnswer e ≠ WEAVE_NO_ERROR →
      (DriveAPState drv self).1.mWiFiAPMode = WiFiAPMode.kWiFiAPMode_Disabled)
    ∧ (Effect.ESPUtils_SetAPMode true ∈ (DriveAPState drv self).2 →
      drv.GetWiFiAPSSID ≠ WEAVE_NO_ERROR →
      (DriveAPState drv self).1.mWiFiAPMode = WiFiAPMode.kWiFiAPMode_Disabled) := by
  obtain ⟨ho, hq⟩ := DriveAPState_outcome drv self hm
  refine ⟨hq, ?_, ?_⟩
  · intro e he hne
    rcases ho with h | h
    · exact h
    · exact absurd (h.1 e he) hne
  · intro he hne
    rcases ho with h | h
    · exact h
    · exact absurd (h.2 he) hne

/-- Witness for C12: in AP mode Enabled the same failing link-local command
leaves the AP mode Disabled. -/
theorem DriveAPState_failure_policy_witness :
    initialCM.mWiFiAPMode ≠ WiFiAPMode.kWiFiAPMode_ApplicationControlled
    ∧ Effect.tcpip_adapter_create_ip6_linklocal_AP
        ∈ (DriveAPState linkLocalFailsWiFi initialCM).2
    ∧ (DriveAPState linkLocalFailsWiFi initialCM).1.mWiFiAPMode
        = WiFiAPMode.kWiFiAPMode_Disabled :=
  ⟨by decide, by decide,
    (DriveAPState_failure_policy linkLocalFailsWiFi initialCM (by decide)).2.1
      Effect.tcpip_adapter_create_ip6_linklocal_AP (by decide) (by decide)⟩

/-! ## The stages of one `DriveBLEState` invocation -/

theorem DriveBLEState_stopService_effects (drv : BLEDriver) (env : BLEEnv) (self : BLEManager)
    (eff : List Effect) :
    ∃ e, (DriveBLEState_stopService drv self eff).2 = eff ++ e ∧ StageEffects drv env self e := by
  unfold DriveBLEState_stopService
  split_ifs
  · exact ⟨[Effect.esp_ble_gatts_stop_service self.mServiceAttrHandle],
      DriveBLEState_issue_snd _ _ _,
      Or.inr (Or.inr (Or.inr (Or.inr (Or.inr (Or.inr (Or.inr rfl))))))⟩
  · refine ⟨[], ?_, Or.inl rfl⟩
    rw [DriveBLEState_exit_snd, List.append_nil]

theorem DriveBLEState_stages_effects (drv : BLEDriver) (env : BLEEnv) (self : BLEManager)
    (eff : List Effect) :
    ∃ e, (DriveBLEState_stages drv env self eff).2 = eff ++ e ∧ StageEffects drv env self e := by
  unfold DriveBLEState_stages
  simp only []
  split_ifs
  · exact ⟨_, DriveBLEState_issue_snd _ _ _, Or.inr (Or.inl rfl)⟩
  · exact ⟨_, DriveBLEState_issue_snd _ _ _, Or.inr (Or.inr (Or.inl rfl))⟩
  · exact ⟨_, DriveBLEState_issue_snd _ _ _, Or.inr (Or.inr (Or.inr (Or.inl rfl)))⟩
  · exact ⟨_, DriveBLEState_exit_snd _ _ _, Or.inr (Or.inr (Or.inr (Or.inr (Or.inl rfl))))⟩
  · exact ⟨_, DriveBLEState_exit_snd _ _ _,
      Or.inr (Or.inr (Or.inr (Or.inr (Or.inr (Or.inl rfl)))))⟩
  · exact DriveBLEState_stopService_effects drv env self eff
  · exact ⟨_, DriveBLEState_issue_snd _ _ _,
      Or.inr (Or.inr (Or.inr (Or.inr (Or.inr (Or.inr (Or.inl rfl))))))⟩
  · exact DriveBLEState_stopService_effects drv env self eff

theorem runCalls_three (a b c : Effect) (ea eb ec : WEAVE_ERROR) :
    (runCalls [(a, ea), (b, eb), (c, ec)]).2 = [a]
    ∨ (runCalls [(a, ea), (b, eb), (c, ec)]).2 = [a, b]
    ∨ (runCalls [(a, ea), (b, eb), (c, ec)]).2 = [a, b, c] := by
  simp only [runCalls]
  by_cases h1 : ea ≠ WEAVE_NO_ERROR
  · left
    simp [h1]
  · by_cases h2 : eb ≠ WEAVE_NO_ERROR
    · right; left
      simp [h1, h2]
    · right; right
      by_cases h3 : ec ≠ WEAVE_NO_ERROR
      · simp [h1, h2, h3]
      · simp [h1, h2, h3]

theorem ConfigureAdvertisingData_effects (drv : BLEDriver) (env : BLEEnv) (self : BLEManager) :
    ∃ name,
      (ConfigureAdvertisingData drv env self).2.2 = [Effect.esp_ble_gap_set_device_name name]
      ∨ (ConfigureAdvertisingData drv env self).2.2
          = [Effect.esp_ble_gap_set_device_name name,
             Effect.esp_ble_gap_config_adv_data advertisingPacket]
      ∨ (ConfigureAdvertisingData drv env self).2.2
          = [Effect.esp_ble_gap_set_device_name name,
             Effect.esp_ble_gap_config_adv_data advertisingPacket,
             Effect.esp_ble_gap_config_adv_data (scanResponsePacket env)] := by
  have e : ∃ name, (ConfigureAdvertisingData drv env self).2.2
      = (runCalls
          [(Effect.esp_ble_gap_set_device_name name, drv.gap_set_device_name),
           (Effect.esp_ble_gap_config_adv_data advertisingPacket, drv.gap_config_adv_data),
           (Effect.esp_ble_gap_config_adv_data (scanResponsePacket env),
             drv.gap_config_scan_rsp)]).2 := by
    unfold ConfigureAdvertisingData
    simp only []
    cases hc : self.mFlags.UseCustomDeviceName
    · refine ⟨List.take env.kMaxDeviceNameLength
          (env.BLE_DEVICE_NAME_PREFIX ++ formatHex04 (env.LocalNodeId % 2 ^ 32)), ?_⟩
      simp only [Bool.false_eq_true, if_false]
      split_ifs <;> rfl
    · refine ⟨self.mDeviceName, ?_⟩
      simp only [if_true]
      split_ifs <;> rfl
  obtain ⟨name, hn⟩ := e
  refine ⟨name, ?_⟩
  rw [hn]
  exact runCalls_three _ _ _ _ _ _

/-- Counterexample for C17: on the manager as `Init` leaves it one invocation
of `DriveBLEState` initialises the layer and also issues the application
registration; and on a manager whose service is started the advertising
configuration issues a second configuration command after the asynchronous
command that configures the advertising data. -/
theorem DriveBLEState_two_stage_actions :
    initialBLE.mFlags.ESPBLELayerInitialized = false
    ∧ (DriveBLEState okDriver sampleEnv initialBLE).1.mFlags.ESPBLELayerInitialized = true
    ∧ Effect.esp_ble_gatts_app_register WoBLEAppId
        ∈ (DriveBLEState okDriver sampleEnv initialBLE).2
    ∧ (Effect.esp_ble_gap_config_adv_data advertisingPacket).isAsyncControlCmd = true
    ∧ (DriveBLEState okDriver sampleEnv serviceStartedBLE).2.drop 1
        = [Effect.esp_ble_gap_config_adv_data advertisingPacket,
           Effect.esp_ble_gap_config_adv_data (scanResponsePacket sampleEnv)] := by
  decide

/-- Claim C17, amended: for every transport state the effects of one
`DriveBLEState` invocation are those of the layer initialisation, when the
service mode is Enabled and the layer is not initialised, followed by those of
at most one further stage (application registration, attribute-table
registration, service start, advertising configuration, advertising start,
advertising stop or service stop) and by nothing else; the initialisation
issues no asynchronous command, a failed initialisation is followed by no
stage, and the advertising configuration sets the device name and then issues
its configuration commands, at most two, back to back. -/
theorem DriveBLEState_one_stage (drv : BLEDriver) (env : BLEEnv) (self : BLEManager) :
    ∃ (e_init e_stage : List Effect) (s : BLEManager),
      (DriveBLEState drv env self).2 = e_init ++ e_stage
      ∧ asyncControlCmds e_init = []
      ∧ ((e_init = [] ∧ s = self)
        ∨ (self.mServiceMode = WoBLEServiceMode.kWoBLEServiceMode_Enabled
          ∧ self.mFlags.ESPBLELayerInitialized = false
          ∧ e_init = (InitESPBleLayer drv self).2.2
          ∧ s = (InitESPBleLayer drv self).2.1
          ∧ ((InitESPBleLayer drv self).1 ≠ WEAVE_NO_ERROR → e_stage = [])))
      ∧ StageEffects drv env s e_stage
      ∧ ∃ name,
          (ConfigureAdvertisingData drv env s).2.2 = [Effect.esp_ble_gap_set_device_name name]
          ∨ (ConfigureAdvertisingData drv env s).2.2
              = [Effect.esp_ble_gap_set_device_name name,
                 Effect.esp_ble_gap_config_adv_data advertisingPacket]
          ∨ (ConfigureAdvertisingData drv env s).2.2
              = [Effect.esp_ble_gap_set_device_name name,
                 Effect.esp_ble_gap_config_adv_data advertisingPacket,
                 Effect.esp_ble_gap_config_adv_data (scanResponsePacket env)] := by
  unfold DriveBLEState
  by_cases h0 : self.mFlags.ControlOpInProgress = true
  · rw [if_pos h0]
    refine ⟨[], [], self, ?_, rfl, Or.inl ⟨rfl, rfl⟩, Or.inl rfl,
      ConfigureAdvertisingData_effects drv env self⟩
    rw [DriveBLEState_exit_snd]
    rfl
  · rw [if_neg h0]
    simp only []
    by_cases h1 : self.mServiceMode = WoBLEServiceMode.kWoBLEServiceMode_Enabled
        ∧ self.mFlags.ESPBLELayerInitialized = false
    · rw [if_pos h1]
      by_cases h2 : (InitESPBleLayer drv self).1 ≠ WEAVE_NO_ERROR
      · rw [if_pos h2]
        refine ⟨(InitESPBleLayer drv self).2.2, [], (InitESPBleLayer drv self).2.1, ?_,
          (InitESPBleLayer_spec drv self).1,
          Or.inr ⟨h1.1, h1.2, rfl, rfl, fun _ => rfl⟩, Or.inl rfl,
          ConfigureAdvertisingData_effects drv env _⟩
        rw [DriveBLEState_exit_snd, List.append_nil]
      · rw [if_neg h2]
        obtain ⟨e, he, hs⟩ := DriveBLEState_stages_effects drv env
          (InitESPBleLayer drv self).2.1 (InitESPBleLayer drv self).2.2
        exact ⟨(InitESPBleLayer drv self).2.2, e, (InitESPBleLayer drv self).2.1, he,
          (InitESPBleLayer_spec drv self).1,
          Or.inr ⟨h1.1, h1.2, rfl, rfl, fun h => absurd h h2⟩, hs,
          ConfigureAdvertisingData_effects drv env _⟩
    · rw [if_neg h1]
      have h2 : ¬ ((WEAVE_NO_ERROR, self, ([] : List Effect)).1 ≠ WEAVE_NO_ERROR) :=
        fun h => h rfl
      rw [if_neg h2]
      obtain ⟨e, he, hs⟩ := DriveBLEState_stages_effects drv env self []
      exact ⟨[], e, self, he, rfl, Or.inl ⟨rfl, rfl⟩, hs,
        ConfigureAdvertisingData_effects drv env self⟩

/-! ## Disconnect events -/

theorem countId_after_release (conId : Nat) (cs : List WoBLEConState) :
    countId conId (ReleaseConnectionState conId cs).2.1 = countId conId cs - 1 := by
  by_cases h : countId conId cs = 0
  · rw [ReleaseConnectionState_of_countId_zero conId cs h, h]
  · obtain ⟨k, c, hk, hca, hci, hr⟩ := ReleaseConnectionState_of_countId_pos conId cs h
    rw [hr]
    exact countId_set_release conId cs k c hk hca hci

theorem HandleGATTControlEvent_disconnect (gatts_if : Nat) (param : esp_ble_gatts_cb_param_t)
    (self : BLEManager) :
    HandleGATTControlEvent esp_gatts_cb_event_t.ESP_GATTS_DISCONNECT_EVT gatts_if param self
      = (self, []) := by
  have he : HandleGATTControlEvent_exit WEAVE_NO_ERROR false self = (self, []) := by
    unfold HandleGATTControlEvent_exit
    simp
  unfold HandleGATTControlEvent
  by_cases h : esp_gatts_cb_event_t.ESP_GATTS_DISCONNECT_EVT
        ≠ esp_gatts_cb_event_t.ESP_GATTS_REG_EVT
      ∧ (self.mFlags.AppRegistered = false ∨ gatts_if ≠ self.mAppIf)
  · rw [if_pos h]
    exact he
  · rw [if_neg h]
    exact he

theorem HandleGATTEvent_disconnect_eq (newBuf : Option (Nat × Nat)) (gatts_if : Nat)
    (param : esp_ble_gatts_cb_param_t) (self : BLEManager)
    (hstarted : self.mFlags.GATTServiceStarted = true) (hif : gatts_if = self.mAppIf) :
    HandleGATTEvent newBuf esp_gatts_cb_event_t.ESP_GATTS_DISCONNECT_EVT gatts_if param self
      = ((HandleDisconnect param self).1,
          [Effect.LockWeaveStack] ++ (HandleDisconnect param self).2
            ++ [Effect.UnlockWeaveStack]) := by
  unfold HandleGATTEvent
  simp only []
  rw [HandleGATTControlEvent_disconnect]
  unfold HandleGATTCommEvent
  have hn : ¬ (self.mFlags.GATTServiceStarted = false ∨ gatts_if ≠ self.mAppIf) := by
    rw [hstarted, hif]
    simp
  simp only []
  rw [if_neg hn]
  simp

/-- Counterexample for C18: after the service has been stopped the pool still
holds connection 7, and the GATT event handler ignores the disconnect event
for connection 7: the manager is unchanged and 7 is still in the pool. -/
theorem disconnect_ignored_when_service_stopped :
    stoppedBLE.mFlags.GATTServiceStarted = false
    ∧ countId 7 stoppedBLE.mCons = 1
    ∧ disconnectParam.disconnect_conn_id = 7
    ∧ HandleGATTEvent none esp_gatts_cb_event_t.ESP_GATTS_DISCONNECT_EVT stoppedBLE.mAppIf
        disconnectParam stoppedBLE
      = (stoppedBLE, [Effect.LockWeaveStack, Effect.UnlockWeaveStack]) := by
  decide

/-- Claim C18, amended: for every transport state whose GATT service is
started and whose pool holds no connection id twice, after a disconnect event
for the manager's interface and connection `c` has been handled by
`HandleGATTEvent`, no allocated slot of the pool holds `c` and a lookup of `c`
fails; handling the same disconnect again changes nothing and has no effect
besides taking and releasing the stack lock. -/
theorem HandleGATTEvent_disconnect_releases (newBuf : Option (Nat × Nat)) (gatts_if : Nat)
    (param : esp_ble_gatts_cb_param_t) (self : BLEManager)
    (hstarted : self.mFlags.GATTServiceStarted = true) (hif : gatts_if = self.mAppIf)
    (hinv : PoolInv self.mCons) :
    (∀ c ∈ (HandleGATTEvent newBuf esp_gatts_cb_event_t.ESP_GATTS_DISCONNECT_EVT gatts_if
          param self).1.mCons,
      c.Allocated = true → c.ConId ≠ param.disconnect_conn_id)
    ∧ (GetConnectionState
        (HandleGATTEvent newBuf esp_gatts_cb_event_t.ESP_GATTS_DISCONNECT_EVT gatts_if
          param self).1.mCons param.disconnect_conn_id false).1 = none
    ∧ HandleGATTEvent newBuf esp_gatts_cb_event_t.ESP_GATTS_DISCONNECT_EVT gatts_if param
        (HandleGATTEvent newBuf esp_gatts_cb_event_t.ESP_GATTS_DISCONNECT_EVT gatts_if
          param self).1
      = ((HandleGATTEvent newBuf esp_gatts_cb_event_t.ESP_GATTS_DISCONNECT_EVT gatts_if
          param self).1, [Effect.LockWeaveStack, Effect.UnlockWeaveStack]) := by
  have hcount : countId param.disconnect_conn_id
      (ReleaseConnectionState param.disconnect_conn_id self.mCons).2.1 = 0 := by
    rw [countId_after_release]
    have := countId_le_one_of_PoolInv param.disconnect_conn_id self.mCons hinv
    omega
  have hpool : (HandleDisconnect param self).1.mCons
      = (ReleaseConnectionState param.disconnect_conn_id self.mCons).2.1 := by
    unfold HandleDisconnect
    simp only []
    split_ifs <;> rfl
  have hflag : (HandleDisconnect param self).1.mFlags.GATTServiceStarted = true
      ∧ (HandleDisconnect param self).1.mAppIf = self.mAppIf := by
    unfold HandleDisconnect
    simp only []
    split_ifs <;> exact ⟨hstarted, rfl⟩
  have hcount1 : countId param.disconnect_conn_id (HandleDisconnect param self).1.mCons = 0 := by
    rw [hpool]
    exact hcount
  have hnone := (countId_zero_iff _ _).mp hcount1
  rw [HandleGATTEvent_disconnect_eq newBuf gatts_if param self hstarted hif]
  refine ⟨hnone, ?_, ?_⟩
  · rw [GetConnectionState_lookup_none _ _ hnone]
  · rw [HandleGATTEvent_disconnect_eq newBuf gatts_if param _ hflag.1 (hif.trans hflag.2.symm)]
    have h2 : HandleDisconnect param (HandleDisconnect param self).1
        = ((HandleDisconnect param self).1, []) := by
      generalize (HandleDisconnect param self).1 = s1 at hcount1
      unfold HandleDisconnect
      simp only []
      rw [ReleaseConnectionState_of_countId_zero _ _ hcount1]
      simp
    rw [h2]
    rfl

/-- Witness for C18: the disconnect of connection 7 on a manager whose service
is started. -/
theorem HandleGATTEvent_disconnect_releases_witness :
    (connectedBLE.mFlags.GATTServiceStarted = true ∧ PoolInv connectedBLE.mCons
      ∧ countId 7 connectedBLE.mCons = 1)
    ∧ ∀ c ∈ (HandleGATTEvent none esp_gatts_cb_event_t.ESP_GATTS_DISCONNECT_EVT
          connectedBLE.mAppIf disconnectParam connectedBLE).1.mCons,
        c.Allocated = true → c.ConId ≠ disconnectParam.disconnect_conn_id :=
  ⟨by decide,
    (HandleGATTEvent_disconnect_releases none connectedBLE.mAppIf disconnectParam connectedBLE
      (by decide) rfl (by decide)).1⟩

/-! ## Confirm events -/

theorem HandleGATTControlEvent_conf (gatts_if : Nat) (param : esp_ble_gatts_cb_param_t)
    (self : BLEManager) :
    HandleGATTControlEvent esp_gatts_cb_event_t.ESP_GATTS_CONF_EVT gatts_if param self
      = (self, []) := by
  have he : HandleGATTControlEvent_exit WEAVE_NO_ERROR false self = (self, []) := by
    unfold HandleGATTControlEvent_exit
    simp
  unfold HandleGATTControlEvent
  by_cases h : esp_gatts_cb_event_t.ESP_GATTS_CONF_EVT
        ≠ esp_gatts_cb_event_t.ESP_GATTS_REG_EVT
      ∧ (self.mFlags.AppRegistered = false ∨ gatts_if ≠ self.mAppIf)
  · rw [if_pos h]
    exact he
  · rw [if_neg h]
    exact he

/-- Claim C19, as the code has it: for every confirm event that the handler
processes (service started, event for the manager's interface) for a
connection `c` present in the pool, the pending indication buffer of the slot
of `c` is freed and cleared and exactly one event is posted; on status success
it is indication-confirmed for `c`; on any other status it is a
connection-error with reason protocol-abort whose connection id is read from
`param->disconnect.conn_id`, not from `param->conf.conn_id`. -/
theorem HandleGATTEvent_confirm (newBuf : Option (Nat × Nat)) (gatts_if : Nat)
    (param : esp_ble_gatts_cb_param_t) (self : BLEManager)
    (hstarted : self.mFlags.GATTServiceStarted = true) (hif : gatts_if = self.mAppIf)
    (hpresent : ∃ c ∈ self.mCons, c.Allocated = true ∧ c.ConId = param.conf_conn_id) :
    ∃ (i : Nat) (c0 : WoBLEConState),
      (GetConnectionState self.mCons param.conf_conn_id false).1 = some i
      ∧ self.mCons[i]? = some c0 ∧ c0.Allocated = true ∧ c0.ConId = param.conf_conn_id
      ∧ (HandleGATTEvent newBuf esp_gatts_cb_event_t.ESP_GATTS_CONF_EVT gatts_if param
          self).1 = { self with mCons := self.mCons.set i { c0 with PendingIndBuf := none } }
      ∧ (HandleGATTEvent newBuf esp_gatts_cb_event_t.ESP_GATTS_CONF_EVT gatts_if param
          self).2
        = [Effect.LockWeaveStack, Effect.PacketBuffer_Free c0.PendingIndBuf,
           Effect.PostEvent
             (if param.conf_status = ESP_GATT_OK then
                WeaveDeviceEvent.WoBLEIndicateConfirm param.conf_conn_id
              else
                WeaveDeviceEvent.WoBLEConnectionError param.disconnect_conn_id
                  BleError.BLE_ERROR_WOBLE_PROTOCOL_ABORT),
           Effect.UnlockWeaveStack] := by
  obtain ⟨i, c0, hget, hi, hca, hci⟩ :=
    GetConnectionState_lookup_some self.mCons param.conf_conn_id hpresent false
  have hn : ¬ (self.mFlags.GATTServiceStarted = false ∨ gatts_if ≠ self.mAppIf) := by
    rw [hstarted, hif]
    simp
  have hd : self.mCons.getD i WoBLEConState.zero = c0 := by
    rw [List.getD_eq_getElem?_getD, hi]
    rfl
  refine ⟨i, c0, by rw [hget], hi, hca, hci, ?_, ?_⟩
  · unfold HandleGATTEvent
    simp only []
    rw [HandleGATTControlEvent_conf]
    unfold HandleGATTCommEvent
    simp only []
    rw [if_neg hn, hget]
    simp only []
    unfold HandleTXCharConfirm
    simp only [hd]
  · unfold HandleGATTEvent
    simp only []
    rw [HandleGATTControlEvent_conf]
    unfold HandleGATTCommEvent
    simp only []
    rw [if_neg hn, hget]
    simp only []
    unfold HandleTXCharConfirm
    simp only [hd]
    rfl

/-- Witness for C19: the theorem at a confirm event with a failure status for
connection 9 of the sample pool. -/
theorem HandleGATTEvent_confirm_witness :
    (connectedBLE.mFlags.GATTServiceStarted = true
      ∧ ∃ c ∈ connectedBLE.mCons, c.Allocated = true ∧ c.ConId = failedConfirmParam.conf_conn_id)
    ∧ ∃ (i : Nat) (c0 : WoBLEConState),
      (GetConnectionState connectedBLE.mCons failedConfirmParam.conf_conn_id false).1 = some i
      ∧ connectedBLE.mCons[i]? = some c0 ∧ c0.Allocated = true
      ∧ c0.ConId = failedConfirmParam.conf_conn_id
      ∧ (HandleGATTEvent none esp_gatts_cb_event_t.ESP_GATTS_CONF_EVT connectedBLE.mAppIf
          failedConfirmParam connectedBLE).1
        = { connectedBLE with
            mCons := connectedBLE.mCons.set i { c0 with PendingIndBuf := none } }
      ∧ (HandleGATTEvent none esp_gatts_cb_event_t.ESP_GATTS_CONF_EVT connectedBLE.mAppIf
          failedConfirmParam connectedBLE).2
        = [Effect.LockWeaveStack, Effect.PacketBuffer_Free c0.PendingIndBuf,
           Effect.PostEvent
             (if failedConfirmParam.conf_status = ESP_GATT_OK then
                WeaveDeviceEvent.WoBLEIndicateConfirm failedConfirmParam.conf_conn_id
              else
                WeaveDeviceEvent.WoBLEConnectionError failedConfirmParam.disconnect_conn_id
                  BleError.BLE_ERROR_WOBLE_PROTOCOL_ABORT),
           Effect.UnlockWeaveStack] :=
  ⟨by decide,
    HandleGATTEvent_confirm none connectedBLE.mAppIf failedConfirmParam connectedBLE
      (by decide) rfl (by decide)⟩

/-- The divergence for C19 at the failing input: a confirm event with the
failure status 133 for connection 9, which is in the pool with a pending
buffer, frees the buffer and posts one connection-error event, for connection
133 and not for connection 9. -/
theorem confirm_failure_names_wrong_connection :
    failedConfirmParam.conf_conn_id = 9
    ∧ failedConfirmParam.conf_status ≠ ESP_GATT_OK
    ∧ (HandleGATTEvent none esp_gatts_cb_event_t.ESP_GATTS_CONF_EVT connectedBLE.mAppIf
        failedConfirmParam connectedBLE).2
      = [Effect.LockWeaveStack, Effect.PacketBuffer_Free (some 4),
         Effect.PostEvent
           (WeaveDeviceEvent.WoBLEConnectionError 133 BleError.BLE_ERROR_WOBLE_PROTOCOL_ABORT),
         Effect.UnlockWeaveStack]
    ∧ Effect.PostEvent
          (WeaveDeviceEvent.WoBLEConnectionError 9 BleError.BLE_ERROR_WOBLE_PROTOCOL_ABORT)
        ∉ (HandleGATTEvent none esp_gatts_cb_event_t.ESP_GATTS_CONF_EVT connectedBLE.mAppIf
            failedConfirmParam connectedBLE).2 := by
  decide

/-! ## Requests to the tunnel agent -/

theorem DriveServiceTunnelState_start (drv : WiFiDriver) (self : ConnectivityManager)
    (hw : wantServiceTunnel drv self = true)
    (hf : self.mFlags.ServiceTunnelStarted = false) :
    DriveServiceTunnelState drv self
      = (if drv.StartServiceTunnel ≠ WEAVE_NO_ERROR then
          ({ self with mFlags := { self.mFlags with ServiceTunnelStarted := false } },
            [Effect.StartServiceTunnel])
        else
          ({ self with mFlags := { self.mFlags with ServiceTunnelStarted := true } },
            [Effect.StartServiceTunnel])) := by
  unfold wantServiceTunnel at hw
  unfold DriveServiceTunnelState
  simp only [hw, hf]
  simp

theorem DriveServiceTunnelState_no_start (drv : WiFiDriver) (self : ConnectivityManager)
    (h : ¬ (wantServiceTunnel drv self = true ∧ self.mFlags.ServiceTunnelStarted = false)) :
    Effect.StartServiceTunnel ∉ (DriveServiceTunnelState drv self).2 := by
  unfold wantServiceTunnel at h
  unfold DriveServiceTunnelState
  simp only []
  split_ifs with h1 h2 h3
  · exfalso
    apply h
    refine ⟨h2, ?_⟩
    rw [h2] at h1
    cases hs : self.mFlags.ServiceTunnelStarted
    · rfl
    · exact absurd hs.symm h1
  · exfalso
    apply h
    refine ⟨h2, ?_⟩
    rw [h2] at h1
    cases hs : self.mFlags.ServiceTunnelStarted
    · rfl
    · exact absurd hs.symm h1
  · simp
  · simp

/-- Claim C21: one evaluation of `DriveServiceTunnelState` issues nothing, one
start request or one stop request; it issues nothing and changes nothing when
the tunnel-started flag already equals the wanted state; and when the start
request fails the flag is false on return, so that the next evaluation under
the same conditions issues the start request again. -/
theorem DriveServiceTunnelState_single_request (drv : WiFiDriver)
    (self : ConnectivityManager) :
    ((DriveServiceTunnelState drv self).2 = []
      ∨ (DriveServiceTunnelState drv self).2 = [Effect.StartServiceTunnel]
      ∨ (DriveServiceTunnelState drv self).2 = [Effect.StopServiceTunnel])
    ∧ (wantServiceTunnel drv self = self.mFlags.ServiceTunnelStarted →
        DriveServiceTunnelState drv self = (self, []))
    ∧ (Effect.StartServiceTunnel ∈ (DriveServiceTunnelState drv self).2 →
        drv.StartServiceTunnel ≠ WEAVE_NO_ERROR →
        (DriveServiceTunnelState drv self).1.mFlags.ServiceTunnelStarted = false
        ∧ (DriveServiceTunnelState drv (DriveServiceTunnelState drv self).1).2
            = [Effect.StartServiceTunnel]) := by
  have hw : wantServiceTunnel drv self
      = (decide (self.mServiceTunnelMode = ServiceTunnelMode.kServiceTunnelMode_Enabled)
          && self.mFlags.HaveIPv4InternetConnectivity
          && drv.IsMemberOfFabric
          && (drv.ENABLE_FIXED_TUNNEL_SERVER || drv.IsServiceProvisioned)) := rfl
  refine ⟨?_, ?_, ?_⟩
  · unfold DriveServiceTunnelState
    simp only []
    split_ifs <;> simp
  · intro h
    rw [hw] at h
    unfold DriveServiceTunnelState
    simp only []
    rw [if_neg (not_not.mpr h)]
  · intro hmem herr
    by_cases hc : wantServiceTunnel drv self = true ∧ self.mFlags.ServiceTunnelStarted = false
    · have h1 := DriveServiceTunnelState_start drv self hc.1 hc.2
      rw [if_pos herr] at h1
      rw [h1]
      refine ⟨rfl, ?_⟩
      have h2 := DriveServiceTunnelState_start drv
        { self with mFlags := { self.mFlags with ServiceTunnelStarted := false } } hc.1 rfl
      rw [if_pos herr] at h2
      rw [h2]
    · exact absurd hmem (DriveServiceTunnelState_no_start drv self hc)

/-- Witness for C21: a tunnel agent that refuses to start is asked again by
the next evaluation. -/
theorem DriveServiceTunnelState_single_request_witness :
    (DriveServiceTunnelState tunnelFailsWiFi ipv4ReachableCM).1.mFlags.ServiceTunnelStarted
        = false
    ∧ (DriveServiceTunnelState tunnelFailsWiFi
          (DriveServiceTunnelState tunnelFailsWiFi ipv4ReachableCM).1).2
        = [Effect.StartServiceTunnel] :=
  (DriveServiceTunnelState_single_request tunnelFailsWiFi ipv4ReachableCM).2.2
    (by decide) (by decide)

/-! ## Demand recording -/

/-- Claim C26: in an on-demand AP mode `DemandStartWiFiAP` sets the
last-demand time to the clock reading and schedules `DriveAPState`,
`StopOnDemandWiFiAP` sets it to 0 and schedules `DriveAPState`, and
`MaintainOnDemandWiFiAP` sets it to the clock reading while the AP state is
Active or Activating and changes nothing otherwise; in a mode that is not
on-demand none of the three changes anything or schedules anything; none of
them ever changes the AP state or the AP mode. -/
theorem demand_recording (drv : WiFiDriver) (self : ConnectivityManager) :
    (self.mWiFiAPMode = WiFiAPMode.kWiFiAPMode_OnDemand
        ∨ self.mWiFiAPMode = WiFiAPMode.kWiFiAPMode_OnDemand_NoStationProvision →
      DemandStartWiFiAP drv self
        = ({ self with mLastAPDemandTime := drv.now }, [Effect.ScheduleWork_DriveAPState])
      ∧ StopOnDemandWiFiAP self
        = ({ self with mLastAPDemandTime := 0 }, [Effect.ScheduleWork_DriveAPState])
      ∧ (self.mWiFiAPState = WiFiAPState.kWiFiAPState_Activating
          ∨ self.mWiFiAPState = WiFiAPState.kWiFiAPState_Active →
        MaintainOnDemandWiFiAP drv self = { self with mLastAPDemandTime := drv.now })
      ∧ (¬ (self.mWiFiAPState = WiFiAPState.kWiFiAPState_Activating
          ∨ self.mWiFiAPState = WiFiAPState.kWiFiAPState_Active) →
        MaintainOnDemandWiFiAP drv self = self))
    ∧ (¬ (self.mWiFiAPMode = WiFiAPMode.kWiFiAPMode_OnDemand
        ∨ self.mWiFiAPMode = WiFiAPMode.kWiFiAPMode_OnDemand_NoStationProvision) →
      DemandStartWiFiAP drv self = (self, []) ∧ StopOnDemandWiFiAP self = (self, [])
      ∧ MaintainOnDemandWiFiAP drv self = self)
    ∧ ((DemandStartWiFiAP drv self).1.mWiFiAPState = self.mWiFiAPState
      ∧ (DemandStartWiFiAP drv self).1.mWiFiAPMode = self.mWiFiAPMode
      ∧ (StopOnDemandWiFiAP self).1.mWiFiAPState = self.mWiFiAPState
      ∧ (StopOnDemandWiFiAP self).1.mWiFiAPMode = self.mWiFiAPMode
      ∧ (MaintainOnDemandWiFiAP drv self).mWiFiAPState = self.mWiFiAPState
      ∧ (MaintainOnDemandWiFiAP drv self).mWiFiAPMode = self.mWiFiAPMode) := by
  refine ⟨?_, ?_, ?_⟩
  · intro h
    unfold DemandStartWiFiAP StopOnDemandWiFiAP MaintainOnDemandWiFiAP
    rw [if_pos h, if_pos h, if_pos h]
    refine ⟨rfl, rfl, ?_, ?_⟩
    · intro h2
      rw [if_pos h2]
    · intro h2
      rw [if_neg h2]
  · intro h
    unfold DemandStartWiFiAP StopOnDemandWiFiAP MaintainOnDemandWiFiAP
    rw [if_neg h, if_neg h, if_neg h]
    exact ⟨rfl, rfl, rfl⟩
  · unfold DemandStartWiFiAP StopOnDemandWiFiAP MaintainOnDemandWiFiAP
    refine ⟨?_, ?_, ?_, ?_, ?_, ?_⟩ <;> split_ifs <;> rfl

/-- Witness for C26: a demand on the sample manager in mode OnDemand when the
clock reads 1000. -/
theorem demand_recording_witness :
    DemandStartWiFiAP (clockWiFi 1000) onDemandCM
        = ({ onDemandCM with mLastAPDemandTime := (clockWiFi 1000).now },
            [Effect.ScheduleWork_DriveAPState])
    ∧ StopOnDemandWiFiAP onDemandCM
        = ({ onDemandCM with mLastAPDemandTime := 0 }, [Effect.ScheduleWork_DriveAPState]) :=
  ⟨((demand_recording (clockWiFi 1000) onDemandCM).1 (Or.inl rfl)).1,
    ((demand_recording (clockWiFi 1000) onDemandCM).1 (Or.inl rfl)).2.1⟩

/-! ## The scan response data -/

theorem LittleEndianGet_Put (n v : Nat) :
    LittleEndianGet (LittleEndianPut n v) = v % 256 ^ n := by
  induction n generalizing v with
  | zero => simp [LittleEndianPut, LittleEndianGet, Nat.mod_one]
  | succ n ih =>
    simp only [LittleEndianPut, LittleEndianGet, ih]
    rw [pow_succ, Nat.mul_comm (256 ^ n) 256, Nat.mod_mul]

theorem LittleEndianPut_length (n v : Nat) : (LittleEndianPut n v).length = n := by
  induction n generalizing v with
  | zero => rfl
  | succ n ih => simp [LittleEndianPut, ih]

/-- Claim C27: for every vendor id and product id (16 bits), device id (64
bits) and pairing status, `ConfigureAdvertisingData` hands the scan response
packet to the driver as its third command, after the device name and the
advertising packet, whenever the driver accepts these two, and it hands no
other scan response to the driver; the service data of that packet is the
short service UUID AF FE, the block length 16, the block type 1, the versions
0 and 1, the vendor id and the product id as 2 bytes and the device id as 8
bytes, least significant byte first, and one pairing byte that is 1 for a
paired device and 0 otherwise; 16 bytes follow the length byte, and decoding
the three fields gives the ids. -/
theorem scan_response_service_data (drv : BLEDriver) (env : BLEEnv) (self : BLEManager)
    (hv : env.DEVICE_VENDOR_ID < 2 ^ 16) (hp : env.DEVICE_PRODUCT_ID < 2 ^ 16)
    (hid : env.LocalNodeId < 2 ^ 64) :
    (drv.gap_set_device_name = WEAVE_NO_ERROR → drv.gap_config_adv_data = WEAVE_NO_ERROR →
      (ConfigureAdvertisingData drv env self).2.2.length = 3
      ∧ (ConfigureAdvertisingData drv env self).2.2.drop 1
          = [Effect.esp_ble_gap_config_adv_data advertisingPacket,
             Effect.esp_ble_gap_config_adv_data (scanResponsePacket env)]
      ∧ ∀ pkt : esp_ble_adv_data_t,
          (ConfigureAdvertisingData drv env self).2.2.getLast?
              = some (Effect.esp_ble_gap_config_adv_data pkt) →
          pkt.set_scan_rsp = true
          ∧ pkt.service_data
              = [0xAF, 0xFE] ++ [16] ++ [1] ++ [0, 1]
                ++ LittleEndianPut 2 env.DEVICE_VENDOR_ID
                ++ LittleEndianPut 2 env.DEVICE_PRODUCT_ID
                ++ LittleEndianPut 8 env.LocalNodeId
                ++ [if env.IsPairedToAccount then 1 else 0])
    ∧ (∀ pkt : esp_ble_adv_data_t,
        Effect.esp_ble_gap_config_adv_data pkt ∈ (ConfigureAdvertisingData drv env self).2.2 →
        pkt.set_scan_rsp = true → pkt = scanResponsePacket env)
    ∧ (scanResponsePacket env).service_data
        = [0xAF, 0xFE] ++ [16] ++ [1] ++ [0, 1]
          ++ LittleEndianPut 2 env.DEVICE_VENDOR_ID
          ++ LittleEndianPut 2 env.DEVICE_PRODUCT_ID
          ++ LittleEndianPut 8 env.LocalNodeId
          ++ [if env.IsPairedToAccount then 1 else 0]
    ∧ ((scanResponsePacket env).service_data.drop 3).length = 16
    ∧ (scanResponsePacket env).service_data.length = 19
    ∧ LittleEndianGet (((scanResponsePacket env).service_data.drop 6).take 2)
        = env.DEVICE_VENDOR_ID
    ∧ LittleEndianGet (((scanResponsePacket env).service_data.drop 8).take 2)
        = env.DEVICE_PRODUCT_ID
    ∧ LittleEndianGet (((scanResponsePacket env).service_data.drop 10).take 8)
        = env.LocalNodeId
    ∧ (scanResponsePacket env).service_data.drop 18
        = [if env.IsPairedToAccount then 1 else 0] := by
  have hv' : env.DEVICE_VENDOR_ID % 65536 = env.DEVICE_VENDOR_ID := Nat.mod_eq_of_lt hv
  have hp' : env.DEVICE_PRODUCT_ID % 65536 = env.DEVICE_PRODUCT_ID := Nat.mod_eq_of_lt hp
  have hdata : (scanResponsePacket env).service_data
      = [0xAF, 0xFE] ++ [16] ++ [1] ++ [0, 1]
        ++ LittleEndianPut 2 env.DEVICE_VENDOR_ID
        ++ LittleEndianPut 2 env.DEVICE_PRODUCT_ID
        ++ LittleEndianPut 8 env.LocalNodeId
        ++ [if env.IsPairedToAccount then 1 else 0] := by
    unfold scanResponsePacket weaveServiceData ShortUUID_WoBLEService
    simp only [hv', hp']
    simp
  have g2 : ∀ v, v < 2 ^ 16 → LittleEndianGet (LittleEndianPut 2 v) = v := by
    intro v h
    rw [LittleEndianGet_Put]
    exact Nat.mod_eq_of_lt (by norm_num; omega)
  have g8 : ∀ v, v < 2 ^ 64 → LittleEndianGet (LittleEndianPut 8 v) = v := by
    intro v h
    rw [LittleEndianGet_Put]
    exact Nat.mod_eq_of_lt (by norm_num; omega)
  have hsent : drv.gap_set_device_name = WEAVE_NO_ERROR →
      drv.gap_config_adv_data = WEAVE_NO_ERROR →
      ∃ name, (ConfigureAdvertisingData drv env self).2.2
        = [Effect.esp_ble_gap_set_device_name name,
           Effect.esp_ble_gap_config_adv_data advertisingPacket,
           Effect.esp_ble_gap_config_adv_data (scanResponsePacket env)] := by
    intro h1 h2
    obtain ⟨name, h | h | h⟩ := ConfigureAdvertisingData_effects drv env self
    · exfalso
      have hl : (ConfigureAdvertisingData drv env self).2.2.length = 1 := by
        rw [h]
        rfl
      revert hl
      unfold ConfigureAdvertisingData
      simp only []
      split_ifs <;> simp [runCalls, h1, h2]
    · exfalso
      have hl : (ConfigureAdvertisingData drv env self).2.2.length = 2 := by
        rw [h]
        rfl
      revert hl
      unfold ConfigureAdvertisingData
      simp only []
      split_ifs <;> simp [runCalls, h1, h2] <;> split_ifs <;> simp
    · exact ⟨name, h⟩
  refine ⟨?_, ?_, hdata, ?_, ?_, ?_, ?_, ?_, ?_⟩
  · intro h1 h2
    obtain ⟨name, h⟩ := hsent h1 h2
    rw [h]
    refine ⟨rfl, rfl, ?_⟩
    intro pkt hlast
    simp only [List.getLast?_cons_cons, List.getLast?_singleton, Option.some.injEq,
      Effect.esp_ble_gap_config_adv_data.injEq] at hlast
    rw [← hlast]
    exact ⟨rfl, hdata⟩
  · intro pkt hmem hrsp
    obtain ⟨name, h | h | h⟩ := ConfigureAdvertisingData_effects drv env self
    · rw [h] at hmem
      simp at hmem
    · rw [h] at hmem
      simp at hmem
      rw [hmem] at hrsp
      exact absurd hrsp (by decide)
    · rw [h] at hmem
      simp at hmem
      rcases hmem with hmem | hmem
      · rw [hmem] at hrsp
        exact absurd hrsp (by decide)
      · exact hmem
  · rw [hdata]
    simp [LittleEndianPut]
  · rw [hdata]
    simp [LittleEndianPut]
  · rw [hdata]
    have := g2 _ hv
    simpa [LittleEndianPut] using this
  · rw [hdata]
    have := g2 _ hp
    simpa [LittleEndianPut] using this
  · rw [hdata]
    have := g8 _ hid
    simpa [LittleEndianPut] using this
  · rw [hdata]
    simp [LittleEndianPut]

/-- Witness for C27: with the sample device configuration and a driver that
accepts every command, the scan response packet is the last command that
`ConfigureAdvertisingData` hands to the driver, and it is among the effects of
the `DriveBLEState` call that configures the advertising. -/
theorem scan_response_service_data_witness :
    (sampleEnv.DEVICE_VENDOR_ID < 2 ^ 16 ∧ sampleEnv.DEVICE_PRODUCT_ID < 2 ^ 16
      ∧ sampleEnv.LocalNodeId < 2 ^ 64
      ∧ okDriver.gap_set_device_name = WEAVE_NO_ERROR
      ∧ okDriver.gap_config_adv_data = WEAVE_NO_ERROR)
    ∧ Effect.esp_ble_gap_config_adv_data (scanResponsePacket sampleEnv)
        ∈ (DriveBLEState okDriver sampleEnv serviceStartedBLE).2
    ∧ (ConfigureAdvertisingData okDriver sampleEnv serviceStartedBLE).2.2.drop 1
        = [Effect.esp_ble_gap_config_adv_data advertisingPacket,
           Effect.esp_ble_gap_config_adv_data (scanResponsePacket sampleEnv)] :=
  ⟨by decide, by decide,
    ((scan_response_service_data okDriver sampleEnv serviceStartedBLE (by decide) (by decide)
      (by decide)).1 (by decide) (by decide)).2.1⟩

/-! ## The stack lock in the driver callbacks -/

theorem lockOps_append (a b : List Effect) : lockOps (a ++ b) = lockOps a ++ lockOps b := by
  unfold lockOps
  exact List.filter_append _ _

theorem lockOps_ite (c : Prop) [Decidable c] (a : List Effect) (h : lockOps a = []) :
    lockOps (if c then a else []) = [] := by
  split_ifs
  · exact h
  · rfl

theorem lockOps_map_free (bufs : List PacketBufferPtr) :
    lockOps (bufs.map Effect.PacketBuffer_Free) = [] := by
  induction bufs with
  | nil => rfl
  | cons b bs ih =>
    simp only [List.map_cons]
    unfold lockOps at ih ⊢
    rw [List.filter_cons]
    simp [ih]

theorem HandleGATTControlEvent_exit_lockOps (err : WEAVE_ERROR) (c : Bool) (self : BLEManager) :
    lockOps (HandleGATTControlEvent_exit err c self).2 = [] := by
  unfold HandleGATTControlEvent_exit
  cases c <;> simp [lockOps]

theorem HandleGATTControlEvent_lockOps (event : esp_gatts_cb_event_t) (gatts_if : Nat)
    (param : esp_ble_gatts_cb_param_t) (self : BLEManager) :
    lockOps (HandleGATTControlEvent event gatts_if param self).2 = [] := by
  unfold HandleGATTControlEvent
  cases event <;> dsimp only <;> split_ifs <;> exact HandleGATTControlEvent_exit_lockOps _ _ _

theorem HandleRXCharWrite_lockOps (newBuf : Option (Nat × Nat))
    (param : esp_ble_gatts_cb_param_t) (self : BLEManager) :
    lockOps (HandleRXCharWrite newBuf param self) = [] := by
  unfold HandleRXCharWrite
  simp only []
  repeat' split
  all_goals simp [lockOps]

theorem HandleTXCharCCCDRead_lockOps (param : esp_ble_gatts_cb_param_t) (self : BLEManager) :
    lockOps (HandleTXCharCCCDRead param self) = [] := by
  unfold HandleTXCharCCCDRead
  split <;> simp [lockOps]

theorem HandleTXCharCCCDWrite_lockOps (param : esp_ble_gatts_cb_param_t)
    (self : BLEManager) : lockOps (HandleTXCharCCCDWrite param self) = [] := by
  unfold HandleTXCharCCCDWrite
  simp only []
  repeat' split
  all_goals simp [lockOps]

theorem HandleDisconnect_lockOps (param : esp_ble_gatts_cb_param_t) (self : BLEManager) :
    lockOps (HandleDisconnect param self).2 = [] := by
  unfold HandleDisconnect
  simp only []
  by_cases hr : (ReleaseConnectionState param.disconnect_conn_id self.mCons).1 = true
  · rw [if_pos hr]
    show lockOps (_ ++ _) = []
    rw [lockOps_append, lockOps_map_free]
    simp [lockOps]
  · rw [if_neg hr]
    exact lockOps_map_free _

theorem HandleGATTCommEvent_lockOps (newBuf : Option (Nat × Nat))
    (event : esp_gatts_cb_event_t) (gatts_if : Nat) (param : esp_ble_gatts_cb_param_t)
    (self : BLEManager) :
    lockOps (HandleGATTCommEvent newBuf event gatts_if param self).2 = [] := by
  unfold HandleGATTCommEvent
  by_cases hg : self.mFlags.GATTServiceStarted = false ∨ gatts_if ≠ self.mAppIf
  · rw [if_pos hg]
    rfl
  · rw [if_neg hg]
    have hread : lockOps (HandleTXCharRead param self) = [] := by
      unfold HandleTXCharRead
      simp [lockOps]
    cases event with
    | ESP_GATTS_DISCONNECT_EVT => exact HandleDisconnect_lockOps param self
    | ESP_GATTS_READ_EVT =>
      dsimp only
      rw [lockOps_append, lockOps_ite _ _ hread,
        lockOps_ite _ _ (HandleTXCharCCCDRead_lockOps param self)]
      rfl
    | ESP_GATTS_WRITE_EVT =>
      dsimp only
      rw [lockOps_append, lockOps_ite _ _ (HandleRXCharWrite_lockOps newBuf param self),
        lockOps_ite _ _ (HandleTXCharCCCDWrite_lockOps param self)]
      rfl
    | ESP_GATTS_CONF_EVT =>
      dsimp only
      cases (GetConnectionState self.mCons param.conf_conn_id false).1 with
      | none => rfl
      | some i =>
        dsimp only
        unfold HandleTXCharConfirm
        simp [lockOps]
    | ESP_GATTS_MTU_EVT =>
      dsimp only
      cases (GetConnectionState self.mCons param.mtu_conn_id false).1 <;> rfl
    | ESP_GATTS_CONNECT_EVT =>
      dsimp only
      simp [lockOps]
    | _ => rfl

/-- The effect trace of the two callbacks, whatever the event, its parameters
and the state: the lock is taken first, released last, and neither taken nor
released in between. -/
theorem callbacks_lock_trace (self : BLEManager) :
    (∀ (newBuf : Option (Nat × Nat)) (event : esp_gatts_cb_event_t) (gatts_if : Nat)
        (param : esp_ble_gatts_cb_param_t),
      ∃ mid, (HandleGATTEvent newBuf event gatts_if param self).2
          = Effect.LockWeaveStack :: (mid ++ [Effect.UnlockWeaveStack])
        ∧ lockOps mid = [])
    ∧ (∀ event : esp_gap_ble_cb_event_t,
      ∃ mid, (HandleGAPEvent event self).2
          = Effect.LockWeaveStack :: (mid ++ [Effect.UnlockWeaveStack])
        ∧ lockOps mid = []) := by
  constructor
  · intro newBuf event gatts_if param
    refine ⟨(HandleGATTControlEvent event gatts_if param self).2
      ++ (HandleGATTCommEvent newBuf event gatts_if param
          (HandleGATTControlEvent event gatts_if param self).1).2, ?_, ?_⟩
    · unfold HandleGATTEvent
      simp
    · rw [lockOps_append, HandleGATTControlEvent_lockOps, HandleGATTCommEvent_lockOps]
      rfl
  · intro event
    refine ⟨[Effect.ScheduleWork_DriveBLEState], ?_, by simp [lockOps]⟩
    unfold HandleGAPEvent HandleGAPEvent_exit
    cases event <;> dsimp only <;> first | rfl | (split_ifs <;> rfl)

/-! ## The attribute table -/

/-- Claim C28: the table `WoBLEGATTAttrs` has exactly six rows, in the order
service declaration, RX characteristic declaration (write), RX value
(write-only, 512 bytes), TX characteristic declaration (read and notify), TX
value (read-only, 512 bytes), TX CCCD (read and write, 2 bytes); and on a
successful completion of the attribute-table registration the manager keeps
handles 0, 2, 4 and 5 as the service, RX value, TX value and TX CCCD handles,
sets the attributes-registered flag and clears the control-operation flag. -/
theorem attribute_table_registration (newBuf : Option (Nat × Nat)) (gatts_if : Nat)
    (param : esp_ble_gatts_cb_param_t) (self : BLEManager)
    (hreg : self.mFlags.AppRegistered = true) (hif : gatts_if = self.mAppIf)
    (hok : param.add_attr_tab_status = ESP_GATT_OK) :
    (WoBLEGATTAttrs.length = 6 ∧ WoBLEGATTAttrCount = WoBLEGATTAttrs.length)
    ∧ (WoBLEGATTAttrs.map (fun a => a.uuid_p)
        = [UUID_PrimaryService, UUID_CharDecl, UUID_WoBLEChar_RX, UUID_CharDecl,
           UUID_WoBLEChar_TX, UUID_ClientCharConfigDesc])
    ∧ (WoBLEGATTAttrs.map (fun a => a.value)
        = [some UUID_WoBLEService, some [ESP_GATT_CHAR_PROP_BIT_WRITE], none,
           some [ESP_GATT_CHAR_PROP_BIT_READ ||| ESP_GATT_CHAR_PROP_BIT_NOTIFY], none, none])
    ∧ (WoBLEGATTAttrs.map (fun a => (a.perm, a.max_length))
        = [(ESP_GATT_PERM_READ, 16), (ESP_GATT_PERM_READ, 1), (ESP_GATT_PERM_WRITE, 512),
           (ESP_GATT_PERM_READ, 1), (ESP_GATT_PERM_READ, 512),
           (ESP_GATT_PERM_READ ||| ESP_GATT_PERM_WRITE, 2)])
    ∧ (HandleGATTEvent newBuf esp_gatts_cb_event_t.ESP_GATTS_CREAT_ATTR_TAB_EVT gatts_if param
          self).1
        = { self with
            mServiceAttrHandle := param.add_attr_tab_handles.getD 0 0,
            mRXCharAttrHandle := param.add_attr_tab_handles.getD 2 0,
            mTXCharAttrHandle := param.add_attr_tab_handles.getD 4 0,
            mTXCharCCCDAttrHandle := param.add_attr_tab_handles.getD 5 0,
            mFlags := { self.mFlags with AttrsRegistered := true, ControlOpInProgress := false } }
    ∧ Effect.ScheduleWork_DriveBLEState
        ∈ (HandleGATTEvent newBuf esp_gatts_cb_event_t.ESP_GATTS_CREAT_ATTR_TAB_EVT gatts_if
            param self).2 := by
  have hguard : ¬ (esp_gatts_cb_event_t.ESP_GATTS_CREAT_ATTR_TAB_EVT
        ≠ esp_gatts_cb_event_t.ESP_GATTS_REG_EVT
      ∧ (self.mFlags.AppRegistered = false ∨ gatts_if ≠ self.mAppIf)) := by
    rw [hreg, hif]
    simp
  have hstat : ¬ (param.add_attr_tab_status ≠ ESP_GATT_OK) := not_not.mpr hok
  have hctl : HandleGATTControlEvent esp_gatts_cb_event_t.ESP_GATTS_CREAT_ATTR_TAB_EVT gatts_if
      param self
      = ({ self with
            mServiceAttrHandle := param.add_attr_tab_handles.getD 0 0,
            mRXCharAttrHandle := param.add_attr_tab_handles.getD 2 0,
            mTXCharAttrHandle := param.add_attr_tab_handles.getD 4 0,
            mTXCharCCCDAttrHandle := param.add_attr_tab_handles.getD 5 0,
            mFlags :=
              { self.mFlags with AttrsRegistered := true, ControlOpInProgress := false } },
          [Effect.ScheduleWork_DriveBLEState]) := by
    unfold HandleGATTControlEvent
    rw [if_neg hguard]
    dsimp only
    rw [if_neg hstat]
    unfold HandleGATTControlEvent_exit
    simp [WEAVE_NO_ERROR, kAttrIndex_ServiceDeclaration, kAttrIndex_RXCharValue,
      kAttrIndex_TXCharValue, kAttrIndex_TXCharCCCDValue]
  refine ⟨⟨rfl, rfl⟩, rfl, rfl, rfl, ?_, ?_⟩
  · rw [HandleGATTEvent_control_event newBuf _ gatts_if param self (Or.inr (Or.inl rfl)), hctl]
  · unfold HandleGATTEvent
    simp only []
    rw [hctl]
    simp

/-- Witness for C28: the completion with the handles 40 to 45 on a manager
that waits for it. -/
theorem attribute_table_registration_witness :
    (attrsRegisteringBLE.mFlags.AppRegistered = true
      ∧ attrTabParam.add_attr_tab_status = ESP_GATT_OK)
    ∧ (HandleGATTEvent none esp_gatts_cb_event_t.ESP_GATTS_CREAT_ATTR_TAB_EVT
          attrsRegisteringBLE.mAppIf attrTabParam attrsRegisteringBLE).1
        = { attrsRegisteringBLE with
            mServiceAttrHandle := attrTabParam.add_attr_tab_handles.getD 0 0,
            mRXCharAttrHandle := attrTabParam.add_attr_tab_handles.getD 2 0,
            mTXCharAttrHandle := attrTabParam.add_attr_tab_handles.getD 4 0,
            mTXCharCCCDAttrHandle := attrTabParam.add_attr_tab_handles.getD 5 0,
            mFlags :=
              { attrsRegisteringBLE.mFlags with
                AttrsRegistered := true, ControlOpInProgress := false } } :=
  ⟨by decide,
    (attribute_table_registration none attrsRegisteringBLE.mAppIf attrTabParam
      attrsRegisteringBLE (by decide) rfl (by decide)).2.2.2.2.1⟩

/-! ## The public setters -/

/-- Claim C22: `SetWiFiStationMode(NotSupported)`, `SetWiFiAPMode(NotSupported)`
and `SetWoBLEServiceMode(NotSupported)` return invalid-argument, and so does
`SetDeviceName` with a name of `kMaxDeviceNameLength` or more characters on a
manager whose service mode is not NotSupported (the mode is Enabled or
Disabled in every state the manager reaches); in each case, and for
`SetDeviceName` in every service mode, the manager is unchanged, nothing is
scheduled and the call does not succeed. -/
theorem setters_reject_invalid_argument (a : WEAVE_ERROR) (cm : ConnectivityManager)
    (env : BLEEnv) (name : List Char) (ble : BLEManager)
    (hpos : 0 < env.kMaxDeviceNameLength) (hlen : env.kMaxDeviceNameLength ≤ name.length) :
    SetWiFiStationMode a WiFiStationMode.kWiFiStationMode_NotSupported cm
      = (WEAVE_ERROR_INVALID_ARGUMENT, cm, [])
    ∧ SetWiFiAPMode WiFiAPMode.kWiFiAPMode_NotSupported cm
      = (WEAVE_ERROR_INVALID_ARGUMENT, cm, [])
    ∧ SetWoBLEServiceMode WoBLEServiceMode.kWoBLEServiceMode_NotSupported ble
      = (WEAVE_ERROR_INVALID_ARGUMENT, ble, [])
    ∧ (ble.mServiceMode ≠ WoBLEServiceMode.kWoBLEServiceMode_NotSupported →
        SetDeviceName env (some name) ble = (WEAVE_ERROR_INVALID_ARGUMENT, ble, []))
    ∧ (SetDeviceName env (some name) ble).2 = (ble, [])
    ∧ (SetDeviceName env (some name) ble).1 ≠ WEAVE_NO_ERROR := by
  have hname : ∃ c cs, name = c :: cs := by
    cases name with
    | nil => simp at hlen; omega
    | cons c cs => exact ⟨c, cs, rfl⟩
  obtain ⟨c, cs, hn⟩ := hname
  subst hn
  have hge : (c :: cs).length ≥ env.kMaxDeviceNameLength := hlen
  refine ⟨?_, ?_, ?_, ?_, ?_, ?_⟩
  · unfold SetWiFiStationMode
    simp
  · unfold SetWiFiAPMode
    simp
  · unfold SetWoBLEServiceMode
    simp
  · intro hsup
    unfold SetDeviceName
    rw [if_neg hsup]
    dsimp only
    rw [if_pos hge]
  · unfold SetDeviceName
    by_cases hsup : ble.mServiceMode = WoBLEServiceMode.kWoBLEServiceMode_NotSupported
    · rw [if_pos hsup]
    · rw [if_neg hsup]
      dsimp only
      rw [if_pos hge]
  · unfold SetDeviceName
    by_cases hsup : ble.mServiceMode = WoBLEServiceMode.kWoBLEServiceMode_NotSupported
    · rw [if_pos hsup]
      show WEAVE_ERROR_UNSUPPORTED_WEAVE_FEATURE ≠ WEAVE_NO_ERROR
      decide
    · rw [if_neg hsup]
      dsimp only
      rw [if_pos hge]
      show WEAVE_ERROR_INVALID_ARGUMENT ≠ WEAVE_NO_ERROR
      decide

/-- Witness for C22: a name of sixteen characters on a manager whose service
mode is Enabled. -/
theorem setters_reject_invalid_argument_witness :
    (0 < sampleEnv.kMaxDeviceNameLength ∧ sampleEnv.kMaxDeviceNameLength ≤ longName.length
      ∧ serviceStartedBLE.mServiceMode ≠ WoBLEServiceMode.kWoBLEServiceMode_NotSupported)
    ∧ SetDeviceName sampleEnv (some longName) serviceStartedBLE
        = (WEAVE_ERROR_INVALID_ARGUMENT, serviceStartedBLE, []) :=
  ⟨by decide,
    (setters_reject_invalid_argument 0 initialCM sampleEnv longName serviceStartedBLE
      (by decide) (by decide)).2.2.2.1 (by decide)⟩

/-- Claim C23, as the code has it: for a valid argument `SetWoBLEServiceMode`,
`SetAdvertisingEnabled` and `SetFastAdvertisingEnabled` return
unsupported-feature if and only if the service mode is not NotSupported, that
is exactly when it is Enabled or Disabled, and then they change nothing and
schedule nothing; `SetDeviceName` returns unsupported-feature if and only if
the service mode is NotSupported. -/
theorem BLE_setters_unsupported (enumValue : WoBLEServiceMode → Int) (val : WoBLEServiceMode)
    (b : Bool) (env : BLEEnv) (name : Option (List Char)) (self : BLEManager) :
    (val ≠ WoBLEServiceMode.kWoBLEServiceMode_NotSupported →
      ((SetWoBLEServiceMode val self).1 = WEAVE_ERROR_UNSUPPORTED_WEAVE_FEATURE ↔
        self.mServiceMode ≠ WoBLEServiceMode.kWoBLEServiceMode_NotSupported))
    ∧ ((SetAdvertisingEnabled enumValue b self).1 = WEAVE_ERROR_UNSUPPORTED_WEAVE_FEATURE ↔
        self.mServiceMode ≠ WoBLEServiceMode.kWoBLEServiceMode_NotSupported)
    ∧ ((SetFastAdvertisingEnabled enumValue b self).1 = WEAVE_ERROR_UNSUPPORTED_WEAVE_FEATURE ↔
        self.mServiceMode ≠ WoBLEServiceMode.kWoBLEServiceMode_NotSupported)
    ∧ ((SetDeviceName env name self).1 = WEAVE_ERROR_UNSUPPORTED_WEAVE_FEATURE ↔
        self.mServiceMode = WoBLEServiceMode.kWoBLEServiceMode_NotSupported)
    ∧ (self.mServiceMode ≠ WoBLEServiceMode.kWoBLEServiceMode_NotSupported →
        (val ≠ WoBLEServiceMode.kWoBLEServiceMode_NotSupported →
          SetWoBLEServiceMode val self = (WEAVE_ERROR_UNSUPPORTED_WEAVE_FEATURE, self, []))
        ∧ SetAdvertisingEnabled enumValue b self
            = (WEAVE_ERROR_UNSUPPORTED_WEAVE_FEATURE, self, [])
        ∧ SetFastAdvertisingEnabled enumValue b self
            = (WEAVE_ERROR_UNSUPPORTED_WEAVE_FEATURE, self, [])) := by
  have hu : WEAVE_ERROR_UNSUPPORTED_WEAVE_FEATURE ≠ WEAVE_NO_ERROR := by decide
  have hi : WEAVE_ERROR_INVALID_ARGUMENT ≠ WEAVE_ERROR_UNSUPPORTED_WEAVE_FEATURE := by decide
  refine ⟨?_, ?_, ?_, ?_, ?_⟩
  · intro hval
    unfold SetWoBLEServiceMode
    rw [if_neg (not_not.mpr hval)]
    by_cases hm : self.mServiceMode = WoBLEServiceMode.kWoBLEServiceMode_NotSupported
    · rw [if_neg (not_not.mpr hm)]
      split_ifs <;> simp [hm, hu.symm]
    · rw [if_pos hm]
      simp [hm]
  · unfold SetAdvertisingEnabled
    by_cases hm : self.mServiceMode = WoBLEServiceMode.kWoBLEServiceMode_NotSupported
    · rw [if_neg (not_not.mpr hm)]
      split_ifs <;> simp [hm, hu.symm]
    · rw [if_pos hm]
      simp [hm]
  · unfold SetFastAdvertisingEnabled
    by_cases hm : self.mServiceMode = WoBLEServiceMode.kWoBLEServiceMode_NotSupported
    · rw [if_neg (not_not.mpr hm)]
      split_ifs <;> simp [hm, hu.symm]
    · rw [if_pos hm]
      simp [hm]
  · unfold SetDeviceName
    by_cases hm : self.mServiceMode = WoBLEServiceMode.kWoBLEServiceMode_NotSupported
    · rw [if_pos hm]
      simp [hm]
    · rw [if_neg hm]
      rcases name with _ | (_ | ⟨c, cs⟩)
      · simp [hm, hu.symm]
      · simp [hm, hu.symm]
      · dsimp only
        split_ifs <;> simp [hm, hu.symm, hi]
  · intro hm
    refine ⟨?_, ?_, ?_⟩
    · intro hval
      unfold SetWoBLEServiceMode
      rw [if_neg (not_not.mpr hval), if_pos hm]
    · unfold SetAdvertisingEnabled
      rw [if_pos hm]
    · unfold SetFastAdvertisingEnabled
      rw [if_pos hm]

/-- Witness for C23: the request to disable the service on a manager whose
service mode is Enabled. -/
theorem BLE_setters_unsupported_witness :
    WoBLEServiceMode.kWoBLEServiceMode_Disabled ≠ WoBLEServiceMode.kWoBLEServiceMode_NotSupported
    ∧ serviceStartedBLE.mServiceMode ≠ WoBLEServiceMode.kWoBLEServiceMode_NotSupported
    ∧ SetWoBLEServiceMode WoBLEServiceMode.kWoBLEServiceMode_Disabled serviceStartedBLE
        = (WEAVE_ERROR_UNSUPPORTED_WEAVE_FEATURE, serviceStartedBLE, []) :=
  ⟨by decide, by decide,
    ((BLE_setters_unsupported sampleModeValue WoBLEServiceMode.kWoBLEServiceMode_Disabled false
      sampleEnv none serviceStartedBLE).2.2.2.2 (by decide)).1 (by decide)⟩

/-- The divergence for C23: on a manager whose service mode is Enabled the
requests to disable the service, to disable advertising and to enable fast
advertising are refused with unsupported-feature and change nothing, while
`SetDeviceName` accepts a valid name. -/
theorem BLE_setters_refuse_when_supported :
    serviceStartedBLE.mServiceMode = WoBLEServiceMode.kWoBLEServiceMode_Enabled
    ∧ SetWoBLEServiceMode WoBLEServiceMode.kWoBLEServiceMode_Disabled serviceStartedBLE
        = (WEAVE_ERROR_UNSUPPORTED_WEAVE_FEATURE, serviceStartedBLE, [])
    ∧ SetAdvertisingEnabled sampleModeValue false serviceStartedBLE
        = (WEAVE_ERROR_UNSUPPORTED_WEAVE_FEATURE, serviceStartedBLE, [])
    ∧ SetFastAdvertisingEnabled sampleModeValue true serviceStartedBLE
        = (WEAVE_ERROR_UNSUPPORTED_WEAVE_FEATURE, serviceStartedBLE, [])
    ∧ (SetDeviceName sampleEnv (some ['a', 'b']) serviceStartedBLE).1 = WEAVE_NO_ERROR := by
  decide

theorem DriveBLEState_exit_mode (err : WEAVE_ERROR) (self : BLEManager) (eff : List Effect)
    (h : self.mServiceMode ≠ WoBLEServiceMode.kWoBLEServiceMode_NotSupported) :
    (DriveBLEState_exit err self eff).1.mServiceMode
      ≠ WoBLEServiceMode.kWoBLEServiceMode_NotSupported := by
  unfold DriveBLEState_exit
  split_ifs
  · simp
  · exact h

theorem DriveBLEState_issue_mode (err : WEAVE_ERROR) (self : BLEManager) (eff : List Effect)
    (h : self.mServiceMode ≠ WoBLEServiceMode.kWoBLEServiceMode_NotSupported) :
    (DriveBLEState_issue err self eff).1.mServiceMode
      ≠ WoBLEServiceMode.kWoBLEServiceMode_NotSupported := by
  unfold DriveBLEState_issue
  split_ifs
  · exact DriveBLEState_exit_mode _ _ _ h
  · exact DriveBLEState_exit_mode _ _ _ h

theorem DriveBLEState_stages_mode (drv : BLEDriver) (env : BLEEnv) (self : BLEManager)
    (eff : List Effect)
    (h : self.mServiceMode ≠ WoBLEServiceMode.kWoBLEServiceMode_NotSupported) :
    (DriveBLEState_stages drv env self eff).1.mServiceMode
      ≠ WoBLEServiceMode.kWoBLEServiceMode_NotSupported := by
  have hc : (ConfigureAdvertisingData drv env self).2.1.mServiceMode = self.mServiceMode := by
    unfold ConfigureAdvertisingData
    simp only []
    split_ifs <;> rfl
  have ha : (StartAdvertising drv env self).2.1.mServiceMode = self.mServiceMode := by
    unfold StartAdvertising
    simp only []
    split_ifs <;> rfl
  unfold DriveBLEState_stages DriveBLEState_stopService
  simp only []
  split_ifs <;>
    first
    | exact DriveBLEState_issue_mode _ _ _ h
    | exact DriveBLEState_exit_mode _ _ _ h
    | exact DriveBLEState_exit_mode _ _ _ (by rw [hc]; exact h)
    | exact DriveBLEState_exit_mode _ _ _ (by rw [ha]; exact h)

theorem DriveBLEState_mode (drv : BLEDriver) (env : BLEEnv) (self : BLEManager)
    (h : self.mServiceMode ≠ WoBLEServiceMode.kWoBLEServiceMode_NotSupported) :
    (DriveBLEState drv env self).1.mServiceMode
      ≠ WoBLEServiceMode.kWoBLEServiceMode_NotSupported := by
  have hi : (InitESPBleLayer drv self).2.1.mServiceMode = self.mServiceMode := by
    unfold InitESPBleLayer
    simp only []
    split_ifs <;> rfl
  unfold DriveBLEState
  simp only []
  split_ifs <;>
    first
    | exact DriveBLEState_exit_mode _ _ _ h
    | exact DriveBLEState_exit_mode _ _ _ (by rw [hi]; exact h)
    | exact DriveBLEState_stages_mode _ _ _ _ h
    | exact DriveBLEState_stages_mode _ _ _ _ (by rw [hi]; exact h)

theorem HandleGATTControlEvent_exit_mode (err : WEAVE_ERROR) (c : Bool) (self : BLEManager)
    (h : self.mServiceMode ≠ WoBLEServiceMode.kWoBLEServiceMode_NotSupported) :
    (HandleGATTControlEvent_exit err c self).1.mServiceMode
      ≠ WoBLEServiceMode.kWoBLEServiceMode_NotSupported := by
  unfold HandleGATTControlEvent_exit
  cases c <;> by_cases he : err ≠ WEAVE_NO_ERROR <;> simp [he, h]

/-- The service mode NotSupported is never entered: the manager starts with
the mode Enabled, and the state machine, the driver callbacks and the setters
keep a mode other than NotSupported. -/
theorem serviceMode_supported (drv : BLEDriver) (env : BLEEnv) (self : BLEManager)
    (h : self.mServiceMode ≠ WoBLEServiceMode.kWoBLEServiceMode_NotSupported) :
    initialBLE.mServiceMode ≠ WoBLEServiceMode.kWoBLEServiceMode_NotSupported
    ∧ (DriveBLEState drv env self).1.mServiceMode
        ≠ WoBLEServiceMode.kWoBLEServiceMode_NotSupported
    ∧ (∀ newBuf event gatts_if param,
        (HandleGATTEvent newBuf event gatts_if param self).1.mServiceMode
          ≠ WoBLEServiceMode.kWoBLEServiceMode_NotSupported)
    ∧ (∀ event, (HandleGAPEvent event self).1.mServiceMode
          ≠ WoBLEServiceMode.kWoBLEServiceMode_NotSupported)
    ∧ (∀ val, (SetWoBLEServiceMode val self).2.1.mServiceMode
          ≠ WoBLEServiceMode.kWoBLEServiceMode_NotSupported)
    ∧ (∀ name, (SetDeviceName env name self).2.1.mServiceMode
          ≠ WoBLEServiceMode.kWoBLEServiceMode_NotSupported) := by
  refine ⟨by decide, DriveBLEState_mode drv env self h, ?_, ?_, ?_, ?_⟩
  · intro newBuf event gatts_if param
    unfold HandleGATTEvent
    simp only []
    rw [(HandleGATTCommEvent_spec newBuf event gatts_if param _).2.2]
    unfold HandleGATTControlEvent
    cases event <;> dsimp only <;> split_ifs <;>
      exact HandleGATTControlEvent_exit_mode _ _ _ h
  · intro event
    unfold HandleGAPEvent HandleGAPEvent_exit
    cases event <;> dsimp only <;> first | exact h | (split_ifs <;> simp [h])
  · intro val
    unfold SetWoBLEServiceMode
    split_ifs <;> exact h
  · intro name
    unfold SetDeviceName
    rw [if_neg h]
    rcases name with _ | (_ | ⟨c, cs⟩)
    · exact h
    · exact h
    · dsimp only
      split_ifs <;> exact h

/-! ## The service-connectivity timeout -/

/-- Claim C29: without service connectivity `StartPairDeviceToAccount` arms
the service-connectivity timer; when the timer fires while a
RegisterServicePairAccount request is pending, the stored service provisioning
data is cleared and one status report is sent to the requester, with the
service-provisioning profile, the service-communication-error code and the
timeout error; when no request is pending no response is sent and nothing is
cleared. -/
theorem connectivity_timeout_escalates (a : SPAnswers) (self : ServiceProvisioningServer) :
    (a.HaveServiceConnectivity = false → a.StartTimer = WEAVE_NO_ERROR →
      StartPairDeviceToAccount a self
        = ({ self with mAwaitingServiceConnectivity := true },
            [SPEffect.StartTimer_HandleConnectivityTimeout
              a.SERVICE_PROVISIONING_CONNECTIVITY_TIMEOUT]))
    ∧ (self.mCurClientOp ≠ none →
      (HandleConnectivityTimeout a self).2
        = closeBinding self ++
          [SPEffect.ClearServiceProvisioningData,
           SPEffect.SendStatusReport kWeaveProfile_ServiceProvisioning
             kStatusCode_ServiceCommuncationError WEAVE_ERROR_TIMEOUT])
    ∧ (self.mCurClientOp = none →
      (HandleConnectivityTimeout a self).2 = closeBinding self
      ∧ SPEffect.ClearServiceProvisioningData ∉ (HandleConnectivityTimeout a self).2
      ∧ SPEffect.SendSuccessResponse ∉ (HandleConnectivityTimeout a self).2
      ∧ ∀ p c e, SPEffect.SendStatusReport p c e ∉ (HandleConnectivityTimeout a self).2) := by
  have hclose : ∀ x : SPEffect, x ∈ closeBinding self →
      ∃ b, x = SPEffect.Binding_Close b := by
    intro x hx
    unfold closeBinding at hx
    cases hb : self.mProvServiceBinding with
    | none => rw [hb] at hx; simp at hx
    | some b => rw [hb] at hx; simp at hx; exact ⟨b, hx⟩
  refine ⟨?_, ?_, ?_⟩
  · intro hc ht
    unfold StartPairDeviceToAccount StartPairDeviceToAccount_exit
    rw [if_pos hc, if_neg (not_not.mpr ht)]
  · intro hp
    unfold HandleConnectivityTimeout HandlePairDeviceToAccountResult closeBinding
    simp only []
    rw [if_neg hp]
    simp [WEAVE_ERROR_TIMEOUT, WEAVE_NO_ERROR, WEAVE_ERROR_STATUS_REPORT_RECEIVED]
  · intro hp
    have he : (HandleConnectivityTimeout a self).2 = closeBinding self := by
      unfold HandleConnectivityTimeout HandlePairDeviceToAccountResult closeBinding
      simp only []
      rw [if_pos hp]
    rw [he]
    refine ⟨rfl, ?_, ?_, ?_⟩
    · intro h
      obtain ⟨b, hb⟩ := hclose _ h
      cases hb
    · intro h
      obtain ⟨b, hb⟩ := hclose _ h
      cases hb
    · intro p c e h
      obtain ⟨b, hb⟩ := hclose _ h
      cases hb

/-- Witness for C29: the timer fires on a server that waits for connectivity
with a request pending. -/
theorem connectivity_timeout_escalates_witness :
    waitingServer.mCurClientOp ≠ none
    ∧ (HandleConnectivityTimeout offlineAnswers waitingServer).2
        = closeBinding waitingServer ++
          [SPEffect.ClearServiceProvisioningData,
           SPEffect.SendStatusReport kWeaveProfile_ServiceProvisioning
             kStatusCode_ServiceCommuncationError WEAVE_ERROR_TIMEOUT] :=
  ⟨by decide, (connectivity_timeout_escalates offlineAnswers waitingServer).2.1 (by decide)⟩

/-! ## The edges of the station state machine -/

theorem DriveStationState_connected_eq (drv : WiFiDriver) (self : ConnectivityManager)
    (eff : List Effect) :
    DriveStationState_connected drv self eff
      = DriveStationState_connected_finish drv (DriveStationState_connected_advance drv self)
          eff := rfl

theorem DriveStationState_notConnected_eq (drv : WiFiDriver) (self : ConnectivityManager)
    (eff : List Effect) :
    DriveStationState_notConnected drv self eff
      = DriveStationState_notConnected_finish drv
          (DriveStationState_notConnected_advance drv self) eff := rfl

/-- Counterexample for C24: a station in state Connecting that the driver
reports as associated while auto-connect is off is disconnected by
`DriveStationState` and goes from Connecting to Disconnecting, which is not an
edge of the diagram. -/
theorem station_connecting_to_disconnecting :
    connectingCM.mWiFiStationState = WiFiStationState.kWiFiStationState_Connecting
    ∧ (DriveStationState associatedUnwantedWiFi connectingCM).1.mWiFiStationState
        = WiFiStationState.kWiFiStationState_Disconnecting
    ∧ StationEdge WiFiStationState.kWiFiStationState_Connecting
        WiFiStationState.kWiFiStationState_Disconnecting = false := by
  decide

theorem OnStationConnected_state (drv : WiFiDriver) (self : ConnectivityManager) :
    (OnStationConnected drv self).1.mWiFiStationState = self.mWiFiStationState := by
  unfold OnStationConnected
  exact (UpdateInternetConnectivityState_station drv self).2.2.2

theorem OnStationDisconnected_state (drv : WiFiDriver) (self : ConnectivityManager) :
    (OnStationDisconnected drv self).1.mWiFiStationState = self.mWiFiStationState := by
  unfold OnStationDisconnected
  exact (UpdateInternetConnectivityState_station drv self).2.2.2

theorem DriveStationState_connected_advance_state (drv : WiFiDriver)
    (self : ConnectivityManager) :
    (DriveStationState_connected_advance drv self).1.mWiFiStationState
      = if self.mWiFiStationState = WiFiStationState.kWiFiStationState_NotConnected
            ∨ self.mWiFiStationState = WiFiStationState.kWiFiStationState_Connecting_Succeeded
        then WiFiStationState.kWiFiStationState_Connected
        else self.mWiFiStationState := by
  unfold DriveStationState_connected_advance
  split_ifs
  · rw [OnStationConnected_state]
    exact (ChangeWiFiStationState_frame _ self).2.2.2
  · rfl

theorem DriveStationState_notConnected_advance_state (drv : WiFiDriver)
    (self : ConnectivityManager) :
    (DriveStationState_notConnected_advance drv self).1.mWiFiStationState
      = if self.mWiFiStationState = WiFiStationState.kWiFiStationState_Connected
            ∨ self.mWiFiStationState = WiFiStationState.kWiFiStationState_Disconnecting
            ∨ self.mWiFiStationState = WiFiStationState.kWiFiStationState_Connecting_Failed
        then WiFiStationState.kWiFiStationState_NotConnected
        else self.mWiFiStationState := by
  unfold DriveStationState_notConnected_advance
  simp only []
  split_ifs
  · rw [OnStationDisconnected_state]
    exact (ChangeWiFiStationState_frame _ self).2.2.2
  · exact (ChangeWiFiStationState_frame _ self).2.2.2
  · rfl

theorem DriveStationState_connected_finish_state (drv : WiFiDriver)
    (r : ConnectivityManager × List Effect) (eff : List Effect) :
    (DriveStationState_connected_finish drv r eff).1.mWiFiStationState
        = r.1.mWiFiStationState
    ∨ (DriveStationState_connected_finish drv r eff).1.mWiFiStationState
        = WiFiStationState.kWiFiStationState_Disconnecting := by
  unfold DriveStationState_connected_finish DriveStationState_exit
  simp only []
  split_ifs
  · exact Or.inl rfl
  · exact Or.inr (ChangeWiFiStationState_frame _ r.1).2.2.2
  · exact Or.inl rfl

theorem DriveStationState_notConnected_finish_state (drv : WiFiDriver)
    (r : ConnectivityManager × List Effect) (eff : List Effect) :
    (DriveStationState_notConnected_finish drv r eff).1.mWiFiStationState
        = r.1.mWiFiStationState
    ∨ (DriveStationState_notConnected_finish drv r eff).1.mWiFiStationState
        = WiFiStationState.kWiFiStationState_Connecting := by
  unfold DriveStationState_notConnected_finish DriveStationState_exit
  simp only []
  split_ifs
  · exact Or.inl rfl
  · exact Or.inr (ChangeWiFiStationState_frame _ r.1).2.2.2
  · exact Or.inl rfl
  · exact Or.inl rfl

theorem DriveStationState_branches (drv : WiFiDriver) (self : ConnectivityManager) :
    ∃ eff,
      DriveStationState drv self = DriveStationState_exit (GetWiFiStationMode drv self) eff
      ∨ DriveStationState drv self
          = DriveStationState_connected drv (GetWiFiStationMode drv self) eff
      ∨ DriveStationState drv self
          = DriveStationState_notConnected drv (GetWiFiStationMode drv self) eff := by
  unfold DriveStationState
  simp only []
  split_ifs <;>
    first
    | exact ⟨_, Or.inl rfl⟩
    | exact ⟨_, Or.inr (Or.inl rfl)⟩
    | exact ⟨_, Or.inr (Or.inr rfl)⟩

theorem connected_steps (s m f : WiFiStationState)
    (hm : m = if s = WiFiStationState.kWiFiStationState_NotConnected
            ∨ s = WiFiStationState.kWiFiStationState_Connecting_Succeeded
          then WiFiStationState.kWiFiStationState_Connected else s)
    (hf : f = m ∨ f = WiFiStationState.kWiFiStationState_Disconnecting) :
    (m = s ∨ StationEdge s m = true)
    ∧ (f = m ∨ StationEdge m f = true ∨ StationEdgeExtra m f = true) := by
  subst hm
  rcases hf with hf | hf <;> subst hf <;> cases s <;> decide

theorem notConnected_steps (s m f : WiFiStationState)
    (hm : m = if s = WiFiStationState.kWiFiStationState_Connected
            ∨ s = WiFiStationState.kWiFiStationState_Disconnecting
            ∨ s = WiFiStationState.kWiFiStationState_Connecting_Failed
          then WiFiStationState.kWiFiStationState_NotConnected else s)
    (hf : f = m ∨ f = WiFiStationState.kWiFiStationState_Connecting) :
    (m = s ∨ StationEdge s m = true)
    ∧ (f = m ∨ StationEdge m f = true ∨ StationEdgeExtra m f = true) := by
  subst hm
  rcases hf with hf | hf <;> subst hf <;> cases s <;> decide

/-- Claim C24, amended: the station starts in NotConnected.  `DriveStationState`
refreshes the mode and then leaves at once, or runs the connected branch, or
runs the not-connected branch; each branch changes the state at most twice,
once in its first block and once in its second.  The first change is always an
edge of the stated set (the diagram and the two direct edges); the second is
an edge of the stated set or one of three further edges: Connecting to
Disconnecting, Connecting_Failed to Disconnecting, Connecting_Succeeded to
Connecting.  The station events connected and disconnected first move a
Connecting station to Connecting_Succeeded or Connecting_Failed and then drive;
the events start and stop only drive.  In all these edges Connecting_Succeeded
and Connecting_Failed are entered only from Connecting. -/
theorem station_state_edges (drv : WiFiDriver) (a : InitAnswers) (self : ConnectivityManager) :
    (ConnectivityManager.Init a).2.1.mWiFiStationState
        = WiFiStationState.kWiFiStationState_NotConnected
    ∧ (∃ eff,
        DriveStationState drv self = DriveStationState_exit (GetWiFiStationMode drv self) eff
        ∨ DriveStationState drv self
            = DriveStationState_connected_finish drv
                (DriveStationState_connected_advance drv (GetWiFiStationMode drv self)) eff
        ∨ DriveStationState drv self
            = DriveStationState_notConnected_finish drv
                (DriveStationState_notConnected_advance drv (GetWiFiStationMode drv self)) eff)
    ∧ ((GetWiFiStationMode drv self).mWiFiStationState = self.mWiFiStationState
      ∧ ∀ eff, (DriveStationState_exit self eff).1 = self)
    ∧ (∀ eff,
        ((DriveStationState_connected_advance drv self).1.mWiFiStationState
            = self.mWiFiStationState
          ∨ StationEdge self.mWiFiStationState
              (DriveStationState_connected_advance drv self).1.mWiFiStationState = true)
        ∧ ((DriveStationState_connected_finish drv
              (DriveStationState_connected_advance drv self) eff).1.mWiFiStationState
            = (DriveStationState_connected_advance drv self).1.mWiFiStationState
          ∨ StationEdge (DriveStationState_connected_advance drv self).1.mWiFiStationState
              (DriveStationState_connected_finish drv
                (DriveStationState_connected_advance drv self) eff).1.mWiFiStationState = true
          ∨ StationEdgeExtra (DriveStationState_connected_advance drv self).1.mWiFiStationState
              (DriveStationState_connected_finish drv
                (DriveStationState_connected_advance drv self) eff).1.mWiFiStationState
              = true))
    ∧ (∀ eff,
        ((DriveStationState_notConnected_advance drv self).1.mWiFiStationState
            = self.mWiFiStationState
          ∨ StationEdge self.mWiFiStationState
              (DriveStationState_notConnected_advance drv self).1.mWiFiStationState = true)
        ∧ ((DriveStationState_notConnected_finish drv
              (DriveStationState_notConnected_advance drv self) eff).1.mWiFiStationState
            = (DriveStationState_notConnected_advance drv self).1.mWiFiStationState
          ∨ StationEdge (DriveStationState_notConnected_advance drv self).1.mWiFiStationState
              (DriveStationState_notConnected_finish drv
                (DriveStationState_notConnected_advance drv self) eff).1.mWiFiStationState
              = true
          ∨ StationEdgeExtra
              (DriveStationState_notConnected_advance drv self).1.mWiFiStationState
              (DriveStationState_notConnected_finish drv
                (DriveStationState_notConnected_advance drv self) eff).1.mWiFiStationState
              = true))
    ∧ (OnPlatformEvent drv PlatformEvent.SYSTEM_EVENT_STA_START self
          = DriveStationState drv self
      ∧ OnPlatformEvent drv PlatformEvent.SYSTEM_EVENT_STA_STOP self
          = DriveStationState drv self
      ∧ (∃ s, OnPlatformEvent drv PlatformEvent.SYSTEM_EVENT_STA_CONNECTED self
            = DriveStationState drv s
          ∧ (s = self
            ∨ (self.mWiFiStationState = WiFiStationState.kWiFiStationState_Connecting
              ∧ s.mWiFiStationState
                  = WiFiStationState.kWiFiStationState_Connecting_Succeeded)))
      ∧ (∃ s, OnPlatformEvent drv PlatformEvent.SYSTEM_EVENT_STA_DISCONNECTED self
            = DriveStationState drv s
          ∧ (s = self
            ∨ (self.mWiFiStationState = WiFiStationState.kWiFiStationState_Connecting
              ∧ s.mWiFiStationState
                  = WiFiStationState.kWiFiStationState_Connecting_Failed))))
    ∧ (∀ x y : WiFiStationState,
        StationEdge x y = true ∨ StationEdgeExtra x y = true →
        y = WiFiStationState.kWiFiStationState_Connecting_Succeeded
          ∨ y = WiFiStationState.kWiFiStationState_Connecting_Failed →
        x = WiFiStationState.kWiFiStationState_Connecting) := by
  refine ⟨?_, ?_, ⟨GetWiFiStationMode_state drv self, fun _ => rfl⟩, ?_, ?_, ?_, ?_⟩
  · have hf : ∀ s eff, (ConnectivityManager.Init_finish a s eff).2.1 = s := by
      intro s eff
      unfold ConnectivityManager.Init_finish
      simp only []
      split_ifs <;> rfl
    have hs : ∀ v, (SetWiFiStationMode a.set_auto_connect v
          (ConnectivityManager.Init_members a)).2.1.mWiFiStationState
        = WiFiStationState.kWiFiStationState_NotConnected := by
      intro v
      unfold SetWiFiStationMode
      simp only []
      split_ifs <;> rfl
    unfold ConnectivityManager.Init
    simp only []
    split_ifs <;> first | rfl | (rw [hf]; exact hs _) | exact hs _ | (rw [hf]; rfl)
  · obtain ⟨eff, h⟩ := DriveStationState_branches drv self
    exact ⟨eff, h⟩
  · intro eff
    exact connected_steps _ _ _ (DriveStationState_connected_advance_state drv self)
      (DriveStationState_connected_finish_state drv _ eff)
  · intro eff
    exact notConnected_steps _ _ _ (DriveStationState_notConnected_advance_state drv self)
      (DriveStationState_notConnected_finish_state drv _ eff)
  · refine ⟨rfl, rfl, ?_, ?_⟩
    · refine ⟨_, rfl, ?_⟩
      by_cases h : self.mWiFiStationState = WiFiStationState.kWiFiStationState_Connecting
      · rw [if_pos h]
        exact Or.inr ⟨h, (ChangeWiFiStationState_frame _ self).2.2.2⟩
      · rw [if_neg h]
        exact Or.inl rfl
    · refine ⟨_, rfl, ?_⟩
      by_cases h : self.mWiFiStationState = WiFiStationState.kWiFiStationState_Connecting
      · rw [if_pos h]
        exact Or.inr ⟨h, (ChangeWiFiStationState_frame _ self).2.2.2⟩
      · rw [if_neg h]
        exact Or.inl rfl
  · intro x y hxy hy
    rcases hy with hy | hy <;> subst hy <;> cases x <;> simp [StationEdge, StationEdgeExtra] at hxy ⊢

/-! ## Repeated calls of `DriveStationState` -/

theorem stationCmds_append (a b : List Effect) :
    stationCmds (a ++ b) = stationCmds a ++ stationCmds b := by
  unfold stationCmds
  exact List.filter_append _ _

theorem DriveStationState_unfold (drv : WiFiDriver) (self : ConnectivityManager) :
    DriveStationState drv self
      = if (stationPrelude drv (GetWiFiStationMode drv self)).1 ≠ WEAVE_NO_ERROR then
          DriveStationState_exit (GetWiFiStationMode drv self)
            (stationPrelude drv (GetWiFiStationMode drv self)).2
        else if drv.IsStationConnected.1 ≠ WEAVE_NO_ERROR then
          DriveStationState_exit (GetWiFiStationMode drv self)
            (stationPrelude drv (GetWiFiStationMode drv self)).2
        else if drv.IsStationConnected.2 then
          DriveStationState_connected drv (GetWiFiStationMode drv self)
            (stationPrelude drv (GetWiFiStationMode drv self)).2
        else
          DriveStationState_notConnected drv (GetWiFiStationMode drv self)
            (stationPrelude drv (GetWiFiStationMode drv self)).2 := rfl

theorem stationPrelude_cmds (drv : WiFiDriver) (s0 : ConnectivityManager) :
    stationCmds (stationPrelude drv s0).2 = [] := by
  unfold stationPrelude
  split_ifs <;> simp [stationCmds]

theorem stationPrelude_congr (drv : WiFiDriver) (t u : ConnectivityManager)
    (h : t.mWiFiStationMode = u.mWiFiStationMode) :
    stationPrelude drv t = stationPrelude drv u := by
  unfold stationPrelude
  rw [h]

theorem GetWiFiStationMode_fixed (drv : WiFiDriver) (s t : ConnectivityManager)
    (h : t.mWiFiStationMode = (GetWiFiStationMode drv s).mWiFiStationMode) :
    GetWiFiStationMode drv t = t := by
  unfold GetWiFiStationMode at h ⊢
  by_cases hs : s.mWiFiStationMode ≠ WiFiStationMode.kWiFiStationMode_ApplicationControlled
  · rw [if_pos hs] at h
    simp only [] at h
    have ht : t.mWiFiStationMode ≠ WiFiStationMode.kWiFiStationMode_ApplicationControlled := by
      rw [h]
      split_ifs <;> decide
    rw [if_pos ht, ← h]
  · rw [if_neg hs] at h
    have ht : ¬ t.mWiFiStationMode
        ≠ WiFiStationMode.kWiFiStationMode_ApplicationControlled := by
      rw [h]
      exact hs
    rw [if_neg ht]

theorem ChangeWiFiStationState_fixed (n : WiFiStationState) (t : ConnectivityManager)
    (h : t.mWiFiStationState = n) : ChangeWiFiStationState n t = t := by
  unfold ChangeWiFiStationState
  rw [if_neg (not_not.mpr h)]

theorem UpdateInternetConnectivityState_stationCmds (drv : WiFiDriver)
    (self : ConnectivityManager) :
    stationCmds (UpdateInternetConnectivityState drv self).2 = [] := by
  have hd : ∀ s, stationCmds (DriveServiceTunnelState drv s).2 = [] := by
    intro s
    unfold DriveServiceTunnelState
    simp only []
    split_ifs <;> simp [stationCmds]
  unfold UpdateInternetConnectivityState
  simp only []
  split_ifs
  · rw [stationCmds_append, hd]
    simp [stationCmds]
  · rfl

theorem DriveStationState_connected_advance_cmds (drv : WiFiDriver)
    (self : ConnectivityManager) :
    stationCmds (DriveStationState_connected_advance drv self).2 = [] := by
  unfold DriveStationState_connected_advance OnStationConnected
  split_ifs
  · simp only []
    rw [stationCmds_append, UpdateInternetConnectivityState_stationCmds]
    simp [stationCmds]
  · rfl

theorem DriveStationState_notConnected_advance_cmds (drv : WiFiDriver)
    (self : ConnectivityManager) :
    stationCmds (DriveStationState_notConnected_advance drv self).2 = [] := by
  unfold DriveStationState_notConnected_advance OnStationDisconnected
  simp only []
  split_ifs
  · rw [stationCmds_append, UpdateInternetConnectivityState_stationCmds]
    simp [stationCmds]
  · rfl
  · rfl

theorem DriveStationState_connected_finish_eq (drv : WiFiDriver)
    (r : ConnectivityManager × List Effect) (eff : List Effect) :
    (DriveStationState_connected_finish drv r eff).1
        = (if wantsDisconnect drv r.1 ∧ drv.wifi_disconnect = WEAVE_NO_ERROR then
            ChangeWiFiStationState WiFiStationState.kWiFiStationState_Disconnecting r.1
          else r.1)
    ∧ stationCmds (DriveStationState_connected_finish drv r eff).2
        = stationCmds eff ++ stationCmds r.2
            ++ (if wantsDisconnect drv r.1 then [Effect.esp_wifi_disconnect] else []) := by
  unfold DriveStationState_connected_finish DriveStationState_exit
  simp only []
  by_cases hw : wantsDisconnect drv r.1
  · have hw2 := hw
    unfold wantsDisconnect at hw2
    rw [if_pos hw2, if_pos hw]
    by_cases hd : drv.wifi_disconnect ≠ WEAVE_NO_ERROR
    · rw [if_pos hd, if_neg (fun h => hd h.2)]
      simp [stationCmds_append, stationCmds]
    · rw [if_neg hd, if_pos ⟨hw, not_not.mp hd⟩]
      simp [stationCmds_append, stationCmds]
  · have hw2 := hw
    unfold wantsDisconnect at hw2
    rw [if_neg hw2, if_neg hw, if_neg (fun h => hw h.1)]
    simp [stationCmds_append, stationCmds]

theorem DriveStationState_notConnected_finish_eq (drv : WiFiDriver)
    (r : ConnectivityManager × List Effect) (eff : List Effect) :
    (DriveStationState_notConnected_finish drv r eff).1
        = (if wantsConnect drv r.1 ∧ drv.wifi_connect = WEAVE_NO_ERROR then
            ChangeWiFiStationState WiFiStationState.kWiFiStationState_Connecting r.1
          else r.1)
    ∧ stationCmds (DriveStationState_notConnected_finish drv r eff).2
        = stationCmds eff ++ stationCmds r.2
            ++ (if wantsConnect drv r.1 then [Effect.esp_wifi_connect] else []) := by
  unfold DriveStationState_notConnected_finish DriveStationState_exit
  simp only []
  by_cases h1 : r.1.mWiFiStationMode = WiFiStationMode.kWiFiStationMode_Enabled
      ∧ drv.IsStationProvisioned = true ∧ drv.ScanInProgress = false
  · rw [if_pos h1]
    by_cases h2 : r.1.mLastStationConnectFailTime = 0
        ∨ drv.now ≥ add64 r.1.mLastStationConnectFailTime r.1.mWiFiStationReconnectIntervalMS
    · have hw : wantsConnect drv r.1 := ⟨h1, h2⟩
      rw [if_pos h2, if_pos hw]
      by_cases hd : drv.wifi_connect ≠ WEAVE_NO_ERROR
      · rw [if_pos hd, if_neg (fun h => hd h.2)]
        simp [stationCmds_append, stationCmds]
      · rw [if_neg hd, if_pos ⟨hw, not_not.mp hd⟩]
        simp [stationCmds_append, stationCmds]
    · have hw : ¬ wantsConnect drv r.1 := fun h => h2 h.2
      rw [if_neg h2, if_neg hw, if_neg (fun h => hw h.1)]
      simp [stationCmds_append, stationCmds]
  · have hw : ¬ wantsConnect drv r.1 := fun h => h1 h.1
    rw [if_neg h1, if_neg hw, if_neg (fun h => hw h.1)]
    simp [stationCmds_append, stationCmds]

theorem wantsDisconnect_congr (drv : WiFiDriver) (t u : ConnectivityManager)
    (h : t.mWiFiStationMode = u.mWiFiStationMode) :
    wantsDisconnect drv t ↔ wantsDisconnect drv u := by
  unfold wantsDisconnect
  rw [h]

theorem wantsConnect_congr (drv : WiFiDriver) (t u : ConnectivityManager)
    (h : t.mWiFiStationMode = u.mWiFiStationMode)
    (hf : t.mLastStationConnectFailTime = u.mLastStationConnectFailTime)
    (hi : t.mWiFiStationReconnectIntervalMS = u.mWiFiStationReconnectIntervalMS) :
    wantsConnect drv t ↔ wantsConnect drv u := by
  unfold wantsConnect
  rw [h, hf, hi]

theorem DriveStationState_connected_twice (drv : WiFiDriver) (self : ConnectivityManager)
    (eff eff2 : List Effect) (h1 : stationCmds eff = []) (h2 : stationCmds eff2 = []) :
    (DriveStationState_connected drv (DriveStationState_connected drv self eff).1 eff2).1
        = (DriveStationState_connected drv self eff).1
    ∧ stationCmds
          (DriveStationState_connected drv (DriveStationState_connected drv self eff).1 eff2).2
        = stationCmds (DriveStationState_connected drv self eff).2 := by
  have hA := DriveStationState_connected_advance_state drv self
  have hAc := DriveStationState_connected_advance_cmds drv self
  have hF := DriveStationState_connected_finish_eq drv
    (DriveStationState_connected_advance drv self) eff
  have hm := (DriveStationState_connected_mode_state drv self eff).1
  rw [DriveStationState_connected_eq drv self eff] at hm ⊢
  generalize DriveStationState_connected_advance drv self = r at hA hAc hF hm
  generalize hs1 : (DriveStationState_connected_finish drv r eff).1 = s1 at hF hm
  have hr : r.1.mWiFiStationState ≠ WiFiStationState.kWiFiStationState_NotConnected
      ∧ r.1.mWiFiStationState ≠ WiFiStationState.kWiFiStationState_Connecting_Succeeded := by
    rw [hA]
    split_ifs with h
    · exact ⟨by decide, by decide⟩
    · exact ⟨fun e => h (Or.inl e), fun e => h (Or.inr e)⟩
  have c := ChangeWiFiStationState_frame WiFiStationState.kWiFiStationState_Disconnecting r.1
  have hm1 : s1.mWiFiStationMode = r.1.mWiFiStationMode := by
    rw [hF.1]
    split_ifs
    · exact c.2.2.1
    · rfl
  have hw : wantsDisconnect drv s1 ↔ wantsDisconnect drv r.1 :=
    wantsDisconnect_congr drv s1 r.1 hm1
  have hst : s1.mWiFiStationState ≠ WiFiStationState.kWiFiStationState_NotConnected
      ∧ s1.mWiFiStationState ≠ WiFiStationState.kWiFiStationState_Connecting_Succeeded := by
    rw [hF.1]
    split_ifs
    · rw [c.2.2.2]
      exact ⟨by decide, by decide⟩
    · exact hr
  have hadv : DriveStationState_connected_advance drv s1 = (s1, []) := by
    unfold DriveStationState_connected_advance
    rw [if_neg (fun h => h.elim hst.1 hst.2)]
  rw [DriveStationState_connected_eq drv s1 eff2, hadv]
  have hF2 := DriveStationState_connected_finish_eq drv (s1, []) eff2
  refine ⟨?_, ?_⟩
  · rw [hF2.1]
    by_cases hc : wantsDisconnect drv s1 ∧ drv.wifi_disconnect = WEAVE_NO_ERROR
    · rw [if_pos hc]
      apply ChangeWiFiStationState_fixed
      rw [hF.1, if_pos ⟨hw.mp hc.1, hc.2⟩]
      exact c.2.2.2
    · rw [if_neg hc]
  · rw [hF2.2, hF.2, h1, h2, hAc]
    by_cases hc : wantsDisconnect drv r.1
    · rw [if_pos hc, if_pos (hw.mpr hc)]
      rfl
    · rw [if_neg hc, if_neg (fun h => hc (hw.mp h))]
      rfl

theorem DriveStationState_notConnected_twice (drv : WiFiDriver) (self : ConnectivityManager)
    (eff eff2 : List Effect) (h1 : stationCmds eff = []) (h2 : stationCmds eff2 = []) :
    (DriveStationState_notConnected drv (DriveStationState_notConnected drv self eff).1 eff2).1
        = (DriveStationState_notConnected drv self eff).1
    ∧ stationCmds
          (DriveStationState_notConnected drv
            (DriveStationState_notConnected drv self eff).1 eff2).2
        = stationCmds (DriveStationState_notConnected drv self eff).2 := by
  have hA := DriveStationState_notConnected_advance_state drv self
  have hAc := DriveStationState_notConnected_advance_cmds drv self
  have hF := DriveStationState_notConnected_finish_eq drv
    (DriveStationState_notConnected_advance drv self) eff
  rw [DriveStationState_notConnected_eq drv self eff]
  generalize DriveStationState_notConnected_advance drv self = r at hA hAc hF
  generalize hs1 : (DriveStationState_notConnected_finish drv r eff).1 = s1 at hF
  have hr : ¬ (r.1.mWiFiStationState = WiFiStationState.kWiFiStationState_Connected
      ∨ r.1.mWiFiStationState = WiFiStationState.kWiFiStationState_Disconnecting
      ∨ r.1.mWiFiStationState = WiFiStationState.kWiFiStationState_Connecting_Failed) := by
    rw [hA]
    split_ifs with h
    · decide
    · exact h
  have c := ChangeWiFiStationState_frame WiFiStationState.kWiFiStationState_Connecting r.1
  have hm1 : s1.mWiFiStationMode = r.1.mWiFiStationMode
      ∧ s1.mLastStationConnectFailTime = r.1.mLastStationConnectFailTime
      ∧ s1.mWiFiStationReconnectIntervalMS = r.1.mWiFiStationReconnectIntervalMS := by
    rw [hF.1]
    split_ifs
    · exact ⟨c.2.2.1, c.1, c.2.1⟩
    · exact ⟨rfl, rfl, rfl⟩
  have hw : wantsConnect drv s1 ↔ wantsConnect drv r.1 :=
    wantsConnect_congr drv s1 r.1 hm1.1 hm1.2.1 hm1.2.2
  have hst : ¬ (s1.mWiFiStationState = WiFiStationState.kWiFiStationState_Connected
      ∨ s1.mWiFiStationState = WiFiStationState.kWiFiStationState_Disconnecting
      ∨ s1.mWiFiStationState = WiFiStationState.kWiFiStationState_Connecting_Failed) := by
    rw [hF.1]
    split_ifs
    · rw [c.2.2.2]
      decide
    · exact hr
  have hadv : DriveStationState_notConnected_advance drv s1 = (s1, []) := by
    unfold DriveStationState_notConnected_advance
    rw [if_neg hst]
  rw [DriveStationState_notConnected_eq drv s1 eff2, hadv]
  have hF2 := DriveStationState_notConnected_finish_eq drv (s1, []) eff2
  refine ⟨?_, ?_⟩
  · rw [hF2.1]
    by_cases hc : wantsConnect drv s1 ∧ drv.wifi_connect = WEAVE_NO_ERROR
    · rw [if_pos hc]
      apply ChangeWiFiStationState_fixed
      rw [hF.1, if_pos ⟨hw.mp hc.1, hc.2⟩]
      exact c.2.2.2
    · rw [if_neg hc]
  · rw [hF2.2, hF.2, h1, h2, hAc]
    by_cases hc : wantsConnect drv r.1
    · rw [if_pos hc, if_pos (hw.mpr hc)]
      rfl
    · rw [if_neg hc, if_neg (fun h => hc (hw.mp h))]
      rfl

/-- The divergence for C25: with an enabled, provisioned station that is not
associated and a driver that accepts every command, the first call of
`DriveStationState` issues a connect command and enters Connecting, and the
second consecutive call, with the same driver answers and clock, issues a
connect command again while the attempt is under way. -/
theorem DriveStationState_second_call_connects_again :
    (DriveStationState okWiFi initialCM).1.mWiFiStationState
        = WiFiStationState.kWiFiStationState_Connecting
    ∧ Effect.esp_wifi_connect ∈ (DriveStationState okWiFi initialCM).2
    ∧ Effect.esp_wifi_connect
        ∈ (DriveStationState okWiFi (DriveStationState okWiFi initialCM).1).2 := by
  decide

/-- Claim C25, as the code has it: for every manager (station state, mode,
failure timestamp and every other field) and for fixed driver answers and
clock, a second consecutive call of `DriveStationState` leaves the whole
manager exactly as the first call left it; but it does not hold the commands
back: it issues the connect and disconnect commands that the first call
issued once more, none only when the first call issued none. -/
theorem DriveStationState_idempotent (drv : WiFiDriver) (self : ConnectivityManager) :
    (DriveStationState drv (DriveStationState drv self).1).1 = (DriveStationState drv self).1
    ∧ stationCmds (DriveStationState drv (DriveStationState drv self).1).2
        = stationCmds (DriveStationState drv self).2 := by
  have hp := stationPrelude_cmds drv (GetWiFiStationMode drv self)
  have key : ∀ s1 : ConnectivityManager,
      s1.mWiFiStationMode = (GetWiFiStationMode drv self).mWiFiStationMode →
      DriveStationState drv s1
        = if (stationPrelude drv (GetWiFiStationMode drv self)).1 ≠ WEAVE_NO_ERROR then
            DriveStationState_exit s1 (stationPrelude drv (GetWiFiStationMode drv self)).2
          else if drv.IsStationConnected.1 ≠ WEAVE_NO_ERROR then
            DriveStationState_exit s1 (stationPrelude drv (GetWiFiStationMode drv self)).2
          else if drv.IsStationConnected.2 then
            DriveStationState_connected drv s1
              (stationPrelude drv (GetWiFiStationMode drv self)).2
          else
            DriveStationState_notConnected drv s1
              (stationPrelude drv (GetWiFiStationMode drv self)).2 := by
    intro s1 h
    rw [DriveStationState_unfold, GetWiFiStationMode_fixed drv self s1 h,
      stationPrelude_congr drv s1 (GetWiFiStationMode drv self) h]
  have hc := DriveStationState_connected_twice drv (GetWiFiStationMode drv self)
    (stationPrelude drv (GetWiFiStationMode drv self)).2
    (stationPrelude drv (GetWiFiStationMode drv self)).2 hp hp
  have hn := DriveStationState_notConnected_twice drv (GetWiFiStationMode drv self)
    (stationPrelude drv (GetWiFiStationMode drv self)).2
    (stationPrelude drv (GetWiFiStationMode drv self)).2 hp hp
  have hcm := (DriveStationState_connected_mode_state drv (GetWiFiStationMode drv self)
    (stationPrelude drv (GetWiFiStationMode drv self)).2).1
  have hnm := (DriveStationState_notConnected_mode_state drv (GetWiFiStationMode drv self)
    (stationPrelude drv (GetWiFiStationMode drv self)).2).1
  rw [DriveStationState_unfold drv self]
  by_cases a1 : (stationPrelude drv (GetWiFiStationMode drv self)).1 ≠ WEAVE_NO_ERROR
  · rw [if_pos a1]
    have he : (DriveStationState_exit (GetWiFiStationMode drv self)
        (stationPrelude drv (GetWiFiStationMode drv self)).2).1
          = GetWiFiStationMode drv self := rfl
    rw [he, key (GetWiFiStationMode drv self) rfl, if_pos a1]
    exact ⟨rfl, rfl⟩
  · rw [if_neg a1]
    by_cases a2 : drv.IsStationConnected.1 ≠ WEAVE_NO_ERROR
    · rw [if_pos a2]
      have he : (DriveStationState_exit (GetWiFiStationMode drv self)
          (stationPrelude drv (GetWiFiStationMode drv self)).2).1
            = GetWiFiStationMode drv self := rfl
      rw [he, key (GetWiFiStationMode drv self) rfl, if_neg a1, if_pos a2]
      exact ⟨rfl, rfl⟩
    · rw [if_neg a2]
      by_cases a3 : drv.IsStationConnected.2 = true
      · rw [if_pos a3, key _ hcm, if_neg a1, if_neg a2, if_pos a3]
        exact hc
      · rw [if_neg a3, key _ hnm, if_neg a1, if_neg a2, if_neg a3]
        exact hn

/-! ## The strict pipeline of the BLE transport -/

theorem flag_of_not_and (p : Prop) (b : Bool) (h : ¬ (p ∧ b = false)) (hp : p) : b = true := by
  cases b
  · exact absurd ⟨hp, rfl⟩ h
  · rfl

theorem runCalls_mem (calls : List (Effect × WEAVE_ERROR)) (c : Effect)
    (h : c ∈ (runCalls calls).2) : ∃ p ∈ calls, p.1 = c := by
  induction calls with
  | nil => simp [runCalls] at h
  | cons q rest ih =>
    obtain ⟨call, err⟩ := q
    unfold runCalls at h
    by_cases he : err ≠ WEAVE_NO_ERROR
    · rw [if_pos he] at h
      simp only [List.mem_singleton] at h
      exact ⟨(call, err), List.mem_cons_self _ _, h.symm⟩
    · rw [if_neg he] at h
      simp only [List.mem_cons] at h
      rcases h with h | h
      · exact ⟨(call, err), List.mem_cons_self _ _, h.symm⟩
      · obtain ⟨p, hp, hpc⟩ := ih h
        exact ⟨p, List.mem_cons_of_mem _ hp, hpc⟩

theorem InitESPBleLayer_no_stage (drv : BLEDriver) (self : BLEManager) (c : Effect)
    (h : c ∈ (InitESPBleLayer drv self).2.2) : pipelineStage c = none := by
  have hcalls : ∀ p ∈ InitESPBleLayer_calls drv, pipelineStage p.1 = none := by
    intro p hp
    unfold InitESPBleLayer_calls at hp
    simp only [List.mem_append, List.mem_cons, List.mem_singleton] at hp
    rcases hp with (((hp | hp) | hp) | hp) | hp
    · split_ifs at hp
      · simp at hp; rcases hp with hp | hp <;> subst hp <;> rfl
      · simp at hp
    · split_ifs at hp
      · simp at hp; subst hp; rfl
      · simp at hp
    · split_ifs at hp
      · simp at hp; subst hp; rfl
      · simp at hp
    · split_ifs at hp
      · simp at hp; subst hp; rfl
      · simp at hp
    · simp at hp; rcases hp with hp | hp | hp <;> subst hp <;> rfl
  have hrun : c ∈ (runCalls (InitESPBleLayer_calls drv)).2 → pipelineStage c = none := by
    intro hc
    obtain ⟨p, hp, hpc⟩ := runCalls_mem _ c hc
    rw [← hpc]
    exact hcalls p hp
  unfold InitESPBleLayer at h
  by_cases h1 : self.mFlags.ESPBLELayerInitialized = true
  · rw [if_pos h1] at h
    simp at h
  · rw [if_neg h1] at h
    simp only [] at h
    by_cases h2 : (runCalls (InitESPBleLayer_calls drv)).1 ≠ WEAVE_NO_ERROR
    · rw [if_pos h2] at h
      exact hrun h
    · rw [if_neg h2] at h
      exact hrun h

theorem InitESPBleLayer_flags (drv : BLEDriver) (self : BLEManager) :
    (InitESPBleLayer drv self).2.1.mFlags.stageFlags.drop 1 = self.mFlags.stageFlags.drop 1
    ∧ (InitESPBleLayer drv self).2.1.mServiceMode = self.mServiceMode
    ∧ ((InitESPBleLayer drv self).1 = WEAVE_NO_ERROR →
        (InitESPBleLayer drv self).2.1.mFlags.ESPBLELayerInitialized = true) := by
  unfold InitESPBleLayer
  by_cases h1 : self.mFlags.ESPBLELayerInitialized = true
  · rw [if_pos h1]
    exact ⟨rfl, rfl, fun _ => h1⟩
  · rw [if_neg h1]
    simp only []
    by_cases h2 : (runCalls (InitESPBleLayer_calls drv)).1 ≠ WEAVE_NO_ERROR
    · rw [if_pos h2]
      exact ⟨rfl, rfl, fun h => absurd h h2⟩
    · rw [if_neg h2]
      exact ⟨rfl, rfl, fun _ => rfl⟩

theorem DriveBLEState_exit_stageFlags (err : WEAVE_ERROR) (self : BLEManager)
    (eff : List Effect) :
    (DriveBLEState_exit err self eff).1.mFlags.stageFlags = self.mFlags.stageFlags := by
  rw [DriveBLEState_exit_flags]

theorem DriveBLEState_issue_stageFlags (err : WEAVE_ERROR) (self : BLEManager)
    (eff : List Effect) :
    (DriveBLEState_issue err self eff).1.mFlags.stageFlags = self.mFlags.stageFlags := by
  unfold DriveBLEState_issue
  split_ifs
  · rw [DriveBLEState_exit_flags]
  · rw [DriveBLEState_exit_flags]
    rfl

theorem ConfigureAdvertisingData_stageFlags (drv : BLEDriver) (env : BLEEnv)
    (self : BLEManager) :
    (ConfigureAdvertisingData drv env self).2.1.mFlags.stageFlags = self.mFlags.stageFlags := by
  unfold ConfigureAdvertisingData
  simp only []
  split_ifs <;> rfl

theorem StartAdvertising_stageFlags (drv : BLEDriver) (env : BLEEnv) (self : BLEManager) :
    (StartAdvertising drv env self).2.1.mFlags.stageFlags = self.mFlags.stageFlags := by
  unfold StartAdvertising
  simp only []
  split_ifs <;> rfl

theorem DriveBLEState_stages_stageFlags (drv : BLEDriver) (env : BLEEnv) (self : BLEManager)
    (eff : List Effect) :
    (DriveBLEState_stages drv env self eff).1.mFlags.stageFlags = self.mFlags.stageFlags := by
  have hs : ∀ e, (DriveBLEState_stopService drv self e).1.mFlags.stageFlags
      = self.mFlags.stageFlags := by
    intro e
    unfold DriveBLEState_stopService
    split_ifs
    · exact DriveBLEState_issue_stageFlags _ _ _
    · exact DriveBLEState_exit_stageFlags _ _ _
  unfold DriveBLEState_stages
  simp only []
  split_ifs
  · exact DriveBLEState_issue_stageFlags _ _ _
  · exact DriveBLEState_issue_stageFlags _ _ _
  · exact DriveBLEState_issue_stageFlags _ _ _
  · rw [DriveBLEState_exit_stageFlags]
    exact ConfigureAdvertisingData_stageFlags drv env self
  · rw [DriveBLEState_exit_stageFlags]
    exact StartAdvertising_stageFlags drv env self
  · exact hs _
  · exact DriveBLEState_issue_stageFlags _ _ _
  · exact hs _

theorem DriveBLEState_stages_gates (drv : BLEDriver) (env : BLEEnv) (self : BLEManager)
    (eff : List Effect)
    (hl : self.mServiceMode = WoBLEServiceMode.kWoBLEServiceMode_Enabled →
      self.mFlags.ESPBLELayerInitialized = true) :
    ∃ e, (DriveBLEState_stages drv env self eff).2 = eff ++ e
      ∧ ∀ c ∈ e, ∀ n, pipelineStage c = some n → self.mFlags.stagesBefore n = true := by
  have hs : ∀ e0, ∃ e, (DriveBLEState_stopService drv self e0).2 = e0 ++ e
      ∧ ∀ c ∈ e, ∀ n, pipelineStage c = some n → self.mFlags.stagesBefore n = true := by
    intro e0
    unfold DriveBLEState_stopService
    split_ifs
    · refine ⟨_, DriveBLEState_issue_snd _ _ _, ?_⟩
      intro c hc n hn
      simp only [List.mem_singleton] at hc
      subst hc
      simp [pipelineStage] at hn
    · refine ⟨[], ?_, ?_⟩
      · rw [DriveBLEState_exit_snd, List.append_nil]
      · intro c hc
        simp at hc
  unfold DriveBLEState_stages
  simp only []
  by_cases h1 : self.mServiceMode = WoBLEServiceMode.kWoBLEServiceMode_Enabled
      ∧ self.mFlags.AppRegistered = false
  · rw [if_pos h1]
    refine ⟨_, DriveBLEState_issue_snd _ _ _, ?_⟩
    intro c hc n hn
    simp only [List.mem_singleton] at hc
    subst hc
    simp only [pipelineStage, Option.some.injEq] at hn
    subst hn
    simp [BLEFlags.stagesBefore, BLEFlags.stageFlags, hl h1.1]
  · rw [if_neg h1]
    by_cases h2 : self.mServiceMode = WoBLEServiceMode.kWoBLEServiceMode_Enabled
        ∧ self.mFlags.AttrsRegistered = false
    · rw [if_pos h2]
      have a1 := flag_of_not_and _ _ h1 h2.1
      refine ⟨_, DriveBLEState_issue_snd _ _ _, ?_⟩
      intro c hc n hn
      simp only [List.mem_singleton] at hc
      subst hc
      simp only [pipelineStage, Option.some.injEq] at hn
      subst hn
      simp [BLEFlags.stagesBefore, BLEFlags.stageFlags, hl h2.1, a1]
    · rw [if_neg h2]
      by_cases h3 : self.mServiceMode = WoBLEServiceMode.kWoBLEServiceMode_Enabled
          ∧ self.mFlags.GATTServiceStarted = false
      · rw [if_pos h3]
        have a1 := flag_of_not_and _ _ h1 h3.1
        have a2 := flag_of_not_and _ _ h2 h3.1
        refine ⟨_, DriveBLEState_issue_snd _ _ _, ?_⟩
        intro c hc n hn
        simp only [List.mem_singleton] at hc
        subst hc
        simp only [pipelineStage, Option.some.injEq] at hn
        subst hn
        simp [BLEFlags.stagesBefore, BLEFlags.stageFlags, hl h3.1, a1, a2]
      · rw [if_neg h3]
        by_cases h4 : self.mServiceMode = WoBLEServiceMode.kWoBLEServiceMode_Enabled
            ∧ self.mFlags.AdvertisingEnabled = true
        · rw [if_pos h4]
          have a0 := hl h4.1
          have a1 := flag_of_not_and _ _ h1 h4.1
          have a2 := flag_of_not_and _ _ h2 h4.1
          have a3 := flag_of_not_and _ _ h3 h4.1
          by_cases h5 : self.mFlags.AdvertisingConfigured = false
          · rw [if_pos h5]
            refine ⟨_, DriveBLEState_exit_snd _ _ _, ?_⟩
            intro c hc n hn
            have h4n : n = 4 := by
              obtain ⟨name, hf⟩ := ConfigureAdvertisingData_effects drv env self
              rcases hf with hf | hf | hf <;> rw [hf] at hc <;>
                simp only [List.mem_cons, List.mem_singleton, List.not_mem_nil, or_false] at hc
              · subst hc
                simp only [pipelineStage, Option.some.injEq] at hn
                exact hn.symm
              · rcases hc with hc | hc <;> subst hc <;>
                  simp only [pipelineStage, Option.some.injEq] at hn <;> exact hn.symm
              · rcases hc with hc | hc | hc <;> subst hc <;>
                  simp only [pipelineStage, Option.some.injEq] at hn <;> exact hn.symm
            subst h4n
            simp [BLEFlags.stagesBefore, BLEFlags.stageFlags, a0, a1, a2, a3]
          · rw [if_neg h5]
            have a4 : self.mFlags.AdvertisingConfigured = true := by
              cases h : self.mFlags.AdvertisingConfigured
              · exact absurd h h5
              · rfl
            by_cases h6 : self.mFlags.Advertising = false
            · rw [if_pos h6]
              refine ⟨_, DriveBLEState_exit_snd _ _ _, ?_⟩
              intro c hc n hn
              have he : (StartAdvertising drv env self).2.2
                  = [Effect.esp_ble_gap_start_advertising (advertisingParams env self)] := by
                unfold StartAdvertising
                simp only []
                split_ifs <;> rfl
              rw [he] at hc
              simp only [List.mem_singleton] at hc
              subst hc
              simp only [pipelineStage, Option.some.injEq] at hn
              subst hn
              simp [BLEFlags.stagesBefore, BLEFlags.stageFlags, a0, a1, a2, a3, a4]
            · rw [if_neg h6]
              exact hs _
        · rw [if_neg h4]
          by_cases h7 : self.mFlags.Advertising = true
          · rw [if_pos h7]
            refine ⟨_, DriveBLEState_issue_snd _ _ _, ?_⟩
            intro c hc n hn
            simp only [List.mem_singleton] at hc
            subst hc
            simp [pipelineStage] at hn
          · rw [if_neg h7]
            exact hs _

theorem DriveBLEState_gates (drv : BLEDriver) (env : BLEEnv) (self : BLEManager) :
    (∀ c ∈ (DriveBLEState drv env self).2, ∀ n, pipelineStage c = some n →
      (DriveBLEState drv env self).1.mFlags.stagesBefore n = true)
    ∧ (DriveBLEState drv env self).1.mFlags.stageFlags.drop 1
        = self.mFlags.stageFlags.drop 1 := by
  unfold DriveBLEState
  by_cases h0 : self.mFlags.ControlOpInProgress = true
  · rw [if_pos h0, DriveBLEState_exit_snd, DriveBLEState_exit_flags]
    refine ⟨?_, rfl⟩
    intro c hc
    simp at hc
  · rw [if_neg h0]
    simp only []
    by_cases h1 : self.mServiceMode = WoBLEServiceMode.kWoBLEServiceMode_Enabled
        ∧ self.mFlags.ESPBLELayerInitialized = false
    · rw [if_pos h1]
      have hi := InitESPBleLayer_flags drv self
      by_cases h2 : (InitESPBleLayer drv self).1 ≠ WEAVE_NO_ERROR
      · rw [if_pos h2, DriveBLEState_exit_snd, DriveBLEState_exit_flags]
        refine ⟨?_, hi.1⟩
        intro c hc n hn
        rw [InitESPBleLayer_no_stage drv self c hc] at hn
        simp at hn
      · rw [if_neg h2]
        obtain ⟨e, he, hg⟩ := DriveBLEState_stages_gates drv env (InitESPBleLayer drv self).2.1
          (InitESPBleLayer drv self).2.2 (fun _ => hi.2.2 (not_not.mp h2))
        have hf := DriveBLEState_stages_stageFlags drv env (InitESPBleLayer drv self).2.1
          (InitESPBleLayer drv self).2.2
        refine ⟨?_, ?_⟩
        · intro c hc n hn
          rw [he, List.mem_append] at hc
          unfold BLEFlags.stagesBefore
          rw [hf]
          rcases hc with hc | hc
          · rw [InitESPBleLayer_no_stage drv self c hc] at hn
            simp at hn
          · exact hg c hc n hn
        · rw [hf]
          exact hi.1
    · rw [if_neg h1]
      have h2 : ¬ ((WEAVE_NO_ERROR, self, ([] : List Effect)).1 ≠ WEAVE_NO_ERROR) :=
        fun h => h rfl
      rw [if_neg h2]
      have hl : self.mServiceMode = WoBLEServiceMode.kWoBLEServiceMode_Enabled →
          self.mFlags.ESPBLELayerInitialized = true := by
        intro hm
        cases h : self.mFlags.ESPBLELayerInitialized
        · exact absurd ⟨hm, h⟩ h1
        · rfl
      obtain ⟨e, he, hg⟩ := DriveBLEState_stages_gates drv env self [] hl
      have hf := DriveBLEState_stages_stageFlags drv env self []
      refine ⟨?_, ?_⟩
      · intro c hc n hn
        rw [he, List.nil_append] at hc
        unfold BLEFlags.stagesBefore
        rw [hf]
        exact hg c hc n hn
      · rw [hf]

/-- Claim C31: the pipeline of `DriveBLEState` is strict.  Entered with the
control-operation flag set it issues nothing and changes nothing.  Otherwise,
whenever it issues the command of a stage, the completion flags of all earlier
stages are set: the application registration is issued only with the layer
initialised, the attribute-table registration only with also the application
registered, the service start only with also the attributes registered, the
commands of the advertising configuration (device name, advertising data, scan
response) only with also the service started, and the advertising start only
with also the advertising configured.  The flags are read in the state on
return; the flags after the first are the ones found on entry, and the layer
flag is the one found on entry or set by the initialisation in this call. -/
theorem DriveBLEState_strict_pipeline (drv : BLEDriver) (env : BLEEnv) (self : BLEManager) :
    (self.mFlags.ControlOpInProgress = true → DriveBLEState drv env self = (self, []))
    ∧ (∀ appId, Effect.esp_ble_gatts_app_register appId ∈ (DriveBLEState drv env self).2 →
        (DriveBLEState drv env self).1.mFlags.ESPBLELayerInitialized = true)
    ∧ (∀ gattsIf count,
        Effect.esp_ble_gatts_create_attr_tab gattsIf count ∈ (DriveBLEState drv env self).2 →
        (DriveBLEState drv env self).1.mFlags.ESPBLELayerInitialized = true
        ∧ (DriveBLEState drv env self).1.mFlags.AppRegistered = true)
    ∧ (∀ handle, Effect.esp_ble_gatts_start_service handle ∈ (DriveBLEState drv env self).2 →
        (DriveBLEState drv env self).1.mFlags.ESPBLELayerInitialized = true
        ∧ (DriveBLEState drv env self).1.mFlags.AppRegistered = true
        ∧ (DriveBLEState drv env self).1.mFlags.AttrsRegistered = true)
    ∧ (∀ c ∈ (DriveBLEState drv env self).2,
        ((∃ name, c = Effect.esp_ble_gap_set_device_name name)
          ∨ ∃ d, c = Effect.esp_ble_gap_config_adv_data d) →
        (DriveBLEState drv env self).1.mFlags.ESPBLELayerInitialized = true
        ∧ (DriveBLEState drv env self).1.mFlags.AppRegistered = true
        ∧ (DriveBLEState drv env self).1.mFlags.AttrsRegistered = true
        ∧ (DriveBLEState drv env self).1.mFlags.GATTServiceStarted = true)
    ∧ (∀ p, Effect.esp_ble_gap_start_advertising p ∈ (DriveBLEState drv env self).2 →
        (DriveBLEState drv env self).1.mFlags.ESPBLELayerInitialized = true
        ∧ (DriveBLEState drv env self).1.mFlags.AppRegistered = true
        ∧ (DriveBLEState drv env self).1.mFlags.AttrsRegistered = true
        ∧ (DriveBLEState drv env self).1.mFlags.GATTServiceStarted = true
        ∧ (DriveBLEState drv env self).1.mFlags.AdvertisingConfigured = true)
    ∧ ((DriveBLEState drv env self).1.mFlags.AppRegistered = self.mFlags.AppRegistered
      ∧ (DriveBLEState drv env self).1.mFlags.AttrsRegistered = self.mFlags.AttrsRegistered
      ∧ (DriveBLEState drv env self).1.mFlags.GATTServiceStarted
          = self.mFlags.GATTServiceStarted
      ∧ (DriveBLEState drv env self).1.mFlags.AdvertisingConfigured
          = self.mFlags.AdvertisingConfigured
      ∧ ((DriveBLEState drv env self).1.mFlags.ESPBLELayerInitialized = true →
          self.mFlags.ESPBLELayerInitialized = true
          ∨ (InitESPBleLayer drv self).1 = WEAVE_NO_ERROR)) := by
  have hg := (DriveBLEState_gates drv env self).1
  have hf := (DriveBLEState_gates drv env self).2
  refine ⟨?_, ?_, ?_, ?_, ?_, ?_, ?_⟩
  · intro h
    unfold DriveBLEState
    rw [if_pos h]
    rfl
  · intro appId hc
    have h := hg _ hc 1 rfl
    simpa [BLEFlags.stagesBefore, BLEFlags.stageFlags] using h
  · intro gattsIf count hc
    have h := hg _ hc 2 rfl
    simpa [BLEFlags.stagesBefore, BLEFlags.stageFlags] using h
  · intro handle hc
    have h := hg _ hc 3 rfl
    simpa [BLEFlags.stagesBefore, BLEFlags.stageFlags, and_assoc] using h
  · intro c hc hk
    have h : (DriveBLEState drv env self).1.mFlags.stagesBefore 4 = true := by
      rcases hk with ⟨name, hk⟩ | ⟨d, hk⟩ <;> subst hk <;> exact hg _ hc 4 rfl
    simpa [BLEFlags.stagesBefore, BLEFlags.stageFlags, and_assoc] using h
  · intro p hc
    have h := hg _ hc 5 rfl
    simpa [BLEFlags.stagesBefore, BLEFlags.stageFlags, and_assoc] using h
  · simp only [BLEFlags.stageFlags, List.drop_succ_cons, List.drop_zero, List.cons.injEq,
      and_true] at hf
    refine ⟨hf.1, hf.2.1, hf.2.2.1, hf.2.2.2.1, ?_⟩
    intro hl
    by_cases h : self.mFlags.ESPBLELayerInitialized = true
    · exact Or.inl h
    · right
      unfold DriveBLEState at hl
      by_cases h0 : self.mFlags.ControlOpInProgress = true
      · rw [if_pos h0, DriveBLEState_exit_flags] at hl
        exact absurd hl h
      · rw [if_neg h0] at hl
        simp only [] at hl
        by_cases h1 : self.mServiceMode = WoBLEServiceMode.kWoBLEServiceMode_Enabled
            ∧ self.mFlags.ESPBLELayerInitialized = false
        · rw [if_pos h1] at hl
          by_cases h2 : (InitESPBleLayer drv self).1 ≠ WEAVE_NO_ERROR
          · rw [if_pos h2, DriveBLEState_exit_flags] at hl
            unfold InitESPBleLayer at hl h2
            rw [if_neg h] at hl h2
            simp only [] at hl h2
            by_cases h3 : (runCalls (InitESPBleLayer_calls drv)).1 ≠ WEAVE_NO_ERROR
            · rw [if_pos h3] at hl
              exact absurd hl h
            · rw [if_neg h3] at h2
              exact absurd rfl h2
          · exact not_not.mp h2
        · rw [if_neg h1] at hl
          have h2 : ¬ ((WEAVE_NO_ERROR, self, ([] : List Effect)).1 ≠ WEAVE_NO_ERROR) :=
            fun h => h rfl
          rw [if_neg h2] at hl
          have hs := DriveBLEState_stages_stageFlags drv env self []
          simp only [BLEFlags.stageFlags, List.cons.injEq] at hs
          rw [hs.1] at hl
          exact absurd hl h

/-- Witness for C31: on the manager as `Init` leaves it the first invocation
issues the application registration, with the layer initialised on return. -/
theorem DriveBLEState_strict_pipeline_witness :
    Effect.esp_ble_gatts_app_register WoBLEAppId ∈ (DriveBLEState okDriver sampleEnv initialBLE).2
    ∧ (DriveBLEState okDriver sampleEnv initialBLE).1.mFlags.ESPBLELayerInitialized = true :=
  ⟨by decide,
    (DriveBLEState_strict_pipeline okDriver sampleEnv initialBLE).2.1 WoBLEAppId (by decide)⟩

/-! ## The branches of `DriveStationState` -/

theorem DriveStationState_of_associated (drv : WiFiDriver) (self : ConnectivityManager)
    (hp : (stationPrelude drv (GetWiFiStationMode drv self)).1 = WEAVE_NO_ERROR)
    (hq : drv.IsStationConnected = (WEAVE_NO_ERROR, true)) :
    DriveStationState drv self
      = DriveStationState_connected_finish drv
          (DriveStationState_connected_advance drv (GetWiFiStationMode drv self))
          (stationPrelude drv (GetWiFiStationMode drv self)).2 := by
  rw [DriveStationState_unfold, if_neg (not_not.mpr hp)]
  have h2 : ¬ (drv.IsStationConnected.1 ≠ WEAVE_NO_ERROR) := by
    rw [hq]
    exact fun h => h rfl
  have h3 : drv.IsStationConnected.2 = true := by
    rw [hq]
  rw [if_neg h2, if_pos h3]
  rfl

theorem DriveStationState_of_not_associated (drv : WiFiDriver) (self : ConnectivityManager)
    (hp : (stationPrelude drv (GetWiFiStationMode drv self)).1 = WEAVE_NO_ERROR)
    (hq : drv.IsStationConnected = (WEAVE_NO_ERROR, false)) :
    DriveStationState drv self
      = DriveStationState_notConnected_finish drv
          (DriveStationState_notConnected_advance drv (GetWiFiStationMode drv self))
          (stationPrelude drv (GetWiFiStationMode drv self)).2 := by
  rw [DriveStationState_unfold, if_neg (not_not.mpr hp)]
  have h2 : ¬ (drv.IsStationConnected.1 ≠ WEAVE_NO_ERROR) := by
    rw [hq]
    exact fun h => h rfl
  have h3 : ¬ (drv.IsStationConnected.2 = true) := by
    rw [hq]
    exact fun h => Bool.noConfusion h
  rw [if_neg h2, if_neg h3]
  rfl

theorem DriveStationState_connected_finish_effects (drv : WiFiDriver)
    (r : ConnectivityManager × List Effect) (eff : List Effect) :
    (DriveStationState_connected_finish drv r eff).2
      = eff ++ r.2
          ++ (if wantsDisconnect drv r.1 then [Effect.esp_wifi_disconnect] else [])
          ++ [Effect.StartPendingScan] := by
  unfold DriveStationState_connected_finish DriveStationState_exit
  simp only []
  by_cases hw : wantsDisconnect drv r.1
  · have hw2 := hw
    unfold wantsDisconnect at hw2
    rw [if_pos hw2, if_pos hw]
    split_ifs <;> rfl
  · have hw2 := hw
    unfold wantsDisconnect at hw2
    rw [if_neg hw2, if_neg hw]
    simp

theorem DriveStationState_notConnected_finish_effects (drv : WiFiDriver)
    (r : ConnectivityManager × List Effect) (eff : List Effect) :
    (DriveStationState_notConnected_finish drv r eff).2
      = eff ++ r.2
          ++ (if r.1.mWiFiStationMode = WiFiStationMode.kWiFiStationMode_Enabled
                ∧ drv.IsStationProvisioned = true ∧ drv.ScanInProgress = false then
              if r.1.mLastStationConnectFailTime = 0
                  ∨ drv.now ≥ add64 r.1.mLastStationConnectFailTime
                      r.1.mWiFiStationReconnectIntervalMS then
                [Effect.esp_wifi_connect]
              else
                [Effect.StartTimer_DriveStationState
                  (toUInt32 (sub64 (add64 r.1.mLastStationConnectFailTime
                    r.1.mWiFiStationReconnectIntervalMS) drv.now))]
             else [])
          ++ [Effect.StartPendingScan] := by
  unfold DriveStationState_notConnected_finish DriveStationState_exit
  simp only []
  split_ifs <;> simp

theorem DriveStationState_notConnected_finish_frame (drv : WiFiDriver)
    (r : ConnectivityManager × List Effect) (eff : List Effect) :
    (DriveStationState_notConnected_finish drv r eff).1.mLastStationConnectFailTime
        = r.1.mLastStationConnectFailTime
    ∧ (DriveStationState_notConnected_finish drv r eff).1.mWiFiStationReconnectIntervalMS
        = r.1.mWiFiStationReconnectIntervalMS
    ∧ (DriveStationState_notConnected_finish drv r eff).1.mWiFiStationMode
        = r.1.mWiFiStationMode := by
  have c := ChangeWiFiStationState_frame WiFiStationState.kWiFiStationState_Connecting r.1
  rw [(DriveStationState_notConnected_finish_eq drv r eff).1]
  split_ifs
  · exact ⟨c.1, c.2.1, c.2.2.1⟩
  · exact ⟨rfl, rfl, rfl⟩

theorem DriveStationState_connected_finish_frame (drv : WiFiDriver)
    (r : ConnectivityManager × List Effect) (eff : List Effect) :
    (DriveStationState_connected_finish drv r eff).1.mLastStationConnectFailTime
        = r.1.mLastStationConnectFailTime
    ∧ (DriveStationState_connected_finish drv r eff).1.mWiFiStationReconnectIntervalMS
        = r.1.mWiFiStationReconnectIntervalMS
    ∧ (DriveStationState_connected_finish drv r eff).1.mWiFiStationMode
        = r.1.mWiFiStationMode := by
  have c := ChangeWiFiStationState_frame WiFiStationState.kWiFiStationState_Disconnecting r.1
  rw [(DriveStationState_connected_finish_eq drv r eff).1]
  split_ifs
  · exact ⟨c.1, c.2.1, c.2.2.1⟩
  · exact ⟨rfl, rfl, rfl⟩

theorem mem_stationCmds (c : Effect) (eff : List Effect)
    (hc : c = Effect.esp_wifi_connect ∨ c = Effect.esp_wifi_disconnect) :
    c ∈ stationCmds eff ↔ c ∈ eff := by
  unfold stationCmds
  simp [List.mem_filter, hc]

theorem UpdateInternetConnectivityState_no_WiFi_event (drv : WiFiDriver)
    (self : ConnectivityManager) (x : ConnectivityChange) :
    Effect.PostEvent (WeaveDeviceEvent.WiFiConnectivityChange x)
      ∉ (UpdateInternetConnectivityState drv self).2 := by
  have hd : ∀ s, Effect.PostEvent (WeaveDeviceEvent.WiFiConnectivityChange x)
      ∉ (DriveServiceTunnelState drv s).2 := by
    intro s
    unfold DriveServiceTunnelState
    simp only []
    split_ifs <;> simp
  unfold UpdateInternetConnectivityState
  simp only []
  split_ifs
  · simp only [List.mem_append, List.mem_singleton, not_or]
    exact ⟨by simp, hd _⟩
  · simp

theorem stationPrelude_no_event (drv : WiFiDriver) (s0 : ConnectivityManager)
    (e : WeaveDeviceEvent) : Effect.PostEvent e ∉ (stationPrelude drv s0).2 := by
  unfold stationPrelude
  split_ifs <;> simp

theorem DriveStationState_connected_advance_frame (drv : WiFiDriver)
    (self : ConnectivityManager) :
    (DriveStationState_connected_advance drv self).1.mWiFiStationMode = self.mWiFiStationMode
    ∧ (DriveStationState_connected_advance drv self).1.mWiFiStationReconnectIntervalMS
        = self.mWiFiStationReconnectIntervalMS
    ∧ (DriveStationState_connected_advance drv self).1.mLastStationConnectFailTime
        = (if self.mWiFiStationState = WiFiStationState.kWiFiStationState_NotConnected
              ∨ self.mWiFiStationState = WiFiStationState.kWiFiStationState_Connecting_Succeeded
           then 0 else self.mLastStationConnectFailTime)
    ∧ (self.mWiFiStationState = WiFiStationState.kWiFiStationState_NotConnected
        ∨ self.mWiFiStationState = WiFiStationState.kWiFiStationState_Connecting_Succeeded →
        Effect.PostEvent
            (WeaveDeviceEvent.WiFiConnectivityChange ConnectivityChange.kConnectivity_Established)
          ∈ (DriveStationState_connected_advance drv self).2)
    ∧ (¬ (self.mWiFiStationState = WiFiStationState.kWiFiStationState_NotConnected
        ∨ self.mWiFiStationState = WiFiStationState.kWiFiStationState_Connecting_Succeeded) →
        DriveStationState_connected_advance drv self = (self, [])) := by
  have c := ChangeWiFiStationState_frame WiFiStationState.kWiFiStationState_Connected self
  unfold DriveStationState_connected_advance
  by_cases h : self.mWiFiStationState = WiFiStationState.kWiFiStationState_NotConnected
      ∨ self.mWiFiStationState = WiFiStationState.kWiFiStationState_Connecting_Succeeded
  · rw [if_pos h, if_pos h]
    have u := UpdateInternetConnectivityState_station drv
      { ChangeWiFiStationState WiFiStationState.kWiFiStationState_Connected self with
        mLastStationConnectFailTime := 0 }
    unfold OnStationConnected
    simp only []
    refine ⟨?_, ?_, ?_, ?_, fun hn => absurd h hn⟩
    · rw [u.2.2.1]
      exact c.2.2.1
    · rw [u.2.1]
      exact c.2.1
    · exact u.1
    · intro _
      simp
  · rw [if_neg h, if_neg h]
    exact ⟨rfl, rfl, rfl, fun hp => absurd hp h, fun _ => rfl⟩

/-- Counterexample for C32: a station under application control on a device
without station provisioning, reported as associated: `DriveStationState`
issues no disconnect command and the state stays Connected. -/
theorem DriveStationState_application_controlled_stays :
    associatedUnprovisionedWiFi.IsStationProvisioned = false
    ∧ associatedUnprovisionedWiFi.IsStationConnected = (WEAVE_NO_ERROR, true)
    ∧ (GetWiFiStationMode associatedUnprovisionedWiFi appControlledStationCM).mWiFiStationMode
        = WiFiStationMode.kWiFiStationMode_ApplicationControlled
    ∧ Effect.esp_wifi_disconnect
        ∉ (DriveStationState associatedUnprovisionedWiFi appControlledStationCM).2
    ∧ (DriveStationState associatedUnprovisionedWiFi appControlledStationCM).1.mWiFiStationState
        = WiFiStationState.kWiFiStationState_Connected := by
  decide

/-- Claim C32, amended: when the driver commands before the association query
succeed and the driver reports the station as associated, `DriveStationState`
moves a NotConnected or Connecting_Succeeded station to Connected, resets the
failure timestamp to 0 and posts the WiFi-connectivity-established
notification.  Then, for every station state, if the refreshed station mode is
not ApplicationControlled and it is Disabled or no provisioning exists, it
issues a disconnect command and, when the driver accepts it, enters
Disconnecting; under application control, and for an enabled and provisioned
station, it issues no disconnect command and leaves the state as the first
step left it. -/
theorem DriveStationState_associated (drv : WiFiDriver) (self : ConnectivityManager)
    (hp : (stationPrelude drv (GetWiFiStationMode drv self)).1 = WEAVE_NO_ERROR)
    (hq : drv.IsStationConnected = (WEAVE_NO_ERROR, true)) :
    (self.mWiFiStationState = WiFiStationState.kWiFiStationState_NotConnected
        ∨ self.mWiFiStationState = WiFiStationState.kWiFiStationState_Connecting_Succeeded →
      (DriveStationState_connected_advance drv
          (GetWiFiStationMode drv self)).1.mWiFiStationState
        = WiFiStationState.kWiFiStationState_Connected
      ∧ (DriveStationState drv self).1.mLastStationConnectFailTime = 0
      ∧ Effect.PostEvent
            (WeaveDeviceEvent.WiFiConnectivityChange ConnectivityChange.kConnectivity_Established)
          ∈ (DriveStationState drv self).2
      ∧ ((DriveStationState drv self).1.mWiFiStationState
            = WiFiStationState.kWiFiStationState_Connected
          ∨ (Effect.esp_wifi_disconnect ∈ (DriveStationState drv self).2
            ∧ drv.wifi_disconnect = WEAVE_NO_ERROR
            ∧ (DriveStationState drv self).1.mWiFiStationState
                = WiFiStationState.kWiFiStationState_Disconnecting)))
    ∧ ((GetWiFiStationMode drv self).mWiFiStationMode
          ≠ WiFiStationMode.kWiFiStationMode_ApplicationControlled →
        ((GetWiFiStationMode drv self).mWiFiStationMode
            = WiFiStationMode.kWiFiStationMode_Disabled
          ∨ drv.IsStationProvisioned = false) →
        Effect.esp_wifi_disconnect ∈ (DriveStationState drv self).2
        ∧ (drv.wifi_disconnect = WEAVE_NO_ERROR →
            (DriveStationState drv self).1.mWiFiStationState
              = WiFiStationState.kWiFiStationState_Disconnecting)
        ∧ (drv.wifi_disconnect ≠ WEAVE_NO_ERROR →
            (DriveStationState drv self).1
              = (DriveStationState_connected_advance drv (GetWiFiStationMode drv self)).1))
    ∧ ((GetWiFiStationMode drv self).mWiFiStationMode
          = WiFiStationMode.kWiFiStationMode_ApplicationControlled
        ∨ ((GetWiFiStationMode drv self).mWiFiStationMode
            = WiFiStationMode.kWiFiStationMode_Enabled
          ∧ drv.IsStationProvisioned = true) →
        Effect.esp_wifi_disconnect ∉ (DriveStationState drv self).2
        ∧ (DriveStationState drv self).1
            = (DriveStationState_connected_advance drv (GetWiFiStationMode drv self)).1) := by
  have hD := DriveStationState_of_associated drv self hp hq
  have g := GetWiFiStationMode_frame drv self
  have hA := DriveStationState_connected_advance_state drv (GetWiFiStationMode drv self)
  have hAf := DriveStationState_connected_advance_frame drv (GetWiFiStationMode drv self)
  have hAc := DriveStationState_connected_advance_cmds drv (GetWiFiStationMode drv self)
  have hF := DriveStationState_connected_finish_eq drv
    (DriveStationState_connected_advance drv (GetWiFiStationMode drv self))
    (stationPrelude drv (GetWiFiStationMode drv self)).2
  have hE := DriveStationState_connected_finish_effects drv
    (DriveStationState_connected_advance drv (GetWiFiStationMode drv self))
    (stationPrelude drv (GetWiFiStationMode drv self)).2
  have hFr := DriveStationState_connected_finish_frame drv
    (DriveStationState_connected_advance drv (GetWiFiStationMode drv self))
    (stationPrelude drv (GetWiFiStationMode drv self)).2
  have hP := stationPrelude_cmds drv (GetWiFiStationMode drv self)
  rw [g.2.2] at hA hAf
  rw [← hD] at hF hE hFr
  have c := ChangeWiFiStationState_frame WiFiStationState.kWiFiStationState_Disconnecting
    (DriveStationState_connected_advance drv (GetWiFiStationMode drv self)).1
  have hmem : Effect.esp_wifi_disconnect ∈ (DriveStationState drv self).2
      ↔ wantsDisconnect drv
          (DriveStationState_connected_advance drv (GetWiFiStationMode drv self)).1 := by
    rw [← mem_stationCmds _ _ (Or.inr rfl), hF.2, hP, hAc]
    split_ifs with hw
    · simp [hw]
    · simp [hw]
  have hwant : wantsDisconnect drv
        (DriveStationState_connected_advance drv (GetWiFiStationMode drv self)).1
      ↔ wantsDisconnect drv (GetWiFiStationMode drv self) :=
    wantsDisconnect_congr drv _ _ hAf.1
  refine ⟨?_, ?_, ?_⟩
  · intro hst
    rw [if_pos hst] at hA
    refine ⟨hA, ?_, ?_, ?_⟩
    · rw [hFr.1, hAf.2.2.1, if_pos hst]
    · rw [hE]
      simp only [List.mem_append]
      exact Or.inl (Or.inl (Or.inr (hAf.2.2.2.1 hst)))
    · rw [hF.1]
      by_cases hc : wantsDisconnect drv
          (DriveStationState_connected_advance drv (GetWiFiStationMode drv self)).1
          ∧ drv.wifi_disconnect = WEAVE_NO_ERROR
      · rw [if_pos hc]
        exact Or.inr ⟨hmem.mpr hc.1, hc.2, c.2.2.2⟩
      · rw [if_neg hc]
        exact Or.inl hA
  · intro hm hd
    have hw : wantsDisconnect drv (GetWiFiStationMode drv self) := by
      unfold wantsDisconnect
      refine ⟨hm, ?_⟩
      rcases hd with hd | hd
      · left
        rw [hd]
        decide
      · exact Or.inr hd
    refine ⟨hmem.mpr (hwant.mpr hw), ?_, ?_⟩
    · intro hok
      rw [hF.1, if_pos ⟨hwant.mpr hw, hok⟩]
      exact c.2.2.2
    · intro hbad
      rw [hF.1, if_neg (fun h => hbad h.2)]
  · intro hk
    have hw : ¬ wantsDisconnect drv (GetWiFiStationMode drv self) := by
      unfold wantsDisconnect
      rintro ⟨h1, h2⟩
      rcases hk with hk | ⟨hk1, hk2⟩
      · exact h1 hk
      · rcases h2 with h2 | h2
        · exact h2 hk1
        · rw [hk2] at h2
          exact Bool.noConfusion h2
    refine ⟨fun h => hw (hwant.mp (hmem.mp h)), ?_⟩
    rw [hF.1, if_neg (fun h => hw (hwant.mp h.1))]

/-- Witness for C32: an associated station whose auto-connect flag is off is
disconnected and enters Disconnecting. -/
theorem DriveStationState_associated_witness :
    ((stationPrelude associatedUnwantedWiFi
        (GetWiFiStationMode associatedUnwantedWiFi connectedCM)).1 = WEAVE_NO_ERROR
      ∧ associatedUnwantedWiFi.IsStationConnected = (WEAVE_NO_ERROR, true)
      ∧ (GetWiFiStationMode associatedUnwantedWiFi connectedCM).mWiFiStationMode
          = WiFiStationMode.kWiFiStationMode_Disabled)
    ∧ Effect.esp_wifi_disconnect ∈ (DriveStationState associatedUnwantedWiFi connectedCM).2
    ∧ (DriveStationState associatedUnwantedWiFi connectedCM).1.mWiFiStationState
        = WiFiStationState.kWiFiStationState_Disconnecting :=
  ⟨by decide,
    ((DriveStationState_associated associatedUnwantedWiFi connectedCM (by decide) (by decide)).2.1
      (by decide) (Or.inl (by decide))).1,
    ((DriveStationState_associated associatedUnwantedWiFi connectedCM (by decide) (by decide)).2.1
      (by decide) (Or.inl (by decide))).2.1 (by decide)⟩

/-! ## The not-associated branch of `DriveStationState` -/

theorem DriveStationState_notConnected_advance_frame (drv : WiFiDriver)
    (self : ConnectivityManager) :
    (DriveStationState_notConnected_advance drv self).1.mWiFiStationMode
        = self.mWiFiStationMode
    ∧ (DriveStationState_notConnected_advance drv self).1.mWiFiStationReconnectIntervalMS
        = self.mWiFiStationReconnectIntervalMS
    ∧ (self.mWiFiStationState = WiFiStationState.kWiFiStationState_Connecting_Failed →
        (DriveStationState_notConnected_advance drv self).1.mLastStationConnectFailTime
          = drv.now
        ∧ (DriveStationState_notConnected_advance drv self).2 = [])
    ∧ (self.mWiFiStationState = WiFiStationState.kWiFiStationState_Connected
        ∨ self.mWiFiStationState = WiFiStationState.kWiFiStationState_Disconnecting →
        (DriveStationState_notConnected_advance drv self).1.mLastStationConnectFailTime = 0
        ∧ Effect.PostEvent
            (WeaveDeviceEvent.WiFiConnectivityChange ConnectivityChange.kConnectivity_Lost)
          ∈ (DriveStationState_notConnected_advance drv self).2)
    ∧ (¬ (self.mWiFiStationState = WiFiStationState.kWiFiStationState_Connected
        ∨ self.mWiFiStationState = WiFiStationState.kWiFiStationState_Disconnecting
        ∨ self.mWiFiStationState = WiFiStationState.kWiFiStationState_Connecting_Failed) →
        DriveStationState_notConnected_advance drv self = (self, [])) := by
  have c := ChangeWiFiStationState_frame WiFiStationState.kWiFiStationState_NotConnected self
  unfold DriveStationState_notConnected_advance
  simp only []
  by_cases h : self.mWiFiStationState = WiFiStationState.kWiFiStationState_Connected
      ∨ self.mWiFiStationState = WiFiStationState.kWiFiStationState_Disconnecting
      ∨ self.mWiFiStationState = WiFiStationState.kWiFiStationState_Connecting_Failed
  · rw [if_pos h]
    by_cases hf : self.mWiFiStationState ≠ WiFiStationState.kWiFiStationState_Connecting_Failed
    · rw [if_pos hf]
      have u := UpdateInternetConnectivityState_station drv
        { ChangeWiFiStationState WiFiStationState.kWiFiStationState_NotConnected self with
          mLastStationConnectFailTime := 0 }
      unfold OnStationDisconnected
      simp only []
      refine ⟨?_, ?_, fun e => absurd e hf, ?_, fun hn => absurd h hn⟩
      · rw [u.2.2.1]
        exact c.2.2.1
      · rw [u.2.1]
        exact c.2.1
      · intro _
        refine ⟨u.1, ?_⟩
        simp
    · rw [if_neg hf]
      refine ⟨c.2.2.1, c.2.1, fun _ => ⟨rfl, rfl⟩, ?_, fun hn => absurd h hn⟩
      intro hcd
      have hf2 := not_not.mp hf
      rw [hf2] at hcd
      rcases hcd with hcd | hcd <;> exact absurd hcd (by decide)
  · rw [if_neg h]
    refine ⟨rfl, rfl, fun e => absurd (Or.inr (Or.inr e)) h, ?_, fun _ => rfl⟩
    intro hcd
    rcases hcd with hcd | hcd
    · exact absurd (Or.inl hcd) h
    · exact absurd (Or.inr (Or.inl hcd)) h

theorem notConnected_finish_no_event (drv : WiFiDriver)
    (r : ConnectivityManager × List Effect) (eff : List Effect) (x : WeaveDeviceEvent)
    (h1 : Effect.PostEvent x ∉ eff) (h2 : Effect.PostEvent x ∉ r.2) :
    Effect.PostEvent x ∉ (DriveStationState_notConnected_finish drv r eff).2 := by
  rw [DriveStationState_notConnected_finish_effects]
  simp only [List.mem_append, List.mem_singleton, not_or]
  refine ⟨⟨⟨h1, h2⟩, ?_⟩, by simp⟩
  split_ifs <;> simp

/-- Claim C33: when the driver commands before the association query succeed
and the driver reports the station as not associated, the first step of
`DriveStationState` moves a Connected, Disconnecting or Connecting_Failed
station to NotConnected.  Coming from Connecting_Failed the failure timestamp
is the clock reading and no notification at all is posted; coming from
Connected or Disconnecting the failure timestamp is 0 and the
WiFi-connectivity-lost notification is posted; from NotConnected, Connecting
and Connecting_Succeeded the step changes nothing, so the failure timestamp is
kept and no notification at all is posted.  The timestamps are read
on return: the rest of the call does not write the timestamp. -/
theorem DriveStationState_not_associated (drv : WiFiDriver) (self : ConnectivityManager)
    (hp : (stationPrelude drv (GetWiFiStationMode drv self)).1 = WEAVE_NO_ERROR)
    (hq : drv.IsStationConnected = (WEAVE_NO_ERROR, false)) :
    (self.mWiFiStationState = WiFiStationState.kWiFiStationState_Connected
        ∨ self.mWiFiStationState = WiFiStationState.kWiFiStationState_Disconnecting
        ∨ self.mWiFiStationState = WiFiStationState.kWiFiStationState_Connecting_Failed →
      (DriveStationState_notConnected_advance drv
          (GetWiFiStationMode drv self)).1.mWiFiStationState
        = WiFiStationState.kWiFiStationState_NotConnected
      ∧ ((DriveStationState drv self).1.mWiFiStationState
            = WiFiStationState.kWiFiStationState_NotConnected
          ∨ (Effect.esp_wifi_connect ∈ (DriveStationState drv self).2
            ∧ (DriveStationState drv self).1.mWiFiStationState
                = WiFiStationState.kWiFiStationState_Connecting)))
    ∧ (self.mWiFiStationState = WiFiStationState.kWiFiStationState_Connecting_Failed →
      (DriveStationState drv self).1.mLastStationConnectFailTime = drv.now
      ∧ ∀ e, Effect.PostEvent e ∉ (DriveStationState drv self).2)
    ∧ (self.mWiFiStationState = WiFiStationState.kWiFiStationState_Connected
        ∨ self.mWiFiStationState = WiFiStationState.kWiFiStationState_Disconnecting →
      (DriveStationState drv self).1.mLastStationConnectFailTime = 0
      ∧ Effect.PostEvent
            (WeaveDeviceEvent.WiFiConnectivityChange ConnectivityChange.kConnectivity_Lost)
          ∈ (DriveStationState drv self).2)
    ∧ (self.mWiFiStationState = WiFiStationState.kWiFiStationState_NotConnected
        ∨ self.mWiFiStationState = WiFiStationState.kWiFiStationState_Connecting
        ∨ self.mWiFiStationState = WiFiStationState.kWiFiStationState_Connecting_Succeeded →
      DriveStationState_notConnected_advance drv (GetWiFiStationMode drv self)
        = (GetWiFiStationMode drv self, [])
      ∧ (GetWiFiStationMode drv self).mWiFiStationState = self.mWiFiStationState
      ∧ (DriveStationState drv self).1.mLastStationConnectFailTime
          = self.mLastStationConnectFailTime
      ∧ ∀ e, Effect.PostEvent e ∉ (DriveStationState drv self).2) := by
  have hD := DriveStationState_of_not_associated drv self hp hq
  have g := GetWiFiStationMode_frame drv self
  have hA := DriveStationState_notConnected_advance_state drv (GetWiFiStationMode drv self)
  have hAf := DriveStationState_notConnected_advance_frame drv (GetWiFiStationMode drv self)
  have hF := DriveStationState_notConnected_finish_eq drv
    (DriveStationState_notConnected_advance drv (GetWiFiStationMode drv self))
    (stationPrelude drv (GetWiFiStationMode drv self)).2
  have hE := DriveStationState_notConnected_finish_effects drv
    (DriveStationState_notConnected_advance drv (GetWiFiStationMode drv self))
    (stationPrelude drv (GetWiFiStationMode drv self)).2
  have hFr := DriveStationState_notConnected_finish_frame drv
    (DriveStationState_notConnected_advance drv (GetWiFiStationMode drv self))
    (stationPrelude drv (GetWiFiStationMode drv self)).2
  have hN := fun x h2 => notConnected_finish_no_event drv
    (DriveStationState_notConnected_advance drv (GetWiFiStationMode drv self))
    (stationPrelude drv (GetWiFiStationMode drv self)).2 x
    (stationPrelude_no_event drv _ _) h2
  have hP := stationPrelude_cmds drv (GetWiFiStationMode drv self)
  have hAc := DriveStationState_notConnected_advance_cmds drv (GetWiFiStationMode drv self)
  rw [g.2.2] at hA hAf
  rw [← hD] at hF hE hFr hN
  have c := ChangeWiFiStationState_frame WiFiStationState.kWiFiStationState_Connecting
    (DriveStationState_notConnected_advance drv (GetWiFiStationMode drv self)).1
  refine ⟨?_, ?_, ?_, ?_⟩
  · intro hst
    rw [if_pos hst] at hA
    refine ⟨hA, ?_⟩
    rw [hF.1]
    by_cases hc : wantsConnect drv
        (DriveStationState_notConnected_advance drv (GetWiFiStationMode drv self)).1
        ∧ drv.wifi_connect = WEAVE_NO_ERROR
    · rw [if_pos hc]
      refine Or.inr ⟨?_, c.2.2.2⟩
      rw [← mem_stationCmds _ _ (Or.inl rfl), hF.2, hP, hAc, if_pos hc.1]
      simp
    · rw [if_neg hc]
      exact Or.inl hA
  · intro hst
    have h := hAf.2.2.1 hst
    refine ⟨?_, ?_⟩
    · rw [hFr.1]
      exact h.1
    · intro x
      apply hN
      rw [h.2]
      simp
  · intro hst
    have h := hAf.2.2.2.1 hst
    refine ⟨?_, ?_⟩
    · rw [hFr.1]
      exact h.1
    · rw [hE]
      simp only [List.mem_append]
      exact Or.inl (Or.inl (Or.inr h.2))
  · intro hst
    have hn : ¬ (self.mWiFiStationState = WiFiStationState.kWiFiStationState_Connected
        ∨ self.mWiFiStationState = WiFiStationState.kWiFiStationState_Disconnecting
        ∨ self.mWiFiStationState = WiFiStationState.kWiFiStationState_Connecting_Failed) := by
      rcases hst with h | h | h <;> rw [h] <;> decide
    have h := hAf.2.2.2.2 hn
    refine ⟨h, g.2.2, ?_, ?_⟩
    · rw [hFr.1, h]
      exact g.1
    · intro x
      apply hN
      rw [h]
      simp

/-- Witness for C33: a station whose connect attempt failed is moved to
NotConnected and the failure is recorded at the clock reading 7. -/
theorem DriveStationState_not_associated_witness :
    ((stationPrelude (clockWiFi 7) (GetWiFiStationMode (clockWiFi 7) connectFailedCM)).1
        = WEAVE_NO_ERROR
      ∧ (clockWiFi 7).IsStationConnected = (WEAVE_NO_ERROR, false)
      ∧ connectFailedCM.mWiFiStationState
          = WiFiStationState.kWiFiStationState_Connecting_Failed)
    ∧ (DriveStationState (clockWiFi 7) connectFailedCM).1.mLastStationConnectFailTime = 7 :=
  ⟨by decide,
    ((DriveStationState_not_associated (clockWiFi 7) connectFailedCM (by decide)
      (by decide)).2.1 (by decide)).1⟩

/-! ## The connect attempt and the reconnect timer -/

theorem notConnected_advance_no_timer (drv : WiFiDriver) (self : ConnectivityManager)
    (ms : Nat) :
    Effect.StartTimer_DriveStationState ms
      ∉ (DriveStationState_notConnected_advance drv self).2 := by
  have hd : ∀ s, Effect.StartTimer_DriveStationState ms
      ∉ (DriveServiceTunnelState drv s).2 := by
    intro s
    unfold DriveServiceTunnelState
    simp only []
    split_ifs <;> simp
  have hu : ∀ s, Effect.StartTimer_DriveStationState ms
      ∉ (UpdateInternetConnectivityState drv s).2 := by
    intro s
    unfold UpdateInternetConnectivityState
    simp only []
    split_ifs
    · simp only [List.mem_append, List.mem_singleton, not_or]
      exact ⟨by simp, hd _⟩
    · simp
  unfold DriveStationState_notConnected_advance OnStationDisconnected
  simp only []
  split_ifs
  · simp only [List.mem_append, List.mem_cons, not_or]
    exact ⟨by simp, hu _⟩
  · simp
  · simp

theorem stationPrelude_no_timer (drv : WiFiDriver) (s0 : ConnectivityManager) (ms : Nat) :
    Effect.StartTimer_DriveStationState ms ∉ (stationPrelude drv s0).2 := by
  unfold stationPrelude
  split_ifs <;> simp

theorem reconnect_delay (F I now : Nat) (hF : F < 2 ^ 64) (hI : I < 2 ^ 32)
    (hmono : F ≤ now) (hlt : now < add64 F I) :
    F + I < 2 ^ 64
    ∧ toUInt32 (sub64 (add64 F I) now) = F + I - now
    ∧ 1 ≤ F + I - now ∧ F + I - now ≤ I := by
  unfold add64 at hlt
  have hwrap : F + I < 2 ^ 64 := by
    by_contra hc
    have h1 : (F + I) % 2 ^ 64 = F + I - 2 ^ 64 := by
      rw [Nat.mod_eq_sub_mod (Nat.le_of_not_lt hc)]
      apply Nat.mod_eq_of_lt
      omega
    rw [h1] at hlt
    omega
  rw [Nat.mod_eq_of_lt hwrap] at hlt
  have hnow : now < 2 ^ 64 := by omega
  refine ⟨hwrap, ?_, by omega, by omega⟩
  unfold toUInt32 sub64 add64
  rw [Nat.mod_eq_of_lt hwrap, Nat.mod_eq_of_lt hnow]
  have h2 : F + I + 2 ^ 64 - now = (F + I - now) + 2 ^ 64 := by omega
  rw [h2, Nat.add_mod_right, Nat.mod_eq_of_lt (by omega), Nat.mod_eq_of_lt (by omega)]

/-- Claim C34: when the driver commands before the association query succeed,
the station is not associated, the refreshed mode is Enabled, provisioning
exists and no scan is in progress, `DriveStationState` does exactly one of two
things.  If no failure is recorded or the clock has reached the failure time
plus the reconnect interval, it issues a connect command, arms no timer and,
when the driver accepts the command, enters Connecting.  Otherwise it issues
no connect command, leaves the manager as the first step left it and arms
exactly one timer, for the failure time plus the interval minus the clock
reading, computed in 64 bits and converted to 32 bits.  The failure time is the one on return, which is the one the first step
of the call left.  The 64-bit sum equals the sum of the numbers when it does
not wrap, and whenever the clock has reached the sum of the numbers the code
finds so too.  For a monotonic clock (the clock reading is at least the
failure time) the delay of the timer is the exact difference, at least 1 and
at most the interval, and the conversion to 32 bits loses nothing. -/
theorem DriveStationState_connect_or_timer (drv : WiFiDriver) (self : ConnectivityManager)
    (hp : (stationPrelude drv (GetWiFiStationMode drv self)).1 = WEAVE_NO_ERROR)
    (hq : drv.IsStationConnected = (WEAVE_NO_ERROR, false))
    (hm : (GetWiFiStationMode drv self).mWiFiStationMode
      = WiFiStationMode.kWiFiStationMode_Enabled)
    (hprov : drv.IsStationProvisioned = true) (hscan : drv.ScanInProgress = false) :
    ((DriveStationState drv self).1.mLastStationConnectFailTime = 0
        ∨ drv.now ≥ add64 (DriveStationState drv self).1.mLastStationConnectFailTime
            self.mWiFiStationReconnectIntervalMS →
      Effect.esp_wifi_connect ∈ (DriveStationState drv self).2
      ∧ (∀ ms, Effect.StartTimer_DriveStationState ms ∉ (DriveStationState drv self).2)
      ∧ (drv.wifi_connect = WEAVE_NO_ERROR →
          (DriveStationState drv self).1.mWiFiStationState
            = WiFiStationState.kWiFiStationState_Connecting))
    ∧ (¬ ((DriveStationState drv self).1.mLastStationConnectFailTime = 0
        ∨ drv.now ≥ add64 (DriveStationState drv self).1.mLastStationConnectFailTime
            self.mWiFiStationReconnectIntervalMS) →
      Effect.esp_wifi_connect ∉ (DriveStationState drv self).2
      ∧ (∀ ms, Effect.StartTimer_DriveStationState ms ∈ (DriveStationState drv self).2 ↔
          ms = toUInt32 (sub64 (add64 (DriveStationState drv self).1.mLastStationConnectFailTime
                  self.mWiFiStationReconnectIntervalMS) drv.now))
      ∧ (DriveStationState drv self).1
          = (DriveStationState_notConnected_advance drv (GetWiFiStationMode drv self)).1)
    ∧ ((DriveStationState drv self).1.mLastStationConnectFailTime
          + self.mWiFiStationReconnectIntervalMS < 2 ^ 64 →
        add64 (DriveStationState drv self).1.mLastStationConnectFailTime
            self.mWiFiStationReconnectIntervalMS
          = (DriveStationState drv self).1.mLastStationConnectFailTime
            + self.mWiFiStationReconnectIntervalMS)
    ∧ (drv.now < 2 ^ 64 →
        drv.now ≥ (DriveStationState drv self).1.mLastStationConnectFailTime
            + self.mWiFiStationReconnectIntervalMS →
        drv.now ≥ add64 (DriveStationState drv self).1.mLastStationConnectFailTime
            self.mWiFiStationReconnectIntervalMS)
    ∧ (¬ ((DriveStationState drv self).1.mLastStationConnectFailTime = 0
        ∨ drv.now ≥ add64 (DriveStationState drv self).1.mLastStationConnectFailTime
            self.mWiFiStationReconnectIntervalMS) →
      (DriveStationState drv self).1.mLastStationConnectFailTime < 2 ^ 64 →
      self.mWiFiStationReconnectIntervalMS < 2 ^ 32 →
      (DriveStationState drv self).1.mLastStationConnectFailTime ≤ drv.now →
      (DriveStationState drv self).1.mLastStationConnectFailTime
          + self.mWiFiStationReconnectIntervalMS < 2 ^ 64
      ∧ toUInt32 (sub64 (add64 (DriveStationState drv self).1.mLastStationConnectFailTime
            self.mWiFiStationReconnectIntervalMS) drv.now)
          = (DriveStationState drv self).1.mLastStationConnectFailTime
              + self.mWiFiStationReconnectIntervalMS - drv.now
      ∧ 1 ≤ (DriveStationState drv self).1.mLastStationConnectFailTime
              + self.mWiFiStationReconnectIntervalMS - drv.now
      ∧ (DriveStationState drv self).1.mLastStationConnectFailTime
              + self.mWiFiStationReconnectIntervalMS - drv.now
          ≤ self.mWiFiStationReconnectIntervalMS) := by
  have hD := DriveStationState_of_not_associated drv self hp hq
  have g := GetWiFiStationMode_frame drv self
  have hA := DriveStationState_notConnected_advance_state drv (GetWiFiStationMode drv self)
  have hAf := DriveStationState_notConnected_advance_frame drv (GetWiFiStationMode drv self)
  have hF := DriveStationState_notConnected_finish_eq drv
    (DriveStationState_notConnected_advance drv (GetWiFiStationMode drv self))
    (stationPrelude drv (GetWiFiStationMode drv self)).2
  have hE := DriveStationState_notConnected_finish_effects drv
    (DriveStationState_notConnected_advance drv (GetWiFiStationMode drv self))
    (stationPrelude drv (GetWiFiStationMode drv self)).2
  have hFr := DriveStationState_notConnected_finish_frame drv
    (DriveStationState_notConnected_advance drv (GetWiFiStationMode drv self))
    (stationPrelude drv (GetWiFiStationMode drv self)).2
  have hP := stationPrelude_cmds drv (GetWiFiStationMode drv self)
  have hPt := stationPrelude_no_timer drv (GetWiFiStationMode drv self)
  have hAc := DriveStationState_notConnected_advance_cmds drv (GetWiFiStationMode drv self)
  have hAt := notConnected_advance_no_timer drv (GetWiFiStationMode drv self)
  rw [g.2.2] at hA
  rw [← hD] at hF hE hFr
  have hI : (DriveStationState_notConnected_advance drv
      (GetWiFiStationMode drv self)).1.mWiFiStationReconnectIntervalMS
        = self.mWiFiStationReconnectIntervalMS := by
    rw [hAf.2.1]
    exact g.2.1
  have hM : (DriveStationState_notConnected_advance drv
      (GetWiFiStationMode drv self)).1.mWiFiStationMode
        = WiFiStationMode.kWiFiStationMode_Enabled := by
    rw [hAf.1]
    exact hm
  have c := ChangeWiFiStationState_frame WiFiStationState.kWiFiStationState_Connecting
    (DriveStationState_notConnected_advance drv (GetWiFiStationMode drv self)).1
  generalize DriveStationState_notConnected_advance drv (GetWiFiStationMode drv self) = r
    at hA hF hE hFr hAc hAt hI hM c ⊢
  generalize (stationPrelude drv (GetWiFiStationMode drv self)).2 = pre at hF hE hP hPt
  rw [hFr.1, ← hI]
  have hG : r.1.mWiFiStationMode = WiFiStationMode.kWiFiStationMode_Enabled
      ∧ drv.IsStationProvisioned = true ∧ drv.ScanInProgress = false := ⟨hM, hprov, hscan⟩
  rw [if_pos hG] at hE
  have hW : wantsConnect drv r.1 ↔ (r.1.mLastStationConnectFailTime = 0
      ∨ drv.now ≥ add64 r.1.mLastStationConnectFailTime r.1.mWiFiStationReconnectIntervalMS) := by
    unfold wantsConnect
    exact ⟨fun h => h.2, fun h => ⟨hG, h⟩⟩
  refine ⟨?_, ?_, ?_, ?_, ?_⟩
  · intro hc
    rw [if_pos hc] at hE
    refine ⟨?_, ?_, ?_⟩
    · rw [hE]
      simp
    · intro ms
      rw [hE]
      simp only [List.mem_append, List.mem_singleton, not_or]
      exact ⟨⟨⟨hPt ms, hAt ms⟩, by simp⟩, by simp⟩
    · intro hok
      rw [hF.1, if_pos ⟨hW.mpr hc, hok⟩]
      exact c.2.2.2
  · intro hc
    rw [if_neg hc] at hE
    refine ⟨?_, ?_, ?_⟩
    · rw [← mem_stationCmds _ _ (Or.inl rfl), hF.2, hP, hAc, if_neg (fun h => hc (hW.mp h))]
      simp
    · intro ms
      rw [hE]
      simp only [List.mem_append, List.mem_singleton]
      constructor
      · rintro (((h | h) | h) | h)
        · exact absurd h (hPt ms)
        · exact absurd h (hAt ms)
        · exact Effect.StartTimer_DriveStationState.inj h
        · exact absurd h (by simp)
      · intro h
        exact Or.inl (Or.inr (by rw [h]))
    · rw [hF.1, if_neg (fun h => hc (hW.mp h.1))]
  · intro hw
    unfold add64
    exact Nat.mod_eq_of_lt hw
  · intro hnow hge
    unfold add64
    have hw : r.1.mLastStationConnectFailTime + r.1.mWiFiStationReconnectIntervalMS < 2 ^ 64 := by
      omega
    rw [Nat.mod_eq_of_lt hw]
    exact hge
  · intro hc hFb hIb hmono
    have hlt : drv.now < add64 r.1.mLastStationConnectFailTime
        r.1.mWiFiStationReconnectIntervalMS := by
      by_contra h
      exact hc (Or.inr (Nat.le_of_not_lt h))
    exact reconnect_delay _ _ _ hFb hIb hmono hlt

/-- Witness for C34: a station that failed at time 1000 with an interval of
5000 ms and is driven at time 3000 arms the timer for 3000 ms. -/
theorem DriveStationState_connect_or_timer_witness :
    ((stationPrelude (clockWiFi 3000) (GetWiFiStationMode (clockWiFi 3000) failedCM)).1
        = WEAVE_NO_ERROR
      ∧ (clockWiFi 3000).IsStationConnected = (WEAVE_NO_ERROR, false)
      ∧ (GetWiFiStationMode (clockWiFi 3000) failedCM).mWiFiStationMode
          = WiFiStationMode.kWiFiStationMode_Enabled
      ∧ (clockWiFi 3000).IsStationProvisioned = true
      ∧ (clockWiFi 3000).ScanInProgress = false)
    ∧ 1000 + 5000 - 3000 ≤ failedCM.mWiFiStationReconnectIntervalMS
    ∧ toUInt32 (sub64 (add64
          (DriveStationState (clockWiFi 3000) failedCM).1.mLastStationConnectFailTime
          failedCM.mWiFiStationReconnectIntervalMS) (clockWiFi 3000).now)
        = (DriveStationState (clockWiFi 3000) failedCM).1.mLastStationConnectFailTime
            + failedCM.mWiFiStationReconnectIntervalMS - (clockWiFi 3000).now :=
  ⟨by decide, by decide,
    ((DriveStationState_connect_or_timer (clockWiFi 3000) failedCM (by decide) (by decide)
      (by decide) (by decide) (by decide)).2.2.2.2 (by decide) (by decide) (by decide)
      (by decide)).2.1⟩

/-! ## The reachability pair -/

theorem ipv6Loop_true_iff (slots : List Ip6Slot) :
    ∀ acc : Bool, ipv6Loop slots acc = true ↔
      acc = true ∨ ∃ a ∈ slots, a.isglobal = true ∧ a.isvalid = true ∧ a.select_router ≥ 0 := by
  induction slots with
  | nil =>
    intro acc
    simp [ipv6Loop]
  | cons s rest ih =>
    intro acc
    unfold ipv6Loop
    by_cases h1 : (s.isglobal && s.isvalid) = true
    · rw [if_pos h1]
      have h1' : s.isglobal = true ∧ s.isvalid = true := by
        simpa using h1
      by_cases h2 : s.select_router ≥ 0
      · rw [if_pos h2, ih]
        constructor
        · intro _
          exact Or.inr ⟨s, List.mem_cons_self _ _, h1'.1, h1'.2, h2⟩
        · intro _
          exact Or.inl rfl
      · rw [if_neg h2, ih]
        constructor
        · rintro (h | ⟨a, ha, hp⟩)
          · exact Or.inl h
          · exact Or.inr ⟨a, List.mem_cons_of_mem _ ha, hp⟩
        · rintro (h | ⟨a, ha, hp⟩)
          · exact Or.inl h
          · rcases List.mem_cons.mp ha with hs | hr
            · subst hs
              exact absurd hp.2.2 h2
            · exact Or.inr ⟨a, hr, hp⟩
    · rw [if_neg h1, ih]
      constructor
      · rintro (h | ⟨a, ha, hp⟩)
        · exact Or.inl h
        · exact Or.inr ⟨a, List.mem_cons_of_mem _ ha, hp⟩
      · rintro (h | ⟨a, ha, hp⟩)
        · exact Or.inl h
        · rcases List.mem_cons.mp ha with hs | hr
          · subst hs
            exact absurd (by simp [hp.1, hp.2.1]) h1
          · exact Or.inr ⟨a, hr, hp⟩

theorem UpdateInternetConnectivityState_stored (drv : WiFiDriver) (self : ConnectivityManager) :
    (UpdateInternetConnectivityState drv self).1.storedConnState = computeConnState drv self := by
  unfold UpdateInternetConnectivityState
  simp only []
  by_cases h : (computeConnState drv self).1 ≠ self.mFlags.HaveIPv4InternetConnectivity
      ∨ (computeConnState drv self).2 ≠ self.mFlags.HaveIPv6InternetConnectivity
  · rw [if_pos h]
    simp only []
    rw [(DriveServiceTunnelState_frame drv _).2.1]
    rfl
  · rw [if_neg h]
    have h' := not_or.mp h
    unfold ConnectivityManager.storedConnState
    rw [← not_not.mp h'.1, ← not_not.mp h'.2]

/-- Claim C35: the pair that `UpdateInternetConnectivityState` computes, and
stores in the two reachability flags, is: IPv4 reachable if and only if the
station state is Connected, the station interface exists and is up with its
link up, a DNS server address is configured, and the interface has a non-zero
IPv4 address and a non-zero IPv4 gateway; IPv6 reachable if and only if the
same first three conditions hold and some address slot of the interface holds
a global address in the valid state with a default router selectable; when
the station state is not Connected both are false. -/
theorem reachability_pair (drv : WiFiDriver) (self : ConnectivityManager) :
    ((computeConnState drv self).1 = true ↔
      self.mWiFiStationState = WiFiStationState.kWiFiStationState_Connected
      ∧ ∃ netif, drv.station_netif = some netif
        ∧ netif.is_up = true ∧ netif.is_link_up = true
        ∧ drv.dns_server_isany = false
        ∧ netif.ip4_addr_isany = false ∧ netif.ip4_gw_isany = false)
    ∧ ((computeConnState drv self).2 = true ↔
      self.mWiFiStationState = WiFiStationState.kWiFiStationState_Connected
      ∧ ∃ netif, drv.station_netif = some netif
        ∧ netif.is_up = true ∧ netif.is_link_up = true
        ∧ drv.dns_server_isany = false
        ∧ ∃ a ∈ netif.ip6, a.isglobal = true ∧ a.isvalid = true ∧ a.select_router ≥ 0)
    ∧ (self.mWiFiStationState ≠ WiFiStationState.kWiFiStationState_Connected →
        computeConnState drv self = (false, false))
    ∧ (UpdateInternetConnectivityState drv self).1.mFlags.HaveIPv4InternetConnectivity
        = (computeConnState drv self).1
    ∧ (UpdateInternetConnectivityState drv self).1.mFlags.HaveIPv6InternetConnectivity
        = (computeConnState drv self).2 := by
  have hs := UpdateInternetConnectivityState_stored drv self
  unfold ConnectivityManager.storedConnState at hs
  refine ⟨?_, ?_, ?_, congrArg Prod.fst hs, congrArg Prod.snd hs⟩
  · unfold computeConnState
    by_cases h : self.mWiFiStationState = WiFiStationState.kWiFiStationState_Connected
    · rw [if_pos h]
      cases hn : drv.station_netif with
      | none => simp
      | some netif =>
        simp only [Option.some.injEq, exists_eq_left', h, true_and]
        cases h1 : netif.is_up <;> cases h2 : netif.is_link_up <;>
          cases h3 : drv.dns_server_isany <;> cases h4 : netif.ip4_addr_isany <;>
          cases h5 : netif.ip4_gw_isany <;> simp
    · rw [if_neg h]
      simp [h]
  · unfold computeConnState
    by_cases h : self.mWiFiStationState = WiFiStationState.kWiFiStationState_Connected
    · rw [if_pos h]
      cases hn : drv.station_netif with
      | none => simp
      | some netif =>
        simp only [Option.some.injEq, exists_eq_left', h, true_and]
        have hl := ipv6Loop_true_iff netif.ip6 false
        cases h1 : netif.is_up <;> cases h2 : netif.is_link_up <;>
          cases h3 : drv.dns_server_isany <;> simp [hl]
    · rw [if_neg h]
      simp [h]
  · intro h
    unfold computeConnState
    rw [if_neg h]

/-- Witness for C35: a station that is still connecting has no reachability. -/
theorem reachability_pair_witness :
    connectingCM.mWiFiStationState ≠ WiFiStationState.kWiFiStationState_Connected
    ∧ computeConnState tunnelReadyWiFi connectingCM = (false, false) :=
  ⟨by decide, (reachability_pair tunnelReadyWiFi connectingCM).2.2.1 (by decide)⟩

/-! ## The notification of a disconnect -/

theorem ReleaseConnectionState_true_iff (conId : Nat) (cs : List WoBLEConState) :
    (ReleaseConnectionState conId cs).1 = true
      ↔ ∃ c ∈ cs, c.Allocated = true ∧ c.ConId = conId := by
  by_cases h : countId conId cs = 0
  · rw [ReleaseConnectionState_of_countId_zero conId cs h]
    have hz := (countId_zero_iff conId cs).mp h
    constructor
    · intro hf
      exact Bool.noConfusion hf
    · rintro ⟨c, hc, ha, hi⟩
      exact absurd hi (hz c hc ha)
  · obtain ⟨k, c, hk, hca, hci, hr⟩ := ReleaseConnectionState_of_countId_pos conId cs h
    rw [hr]
    constructor
    · intro _
      exact ⟨c, List.getElem?_mem hk, hca, hci⟩
    · intro _
      rfl

theorem ReleaseConnectionState_false (conId : Nat) (cs : List WoBLEConState)
    (h : (ReleaseConnectionState conId cs).1 = false) :
    ReleaseConnectionState conId cs = (false, cs, []) := by
  by_cases h0 : countId conId cs = 0
  · exact ReleaseConnectionState_of_countId_zero conId cs h0
  · obtain ⟨k, c, _, _, _, hr⟩ := ReleaseConnectionState_of_countId_pos conId cs h0
    rw [hr] at h
    exact Bool.noConfusion h

/-- Claim C36: `HandleDisconnect` frees a slot exactly when an allocated slot
holds the connection id of the event.  When a slot was freed it posts one
connection-error event for that connection, clears the advertising-active
flag and schedules `DriveBLEState`; the cause is remote-device-disconnected
for the reason peer-user termination, app-closed-connection for local-host
termination and protocol-abort for every other reason.  When no slot matched
the manager is unchanged and there is no effect at all: nothing is posted,
nothing is scheduled, no flag changes. -/
theorem HandleDisconnect_notifies (param : esp_ble_gatts_cb_param_t) (self : BLEManager) :
    ((ReleaseConnectionState param.disconnect_conn_id self.mCons).1 = true
      ↔ ∃ c ∈ self.mCons, c.Allocated = true ∧ c.ConId = param.disconnect_conn_id)
    ∧ ((ReleaseConnectionState param.disconnect_conn_id self.mCons).1 = true →
      (HandleDisconnect param self).1
        = { self with
            mCons := (ReleaseConnectionState param.disconnect_conn_id self.mCons).2.1,
            mFlags := { self.mFlags with Advertising := false } }
      ∧ ∃ cause,
        (HandleDisconnect param self).2
          = (ReleaseConnectionState param.disconnect_conn_id self.mCons).2.2.map
              Effect.PacketBuffer_Free
            ++ [Effect.PostEvent
                  (WeaveDeviceEvent.WoBLEConnectionError param.disconnect_conn_id cause),
                Effect.ScheduleWork_DriveBLEState]
        ∧ (param.disconnect_reason = ESP_GATT_CONN_TERMINATE_PEER_USER →
            cause = BleError.BLE_ERROR_REMOTE_DEVICE_DISCONNECTED)
        ∧ (param.disconnect_reason = ESP_GATT_CONN_TERMINATE_LOCAL_HOST →
            cause = BleError.BLE_ERROR_APP_CLOSED_CONNECTION)
        ∧ (param.disconnect_reason ≠ ESP_GATT_CONN_TERMINATE_PEER_USER →
            param.disconnect_reason ≠ ESP_GATT_CONN_TERMINATE_LOCAL_HOST →
            cause = BleError.BLE_ERROR_WOBLE_PROTOCOL_ABORT))
    ∧ ((ReleaseConnectionState param.disconnect_conn_id self.mCons).1 = false →
      HandleDisconnect param self = (self, []))
    ∧ ((∃ e, Effect.PostEvent e ∈ (HandleDisconnect param self).2)
        ↔ (ReleaseConnectionState param.disconnect_conn_id self.mCons).1 = true)
    ∧ (Effect.ScheduleWork_DriveBLEState ∈ (HandleDisconnect param self).2
        ↔ (ReleaseConnectionState param.disconnect_conn_id self.mCons).1 = true) := by
  have hfalse : (ReleaseConnectionState param.disconnect_conn_id self.mCons).1 = false →
      HandleDisconnect param self = (self, []) := by
    intro h
    have hr := ReleaseConnectionState_false _ _ h
    unfold HandleDisconnect
    simp only []
    rw [hr]
    rfl
  have htrue : (ReleaseConnectionState param.disconnect_conn_id self.mCons).1 = true →
      (HandleDisconnect param self).2
        = (ReleaseConnectionState param.disconnect_conn_id self.mCons).2.2.map
            Effect.PacketBuffer_Free
          ++ [Effect.PostEvent
                (WeaveDeviceEvent.WoBLEConnectionError param.disconnect_conn_id
                  (if param.disconnect_reason = ESP_GATT_CONN_TERMINATE_PEER_USER then
                     BleError.BLE_ERROR_REMOTE_DEVICE_DISCONNECTED
                   else if param.disconnect_reason = ESP_GATT_CONN_TERMINATE_LOCAL_HOST then
                     BleError.BLE_ERROR_APP_CLOSED_CONNECTION
                   else BleError.BLE_ERROR_WOBLE_PROTOCOL_ABORT)),
              Effect.ScheduleWork_DriveBLEState] := by
    intro h
    unfold HandleDisconnect
    simp only []
    rw [if_pos h]
  refine ⟨ReleaseConnectionState_true_iff _ _, ?_, hfalse, ?_, ?_⟩
  · intro h
    refine ⟨?_, _, htrue h, ?_, ?_, ?_⟩
    · unfold HandleDisconnect
      simp only []
      rw [if_pos h]
    · intro hr
      rw [if_pos hr]
    · intro hr
      have hne : ¬ param.disconnect_reason = ESP_GATT_CONN_TERMINATE_PEER_USER := by
        rw [hr]
        decide
      rw [if_neg hne, if_pos hr]
    · intro h1 h2
      rw [if_neg h1, if_neg h2]
  · constructor
    · rintro ⟨e, he⟩
      cases hb : (ReleaseConnectionState param.disconnect_conn_id self.mCons).1
      · rw [hfalse hb] at he
        simp at he
      · rfl
    · intro h
      rw [htrue h]
      exact ⟨_, List.mem_append_right _ (List.mem_cons_self _ _)⟩
  · constructor
    · intro he
      cases hb : (ReleaseConnectionState param.disconnect_conn_id self.mCons).1
      · rw [hfalse hb] at he
        simp at he
      · rfl
    · intro h
      rw [htrue h]
      simp

/-- Witness for C36: the peer terminates connection 7 of the sample pool. -/
theorem HandleDisconnect_notifies_witness :
    (ReleaseConnectionState disconnectParam.disconnect_conn_id connectedBLE.mCons).1 = true
    ∧ (HandleDisconnect disconnectParam connectedBLE).1.mFlags.Advertising = false
    ∧ (HandleDisconnect disconnectParam connectedBLE).1
        = { connectedBLE with
            mCons := (ReleaseConnectionState disconnectParam.disconnect_conn_id
              connectedBLE.mCons).2.1,
            mFlags := { connectedBLE.mFlags with Advertising := false } } :=
  ⟨by decide, by decide,
    ((HandleDisconnect_notifies disconnectParam connectedBLE).2.1 (by decide)).1⟩

/-! ## The advertising setters -/

/-- Claim C38: on a manager whose service mode is not NotSupported, for every
non-empty name shorter than `kMaxDeviceNameLength`, `SetDeviceName` succeeds,
stores the name and sets the custom-name flag, and a following `GetDeviceName`
with a buffer larger than the length of the name returns success with exactly
that name; `GetDeviceName` returns buffer-too-small exactly when the length of
the stored name is at least the buffer size, and then copies nothing;
`SetDeviceName` with a null or an empty name succeeds, empties the stored name
and clears the custom-name flag.  `SetDeviceName` changes nothing else. -/
theorem device_name_round_trip (env : BLEEnv) (self : BLEManager) (name : List Char)
    (bufSize : Nat)
    (hmode : self.mServiceMode ≠ WoBLEServiceMode.kWoBLEServiceMode_NotSupported) :
    (name ≠ [] → name.length < env.kMaxDeviceNameLength →
      SetDeviceName env (some name) self
        = (WEAVE_NO_ERROR,
            { self with mDeviceName := name,
                        mFlags := { self.mFlags with UseCustomDeviceName := true } }, [])
      ∧ (bufSize > name.length →
          GetDeviceName bufSize (SetDeviceName env (some name) self).2.1
            = (WEAVE_NO_ERROR, some name)))
    ∧ ((GetDeviceName bufSize self).1 = WEAVE_ERROR_BUFFER_TOO_SMALL
        ↔ self.mDeviceName.length ≥ bufSize)
    ∧ (self.mDeviceName.length ≥ bufSize →
        GetDeviceName bufSize self = (WEAVE_ERROR_BUFFER_TOO_SMALL, none))
    ∧ (self.mDeviceName.length < bufSize →
        GetDeviceName bufSize self = (WEAVE_NO_ERROR, some self.mDeviceName))
    ∧ SetDeviceName env none self
        = (WEAVE_NO_ERROR,
            { self with mDeviceName := [],
                        mFlags := { self.mFlags with UseCustomDeviceName := false } }, [])
    ∧ SetDeviceName env (some []) self
        = (WEAVE_NO_ERROR,
            { self with mDeviceName := [],
                        mFlags := { self.mFlags with UseCustomDeviceName := false } }, []) := by
  have hset : name ≠ [] → name.length < env.kMaxDeviceNameLength →
      SetDeviceName env (some name) self
        = (WEAVE_NO_ERROR,
            { self with mDeviceName := name,
                        mFlags := { self.mFlags with UseCustomDeviceName := true } }, []) := by
    intro hne hlen
    unfold SetDeviceName
    rw [if_neg hmode]
    cases name with
    | nil => exact absurd rfl hne
    | cons c cs =>
      simp only []
      rw [if_neg (Nat.not_le.mpr hlen)]
  refine ⟨?_, ?_, ?_, ?_, ?_, ?_⟩
  · intro hne hlen
    refine ⟨hset hne hlen, ?_⟩
    intro hbuf
    rw [hset hne hlen]
    unfold GetDeviceName
    simp only []
    rw [if_neg (Nat.not_le.mpr hbuf)]
  · unfold GetDeviceName
    by_cases h : self.mDeviceName.length ≥ bufSize
    · rw [if_pos h]
      exact ⟨fun _ => h, fun _ => rfl⟩
    · rw [if_neg h]
      have hne : WEAVE_NO_ERROR ≠ WEAVE_ERROR_BUFFER_TOO_SMALL := by decide
      exact ⟨fun hb => absurd hb hne, fun hb => absurd hb h⟩
  · intro h
    unfold GetDeviceName
    rw [if_pos h]
  · intro h
    unfold GetDeviceName
    rw [if_neg (Nat.not_le.mpr h)]
  · unfold SetDeviceName
    rw [if_neg hmode]
  · unfold SetDeviceName
    rw [if_neg hmode]

/-- Witness for C38: the name "ab" on a manager whose service is started,
read back into a buffer of three bytes. -/
theorem device_name_round_trip_witness :
    (serviceStartedBLE.mServiceMode ≠ WoBLEServiceMode.kWoBLEServiceMode_NotSupported
      ∧ ['a', 'b'] ≠ [] ∧ ['a', 'b'].length < sampleEnv.kMaxDeviceNameLength
      ∧ 3 > ['a', 'b'].length)
    ∧ GetDeviceName 3 (SetDeviceName sampleEnv (some ['a', 'b']) serviceStartedBLE).2.1
        = (WEAVE_NO_ERROR, some ['a', 'b']) :=
  ⟨by decide,
    ((device_name_round_trip sampleEnv serviceStartedBLE ['a', 'b'] 3 (by decide)).1
      (by decide) (by decide)).2 (by decide)⟩

/-! ## The pool invariant -/

theorem PoolInv_of_free (cs : List WoBLEConState) (h : ∀ c ∈ cs, c.Allocated = false) :
    PoolInv cs := by
  unfold PoolInv
  induction cs with
  | nil => exact List.Pairwise.nil
  | cons a rest ih =>
    refine List.Pairwise.cons ?_ (ih (fun c hc => h c (List.mem_cons_of_mem _ hc)))
    intro b _ hab
    have ha := h a (List.mem_cons_self _ _)
    rw [ha] at hab
    exact Bool.noConfusion hab.1

theorem PoolInv_set (cs : List WoBLEConState) (v : WoBLEConState) :
    ∀ k : Nat, PoolInv cs →
      (∀ c ∈ cs, ¬ (c.Allocated = true ∧ v.Allocated = true ∧ c.ConId = v.ConId)) →
      PoolInv (cs.set k v) := by
  unfold PoolInv
  induction cs with
  | nil =>
    intro k _ _
    exact List.Pairwise.nil
  | cons a rest ih =>
    intro k hinv hv
    have hp := List.pairwise_cons.mp hinv
    cases k with
    | zero =>
      rw [List.set_cons_zero]
      refine List.Pairwise.cons ?_ hp.2
      intro b hb hvb
      exact hv b (List.mem_cons_of_mem _ hb) ⟨hvb.2.1, hvb.1, hvb.2.2.symm⟩
    | succ k =>
      rw [List.set_cons_succ]
      refine List.Pairwise.cons ?_
        (ih k hp.2 (fun c hc => hv c (List.mem_cons_of_mem _ hc)))
      intro b hb
      rcases List.mem_or_eq_of_mem_set hb with hb | hb
      · exact hp.1 b hb
      · rw [hb]
        exact hv a (List.mem_cons_self _ _)

theorem PoolInv_release (conId : Nat) (cs : List WoBLEConState) (h : PoolInv cs) :
    PoolInv (ReleaseConnectionState conId cs).2.1 := by
  by_cases h0 : countId conId cs = 0
  · rw [ReleaseConnectionState_of_countId_zero conId cs h0]
    exact h
  · obtain ⟨k, c, _, _, _, hr⟩ := ReleaseConnectionState_of_countId_pos conId cs h0
    rw [hr]
    apply PoolInv_set _ _ k h
    intro d _ hd
    exact Bool.noConfusion hd.2.1

theorem PoolInv_get (conId : Nat) (allocate : Bool) (cs : List WoBLEConState)
    (h : PoolInv cs) : PoolInv (GetConnectionState cs conId allocate).2 := by
  unfold GetConnectionState
  cases hs : scanCons conId cs 0 cs.length with
  | found i => exact h
  | done freeIndex =>
    simp only []
    have hno : ∀ c ∈ cs, c.Allocated = true → c.ConId ≠ conId := by
      intro c hc ha hi
      obtain ⟨j, hj⟩ := scanCons_of_mem conId cs 0 cs.length ⟨c, hc, ha, hi⟩
      rw [hs] at hj
      exact ScanResult.noConfusion hj
    split_ifs
    · apply PoolInv_set _ _ _ h
      intro c hc hd
      exact hno c hc hd.1 hd.2.2
    · exact h
    · exact h

theorem NumConnections_set_release (cs : List WoBLEConState) :
    ∀ (k : Nat) (c : WoBLEConState), cs[k]? = some c → c.Allocated = true →
      NumConnections (cs.set k { c with Allocated := false }) + 1 = NumConnections cs := by
  induction cs with
  | nil =>
    intro k c hk
    simp at hk
  | cons a rest ih =>
    intro k c hk hc
    cases k with
    | zero =>
      simp only [List.getElem?_cons_zero, Option.some.injEq] at hk
      subst hk
      rw [List.set_cons_zero]
      simp [NumConnections, hc]
    | succ k =>
      simp only [List.getElem?_cons_succ] at hk
      rw [List.set_cons_succ]
      have := ih k c hk hc
      unfold NumConnections
      split_ifs <;> omega

theorem PoolInv_run (op : PoolOp) (self : BLEManager) (h : PoolInv self.mCons) :
    PoolInv (op.run self).mCons := by
  cases op with
  | get conId allocate => exact PoolInv_get conId allocate self.mCons h
  | release conId => exact PoolInv_release conId self.mCons h
  | close answer conId => exact PoolInv_release conId self.mCons h

theorem PoolInv_runPoolOps (ops : List PoolOp) :
    ∀ self : BLEManager, PoolInv self.mCons → PoolInv (runPoolOps ops self).mCons := by
  induction ops with
  | nil =>
    intro self h
    exact h
  | cons op rest ih =>
    intro self h
    exact ih (op.run self) (PoolInv_run op self h)

/-- Claim C39: `Init` leaves every slot of the pool free, and after any
sequence of `GetConnectionState` (with or without allocate),
`ReleaseConnectionState` and `CloseConnection` calls that follows a successful
`Init`, no two allocated slots hold the same connection id; hence when
`ReleaseConnectionState(id)` then returns true, a lookup of `id` without
allocate finds no entry and `NumConnections` has decreased by exactly one. -/
theorem pool_invariant (bleLayerInit : WEAVE_ERROR) (self : BLEManager) (ops : List PoolOp)
    (conId : Nat) (hinit : (BLEManager.Init bleLayerInit self).1 = WEAVE_NO_ERROR) :
    (∀ c ∈ (BLEManager.Init bleLayerInit self).2.1.mCons, c.Allocated = false)
    ∧ (BLEManager.Init bleLayerInit self).2.1.mCons.length = self.mCons.length
    ∧ PoolInv (runPoolOps ops (BLEManager.Init bleLayerInit self).2.1).mCons
    ∧ ((ReleaseConnectionState conId
          (runPoolOps ops (BLEManager.Init bleLayerInit self).2.1).mCons).1 = true →
        GetConnectionState
            (ReleaseConnectionState conId
              (runPoolOps ops (BLEManager.Init bleLayerInit self).2.1).mCons).2.1 conId false
          = (none,
              (ReleaseConnectionState conId
                (runPoolOps ops (BLEManager.Init bleLayerInit self).2.1).mCons).2.1)
        ∧ NumConnections
              (ReleaseConnectionState conId
                (runPoolOps ops (BLEManager.Init bleLayerInit self).2.1).mCons).2.1 + 1
            = NumConnections (runPoolOps ops (BLEManager.Init bleLayerInit self).2.1).mCons) := by
  have hok : ¬ (bleLayerInit ≠ WEAVE_NO_ERROR) := by
    intro hne
    unfold BLEManager.Init at hinit
    rw [if_pos hne] at hinit
    exact hne hinit
  have hfree : ∀ c ∈ (BLEManager.Init bleLayerInit self).2.1.mCons, c.Allocated = false := by
    unfold BLEManager.Init
    rw [if_neg hok]
    intro c hc
    simp only [List.mem_map] at hc
    obtain ⟨_, _, hz⟩ := hc
    rw [← hz]
    rfl
  have hlen : (BLEManager.Init bleLayerInit self).2.1.mCons.length = self.mCons.length := by
    unfold BLEManager.Init
    rw [if_neg hok]
    exact List.length_map _ _
  have hinv := PoolInv_runPoolOps ops _ (PoolInv_of_free _ hfree)
  refine ⟨hfree, hlen, hinv, ?_⟩
  generalize (runPoolOps ops (BLEManager.Init bleLayerInit self).2.1).mCons = p at hinv
  intro hrel
  have hle := countId_le_one_of_PoolInv conId p hinv
  have hpos : countId conId p ≠ 0 := by
    intro h0
    rw [ReleaseConnectionState_of_countId_zero conId p h0] at hrel
    exact Bool.noConfusion hrel
  have hafter := countId_after_release conId p
  have hzero : countId conId (ReleaseConnectionState conId p).2.1 = 0 := by
    rw [hafter]
    omega
  refine ⟨GetConnectionState_lookup_none _ conId ((countId_zero_iff conId _).mp hzero), ?_⟩
  obtain ⟨k, c, hk, hca, _, hr⟩ := ReleaseConnectionState_of_countId_pos conId p hpos
  rw [hr]
  exact NumConnections_set_release p k c hk hca

/-- Witness for C39: after `Init` connection 5 is allocated, connection 6 is
allocated, and 5 is allocated again; one release of 5 leaves no entry for 5
and one connection. -/
theorem pool_invariant_witness :
    (BLEManager.Init WEAVE_NO_ERROR initialBLE).1 = WEAVE_NO_ERROR
    ∧ (ReleaseConnectionState 5
          (runPoolOps [PoolOp.get 5 true, PoolOp.get 6 true, PoolOp.get 5 true]
            (BLEManager.Init WEAVE_NO_ERROR initialBLE).2.1).mCons).1 = true
    ∧ NumConnections
          (ReleaseConnectionState 5
            (runPoolOps [PoolOp.get 5 true, PoolOp.get 6 true, PoolOp.get 5 true]
              (BLEManager.Init WEAVE_NO_ERROR initialBLE).2.1).mCons).2.1 + 1
        = NumConnections
            (runPoolOps [PoolOp.get 5 true, PoolOp.get 6 true, PoolOp.get 5 true]
              (BLEManager.Init WEAVE_NO_ERROR initialBLE).2.1).mCons :=
  ⟨by decide, by decide,
    ((pool_invariant WEAVE_NO_ERROR initialBLE
      [PoolOp.get 5 true, PoolOp.get 6 true, PoolOp.get 5 true] 5 (by decide)).2.2.2
      (by decide)).2⟩

/-! ## Writes to the CCCD of the TX characteristic -/

theorem postedEvents_append (a b : List Effect) :
    postedEvents (a ++ b) = postedEvents a ++ postedEvents b := by
  induction a with
  | nil => rfl
  | cons x rest ih =>
    cases x <;> simp [postedEvents, ih]

/-- Claim C40: a write to the CCCD of the TX characteristic for a connection
present in the pool that is not a prepared write posts exactly one event for
that connection: Subscribe if the written value is not empty and its first
byte is not zero, Unsubscribe otherwise; a write for an unknown connection, or
a prepared write, posts no event; and no write event modifies the manager, so
the pool is never modified.  The handler looks the connection up through the
view `read.conn_id` of the event parameter, which in the union of the driver
overlays `write.conn_id` (both records begin with the connection id); the
length `write.len` is the length of the written value. -/
theorem CCCD_write_posts_one_event (newBuf : Option (Nat × Nat)) (gatts_if : Nat)
    (param : esp_ble_gatts_cb_param_t) (self : BLEManager)
    (hview : param.read_conn_id = param.write_conn_id)
    (hlen : param.write_len = param.write_value.length) :
    ((∃ c ∈ self.mCons, c.Allocated = true ∧ c.ConId = param.write_conn_id) →
      param.write_is_prep = false →
      postedEvents (HandleTXCharCCCDWrite param self)
        = [if param.write_value ≠ [] ∧ param.write_value.head? ≠ some 0 then
             WeaveDeviceEvent.WoBLESubscribe param.write_conn_id
           else WeaveDeviceEvent.WoBLEUnsubscribe param.write_conn_id])
    ∧ ((∀ c ∈ self.mCons, c.Allocated = true → c.ConId ≠ param.write_conn_id)
        ∨ param.write_is_prep = true →
      postedEvents (HandleTXCharCCCDWrite param self) = [])
    ∧ (HandleGATTCommEvent newBuf esp_gatts_cb_event_t.ESP_GATTS_WRITE_EVT gatts_if param
        self).1 = self
    ∧ (self.mFlags.GATTServiceStarted = true → gatts_if = self.mAppIf →
        param.write_handle = self.mTXCharCCCDAttrHandle →
        param.write_handle ≠ self.mRXCharAttrHandle →
        (HandleGATTCommEvent newBuf esp_gatts_cb_event_t.ESP_GATTS_WRITE_EVT gatts_if param
          self).2 = HandleTXCharCCCDWrite param self) := by
  have hfail : postedEvents
      (if param.write_need_rsp then
        [Effect.esp_ble_gatts_send_response self.mAppIf param.write_conn_id
          param.write_trans_id ESP_GATT_INTERNAL_ERROR none]
       else []) = [] := by
    split_ifs <;> rfl
  have hrsp : postedEvents
      (if param.write_need_rsp then
        [Effect.esp_ble_gatts_send_response self.mAppIf param.write_conn_id
          param.write_trans_id ESP_GATT_OK none]
       else []) = [] := by
    split_ifs <;> rfl
  have hind : (decide (param.write_len > 0) && decide (param.write_value.getD 0 0 ≠ 0)) = true
      ↔ (param.write_value ≠ [] ∧ param.write_value.head? ≠ some 0) := by
    rw [hlen]
    cases param.write_value with
    | nil => simp
    | cons b rest => simp
  refine ⟨?_, ?_, ?_, ?_⟩
  · intro hpresent hprep
    rw [← hview] at hpresent
    obtain ⟨i, c0, hget, _, _, _⟩ :=
      GetConnectionState_lookup_some self.mCons param.read_conn_id hpresent false
    unfold HandleTXCharCCCDWrite
    simp only []
    rw [hget]
    simp only []
    rw [if_neg (not_not.mpr hprep), postedEvents_append, hrsp]
    by_cases hi : param.write_value ≠ [] ∧ param.write_value.head? ≠ some 0
    · rw [if_pos (hind.mpr hi), if_pos hi]
      rfl
    · rw [if_neg (fun h => hi (hind.mp h)), if_neg hi]
      rfl
  · intro h
    unfold HandleTXCharCCCDWrite
    simp only []
    rcases GetConnectionState_lookup_cases self.mCons param.read_conn_id with hg | ⟨i, c0, hg, hi, ha, hc⟩
    · rw [hg]
      exact hfail
    · rw [hg]
      simp only []
      rcases h with h | h
      · rw [hview] at hc
        exact absurd hc (h c0 (List.getElem?_mem hi) ha)
      · have hp : param.write_is_prep ≠ false := by
          rw [h]
          decide
        rw [if_pos hp]
        exact hfail
  · unfold HandleGATTCommEvent
    split_ifs <;> rfl
  · intro hstarted hif hh hrx
    have hn : ¬ (self.mFlags.GATTServiceStarted = false ∨ gatts_if ≠ self.mAppIf) := by
      rw [hstarted, hif]
      simp
    unfold HandleGATTCommEvent
    rw [if_neg hn]
    simp only []
    rw [if_neg hrx, if_pos hh]
    rfl

/-- Witness for C40: connection 7 of the sample pool writes 01 00 to the
CCCD; one Subscribe event for connection 7 is posted. -/
theorem CCCD_write_posts_one_event_witness :
    (subscribeParam.read_conn_id = subscribeParam.write_conn_id
      ∧ subscribeParam.write_len = subscribeParam.write_value.length
      ∧ (∃ c ∈ connectedBLE.mCons, c.Allocated = true ∧ c.ConId = subscribeParam.write_conn_id)
      ∧ subscribeParam.write_is_prep = false)
    ∧ postedEvents (HandleTXCharCCCDWrite subscribeParam connectedBLE)
        = [WeaveDeviceEvent.WoBLESubscribe 7] :=
  ⟨by decide,
    (CCCD_write_posts_one_event none 3 subscribeParam connectedBLE (by decide) (by decide)).1
      (by decide) (by decide)⟩

/-! ## The manager after `Init` -/

theorem Init_initialBLE :
    BLEManager.Init WEAVE_NO_ERROR initialBLE
      = (WEAVE_NO_ERROR, initialBLE,
          [Effect.BleLayer_Init, Effect.ScheduleWork_DriveBLEState]) := by
  decide

/-! ## The callbacks beside another thread -/

theorem LockInv_callbackStep {σ V : Type} (f1 f2 : σ → σ) (view : σ → V) (s0 : σ)
    (c : Interleaving σ V) (h : LockInv f1 f2 view s0 c) :
    LockInv f1 f2 view s0
      (callbackStep [LockStmt.lock, LockStmt.access f1, LockStmt.access f2, LockStmt.unlock]
        c) := by
  obtain ⟨pc, owner, state, otherPc, seen, unlocks, unguarded⟩ := c
  obtain ⟨hu, hs, hc⟩ := h
  simp only at hu hs hc
  subst hu
  rcases hc with ⟨h1, h2, h3, h4⟩ | ⟨h1, h2, h3, h4, h5⟩ | ⟨h1, h2, h3, h4, h5⟩
    | ⟨h1, h2, h3, h4, h5⟩ | ⟨h1, h2, h3, h4⟩
  · subst h1 h2 h3
    rcases h4 with ⟨h5, h6⟩ | ⟨h5, h6⟩ | ⟨h5, h6⟩ <;> subst h5 h6 <;>
      (simp [callbackStep, LockInv]; exact hs)
  · subst h1 h2 h3 h4 h5
    (simp [callbackStep, LockInv]; exact hs)
  · subst h1 h2 h3 h4 h5
    (simp [callbackStep, LockInv]; exact hs)
  · subst h1 h2 h3 h4 h5
    (simp [callbackStep, LockInv]; exact hs)
  · subst h1 h2 h3
    rcases h4 with ⟨h5, h6⟩ | ⟨h5, h6⟩ | ⟨h5, h6⟩ <;> subst h5 h6 <;>
      (simp [callbackStep, LockInv]; exact hs)

theorem LockInv_otherStep {σ V : Type} (f1 f2 : σ → σ) (view : σ → V) (s0 : σ)
    (c : Interleaving σ V) (h : LockInv f1 f2 view s0 c) :
    LockInv f1 f2 view s0 (otherStep view c) := by
  obtain ⟨pc, owner, state, otherPc, seen, unlocks, unguarded⟩ := c
  obtain ⟨hu, hs, hc⟩ := h
  simp only at hu hs hc
  subst hu
  rcases hc with ⟨h1, h2, h3, h4⟩ | ⟨h1, h2, h3, h4, h5⟩ | ⟨h1, h2, h3, h4, h5⟩
    | ⟨h1, h2, h3, h4, h5⟩ | ⟨h1, h2, h3, h4⟩
  · subst h1 h2 h3
    rcases h4 with ⟨h5, h6⟩ | ⟨h5, h6⟩ | ⟨h5, h6⟩ <;> subst h5 h6
    · (simp [otherStep, LockInv]; exact hs)
    · simp only [otherStep, LockInv]
      refine ⟨trivial, ?_, by simp⟩
      intro m hm
      rcases List.mem_append.mp hm with hm | hm
      · exact hs m hm
      · simp only [List.mem_singleton] at hm
        exact Or.inl hm
    · (simp [otherStep, LockInv]; exact hs)
  · subst h1 h2 h3 h4 h5
    (simp [otherStep, LockInv]; exact hs)
  · subst h1 h2 h3 h4 h5
    (simp [otherStep, LockInv]; exact hs)
  · subst h1 h2 h3 h4 h5
    (simp [otherStep, LockInv]; exact hs)
  · subst h1 h2 h3
    rcases h4 with ⟨h5, h6⟩ | ⟨h5, h6⟩ | ⟨h5, h6⟩ <;> subst h5 h6
    · (simp [otherStep, LockInv]; exact hs)
    · simp only [otherStep, LockInv]
      refine ⟨trivial, ?_, by simp⟩
      intro m hm
      rcases List.mem_append.mp hm with hm | hm
      · exact hs m hm
      · simp only [List.mem_singleton] at hm
        exact Or.inr hm
    · (simp [otherStep, LockInv]; exact hs)

theorem LockInv_interleave {σ V : Type} (f1 f2 : σ → σ) (view : σ → V) (s0 : σ)
    (schedule : List Bool) :
    ∀ c : Interleaving σ V, LockInv f1 f2 view s0 c →
      LockInv f1 f2 view s0
        (interleave [LockStmt.lock, LockStmt.access f1, LockStmt.access f2, LockStmt.unlock]
          view schedule c) := by
  induction schedule with
  | nil =>
    intro c h
    exact h
  | cons b rest ih =>
    intro c h
    cases b
    · exact ih _ (LockInv_otherStep f1 f2 view s0 c h)
    · exact ih _ (LockInv_callbackStep f1 f2 view s0 c h)

theorem LockInv_start {σ V : Type} (f1 f2 : σ → σ) (view : σ → V) (s0 : σ) :
    LockInv f1 f2 view s0 (Interleaving.start s0) := by
  simp [LockInv, Interleaving.start]

theorem interleave_append {σ V : Type} (prog : List (LockStmt σ)) (view : σ → V)
    (a b : List Bool) :
    ∀ c : Interleaving σ V,
      interleave prog view (a ++ b) c = interleave prog view b (interleave prog view a c) := by
  induction a with
  | nil =>
    intro c
    rfl
  | cons x rest ih =>
    intro c
    cases x
    · exact ih _
    · exact ih _

theorem LockInv_completes {σ V : Type} (f1 f2 : σ → σ) (view : σ → V) (s0 : σ)
    (c : Interleaving σ V) (h : LockInv f1 f2 view s0 c) :
    ∃ rest,
      (interleave [LockStmt.lock, LockStmt.access f1, LockStmt.access f2, LockStmt.unlock]
        view rest c).pc = 4 := by
  obtain ⟨pc, owner, state, otherPc, seen, unlocks, unguarded⟩ := c
  obtain ⟨hu, hs, hc⟩ := h
  simp only at hu hs hc
  rcases hc with ⟨h1, h2, h3, h4⟩ | ⟨h1, h2, h3, h4, h5⟩ | ⟨h1, h2, h3, h4, h5⟩
    | ⟨h1, h2, h3, h4, h5⟩ | ⟨h1, h2, h3, h4⟩
  · subst h1
    rcases h4 with ⟨h5, h6⟩ | ⟨h5, h6⟩ | ⟨h5, h6⟩ <;> subst h5 h6
    · exact ⟨[true, true, true, true], by simp [interleave, callbackStep]⟩
    · exact ⟨[false, false, true, true, true, true],
        by simp [interleave, callbackStep, otherStep]⟩
    · exact ⟨[false, true, true, true, true], by simp [interleave, callbackStep, otherStep]⟩
  · subst h1 h4
    exact ⟨[true, true, true], by simp [interleave, callbackStep]⟩
  · subst h1 h4
    exact ⟨[true, true], by simp [interleave, callbackStep]⟩
  · subst h1 h4
    exact ⟨[true], by simp [interleave, callbackStep]⟩
  · subst h1
    exact ⟨[], rfl⟩

theorem HandleGAPEvent_switch_exit (event : esp_gap_ble_cb_event_t) (self : BLEManager) :
    HandleGAPEvent event self
      = HandleGAPEvent_exit (HandleGAPEvent_switch event self).1
          (HandleGAPEvent_switch event self).2 := by
  unfold HandleGAPEvent HandleGAPEvent_switch
  cases event <;> dsimp only <;> first | rfl | (split_ifs <;> rfl)

theorem LockInv_facts {σ V : Type} (f1 f2 : σ → σ) (view : σ → V) (s0 : σ)
    (c : Interleaving σ V) (h : LockInv f1 f2 view s0 c) :
    c.unguarded = 0
    ∧ (∀ m ∈ c.seen, m = view s0 ∨ m = view (f2 (f1 s0)))
    ∧ (0 < c.pc → c.pc < 4 → c.owner = LockOwner.callback)
    ∧ (c.pc < 4 → c.unlocks = 0)
    ∧ (c.pc = 4 →
        c.unlocks = 1 ∧ c.owner ≠ LockOwner.callback ∧ c.state = f2 (f1 s0))
    ∧ c.pc ≤ 4 := by
  obtain ⟨hu, hs, hc⟩ := h
  refine ⟨hu, hs, ?_, ?_, ?_, ?_⟩
  · intro h0 h4
    rcases hc with ⟨h1, _⟩ | ⟨_, _, _, ho, _⟩ | ⟨_, _, _, ho, _⟩ | ⟨_, _, _, ho, _⟩ | ⟨h1, _⟩
    · omega
    · exact ho
    · exact ho
    · exact ho
    · omega
  · intro h4
    rcases hc with ⟨_, _, hn, _⟩ | ⟨_, _, hn, _⟩ | ⟨_, _, hn, _⟩ | ⟨_, _, hn, _⟩ | ⟨h1, _⟩
    · exact hn
    · exact hn
    · exact hn
    · exact hn
    · omega
  · intro h4
    rcases hc with ⟨h1, _⟩ | ⟨h1, _⟩ | ⟨h1, _⟩ | ⟨h1, _⟩ | ⟨_, hst, hn, ho⟩
    · omega
    · omega
    · omega
    · omega
    · refine ⟨hn, ?_, hst⟩
      rcases ho with ⟨_, ho⟩ | ⟨_, ho⟩ | ⟨_, ho⟩ <;> rw [ho] <;> decide
  · rcases hc with ⟨h1, _⟩ | ⟨h1, _⟩ | ⟨h1, _⟩ | ⟨h1, _⟩ | ⟨h1, _⟩ <;> omega

/-- Claim C30: `HandleGATTEvent` and `HandleGAPEvent` run beside another
thread that takes the stack lock whenever it reads the manager.  Whatever the
event, its parameters, the state and the schedule of the two threads, and
also when the event reports a failure: no statement of the callback reads or
writes the state without holding the lock, and the callback holds the lock
from its first statement to its last; the other thread reads the manager only
as it was when the callback was entered or as the callback leaves it, never
in between; the callback has not released the lock before its end and has
released it exactly once at its end, where the manager is the result of the
callback; from every point of every schedule the callback can run to its end;
and in the trace of the callback the lock is taken first, released last, and
neither taken nor released in between. -/
theorem callbacks_serialized_by_stack_lock (self : BLEManager) (schedule : List Bool) :
    (∀ (newBuf : Option (Nat × Nat)) (event : esp_gatts_cb_event_t) (gatts_if : Nat)
        (param : esp_ble_gatts_cb_param_t),
      (HandleGATTEvent_run newBuf event gatts_if param self schedule).unguarded = 0
      ∧ (∀ m ∈ (HandleGATTEvent_run newBuf event gatts_if param self schedule).seen,
          m = self ∨ m = (HandleGATTEvent newBuf event gatts_if param self).1)
      ∧ (0 < (HandleGATTEvent_run newBuf event gatts_if param self schedule).pc →
          (HandleGATTEvent_run newBuf event gatts_if param self schedule).pc < 4 →
          (HandleGATTEvent_run newBuf event gatts_if param self schedule).owner
            = LockOwner.callback)
      ∧ ((HandleGATTEvent_run newBuf event gatts_if param self schedule).pc < 4 →
          (HandleGATTEvent_run newBuf event gatts_if param self schedule).unlocks = 0)
      ∧ ((HandleGATTEvent_run newBuf event gatts_if param self schedule).pc = 4 →
          (HandleGATTEvent_run newBuf event gatts_if param self schedule).unlocks = 1
          ∧ (HandleGATTEvent_run newBuf event gatts_if param self schedule).owner
              ≠ LockOwner.callback
          ∧ (HandleGATTEvent_run newBuf event gatts_if param self schedule).state
              = (HandleGATTEvent newBuf event gatts_if param self).1)
      ∧ (HandleGATTEvent_run newBuf event gatts_if param self schedule).pc ≤ 4
      ∧ (∃ rest,
          (HandleGATTEvent_run newBuf event gatts_if param self (schedule ++ rest)).pc = 4)
      ∧ ∃ mid, (HandleGATTEvent newBuf event gatts_if param self).2
          = Effect.LockWeaveStack :: (mid ++ [Effect.UnlockWeaveStack])
        ∧ lockOps mid = [])
    ∧ (∀ event : esp_gap_ble_cb_event_t,
      (HandleGAPEvent_run event self schedule).unguarded = 0
      ∧ (∀ m ∈ (HandleGAPEvent_run event self schedule).seen,
          m = self ∨ m = (HandleGAPEvent event self).1)
      ∧ (0 < (HandleGAPEvent_run event self schedule).pc →
          (HandleGAPEvent_run event self schedule).pc < 4 →
          (HandleGAPEvent_run event self schedule).owner = LockOwner.callback)
      ∧ ((HandleGAPEvent_run event self schedule).pc < 4 →
          (HandleGAPEvent_run event self schedule).unlocks = 0)
      ∧ ((HandleGAPEvent_run event self schedule).pc = 4 →
          (HandleGAPEvent_run event self schedule).unlocks = 1
          ∧ (HandleGAPEvent_run event self schedule).owner ≠ LockOwner.callback
          ∧ (HandleGAPEvent_run event self schedule).state.2 = (HandleGAPEvent event self).1)
      ∧ (HandleGAPEvent_run event self schedule).pc ≤ 4
      ∧ (∃ rest, (HandleGAPEvent_run event self (schedule ++ rest)).pc = 4)
      ∧ ∃ mid, (HandleGAPEvent event self).2
          = Effect.LockWeaveStack :: (mid ++ [Effect.UnlockWeaveStack])
        ∧ lockOps mid = []) := by
  constructor
  · intro newBuf event gatts_if param
    have hI := LockInv_interleave
      (fun s => (HandleGATTControlEvent event gatts_if param s).1)
      (fun s => (HandleGATTCommEvent newBuf event gatts_if param s).1)
      (id : BLEManager → BLEManager) self schedule (Interleaving.start self)
      (LockInv_start _ _ _ _)
    have hrun : HandleGATTEvent_run newBuf event gatts_if param self schedule
        = interleave
            [LockStmt.lock,
             LockStmt.access (fun s => (HandleGATTControlEvent event gatts_if param s).1),
             LockStmt.access (fun s => (HandleGATTCommEvent newBuf event gatts_if param s).1),
             LockStmt.unlock] id schedule (Interleaving.start self) := rfl
    have hC := LockInv_completes _ _ _ _ _ hI
    obtain ⟨a1, a2, a3, a4, a5, a6⟩ := LockInv_facts _ _ _ _ _ hI
    rw [← hrun] at a1 a2 a3 a4 a5 a6
    refine ⟨a1, a2, a3, a4, a5, a6, ?_, (callbacks_lock_trace self).1 newBuf event gatts_if param⟩
    obtain ⟨rest, hr⟩ := hC
    refine ⟨rest, ?_⟩
    unfold HandleGATTEvent_run
    rw [interleave_append]
    exact hr
  · intro event
    have hI := LockInv_interleave
      (fun s : WEAVE_ERROR × BLEManager => HandleGAPEvent_switch event s.2)
      (fun s : WEAVE_ERROR × BLEManager => (s.1, (HandleGAPEvent_exit s.1 s.2).1))
      (Prod.snd : WEAVE_ERROR × BLEManager → BLEManager) (WEAVE_NO_ERROR, self) schedule
      (Interleaving.start (WEAVE_NO_ERROR, self)) (LockInv_start _ _ _ _)
    have hrun : HandleGAPEvent_run event self schedule
        = interleave
            [LockStmt.lock,
             LockStmt.access (fun s : WEAVE_ERROR × BLEManager => HandleGAPEvent_switch event s.2),
             LockStmt.access
               (fun s : WEAVE_ERROR × BLEManager => (s.1, (HandleGAPEvent_exit s.1 s.2).1)),
             LockStmt.unlock] Prod.snd schedule (Interleaving.start (WEAVE_NO_ERROR, self)) :=
      rfl
    have hfin : (HandleGAPEvent event self).1
        = (HandleGAPEvent_exit (HandleGAPEvent_switch event self).1
            (HandleGAPEvent_switch event self).2).1 := by
      rw [HandleGAPEvent_switch_exit]
    have hC := LockInv_completes _ _ _ _ _ hI
    obtain ⟨a1, a2, a3, a4, a5, a6⟩ := LockInv_facts _ _ _ _ _ hI
    rw [← hrun] at a1 a2 a3 a4 a5 a6
    refine ⟨a1, ?_, a3, a4, ?_, a6, ?_, (callbacks_lock_trace self).2 event⟩
    · intro m hm
      rw [hfin]
      exact a2 m hm
    · intro h4
      obtain ⟨b1, b2, b3⟩ := a5 h4
      refine ⟨b1, b2, ?_⟩
      rw [b3, hfin]
    · obtain ⟨rest, hr⟩ := hC
      refine ⟨rest, ?_⟩
      unfold HandleGAPEvent_run
      rw [interleave_append]
      exact hr

/-- Witness for C30: the peer terminates connection 7 while the other thread
reads the manager before the callback takes the lock, is kept waiting while
the callback runs, and reads again after the callback has released the lock. -/
theorem callbacks_serialized_by_stack_lock_witness :
    (HandleGATTEvent_run none esp_gatts_cb_event_t.ESP_GATTS_DISCONNECT_EVT 3 disconnectParam
        connectedBLE
        [false, false, false, true, false, true, false, true, true, false, false]).seen
      = [connectedBLE,
         (HandleGATTEvent none esp_gatts_cb_event_t.ESP_GATTS_DISCONNECT_EVT 3 disconnectParam
            connectedBLE).1]
    ∧ (HandleGATTEvent none esp_gatts_cb_event_t.ESP_GATTS_DISCONNECT_EVT 3 disconnectParam
        connectedBLE).1 ≠ connectedBLE
    ∧ (HandleGATTEvent_run none esp_gatts_cb_event_t.ESP_GATTS_DISCONNECT_EVT 3 disconnectParam
        connectedBLE
        [false, false, false, true, false, true, false, true, true, false, false]).unlocks = 1 :=
  ⟨by decide, by decide,
    (((callbacks_serialized_by_stack_lock connectedBLE
        [false, false, false, true, false, true, false, true, true, false, false]).1 none
        esp_gatts_cb_event_t.ESP_GATTS_DISCONNECT_EVT 3 disconnectParam).2.2.2.2.1
      (by decide)).1⟩

end OpenWeave
